import Mathlib

/-!
# AMD 10GbE backplane PHY driver (drivers/net/phy/amd-xgbe-phy-a0.c)

A shallow embedding of the link-mode negotiation and SerDes rate-change engine
of the driver, and theorems about it.

* C `int` values are `Int`; `u16`/`u32`/`unsigned int` values are `Nat` with the
  wrap-around written out (`% 65536`, `% 4294967296`).
* The hardware is a parameter: a `Hw σ` gives the outcome of every register
  access on a hardware state `σ`.  Theorems stated for every `Hw σ` hold for
  every outcome of the register accesses; `regfile` is the hardware in which
  every register reads back what was last written.
* Every access to the outside (register access, lock, interrupt line, delay) is
  appended to a trace of `Action`s, oldest first.
-/

namespace AmdXgbe

/-! ## Constants of the driver -/

def XGBE_PHY_SPEED_1000 : Nat := 0
def XGBE_PHY_SPEED_2500 : Nat := 1
def XGBE_PHY_SPEED_10000 : Nat := 2

def XGBE_AN_INT_CMPLT : Nat := 0x01
def XGBE_AN_INC_LINK : Nat := 0x02
def XGBE_AN_PG_RCV : Nat := 0x04
def XGBE_AN_INT_MASK : Nat := 0x07

def XNP_MCF_NULL_MESSAGE : Nat := 0x001
def XNP_MP_FORMATTED : Nat := 0x2000
def XNP_NP_EXCHANGE : Nat := 0x8000

def XGBE_PHY_RATECHANGE_COUNT : Nat := 500

def XGBE_PHY_KR_TRAINING_START : Nat := 0x01
def XGBE_PHY_KR_TRAINING_ENABLE : Nat := 0x02

def XGBE_PHY_FEC_ENABLE : Nat := 0x01
def XGBE_PHY_FEC_FORWARD : Nat := 0x02
def XGBE_PHY_FEC_MASK : Nat := 0x03

def MDIO_PMA_10GBR_PMD_CTRL : Nat := 0x0096
def MDIO_PMA_10GBR_FEC_ABILITY : Nat := 0x00aa
def MDIO_PMA_10GBR_FEC_CTRL : Nat := 0x00ab
def MDIO_AN_XNP : Nat := 0x0016
def MDIO_AN_LPX : Nat := 0x0019
def MDIO_AN_INTMASK : Nat := 0x8001
def MDIO_AN_INT : Nat := 0x8002
def MDIO_AN_KR_CTRL : Nat := 0x8003
def MDIO_KR_CTRL_PDETECT : Nat := 0x01

def CMU_REG15 : Nat := 0x003c
def CMU_REG16 : Nat := 0x0040
def CMU_REG16_TX_RATE_CHANGE_BASE : Nat := 15
def CMU_REG16_RX_RATE_CHANGE_BASE : Nat := 14
def CMU_REG16_RATE_CHANGE_DECR : Nat := 2

def RXTX_REG3 : Nat := 0x000c
def RXTX_REG5 : Nat := 0x0014
def RXTX_REG6 : Nat := 0x0018
def RXTX_REG20 : Nat := 0x0050
def RXTX_REG53 : Nat := 0x00d4
def RXTX_REG114 : Nat := 0x01c8

def RXTX_REG3_TX_DATA_RATE_INDEX : Nat := 14
def RXTX_REG3_TX_DATA_RATE_WIDTH : Nat := 2
def RXTX_REG3_TX_WORD_MODE_INDEX : Nat := 11
def RXTX_REG3_TX_WORD_MODE_WIDTH : Nat := 3
def RXTX_REG5_TXAMP_CNTL_INDEX : Nat := 7
def RXTX_REG5_TXAMP_CNTL_WIDTH : Nat := 4
def RXTX_REG6_RX_DATA_RATE_INDEX : Nat := 9
def RXTX_REG6_RX_DATA_RATE_WIDTH : Nat := 2
def RXTX_REG6_RX_WORD_MODE_INDEX : Nat := 11
def RXTX_REG6_RX_WORD_MODE_WIDTH : Nat := 3
def RXTX_REG20_BLWC_ENA_INDEX : Nat := 2
def RXTX_REG20_BLWC_ENA_WIDTH : Nat := 1
def RXTX_REG53_RX_PLLSELECT_INDEX : Nat := 15
def RXTX_REG53_RX_PLLSELECT_WIDTH : Nat := 1
def RXTX_REG53_TX_PLLSELECT_INDEX : Nat := 14
def RXTX_REG53_TX_PLLSELECT_WIDTH : Nat := 1
def RXTX_REG53_PI_SPD_SEL_CDR_INDEX : Nat := 10
def RXTX_REG53_PI_SPD_SEL_CDR_WIDTH : Nat := 4
def RXTX_REG114_PQ_REG_INDEX : Nat := 9
def RXTX_REG114_PQ_REG_WIDTH : Nat := 7

def RXTX_FULL_RATE : Nat := 0x0
def RXTX_HALF_RATE : Nat := 0x1
def RXTX_FIFTH_RATE : Nat := 0x3
def RXTX_66BIT_WORD : Nat := 0x7
def RXTX_10BIT_WORD : Nat := 0x1
def RXTX_10G_BLWC : Nat := 0x0
def RXTX_1G_BLWC : Nat := 0x1
def RXTX_10G_TX_AMP : Nat := 0xa
def RXTX_1G_TX_AMP : Nat := 0xf
def RXTX_10G_CDR : Nat := 0x7
def RXTX_1G_CDR : Nat := 0x2
def RXTX_10G_PLL : Nat := 0x1
def RXTX_1G_PLL : Nat := 0x0
def RXTX_10G_PQ : Nat := 0x1e
def RXTX_1G_PQ : Nat := 0xa

def AMD_XGBE_PHY_SPEEDSET_1000_10000 : Nat := 0
def AMD_XGBE_PHY_SPEEDSET_2500_10000 : Nat := 1

/-! ## Constants of the kernel headers

The driver includes `linux/mdio.h`, `linux/mii.h` and `linux/ethtool.h`, which are
not among the source files; the values below are those of the standard clause-45
register map and of the ethtool feature bits. -/

/-- Modelled from the spec: device-type address of the PMA/PMD registers
(`linux/mdio.h`, absent), per the standard backplane register map. -/
def MDIO_MMD_PMAPMD : Nat := 1
/-- Modelled from the spec: device-type address of the PCS registers
(`linux/mdio.h`, absent), per the standard backplane register map. -/
def MDIO_MMD_PCS : Nat := 3
/-- Modelled from the spec: device-type address of the auto-negotiation registers
(`linux/mdio.h`, absent), per the standard backplane register map. -/
def MDIO_MMD_AN : Nat := 7
/-- Modelled from the spec: control register 1 (`linux/mdio.h`, absent). -/
def MDIO_CTRL1 : Nat := 0
/-- Modelled from the spec: status register 1 (`linux/mdio.h`, absent). -/
def MDIO_STAT1 : Nat := 1
/-- Modelled from the spec: control register 2, holding the PCS type
(`linux/mdio.h`, absent). -/
def MDIO_CTRL2 : Nat := 7
/-- Modelled from the spec: local advertisement register 1 of auto-negotiation
(`linux/mdio.h`, absent). -/
def MDIO_AN_ADVERTISE : Nat := 16
/-- Modelled from the spec: link-partner base-page ability register 1
(`linux/mdio.h`, absent). -/
def MDIO_AN_LPA : Nat := 19
/-- Modelled from the spec: the PCS reset bit of control register 1
(`linux/mdio.h`, absent). -/
def MDIO_CTRL1_RESET : Nat := 0x8000
/-- Modelled from the spec: the low-power bit of control register 1
(`linux/mdio.h`, absent). -/
def MDIO_CTRL1_LPOWER : Nat := 0x0800
/-- Modelled from the spec: the speed-select bits of control register 1
(`linux/mdio.h`, absent). -/
def MDIO_CTRL1_SPEEDSEL : Nat := 0x207c
/-- Modelled from the spec: speed selection 10G (`linux/mdio.h`, absent). -/
def MDIO_CTRL1_SPEED10G : Nat := 0x2040
/-- Modelled from the spec: the 100 Mbps speed bit of `linux/mii.h` (absent), used by
the driver to derive the 1G speed selection. -/
def BMCR_SPEED100 : Nat := 0x2000
/-- The driver's `MDIO_CTRL1_SPEED1G`: `MDIO_CTRL1_SPEED10G & ~BMCR_SPEED100`. -/
def MDIO_CTRL1_SPEED1G : Nat := MDIO_CTRL1_SPEED10G &&& (4294967295 ^^^ BMCR_SPEED100)
/-- Modelled from the spec: the PCS type field of control register 2
(`linux/mdio.h`, absent). -/
def MDIO_PCS_CTRL2_TYPE : Nat := 0x0003
/-- Modelled from the spec: PCS type 10GBASE-R (`linux/mdio.h`, absent). -/
def MDIO_PCS_CTRL2_10GBR : Nat := 0x0000
/-- Modelled from the spec: PCS type 10GBASE-X (`linux/mdio.h`, absent). -/
def MDIO_PCS_CTRL2_10GBX : Nat := 0x0001
/-- Modelled from the spec: the auto-negotiation enable bit (`linux/mdio.h`, absent). -/
def MDIO_AN_CTRL1_ENABLE : Nat := 0x1000
/-- Modelled from the spec: the auto-negotiation restart bit (`linux/mdio.h`, absent). -/
def MDIO_AN_CTRL1_RESTART : Nat := 0x0200
/-- Modelled from the spec: the link-status bit of status register 1
(`linux/mdio.h`, absent). -/
def MDIO_STAT1_LSTATUS : Nat := 0x0004
/-- Modelled from the spec: the devices-in-package bit of the auto-negotiation device
(`linux/mdio.h`, absent). -/
def MDIO_DEVS_AN : Nat := 0x80

/-- Modelled from the spec: ethtool feature bit (`linux/ethtool.h`, absent). -/
def SUPPORTED_Autoneg : Nat := 0x40
/-- Modelled from the spec: ethtool feature bit (`linux/ethtool.h`, absent). -/
def SUPPORTED_Pause : Nat := 0x2000
/-- Modelled from the spec: ethtool feature bit (`linux/ethtool.h`, absent). -/
def SUPPORTED_Asym_Pause : Nat := 0x4000
/-- Modelled from the spec: ethtool feature bit (`linux/ethtool.h`, absent). -/
def SUPPORTED_2500baseX_Full : Nat := 0x8000
/-- Modelled from the spec: ethtool feature bit (`linux/ethtool.h`, absent). -/
def SUPPORTED_Backplane : Nat := 0x10000
/-- Modelled from the spec: ethtool feature bit (`linux/ethtool.h`, absent). -/
def SUPPORTED_1000baseKX_Full : Nat := 0x20000
/-- Modelled from the spec: ethtool feature bit (`linux/ethtool.h`, absent). -/
def SUPPORTED_10000baseKR_Full : Nat := 0x80000
/-- Modelled from the spec: ethtool feature bit (`linux/ethtool.h`, absent). -/
def SUPPORTED_10000baseR_FEC : Nat := 0x100000

/-- Modelled from the spec: `AUTONEG_ENABLE` of `linux/ethtool.h` (absent). -/
def AUTONEG_ENABLE : Nat := 1
/-- Modelled from the spec: `DUPLEX_FULL` of `linux/ethtool.h` (absent). -/
def DUPLEX_FULL : Nat := 1
/-- Modelled from the spec: reported speed 1000 Mbps (`linux/ethtool.h`, absent). -/
def SPEED_1000 : Nat := 1000
/-- Modelled from the spec: reported speed 2500 Mbps (`linux/ethtool.h`, absent). -/
def SPEED_2500 : Nat := 2500
/-- Modelled from the spec: reported speed 10000 Mbps (`linux/ethtool.h`, absent). -/
def SPEED_10000 : Nat := 10000
/-- Modelled from the spec: the errno of an invalid argument (`errno.h`, absent). -/
def EINVAL : Int := 22
/-- Modelled from the spec: the errno of a timeout (`errno.h`, absent). -/
def ETIMEDOUT : Int := 110

/-! ## Enumerations -/

inductive amd_xgbe_phy_an where
  | AMD_XGBE_AN_READY
  | AMD_XGBE_AN_PAGE_RECEIVED
  | AMD_XGBE_AN_INCOMPAT_LINK
  | AMD_XGBE_AN_COMPLETE
  | AMD_XGBE_AN_NO_LINK
  | AMD_XGBE_AN_ERROR
  deriving DecidableEq, Repr

open amd_xgbe_phy_an

/-- The integer value of an enumerator of `enum amd_xgbe_phy_an`. -/
def amd_xgbe_phy_an.val : amd_xgbe_phy_an → Nat
  | AMD_XGBE_AN_READY => 0
  | AMD_XGBE_AN_PAGE_RECEIVED => 1
  | AMD_XGBE_AN_INCOMPAT_LINK => 2
  | AMD_XGBE_AN_COMPLETE => 3
  | AMD_XGBE_AN_NO_LINK => 4
  | AMD_XGBE_AN_ERROR => 5

inductive amd_xgbe_phy_rx where
  | AMD_XGBE_RX_BPA
  | AMD_XGBE_RX_XNP
  | AMD_XGBE_RX_COMPLETE
  | AMD_XGBE_RX_ERROR
  deriving DecidableEq, Repr

open amd_xgbe_phy_rx

inductive amd_xgbe_phy_mode where
  | AMD_XGBE_MODE_KR
  | AMD_XGBE_MODE_KX
  deriving DecidableEq, Repr

open amd_xgbe_phy_mode

/-! ## Accesses to the outside and the hardware -/

/-- One access of the driver to the outside; a read is recorded with the value it
returned. -/
inductive Action where
  | mdio_read (devad reg : Nat) (ret : Int)
  | mdio_write (devad reg val : Nat)
  | cmu_read (reg val : Nat)
  | cmu_write (reg val : Nat)
  | rxtx_read (reg val : Nat)
  | rxtx_write (reg val : Nat)
  | spin_lock_cmu
  | spin_unlock_cmu
  | mutex_lock_an
  | mutex_unlock_an
  | enable_irq
  | disable_irq
  | udelay (usecs : Nat)
  | usleep_range (lo hi : Nat)
  | msleep (msecs : Nat)
  deriving DecidableEq, Repr

/-- Modelled from the spec: the register-access primitives supplied to the driver
(`phy_read_mmd`, `phy_write_mmd`, `ioread16`, `iowrite16` are kernel code that is
absent): an atomic read or write of a 16-bit field; a management-interface read may
fail, which it reports as a negative value. -/
structure Hw (σ : Type) where
  mdio_read : σ → Nat → Nat → Int × σ
  mdio_write : σ → Nat → Nat → Nat → σ
  cmu_read : σ → Nat → Nat × σ
  cmu_write : σ → Nat → Nat → σ
  rxtx_read : σ → Nat → Nat × σ
  rxtx_write : σ → Nat → Nat → σ

/-- The fields of `struct phy_device` and `struct amd_xgbe_phy_priv` that the
driver uses, together with the hardware state and the trace of accesses. -/
structure Phy (σ : Type) where
  hw : σ
  trace : List Action
  supported : Nat
  advertising : Nat
  autoneg : Nat
  speed : Nat
  duplex : Nat
  pause : Nat
  asym_pause : Nat
  link : Nat
  devices_in_package : Nat
  serdes_channel : Nat
  speed_set : Nat
  priv_link : Nat
  serdes_blwc : Nat → Nat
  serdes_cdr_rate : Nat → Nat
  serdes_pq_skew : Nat → Nat
  serdes_tx_amp : Nat → Nat
  an_result : amd_xgbe_phy_an
  an_state : amd_xgbe_phy_an
  kr_state : amd_xgbe_phy_rx
  kx_state : amd_xgbe_phy_rx
  an_supported : Nat
  parallel_detect : Nat
  fec_ability : Nat
  lpm_ctrl : Nat

variable {σ : Type}

/-- Append one access to the trace. -/
def Phy.log (s : Phy σ) (a : Action) : Phy σ :=
  { s with trace := s.trace ++ [a] }

/-- Modelled from the spec: `phy_read_mmd` (kernel code, absent): one read over the
management interface, returning the 16-bit value or a negative error. -/
def phy_read_mmd (bus : Hw σ) (s : Phy σ) (devad reg : Nat) : Int × Phy σ :=
  ((bus.mdio_read s.hw devad reg).1,
   { s with hw := (bus.mdio_read s.hw devad reg).2,
            trace := s.trace ++ [Action.mdio_read devad reg (bus.mdio_read s.hw devad reg).1] })

/-- Modelled from the spec: `phy_write_mmd` (kernel code, absent): one write over the
management interface; the value is a `u16` parameter. -/
def phy_write_mmd (bus : Hw σ) (s : Phy σ) (devad reg val : Nat) : Phy σ :=
  { s with hw := bus.mdio_write s.hw devad reg (val % 65536),
           trace := s.trace ++ [Action.mdio_write devad reg (val % 65536)] }

/-- The macro `XCMU_IOREAD`: a 16-bit read of a SerDes CMU register. -/
def XCMU_IOREAD (bus : Hw σ) (s : Phy σ) (reg : Nat) : Nat × Phy σ :=
  ((bus.cmu_read s.hw reg).1 % 65536,
   { s with hw := (bus.cmu_read s.hw reg).2,
            trace := s.trace ++ [Action.cmu_read reg ((bus.cmu_read s.hw reg).1 % 65536)] })

/-- The macro `XCMU_IOWRITE`: a 16-bit write of a SerDes CMU register. -/
def XCMU_IOWRITE (bus : Hw σ) (s : Phy σ) (reg val : Nat) : Phy σ :=
  { s with hw := bus.cmu_write s.hw reg (val % 65536),
           trace := s.trace ++ [Action.cmu_write reg (val % 65536)] }

/-- The macro `XRXTX_IOREAD`: a 16-bit read of a SerDes Rx/Tx register. -/
def XRXTX_IOREAD (bus : Hw σ) (s : Phy σ) (reg : Nat) : Nat × Phy σ :=
  ((bus.rxtx_read s.hw reg).1 % 65536,
   { s with hw := (bus.rxtx_read s.hw reg).2,
            trace := s.trace ++ [Action.rxtx_read reg ((bus.rxtx_read s.hw reg).1 % 65536)] })

/-- The macro `XRXTX_IOWRITE`: a 16-bit write of a SerDes Rx/Tx register. -/
def XRXTX_IOWRITE (bus : Hw σ) (s : Phy σ) (reg val : Nat) : Phy σ :=
  { s with hw := bus.rxtx_write s.hw reg (val % 65536),
           trace := s.trace ++ [Action.rxtx_write reg (val % 65536)] }

/-- The macro `SET_BITS` on a `u16` variable: clear the field, then set it to the
value masked to the field width. -/
def SET_BITS (var index width val : Nat) : Nat :=
  (((var &&& (4294967295 ^^^ (((1 <<< width) - 1) <<< index))) % 65536)
    ||| ((val &&& ((1 <<< width) - 1)) <<< index)) % 65536

/-- The macro `XRXTX_IOWRITE_BITS`: read-modify-write of one field. -/
def XRXTX_IOWRITE_BITS (bus : Hw σ) (s : Phy σ) (reg index width val : Nat) : Phy σ :=
  XRXTX_IOWRITE bus (XRXTX_IOREAD bus s reg).2 reg
    (SET_BITS (XRXTX_IOREAD bus s reg).1 index width val)

/-- The expression `ret & ~mask` on a non-negative `int`. -/
def clear_bits (v mask : Nat) : Nat := v &&& (4294967295 ^^^ mask)

/-! ## KR training, PCS power cycle, rate-change sequencer -/

def amd_xgbe_an_enable_kr_training (bus : Hw σ) (s : Phy σ) : Int × Phy σ :=
  let r := phy_read_mmd bus s MDIO_MMD_PMAPMD MDIO_PMA_10GBR_PMD_CTRL
  if r.1 < 0 then (r.1, r.2)
  else
    (0, phy_write_mmd bus r.2 MDIO_MMD_PMAPMD MDIO_PMA_10GBR_PMD_CTRL
          (r.1.toNat ||| XGBE_PHY_KR_TRAINING_ENABLE))

def amd_xgbe_an_disable_kr_training (bus : Hw σ) (s : Phy σ) : Int × Phy σ :=
  let r := phy_read_mmd bus s MDIO_MMD_PMAPMD MDIO_PMA_10GBR_PMD_CTRL
  if r.1 < 0 then (r.1, r.2)
  else
    (0, phy_write_mmd bus r.2 MDIO_MMD_PMAPMD MDIO_PMA_10GBR_PMD_CTRL
          (clear_bits r.1.toNat XGBE_PHY_KR_TRAINING_ENABLE))

def amd_xgbe_phy_pcs_power_cycle (bus : Hw σ) (s : Phy σ) : Int × Phy σ :=
  let r := phy_read_mmd bus s MDIO_MMD_PCS MDIO_CTRL1
  if r.1 < 0 then (r.1, r.2)
  else
    let ret := r.1.toNat ||| MDIO_CTRL1_LPOWER
    let s1 := phy_write_mmd bus r.2 MDIO_MMD_PCS MDIO_CTRL1 ret
    let s2 := s1.log (Action.usleep_range 75 100)
    let ret := clear_bits ret MDIO_CTRL1_LPOWER
    (0, phy_write_mmd bus s2 MDIO_MMD_PCS MDIO_CTRL1 ret)

/-- The `u16` mask of the Tx and Rx rate-change flags of a channel in `CMU_REG16`.
The channel is an `unsigned int`: the shift counts `15 - 2 * channel` and
`14 - 2 * channel` are meaningful for channels 0 to 7 only.  For a channel of 8 or more
the shift count of the C expression wraps around, which is undefined behaviour; the
value given here (the subtraction stops at 0) is then not that of the compiled code. -/
def ratechange_mask (channel : Nat) : Nat :=
  ((1 <<< (CMU_REG16_TX_RATE_CHANGE_BASE - channel * CMU_REG16_RATE_CHANGE_DECR))
    ||| (1 <<< (CMU_REG16_RX_RATE_CHANGE_BASE - channel * CMU_REG16_RATE_CHANGE_DECR)))
    % 65536

/-- The `u16` mask of the Rx and Tx ready flags of a channel in `CMU_REG15`. -/
def ready_mask (channel : Nat) : Nat :=
  ((1 <<< channel) ||| (1 <<< (channel + 8))) % 65536

def amd_xgbe_phy_serdes_start_ratechange (bus : Hw σ) (s : Phy σ) : Phy σ :=
  let r := XCMU_IOREAD bus s CMU_REG16
  let val := (r.1 ||| ratechange_mask s.serdes_channel) % 65536
  XCMU_IOWRITE bus r.2 CMU_REG16 val

/-- The loop `while (wait--) { udelay(50); val = XCMU_IOREAD(priv, CMU_REG15);
if ((val & mask) == mask) return; }` of `amd_xgbe_phy_serdes_complete_ratechange`,
by recursion on `wait`. -/
def ratechange_wait (bus : Hw σ) (mask : Nat) : Nat → Phy σ → Phy σ
  | 0, s => s
  | wait + 1, s =>
    let r := XCMU_IOREAD bus (s.log (Action.udelay 50)) CMU_REG15
    if r.1 &&& mask = mask then r.2 else ratechange_wait bus mask wait r.2

def amd_xgbe_phy_serdes_complete_ratechange (bus : Hw σ) (s : Phy σ) : Phy σ :=
  let r := XCMU_IOREAD bus s CMU_REG16
  let val := (clear_bits r.1 (ratechange_mask s.serdes_channel)) % 65536
  let s1 := XCMU_IOWRITE bus r.2 CMU_REG16 val
  ratechange_wait bus (ready_mask s.serdes_channel) XGBE_PHY_RATECHANGE_COUNT s1

/-! ## Mode programming -/

def amd_xgbe_phy_xgmii_mode (bus : Hw σ) (s : Phy σ) : Int × Phy σ :=
  let r := amd_xgbe_an_disable_kr_training bus s
  if r.1 < 0 then (r.1, r.2)
  else
    let r := phy_read_mmd bus r.2 MDIO_MMD_PCS MDIO_CTRL2
    if r.1 < 0 then (r.1, r.2)
    else
      let s := phy_write_mmd bus r.2 MDIO_MMD_PCS MDIO_CTRL2
        (clear_bits r.1.toNat MDIO_PCS_CTRL2_TYPE ||| MDIO_PCS_CTRL2_10GBR)
      let r := phy_read_mmd bus s MDIO_MMD_PCS MDIO_CTRL1
      if r.1 < 0 then (r.1, r.2)
      else
        let s := phy_write_mmd bus r.2 MDIO_MMD_PCS MDIO_CTRL1
          (clear_bits r.1.toNat MDIO_CTRL1_SPEEDSEL ||| MDIO_CTRL1_SPEED10G)
        let r := amd_xgbe_phy_pcs_power_cycle bus s
        if r.1 < 0 then (r.1, r.2)
        else
          let s := r.2.log Action.spin_lock_cmu
          let s := amd_xgbe_phy_serdes_start_ratechange bus s
          let s := XRXTX_IOWRITE_BITS bus s RXTX_REG3 RXTX_REG3_TX_DATA_RATE_INDEX
            RXTX_REG3_TX_DATA_RATE_WIDTH RXTX_FULL_RATE
          let s := XRXTX_IOWRITE_BITS bus s RXTX_REG3 RXTX_REG3_TX_WORD_MODE_INDEX
            RXTX_REG3_TX_WORD_MODE_WIDTH RXTX_66BIT_WORD
          let s := XRXTX_IOWRITE_BITS bus s RXTX_REG5 RXTX_REG5_TXAMP_CNTL_INDEX
            RXTX_REG5_TXAMP_CNTL_WIDTH (s.serdes_tx_amp XGBE_PHY_SPEED_10000)
          let s := XRXTX_IOWRITE_BITS bus s RXTX_REG6 RXTX_REG6_RX_DATA_RATE_INDEX
            RXTX_REG6_RX_DATA_RATE_WIDTH RXTX_FULL_RATE
          let s := XRXTX_IOWRITE_BITS bus s RXTX_REG6 RXTX_REG6_RX_WORD_MODE_INDEX
            RXTX_REG6_RX_WORD_MODE_WIDTH RXTX_66BIT_WORD
          let s := XRXTX_IOWRITE_BITS bus s RXTX_REG20 RXTX_REG20_BLWC_ENA_INDEX
            RXTX_REG20_BLWC_ENA_WIDTH (s.serdes_blwc XGBE_PHY_SPEED_10000)
          let s := XRXTX_IOWRITE_BITS bus s RXTX_REG53 RXTX_REG53_RX_PLLSELECT_INDEX
            RXTX_REG53_RX_PLLSELECT_WIDTH RXTX_10G_PLL
          let s := XRXTX_IOWRITE_BITS bus s RXTX_REG53 RXTX_REG53_TX_PLLSELECT_INDEX
            RXTX_REG53_TX_PLLSELECT_WIDTH RXTX_10G_PLL
          let s := XRXTX_IOWRITE_BITS bus s RXTX_REG53 RXTX_REG53_PI_SPD_SEL_CDR_INDEX
            RXTX_REG53_PI_SPD_SEL_CDR_WIDTH (s.serdes_cdr_rate XGBE_PHY_SPEED_10000)
          let s := XRXTX_IOWRITE_BITS bus s RXTX_REG114 RXTX_REG114_PQ_REG_INDEX
            RXTX_REG114_PQ_REG_WIDTH (s.serdes_pq_skew XGBE_PHY_SPEED_10000)
          let s := amd_xgbe_phy_serdes_complete_ratechange bus s
          (0, s.log Action.spin_unlock_cmu)

def amd_xgbe_phy_gmii_2500_mode (bus : Hw σ) (s : Phy σ) : Int × Phy σ :=
  let r := amd_xgbe_an_disable_kr_training bus s
  if r.1 < 0 then (r.1, r.2)
  else
    let r := phy_read_mmd bus r.2 MDIO_MMD_PCS MDIO_CTRL2
    if r.1 < 0 then (r.1, r.2)
    else
      let s := phy_write_mmd bus r.2 MDIO_MMD_PCS MDIO_CTRL2
        (clear_bits r.1.toNat MDIO_PCS_CTRL2_TYPE ||| MDIO_PCS_CTRL2_10GBX)
      let r := phy_read_mmd bus s MDIO_MMD_PCS MDIO_CTRL1
      if r.1 < 0 then (r.1, r.2)
      else
        let s := phy_write_mmd bus r.2 MDIO_MMD_PCS MDIO_CTRL1
          (clear_bits r.1.toNat MDIO_CTRL1_SPEEDSEL ||| MDIO_CTRL1_SPEED1G)
        let r := amd_xgbe_phy_pcs_power_cycle bus s
        if r.1 < 0 then (r.1, r.2)
        else
          let s := r.2.log Action.spin_lock_cmu
          let s := amd_xgbe_phy_serdes_start_ratechange bus s
          let s := XRXTX_IOWRITE_BITS bus s RXTX_REG3 RXTX_REG3_TX_DATA_RATE_INDEX
            RXTX_REG3_TX_DATA_RATE_WIDTH RXTX_HALF_RATE
          let s := XRXTX_IOWRITE_BITS bus s RXTX_REG3 RXTX_REG3_TX_WORD_MODE_INDEX
            RXTX_REG3_TX_WORD_MODE_WIDTH RXTX_10BIT_WORD
          let s := XRXTX_IOWRITE_BITS bus s RXTX_REG5 RXTX_REG5_TXAMP_CNTL_INDEX
            RXTX_REG5_TXAMP_CNTL_WIDTH (s.serdes_tx_amp XGBE_PHY_SPEED_2500)
          let s := XRXTX_IOWRITE_BITS bus s RXTX_REG6 RXTX_REG6_RX_DATA_RATE_INDEX
            RXTX_REG6_RX_DATA_RATE_WIDTH RXTX_HALF_RATE
          let s := XRXTX_IOWRITE_BITS bus s RXTX_REG6 RXTX_REG6_RX_WORD_MODE_INDEX
            RXTX_REG6_RX_WORD_MODE_WIDTH RXTX_10BIT_WORD
          let s := XRXTX_IOWRITE_BITS bus s RXTX_REG20 RXTX_REG20_BLWC_ENA_INDEX
            RXTX_REG20_BLWC_ENA_WIDTH (s.serdes_blwc XGBE_PHY_SPEED_2500)
          let s := XRXTX_IOWRITE_BITS bus s RXTX_REG53 RXTX_REG53_RX_PLLSELECT_INDEX
            RXTX_REG53_RX_PLLSELECT_WIDTH RXTX_1G_PLL
          let s := XRXTX_IOWRITE_BITS bus s RXTX_REG53 RXTX_REG53_TX_PLLSELECT_INDEX
            RXTX_REG53_TX_PLLSELECT_WIDTH RXTX_1G_PLL
          let s := XRXTX_IOWRITE_BITS bus s RXTX_REG53 RXTX_REG53_PI_SPD_SEL_CDR_INDEX
            RXTX_REG53_PI_SPD_SEL_CDR_WIDTH (s.serdes_cdr_rate XGBE_PHY_SPEED_2500)
          let s := XRXTX_IOWRITE_BITS bus s RXTX_REG114 RXTX_REG114_PQ_REG_INDEX
            RXTX_REG114_PQ_REG_WIDTH (s.serdes_pq_skew XGBE_PHY_SPEED_2500)
          let s := amd_xgbe_phy_serdes_complete_ratechange bus s
          (0, s.log Action.spin_unlock_cmu)

def amd_xgbe_phy_gmii_mode (bus : Hw σ) (s : Phy σ) : Int × Phy σ :=
  let r := amd_xgbe_an_disable_kr_training bus s
  if r.1 < 0 then (r.1, r.2)
  else
    let r := phy_read_mmd bus r.2 MDIO_MMD_PCS MDIO_CTRL2
    if r.1 < 0 then (r.1, r.2)
    else
      let s := phy_write_mmd bus r.2 MDIO_MMD_PCS MDIO_CTRL2
        (clear_bits r.1.toNat MDIO_PCS_CTRL2_TYPE ||| MDIO_PCS_CTRL2_10GBX)
      let r := phy_read_mmd bus s MDIO_MMD_PCS MDIO_CTRL1
      if r.1 < 0 then (r.1, r.2)
      else
        let s := phy_write_mmd bus r.2 MDIO_MMD_PCS MDIO_CTRL1
          (clear_bits r.1.toNat MDIO_CTRL1_SPEEDSEL ||| MDIO_CTRL1_SPEED1G)
        let r := amd_xgbe_phy_pcs_power_cycle bus s
        if r.1 < 0 then (r.1, r.2)
        else
          let s := r.2.log Action.spin_lock_cmu
          let s := amd_xgbe_phy_serdes_start_ratechange bus s
          let s := XRXTX_IOWRITE_BITS bus s RXTX_REG3 RXTX_REG3_TX_DATA_RATE_INDEX
            RXTX_REG3_TX_DATA_RATE_WIDTH RXTX_FIFTH_RATE
          let s := XRXTX_IOWRITE_BITS bus s RXTX_REG3 RXTX_REG3_TX_WORD_MODE_INDEX
            RXTX_REG3_TX_WORD_MODE_WIDTH RXTX_10BIT_WORD
          let s := XRXTX_IOWRITE_BITS bus s RXTX_REG5 RXTX_REG5_TXAMP_CNTL_INDEX
            RXTX_REG5_TXAMP_CNTL_WIDTH (s.serdes_tx_amp XGBE_PHY_SPEED_1000)
          let s := XRXTX_IOWRITE_BITS bus s RXTX_REG6 RXTX_REG6_RX_DATA_RATE_INDEX
            RXTX_REG6_RX_DATA_RATE_WIDTH RXTX_FIFTH_RATE
          let s := XRXTX_IOWRITE_BITS bus s RXTX_REG6 RXTX_REG6_RX_WORD_MODE_INDEX
            RXTX_REG6_RX_WORD_MODE_WIDTH RXTX_10BIT_WORD
          let s := XRXTX_IOWRITE_BITS bus s RXTX_REG20 RXTX_REG20_BLWC_ENA_INDEX
            RXTX_REG20_BLWC_ENA_WIDTH (s.serdes_blwc XGBE_PHY_SPEED_1000)
          let s := XRXTX_IOWRITE_BITS bus s RXTX_REG53 RXTX_REG53_RX_PLLSELECT_INDEX
            RXTX_REG53_RX_PLLSELECT_WIDTH RXTX_1G_PLL
          let s := XRXTX_IOWRITE_BITS bus s RXTX_REG53 RXTX_REG53_TX_PLLSELECT_INDEX
            RXTX_REG53_TX_PLLSELECT_WIDTH RXTX_1G_PLL
          let s := XRXTX_IOWRITE_BITS bus s RXTX_REG53 RXTX_REG53_PI_SPD_SEL_CDR_INDEX
            RXTX_REG53_PI_SPD_SEL_CDR_WIDTH (s.serdes_cdr_rate XGBE_PHY_SPEED_1000)
          let s := XRXTX_IOWRITE_BITS bus s RXTX_REG114 RXTX_REG114_PQ_REG_INDEX
            RXTX_REG114_PQ_REG_WIDTH (s.serdes_pq_skew XGBE_PHY_SPEED_1000)
          let s := amd_xgbe_phy_serdes_complete_ratechange bus s
          (0, s.log Action.spin_unlock_cmu)

/-- The function `amd_xgbe_phy_cur_mode`: the error of the read, or the mode stored
through the pointer argument. -/
def amd_xgbe_phy_cur_mode (bus : Hw σ) (s : Phy σ) : Except Int amd_xgbe_phy_mode × Phy σ :=
  let r := phy_read_mmd bus s MDIO_MMD_PCS MDIO_CTRL2
  if r.1 < 0 then (Except.error r.1, r.2)
  else if r.1.toNat &&& MDIO_PCS_CTRL2_TYPE = MDIO_PCS_CTRL2_10GBR then
    (Except.ok AMD_XGBE_MODE_KR, r.2)
  else
    (Except.ok AMD_XGBE_MODE_KX, r.2)

def amd_xgbe_phy_in_kr_mode (bus : Hw σ) (s : Phy σ) : Bool × Phy σ :=
  match (amd_xgbe_phy_cur_mode bus s).1 with
  | Except.error _ => (false, (amd_xgbe_phy_cur_mode bus s).2)
  | Except.ok mode => (decide (mode = AMD_XGBE_MODE_KR), (amd_xgbe_phy_cur_mode bus s).2)

def amd_xgbe_phy_switch_mode (bus : Hw σ) (s : Phy σ) : Int × Phy σ :=
  let k := amd_xgbe_phy_in_kr_mode bus s
  if k.1 then
    if k.2.speed_set = AMD_XGBE_PHY_SPEEDSET_1000_10000 then amd_xgbe_phy_gmii_mode bus k.2
    else amd_xgbe_phy_gmii_2500_mode bus k.2
  else amd_xgbe_phy_xgmii_mode bus k.2

def amd_xgbe_phy_set_mode (bus : Hw σ) (s : Phy σ) (mode : amd_xgbe_phy_mode) : Int × Phy σ :=
  match (amd_xgbe_phy_cur_mode bus s).1 with
  | Except.error ret => (ret, (amd_xgbe_phy_cur_mode bus s).2)
  | Except.ok cur_mode =>
    if mode ≠ cur_mode then amd_xgbe_phy_switch_mode bus (amd_xgbe_phy_cur_mode bus s).2
    else (0, (amd_xgbe_phy_cur_mode bus s).2)

def amd_xgbe_phy_set_an (bus : Hw σ) (s : Phy σ) (enable restart : Bool) : Int × Phy σ :=
  let r := phy_read_mmd bus s MDIO_MMD_AN MDIO_CTRL1
  if r.1 < 0 then (r.1, r.2)
  else
    let ret := clear_bits r.1.toNat MDIO_AN_CTRL1_ENABLE
    let ret := if enable then ret ||| MDIO_AN_CTRL1_ENABLE else ret
    let ret := if restart then ret ||| MDIO_AN_CTRL1_RESTART else ret
    (0, phy_write_mmd bus r.2 MDIO_MMD_AN MDIO_CTRL1 ret)

def amd_xgbe_phy_restart_an (bus : Hw σ) (s : Phy σ) : Int × Phy σ :=
  amd_xgbe_phy_set_an bus s true true

def amd_xgbe_phy_disable_an (bus : Hw σ) (s : Phy σ) : Int × Phy σ :=
  amd_xgbe_phy_set_an bus s false false

/-! ## Auto-negotiation page handlers -/

/-- The target of a pointer `enum amd_xgbe_phy_rx *state`: the address of
`priv->kr_state` or of `priv->kx_state`. -/
inductive rx_state_ptr where
  | kr_state
  | kx_state
  deriving DecidableEq, Repr

/-- Read through a pointer to an rx sub-state. -/
def Phy.rx_load (s : Phy σ) : rx_state_ptr → amd_xgbe_phy_rx
  | rx_state_ptr.kr_state => s.kr_state
  | rx_state_ptr.kx_state => s.kx_state

/-- Write through a pointer to an rx sub-state. -/
def Phy.rx_store (s : Phy σ) (p : rx_state_ptr) (v : amd_xgbe_phy_rx) : Phy σ :=
  match p with
  | rx_state_ptr.kr_state => { s with kr_state := v }
  | rx_state_ptr.kx_state => { s with kx_state := v }

def amd_xgbe_an_tx_training (bus : Hw σ) (s : Phy σ) (state : rx_state_ptr) :
    amd_xgbe_phy_an × Phy σ :=
  let s := s.rx_store state AMD_XGBE_RX_COMPLETE
  let k := amd_xgbe_phy_in_kr_mode bus s
  if ¬ k.1 then (AMD_XGBE_AN_PAGE_RECEIVED, k.2)
  else
    let ad := phy_read_mmd bus k.2 MDIO_MMD_AN (MDIO_AN_ADVERTISE + 2)
    if ad.1 < 0 then (AMD_XGBE_AN_ERROR, ad.2)
    else
      let lp := phy_read_mmd bus ad.2 MDIO_MMD_AN (MDIO_AN_LPA + 2)
      if lp.1 < 0 then (AMD_XGBE_AN_ERROR, lp.2)
      else
        let r := phy_read_mmd bus lp.2 MDIO_MMD_PMAPMD MDIO_PMA_10GBR_FEC_CTRL
        if r.1 < 0 then (AMD_XGBE_AN_ERROR, r.2)
        else
          let ret := clear_bits r.1.toNat XGBE_PHY_FEC_MASK
          let ret := if ad.1.toNat &&& 0xc000 ≠ 0 ∧ lp.1.toNat &&& 0xc000 ≠ 0
            then ret ||| r.2.fec_ability else ret
          let s := phy_write_mmd bus r.2 MDIO_MMD_PMAPMD MDIO_PMA_10GBR_FEC_CTRL ret
          let r := phy_read_mmd bus s MDIO_MMD_PMAPMD MDIO_PMA_10GBR_PMD_CTRL
          if r.1 < 0 then (AMD_XGBE_AN_ERROR, r.2)
          else if r.1.toNat &&& XGBE_PHY_KR_TRAINING_ENABLE ≠ 0 then
            (AMD_XGBE_AN_PAGE_RECEIVED,
             phy_write_mmd bus r.2 MDIO_MMD_PMAPMD MDIO_PMA_10GBR_PMD_CTRL
               (r.1.toNat ||| XGBE_PHY_KR_TRAINING_START))
          else (AMD_XGBE_AN_PAGE_RECEIVED, r.2)

def amd_xgbe_an_tx_xnp (bus : Hw σ) (s : Phy σ) (state : rx_state_ptr) :
    amd_xgbe_phy_an × Phy σ :=
  let s := s.rx_store state AMD_XGBE_RX_XNP
  let msg := (XNP_MCF_NULL_MESSAGE ||| XNP_MP_FORMATTED) % 65536
  let s := phy_write_mmd bus s MDIO_MMD_AN (MDIO_AN_XNP + 2) 0
  let s := phy_write_mmd bus s MDIO_MMD_AN (MDIO_AN_XNP + 1) 0
  let s := phy_write_mmd bus s MDIO_MMD_AN MDIO_AN_XNP msg
  (AMD_XGBE_AN_PAGE_RECEIVED, s)

def amd_xgbe_an_rx_bpa (bus : Hw σ) (s : Phy σ) (state : rx_state_ptr) :
    amd_xgbe_phy_an × Phy σ :=
  let r := phy_read_mmd bus s MDIO_MMD_AN (MDIO_AN_LPA + 1)
  if r.1 < 0 then (AMD_XGBE_AN_ERROR, r.2)
  else
    let k := amd_xgbe_phy_in_kr_mode bus r.2
    let link_support : Nat := if k.1 then 0x80 else 0x20
    if r.1.toNat &&& link_support = 0 then (AMD_XGBE_AN_INCOMPAT_LINK, k.2)
    else
      let ad := phy_read_mmd bus k.2 MDIO_MMD_AN MDIO_AN_ADVERTISE
      if ad.1 < 0 then (AMD_XGBE_AN_ERROR, ad.2)
      else
        let lp := phy_read_mmd bus ad.2 MDIO_MMD_AN MDIO_AN_LPA
        if lp.1 < 0 then (AMD_XGBE_AN_ERROR, lp.2)
        else if ad.1.toNat &&& XNP_NP_EXCHANGE ≠ 0 ∨ lp.1.toNat &&& XNP_NP_EXCHANGE ≠ 0 then
          amd_xgbe_an_tx_xnp bus lp.2 state
        else amd_xgbe_an_tx_training bus lp.2 state

def amd_xgbe_an_rx_xnp (bus : Hw σ) (s : Phy σ) (state : rx_state_ptr) :
    amd_xgbe_phy_an × Phy σ :=
  let ad := phy_read_mmd bus s MDIO_MMD_AN MDIO_AN_XNP
  if ad.1 < 0 then (AMD_XGBE_AN_ERROR, ad.2)
  else
    let lp := phy_read_mmd bus ad.2 MDIO_MMD_AN MDIO_AN_LPX
    if lp.1 < 0 then (AMD_XGBE_AN_ERROR, lp.2)
    else if ad.1.toNat &&& XNP_NP_EXCHANGE ≠ 0 ∨ lp.1.toNat &&& XNP_NP_EXCHANGE ≠ 0 then
      amd_xgbe_an_tx_xnp bus lp.2 state
    else amd_xgbe_an_tx_training bus lp.2 state

def amd_xgbe_an_page_received (bus : Hw σ) (s : Phy σ) : amd_xgbe_phy_an × Phy σ :=
  let k := amd_xgbe_phy_in_kr_mode bus s
  let state := if k.1 then rx_state_ptr.kr_state else rx_state_ptr.kx_state
  match k.2.rx_load state with
  | AMD_XGBE_RX_BPA => amd_xgbe_an_rx_bpa bus k.2 state
  | AMD_XGBE_RX_XNP => amd_xgbe_an_rx_xnp bus k.2 state
  | _ => (AMD_XGBE_AN_ERROR, k.2)

/-- The tail of `amd_xgbe_an_incompat_link` after the two guards: disable
auto-negotiation, switch mode, restart auto-negotiation. -/
def an_incompat_link_switch (bus : Hw σ) (s : Phy σ) : amd_xgbe_phy_an × Phy σ :=
  let r := amd_xgbe_phy_disable_an bus s
  if r.1 ≠ 0 then (AMD_XGBE_AN_ERROR, r.2)
  else
    let r := amd_xgbe_phy_switch_mode bus r.2
    if r.1 ≠ 0 then (AMD_XGBE_AN_ERROR, r.2)
    else
      let r := amd_xgbe_phy_restart_an bus r.2
      if r.1 ≠ 0 then (AMD_XGBE_AN_ERROR, r.2)
      else (AMD_XGBE_AN_INCOMPAT_LINK, r.2)

def amd_xgbe_an_incompat_link (bus : Hw σ) (s : Phy σ) : amd_xgbe_phy_an × Phy σ :=
  let k := amd_xgbe_phy_in_kr_mode bus s
  if k.1 then
    let s := { k.2 with kr_state := AMD_XGBE_RX_ERROR }
    if s.supported &&& SUPPORTED_1000baseKX_Full = 0 ∧
        s.supported &&& SUPPORTED_2500baseX_Full = 0 then (AMD_XGBE_AN_NO_LINK, s)
    else if s.kx_state ≠ AMD_XGBE_RX_BPA then (AMD_XGBE_AN_NO_LINK, s)
    else an_incompat_link_switch bus s
  else
    let s := { k.2 with kx_state := AMD_XGBE_RX_ERROR }
    if s.supported &&& SUPPORTED_10000baseKR_Full = 0 then (AMD_XGBE_AN_NO_LINK, s)
    else if s.kr_state ≠ AMD_XGBE_RX_BPA then (AMD_XGBE_AN_NO_LINK, s)
    else an_incompat_link_switch bus s

/-! ## The negotiation worker -/

/-- The expression `v & ~mask` on a C `int` that may be negative (32-bit two's
complement). -/
def int_clear_bits (v : Int) (mask : Nat) : Int :=
  if 0 ≤ v then (clear_bits v.toNat mask : Nat)
  else ((clear_bits (v % 4294967296).toNat mask : Nat) : Int) - 4294967296

/-- The phase and the interrupt mask selected from the snapshot `int_reg` at the
label `next_int`. -/
def an_event (int_reg : Int) : amd_xgbe_phy_an × Nat :=
  if int_reg < 0 then (AMD_XGBE_AN_ERROR, XGBE_AN_INT_MASK)
  else if int_reg.toNat &&& XGBE_AN_PG_RCV ≠ 0 then (AMD_XGBE_AN_PAGE_RECEIVED, XGBE_AN_PG_RCV)
  else if int_reg.toNat &&& XGBE_AN_INC_LINK ≠ 0 then (AMD_XGBE_AN_INCOMPAT_LINK, XGBE_AN_INC_LINK)
  else if int_reg.toNat &&& XGBE_AN_INT_CMPLT ≠ 0 then (AMD_XGBE_AN_COMPLETE, XGBE_AN_INT_CMPLT)
  else (AMD_XGBE_AN_ERROR, 0)

/-- From the label `next_int` to the label `again` of `amd_xgbe_an_state_machine`:
select the event, clear its bit in the snapshot and in the interrupt register, and
set `an_result`.  Returns the new value of the local `int_reg`. -/
def an_next_int (bus : Hw σ) (s : Phy σ) (int_reg : Int) : Int × Phy σ :=
  let s1 : Phy σ := { s with an_state := (an_event int_reg).1 }
  let int_reg := int_clear_bits int_reg (an_event int_reg).2
  let s2 := phy_write_mmd bus s1 MDIO_MMD_AN MDIO_AN_INT (int_reg % 65536).toNat
  (int_reg, { s2 with an_result := s2.an_state })

/-- The statement `switch (priv->an_state)` of the worker. -/
def an_switch (bus : Hw σ) (s : Phy σ) : Phy σ :=
  match s.an_state with
  | AMD_XGBE_AN_READY => { s with an_supported := 0 }
  | AMD_XGBE_AN_PAGE_RECEIVED =>
    let r := amd_xgbe_an_page_received bus s
    { r.2 with an_state := r.1, an_supported := (r.2.an_supported + 1) % 4294967296 }
  | AMD_XGBE_AN_INCOMPAT_LINK =>
    let r := amd_xgbe_an_incompat_link bus { s with an_supported := 0, parallel_detect := 0 }
    { r.2 with an_state := r.1 }
  | AMD_XGBE_AN_COMPLETE =>
    { s with parallel_detect := if s.an_supported ≠ 0 then 0 else 1 }
  | AMD_XGBE_AN_NO_LINK => s
  | AMD_XGBE_AN_ERROR => { s with an_state := AMD_XGBE_AN_ERROR }

/-- The statement `if (priv->an_state == AMD_XGBE_AN_NO_LINK) ... else if
(priv->an_state == AMD_XGBE_AN_ERROR) ...` of the worker.  Returns the new value of
the local `int_reg`. -/
def an_stop (bus : Hw σ) (s : Phy σ) (int_reg : Int) : Int × Phy σ :=
  if s.an_state = AMD_XGBE_AN_NO_LINK then
    (0, phy_write_mmd bus (amd_xgbe_phy_disable_an bus s).2 MDIO_MMD_AN MDIO_AN_INT 0)
  else if s.an_state = AMD_XGBE_AN_ERROR then
    (0, phy_write_mmd bus s MDIO_MMD_AN MDIO_AN_INT 0)
  else (int_reg, s)

/-- The statement `if (priv->an_state >= AMD_XGBE_AN_COMPLETE) ...` of the worker. -/
def an_latch (s : Phy σ) : Phy σ :=
  if AMD_XGBE_AN_COMPLETE.val ≤ s.an_state.val then
    { s with an_result := s.an_state, an_state := AMD_XGBE_AN_READY,
             kr_state := AMD_XGBE_RX_BPA, kx_state := AMD_XGBE_RX_BPA }
  else s

/-- One pass from the label `again` up to the test `cur_state != priv->an_state`. -/
def an_pass (bus : Hw σ) (s : Phy σ) (int_reg : Int) : Int × Phy σ :=
  ((an_stop bus (an_switch bus s) int_reg).1,
   an_latch (an_stop bus (an_switch bus s) int_reg).2)

/-- The worker from the label `again` on.  Each execution of the state switch uses
one unit of `fuel`; the result is `none` when the fuel runs out, and otherwise the
state at the label `out` with the number of executions of the switch. -/
def an_again (bus : Hw σ) : Nat → Phy σ → Int → Option (Phy σ × Nat)
  | 0, _, _ => none
  | fuel + 1, s, int_reg =>
    let p := an_pass bus s int_reg
    if s.an_state ≠ p.2.an_state then
      (an_again bus fuel p.2 p.1).map (fun r => (r.1, r.2 + 1))
    else if p.1 ≠ 0 then
      (an_again bus fuel (an_next_int bus p.2 p.1).2 (an_next_int bus p.2 p.1).1).map
        (fun r => (r.1, r.2 + 1))
    else some (p.2, 1)

/-- The work function `amd_xgbe_an_state_machine`, with the fuel of `an_again`. -/
def amd_xgbe_an_state_machine (bus : Hw σ) (fuel : Nat) (s : Phy σ) : Option (Phy σ × Nat) :=
  let r := phy_read_mmd bus (s.log Action.mutex_lock_an) MDIO_MMD_AN MDIO_AN_INT
  if r.1 = 0 then
    some ((r.2.log Action.enable_irq).log Action.mutex_unlock_an, 0)
  else
    (an_again bus fuel (an_next_int bus r.2 r.1).2 (an_next_int bus r.2 r.1).1).map
      (fun p => ((p.1.log Action.enable_irq).log Action.mutex_unlock_an, p.2))

/-! ## Configuration and link monitor -/

def amd_xgbe_an_init (bus : Hw σ) (s : Phy σ) : Int × Phy σ :=
  let r := phy_read_mmd bus s MDIO_MMD_AN (MDIO_AN_ADVERTISE + 2)
  if r.1 < 0 then (r.1, r.2)
  else
    let ret := if r.2.supported &&& SUPPORTED_10000baseR_FEC ≠ 0 then r.1.toNat ||| 0xc000
      else clear_bits r.1.toNat 0xc000
    let s := phy_write_mmd bus r.2 MDIO_MMD_AN (MDIO_AN_ADVERTISE + 2) ret
    let r := phy_read_mmd bus s MDIO_MMD_AN (MDIO_AN_ADVERTISE + 1)
    if r.1 < 0 then (r.1, r.2)
    else
      let ret := if r.2.supported &&& SUPPORTED_10000baseKR_Full ≠ 0 then r.1.toNat ||| 0x80
        else clear_bits r.1.toNat 0x80
      let ret := if r.2.supported &&& SUPPORTED_1000baseKX_Full ≠ 0 ∨
          r.2.supported &&& SUPPORTED_2500baseX_Full ≠ 0 then ret ||| 0x20
        else clear_bits ret 0x20
      let s := phy_write_mmd bus r.2 MDIO_MMD_AN (MDIO_AN_ADVERTISE + 1) ret
      let r := phy_read_mmd bus s MDIO_MMD_AN MDIO_AN_ADVERTISE
      if r.1 < 0 then (r.1, r.2)
      else
        let ret := if r.2.supported &&& SUPPORTED_Pause ≠ 0 then r.1.toNat ||| 0x400
          else clear_bits r.1.toNat 0x400
        let ret := if r.2.supported &&& SUPPORTED_Asym_Pause ≠ 0 then ret ||| 0x800
          else clear_bits ret 0x800
        let ret := clear_bits ret XNP_NP_EXCHANGE
        (0, phy_write_mmd bus r.2 MDIO_MMD_AN MDIO_AN_ADVERTISE ret)

/-- The loop `do { msleep(20); ret = phy_read_mmd(...); if (ret < 0) return ret; }
while ((ret & MDIO_CTRL1_RESET) && --count)` of `amd_xgbe_phy_soft_reset`, by
recursion on the polls left (`count`); returns the last value of `ret`. -/
def soft_reset_wait (bus : Hw σ) : Nat → Int → Phy σ → Int × Phy σ
  | 0, ret, s => (ret, s)
  | count + 1, _, s =>
    let r := phy_read_mmd bus (s.log (Action.msleep 20)) MDIO_MMD_PCS MDIO_CTRL1
    if r.1 < 0 then (r.1, r.2)
    else if r.1.toNat &&& MDIO_CTRL1_RESET ≠ 0 then soft_reset_wait bus count r.1 r.2
    else (r.1, r.2)

def amd_xgbe_phy_soft_reset (bus : Hw σ) (s : Phy σ) : Int × Phy σ :=
  let r := phy_read_mmd bus s MDIO_MMD_PCS MDIO_CTRL1
  if r.1 < 0 then (r.1, r.2)
  else
    let s := phy_write_mmd bus r.2 MDIO_MMD_PCS MDIO_CTRL1 (r.1.toNat ||| MDIO_CTRL1_RESET)
    let w := soft_reset_wait bus 50 (r.1.toNat ||| MDIO_CTRL1_RESET : Nat) s
    if w.1 < 0 then (w.1, w.2)
    else if w.1.toNat &&& MDIO_CTRL1_RESET ≠ 0 then (-ETIMEDOUT, w.2)
    else
      let d := amd_xgbe_phy_disable_an bus w.2
      if d.1 < 0 then (d.1, d.2)
      else (0, phy_write_mmd bus d.2 MDIO_MMD_AN MDIO_AN_INT 0)

def amd_xgbe_phy_setup_forced (bus : Hw σ) (s : Phy σ) : Int × Phy σ :=
  let d := amd_xgbe_phy_disable_an bus s
  if d.1 < 0 then (d.1, d.2)
  else
    let r : Int × Phy σ :=
      if d.2.speed = SPEED_10000 then amd_xgbe_phy_set_mode bus d.2 AMD_XGBE_MODE_KR
      else if d.2.speed = SPEED_2500 ∨ d.2.speed = SPEED_1000 then
        amd_xgbe_phy_set_mode bus d.2 AMD_XGBE_MODE_KX
      else (-EINVAL, d.2)
    if r.1 < 0 then (r.1, r.2)
    else if r.2.duplex ≠ DUPLEX_FULL then (-EINVAL, r.2)
    else (0, { r.2 with pause := 0, asym_pause := 0 })

def __amd_xgbe_phy_config_aneg (bus : Hw σ) (s : Phy σ) : Int × Phy σ :=
  if s.autoneg ≠ AUTONEG_ENABLE then amd_xgbe_phy_setup_forced bus s
  else if s.devices_in_package &&& MDIO_DEVS_AN = 0 then (-EINVAL, s)
  else
    let s := s.log Action.disable_irq
    let r : Int × Phy σ :=
      if s.supported &&& SUPPORTED_10000baseKR_Full ≠ 0 then
        amd_xgbe_phy_set_mode bus s AMD_XGBE_MODE_KR
      else if s.supported &&& SUPPORTED_1000baseKX_Full ≠ 0 ∨
          s.supported &&& SUPPORTED_2500baseX_Full ≠ 0 then
        amd_xgbe_phy_set_mode bus s AMD_XGBE_MODE_KX
      else (-EINVAL, s)
    if r.1 < 0 then (r.1, r.2.log Action.enable_irq)
    else
      let d := amd_xgbe_phy_disable_an bus r.2
      if d.1 < 0 then (d.1, d.2)
      else
        let s := phy_write_mmd bus d.2 MDIO_MMD_AN MDIO_AN_INT 0
        let s : Phy σ := { s with an_result := AMD_XGBE_AN_READY, an_state := AMD_XGBE_AN_READY,
                                  kr_state := AMD_XGBE_RX_BPA, kx_state := AMD_XGBE_RX_BPA }
        let s := s.log Action.enable_irq
        let i := amd_xgbe_an_init bus s
        if i.1 ≠ 0 then (i.1, i.2)
        else
          let r := phy_read_mmd bus i.2 MDIO_MMD_AN MDIO_AN_KR_CTRL
          if r.1 < 0 then (r.1, r.2)
          else
            let s := phy_write_mmd bus r.2 MDIO_MMD_AN MDIO_AN_KR_CTRL
              (r.1.toNat ||| MDIO_KR_CTRL_PDETECT)
            amd_xgbe_phy_restart_an bus s

def amd_xgbe_phy_config_aneg (bus : Hw σ) (s : Phy σ) : Int × Phy σ :=
  let r := __amd_xgbe_phy_config_aneg bus (s.log Action.mutex_lock_an)
  (r.1, r.2.log Action.mutex_unlock_an)

def amd_xgbe_phy_aneg_done (s : Phy σ) : Bool :=
  decide (s.an_result = AMD_XGBE_AN_COMPLETE)

/-- The two reads of the latched link status at the label `again` of
`amd_xgbe_phy_update_link`, and the assignment of `phydev->link`. -/
def update_link_read (bus : Hw σ) (s : Phy σ) : Int × Phy σ :=
  let r := phy_read_mmd bus s MDIO_MMD_PCS MDIO_STAT1
  if r.1 < 0 then (r.1, r.2)
  else
    let r := phy_read_mmd bus r.2 MDIO_MMD_PCS MDIO_STAT1
    if r.1 < 0 then (r.1, r.2)
    else (0, { r.2 with link := if r.1.toNat &&& MDIO_STAT1_LSTATUS ≠ 0 then 1 else 0 })

/-- The end of `amd_xgbe_phy_update_link`, after the link state is settled. -/
def update_link_done (bus : Hw σ) (s : Phy σ) : Int × Phy σ :=
  let autoneg : Bool := decide (s.link ≠ 0 ∧ s.priv_link = 0)
  let s : Phy σ := { s with priv_link := s.link }
  if autoneg then
    let c := amd_xgbe_phy_config_aneg bus s
    if c.1 < 0 then (c.1, c.2) else (0, c.2)
  else (0, s)

/-- The function `amd_xgbe_phy_update_link`.  The label `again` is reached a second
time only through the `goto` that follows `check_again = 0`, so the second pass is
written out with `check_again = 0`. -/
def amd_xgbe_phy_update_link (bus : Hw σ) (s : Phy σ) : Int × Phy σ :=
  if s.an_state ≠ AMD_XGBE_AN_READY then (0, { s with link := 1 })
  else
    let check_again : Bool := decide (s.autoneg = AUTONEG_ENABLE)
    let r := update_link_read bus s
    if r.1 < 0 then (r.1, r.2)
    else if r.2.link = 0 ∧ check_again then
      let w := amd_xgbe_phy_switch_mode bus r.2
      if w.1 < 0 then (w.1, w.2)
      else
        let r := update_link_read bus w.2
        if r.1 < 0 then (r.1, r.2)
        else update_link_done bus r.2
    else update_link_done bus r.2

def amd_xgbe_phy_read_status (bus : Hw σ) (s : Phy σ) : Int × Phy σ :=
  let u := amd_xgbe_phy_update_link bus s
  if u.1 ≠ 0 then (u.1, u.2)
  else if u.2.autoneg = AUTONEG_ENABLE ∧ u.2.parallel_detect = 0 then
    if u.2.devices_in_package &&& MDIO_DEVS_AN = 0 then (-EINVAL, u.2)
    else if ¬ amd_xgbe_phy_aneg_done u.2 then (0, u.2)
    else
      let ad := phy_read_mmd bus u.2 MDIO_MMD_AN MDIO_AN_ADVERTISE
      if ad.1 < 0 then (ad.1, ad.2)
      else
        let lp := phy_read_mmd bus ad.2 MDIO_MMD_AN MDIO_AN_LPA
        if lp.1 < 0 then (lp.1, lp.2)
        else
          let ad_ret := ad.1.toNat &&& lp.1.toNat
          let s : Phy σ := { lp.2 with pause := if ad_ret &&& 0x400 ≠ 0 then 1 else 0,
                                       asym_pause := if ad_ret &&& 0x800 ≠ 0 then 1 else 0 }
          let ad := phy_read_mmd bus s MDIO_MMD_AN (MDIO_AN_ADVERTISE + 1)
          if ad.1 < 0 then (ad.1, ad.2)
          else
            let lp := phy_read_mmd bus ad.2 MDIO_MMD_AN (MDIO_AN_LPA + 1)
            if lp.1 < 0 then (lp.1, lp.2)
            else if (ad.1.toNat &&& lp.1.toNat) &&& 0x80 ≠ 0 then
              let m := amd_xgbe_phy_set_mode bus { lp.2 with speed := SPEED_10000 }
                AMD_XGBE_MODE_KR
              if m.1 ≠ 0 then (m.1, m.2)
              else (0, { m.2 with duplex := DUPLEX_FULL })
            else
              let s : Phy σ :=
                if lp.2.speed_set = AMD_XGBE_PHY_SPEEDSET_1000_10000 then
                  { lp.2 with speed := SPEED_1000 }
                else if lp.2.speed_set = AMD_XGBE_PHY_SPEEDSET_2500_10000 then
                  { lp.2 with speed := SPEED_2500 }
                else lp.2
              let m := amd_xgbe_phy_set_mode bus s AMD_XGBE_MODE_KX
              if m.1 ≠ 0 then (m.1, m.2)
              else (0, { m.2 with duplex := DUPLEX_FULL })
  else
    let k := amd_xgbe_phy_in_kr_mode bus u.2
    let s : Phy σ :=
      if k.1 then { k.2 with speed := SPEED_10000 }
      else if k.2.speed_set = AMD_XGBE_PHY_SPEEDSET_1000_10000 then
        { k.2 with speed := SPEED_1000 }
      else if k.2.speed_set = AMD_XGBE_PHY_SPEEDSET_2500_10000 then
        { k.2 with speed := SPEED_2500 }
      else k.2
    (0, { s with duplex := DUPLEX_FULL, pause := 0, asym_pause := 0 })

/-! ## Definitions used in the statements and proofs -/

/-- The built-in table `amd_xgbe_phy_serdes_blwc`. -/
def amd_xgbe_phy_serdes_blwc : List Nat := [RXTX_1G_BLWC, RXTX_1G_BLWC, RXTX_10G_BLWC]
/-- The built-in table `amd_xgbe_phy_serdes_cdr_rate`. -/
def amd_xgbe_phy_serdes_cdr_rate : List Nat := [RXTX_1G_CDR, RXTX_1G_CDR, RXTX_10G_CDR]
/-- The built-in table `amd_xgbe_phy_serdes_pq_skew`. -/
def amd_xgbe_phy_serdes_pq_skew : List Nat := [RXTX_1G_PQ, RXTX_1G_PQ, RXTX_10G_PQ]
/-- The built-in table `amd_xgbe_phy_serdes_tx_amp`. -/
def amd_xgbe_phy_serdes_tx_amp : List Nat := [RXTX_1G_TX_AMP, RXTX_1G_TX_AMP, RXTX_10G_TX_AMP]

/-- The state of a hardware in which every register holds the value last written
to it: the management-interface registers by device and register address, the SerDes
CMU registers and the SerDes Rx/Tx registers by offset. -/
structure RegFile where
  mdio_regs : Nat → Nat → Nat
  cmu_regs : Nat → Nat
  rxtx_regs : Nat → Nat

/-- The hardware in which every read succeeds and returns the value last written. -/
def regfile : Hw RegFile where
  mdio_read := fun h d r => ((h.mdio_regs d r : Int), h)
  mdio_write := fun h d r v =>
    { h with mdio_regs := fun d1 r1 => if d1 = d ∧ r1 = r then v else h.mdio_regs d1 r1 }
  cmu_read := fun h r => (h.cmu_regs r, h)
  cmu_write := fun h r v => { h with cmu_regs := fun r1 => if r1 = r then v else h.cmu_regs r1 }
  rxtx_read := fun h r => (h.rxtx_regs r, h)
  rxtx_write := fun h r v => { h with rxtx_regs := fun r1 => if r1 = r then v else h.rxtx_regs r1 }

/-- A driver state after probe and `config_init` with the built-in tables: channel 0,
speed set 1000/10000, every feature supported, auto-negotiation enabled, negotiation
at rest, over the hardware state `hw`. -/
def phy_init {σ : Type} (hw : σ) : Phy σ where
  hw := hw
  trace := []
  supported := SUPPORTED_Autoneg ||| SUPPORTED_Pause ||| SUPPORTED_Asym_Pause |||
    SUPPORTED_Backplane ||| SUPPORTED_10000baseKR_Full ||| SUPPORTED_1000baseKX_Full |||
    SUPPORTED_10000baseR_FEC
  advertising := SUPPORTED_Autoneg ||| SUPPORTED_Pause ||| SUPPORTED_Asym_Pause |||
    SUPPORTED_Backplane ||| SUPPORTED_10000baseKR_Full ||| SUPPORTED_1000baseKX_Full |||
    SUPPORTED_10000baseR_FEC
  autoneg := AUTONEG_ENABLE
  speed := 0
  duplex := 0
  pause := 0
  asym_pause := 0
  link := 0
  devices_in_package := MDIO_DEVS_AN
  serdes_channel := 0
  speed_set := AMD_XGBE_PHY_SPEEDSET_1000_10000
  priv_link := 1
  serdes_blwc := fun i => amd_xgbe_phy_serdes_blwc.getD i 0
  serdes_cdr_rate := fun i => amd_xgbe_phy_serdes_cdr_rate.getD i 0
  serdes_pq_skew := fun i => amd_xgbe_phy_serdes_pq_skew.getD i 0
  serdes_tx_amp := fun i => amd_xgbe_phy_serdes_tx_amp.getD i 0
  an_result := AMD_XGBE_AN_READY
  an_state := AMD_XGBE_AN_READY
  kr_state := AMD_XGBE_RX_BPA
  kx_state := AMD_XGBE_RX_BPA
  an_supported := 0
  parallel_detect := 0
  fec_ability := XGBE_PHY_FEC_MASK
  lpm_ctrl := 0

/-- A register file with the interrupt register holding `int_reg`, the link-partner
base-page ability register 2 holding `lpa2`, and every other register 0; the PCS type
field then denotes 10GBASE-R (KR mode). -/
def regs_kr (int_reg lpa2 : Nat) : RegFile where
  mdio_regs := fun d r =>
    if d = MDIO_MMD_AN ∧ r = MDIO_AN_INT then int_reg
    else if d = MDIO_MMD_AN ∧ r = MDIO_AN_LPA + 1 then lpa2
    else 0
  cmu_regs := fun _ => 0
  rxtx_regs := fun _ => 0

/-- A bound on the executions of the state switch still to come once the local
`int_reg` holds the snapshot `v` at the test `if (int_reg) goto next_int`. -/
def an_weight (v : Int) : Nat :=
  if v = 0 then 0
  else if v < 0 then 2
  else 2 + (if v.toNat &&& XGBE_AN_PG_RCV ≠ 0 then 3 else 0)
    + (if v.toNat &&& XGBE_AN_INC_LINK ≠ 0 then 2 else 0)
    + (if v.toNat &&& XGBE_AN_INT_CMPLT ≠ 0 then 2 else 0)

/-- A bound on the executions of the state switch from the label `again` on, in
phase `a` with snapshot `v`. -/
def an_need (a : amd_xgbe_phy_an) (v : Int) : Nat :=
  match a with
  | AMD_XGBE_AN_READY => 1 + an_weight v
  | AMD_XGBE_AN_PAGE_RECEIVED => 3 + an_weight v
  | AMD_XGBE_AN_INCOMPAT_LINK => 2 + an_weight v
  | AMD_XGBE_AN_COMPLETE => 2 + an_weight v
  | AMD_XGBE_AN_NO_LINK => 2
  | AMD_XGBE_AN_ERROR => 2

/-- The state `y` differs from `x` in the hardware state and the trace only. -/
def Phy.frame (x y : Phy σ) : Prop := y = { x with hw := y.hw, trace := y.trace }

/-- The state `y` differs from `x` in the hardware state, the trace and the two rx
sub-states only. -/
def Phy.frame_rx (x y : Phy σ) : Prop :=
  y = { x with hw := y.hw, trace := y.trace, kr_state := y.kr_state, kx_state := y.kx_state }

/-- A driver state with `an_supported` at its largest value, in KR mode, whose
interrupt register holds the page-received and the complete bit, the link partner
offering the KR codeword. -/
def phy_wrap : Phy RegFile :=
  { phy_init (regs_kr 5 0x80) with an_supported := 4294967295 }

/-- A state at the label `again` in phase COMPLETE with `an_supported = n`. -/
def phy_complete (n : Nat) : Phy RegFile :=
  { phy_init (regs_kr 0 0) with an_state := AMD_XGBE_AN_COMPLETE, an_supported := n }

/-- A state at the label `again` in phase PAGE_RECEIVED, in KR mode, the link partner
offering the KR codeword. -/
def phy_page : Phy RegFile :=
  { phy_init (regs_kr 1 128) with an_state := AMD_XGBE_AN_PAGE_RECEIVED }

/-- A register file in KX mode: the PCS type field holds 10GBASE-X, the interrupt
register holds `int_reg`, the link-partner ability register 2 holds `lpa2`. -/
def regs_kx (int_reg lpa2 : Nat) : RegFile where
  mdio_regs := fun d r =>
    if d = MDIO_MMD_PCS ∧ r = MDIO_CTRL2 then MDIO_PCS_CTRL2_10GBX
    else if d = MDIO_MMD_AN ∧ r = MDIO_AN_INT then int_reg
    else if d = MDIO_MMD_AN ∧ r = MDIO_AN_LPA + 1 then lpa2
    else 0
  cmu_regs := fun _ => 0
  rxtx_regs := fun _ => 0

/-- A driver state on a device configured without 10GBASE-KR, in KX mode. -/
def phy_kx_only : Phy RegFile :=
  { phy_init (regs_kx 2 0) with
      supported := SUPPORTED_Autoneg ||| SUPPORTED_Backplane ||| SUPPORTED_1000baseKX_Full }

/-- The phase is one of COMPLETE, NO_LINK, ERROR. -/
def amd_xgbe_phy_an.terminal (a : amd_xgbe_phy_an) : Prop :=
  a = AMD_XGBE_AN_COMPLETE ∨ a = AMD_XGBE_AN_NO_LINK ∨ a = AMD_XGBE_AN_ERROR

/-- The phase is PAGE_RECEIVED or INCOMPAT_LINK. -/
def amd_xgbe_phy_an.in_progress (a : amd_xgbe_phy_an) : Prop :=
  a = AMD_XGBE_AN_PAGE_RECEIVED ∨ a = AMD_XGBE_AN_INCOMPAT_LINK

/-- The relation of `an_state` and `an_result` at the label `again`, once an event
has been selected. -/
def an_inv (s : Phy σ) : Prop :=
  (s.an_state = AMD_XGBE_AN_READY → s.an_result.terminal) ∧
  (s.an_state.in_progress → s.an_result.in_progress)

/-- The relation of `an_state` and `an_result` when the worker returns after handling
an event: at rest with a terminal result, or in progress with a result in progress. -/
def an_at_rest (s : Phy σ) : Prop :=
  (s.an_state = AMD_XGBE_AN_READY ∧ s.an_result.terminal) ∨
  (s.an_state.in_progress ∧ s.an_result.in_progress)

/-- A state with result COMPLETE whose interrupt register holds the page-received bit,
in KR mode, the link partner offering the KR codeword. -/
def phy_done_page : Phy RegFile :=
  { phy_init (regs_kr 4 128) with an_result := AMD_XGBE_AN_COMPLETE }

/-- Where a trace stands with respect to the global lock of the SerDes CMU and the
rate-change bracket of a channel. -/
inductive bracket_phase where
  | unlocked
  | locked
  | changing
  | changed
  deriving DecidableEq, Repr

/-- One step of the check of the bracket discipline on a trace, for the rate-change
mask `mask` of a channel.  The state is `none` after a violation, and otherwise the
phase with the number of SerDes Rx/Tx writes seen inside brackets.  The lock is taken
in phase `unlocked` only; the write of `CMU_REG16` that sets the mask bits (begin)
is allowed with the lock held only; a SerDes Rx/Tx write is allowed between begin and
the write of `CMU_REG16` that clears the mask bits (complete) only; the lock is
released after complete only; reads and delays are always allowed. -/
def bracket_step (mask : Nat) (st : Option (bracket_phase × Nat)) (a : Action) :
    Option (bracket_phase × Nat) :=
  match st, a with
  | none, _ => none
  | some (bracket_phase.unlocked, n), Action.spin_lock_cmu => some (bracket_phase.locked, n)
  | some (bracket_phase.unlocked, _), Action.spin_unlock_cmu => none
  | some (bracket_phase.unlocked, _), Action.rxtx_write _ _ => none
  | some (bracket_phase.unlocked, _), Action.cmu_write _ _ => none
  | some (bracket_phase.locked, n), Action.cmu_write reg val =>
    if reg = CMU_REG16 ∧ val &&& mask = mask then some (bracket_phase.changing, n) else none
  | some (bracket_phase.locked, _), Action.rxtx_write _ _ => none
  | some (bracket_phase.locked, _), Action.spin_lock_cmu => none
  | some (bracket_phase.locked, _), Action.spin_unlock_cmu => none
  | some (bracket_phase.changing, n), Action.rxtx_write _ _ => some (bracket_phase.changing, n + 1)
  | some (bracket_phase.changing, n), Action.cmu_write reg val =>
    if reg = CMU_REG16 ∧ val &&& mask = 0 then some (bracket_phase.changed, n) else none
  | some (bracket_phase.changing, _), Action.spin_lock_cmu => none
  | some (bracket_phase.changing, _), Action.spin_unlock_cmu => none
  | some (bracket_phase.changed, _), Action.rxtx_write _ _ => none
  | some (bracket_phase.changed, _), Action.cmu_write _ _ => none
  | some (bracket_phase.changed, _), Action.spin_lock_cmu => none
  | some (bracket_phase.changed, n), Action.spin_unlock_cmu => some (bracket_phase.unlocked, n)
  | some p, _ => some p

/-- The check of the bracket discipline on a whole trace, from the phase `unlocked`
with no write counted. -/
def bracket_run (mask : Nat) (trace : List Action) : Option (bracket_phase × Nat) :=
  trace.foldl (bracket_step mask) (some (bracket_phase.unlocked, 0))

/-- The value of a poll of the ready flags: a read of `CMU_REG15`. -/
def ready_poll (a : Action) : Option Nat :=
  match a with
  | Action.cmu_read reg val => if reg = CMU_REG15 then some val else none
  | _ => none

/-- The values returned by the polls of the ready flags in a trace, in order. -/
def ready_polls (trace : List Action) : List Nat := trace.filterMap ready_poll

/-- What the polls `vs` of one call of `amd_xgbe_phy_serdes_complete_ratechange` look
like, for the ready mask `mask` and a budget of `n` polls: at least one and at most `n`
polls, each returning a value read from `CMU_REG15`, none but the last with both ready
bits set, and the last with both ready bits set if the budget was not used up. -/
def polls_until_ready (bus : Hw σ) (mask n : Nat) (vs : List Nat) : Prop :=
  vs.length ≤ n ∧ (0 < n → vs ≠ []) ∧
  (∀ v ∈ vs, ∃ hw, v = (bus.cmu_read hw CMU_REG15).1 % 65536) ∧
  (∀ v ∈ vs.dropLast, v &&& mask ≠ mask) ∧
  (vs.length < n → ∃ l, vs.getLast? = some l ∧ l &&& mask = mask)

/-- The register-file hardware with stuck ready flags: `CMU_REG15` always reads 0. -/
def stuck_hw : Hw RegFile :=
  { regfile with cmu_read := fun h r => (if r = CMU_REG15 then 0 else h.cmu_regs r, h) }

/-- The register and the value of a write to one of the three next-page transmit
registers (`MDIO_AN_XNP` to `MDIO_AN_XNP + 2` of the auto-negotiation device). -/
def xnp_write (a : Action) : Option (Nat × Nat) :=
  match a with
  | Action.mdio_write devad reg val =>
    if devad = MDIO_MMD_AN ∧ MDIO_AN_XNP ≤ reg ∧ reg ≤ MDIO_AN_XNP + 2 then some (reg, val)
    else none
  | _ => none

/-- The writes to the next-page transmit registers in a trace, in order. -/
def xnp_writes (trace : List Action) : List (Nat × Nat) := trace.filterMap xnp_write

/-- The register-file hardware on which the read of the auto-negotiation control
register fails (with `-EIO`), every other access being that of `regfile`. -/
def an_ctrl1_fail_hw : Hw RegFile :=
  { regfile with
    mdio_read := fun h d r =>
      if d = MDIO_MMD_AN ∧ r = MDIO_CTRL1 then (-5, h) else ((h.mdio_regs d r : Int), h) }

/-- A register file in KX mode with auto-negotiation enabled, the interrupt register
holding `int_reg`, every other register 0. -/
def regs_kx_an (int_reg : Nat) : RegFile where
  mdio_regs := fun d r =>
    if d = MDIO_MMD_PCS ∧ r = MDIO_CTRL2 then MDIO_PCS_CTRL2_10GBX
    else if d = MDIO_MMD_AN ∧ r = MDIO_AN_INT then int_reg
    else if d = MDIO_MMD_AN ∧ r = MDIO_CTRL1 then MDIO_AN_CTRL1_ENABLE
    else 0
  cmu_regs := fun _ => 0
  rxtx_regs := fun _ => 0

/-- A driver state on a device configured without 10GBASE-KR, in KX mode with
auto-negotiation enabled, the interrupt register holding `int_reg`. -/
def phy_kx_an (int_reg : Nat) : Phy RegFile :=
  { phy_init (regs_kx_an int_reg) with
      supported := SUPPORTED_Autoneg ||| SUPPORTED_Backplane ||| SUPPORTED_1000baseKX_Full }

/-- The values written to the auto-negotiation control register in a trace. -/
def an_ctrl1_writes (trace : List Action) : List Nat :=
  trace.filterMap (fun a =>
    match a with
    | Action.mdio_write devad reg val =>
      if devad = MDIO_MMD_AN ∧ reg = MDIO_CTRL1 then some val else none
    | _ => none)

/-- A driver state with `an_supported` at its largest value, in KR mode, whose
interrupt register holds the page-received bit only, the link partner offering the KR
codeword. -/
def phy_wrap_page : Phy RegFile :=
  { phy_init (regs_kr 4 0x80) with an_supported := 4294967295 }

/-- The error value of a failed management-interface read. -/
def failed_read (a : Action) : Option Int :=
  match a with
  | Action.mdio_read _ _ ret => if ret < 0 then some ret else none
  | _ => none

/-- The error values of the failed management-interface reads in a trace, in order. -/
def failed_reads (trace : List Action) : List Int := trace.filterMap failed_read

/-- The result `r` of an operation started in state `s` either is 0 with no failed
read in between, or is the error of a failed read that is the only failed read in
between and the last access of the trace. -/
def aborts_at_failed_read (s : Phy σ) (r : Int × Phy σ) : Prop :=
  (r.1 = 0 ∧ failed_reads r.2.trace = failed_reads s.trace) ∨
  (r.1 < 0 ∧ failed_reads r.2.trace = failed_reads s.trace ++ [r.1] ∧
    ∃ d reg, r.2.trace.getLast? = some (Action.mdio_read d reg r.1))

/-- The register-file hardware with a flag: while the flag is set, the next read of
the PCS control register 2 fails (with `-EIO`) and clears the flag; every other access
is that of `regfile`. -/
def fail_once_hw : Hw (Bool × RegFile) where
  mdio_read := fun h d r =>
    if h.1 = true ∧ d = MDIO_MMD_PCS ∧ r = MDIO_CTRL2 then (-5, (false, h.2))
    else ((h.2.mdio_regs d r : Int), h)
  mdio_write := fun h d r v => (h.1, regfile.mdio_write h.2 d r v)
  cmu_read := fun h r => (h.2.cmu_regs r, h)
  cmu_write := fun h r v => (h.1, regfile.cmu_write h.2 r v)
  rxtx_read := fun h r => (h.2.rxtx_regs r, h)
  rxtx_write := fun h r v => (h.1, regfile.rxtx_write h.2 r v)

/-- A register file in KR mode in which the SerDes reports channel 0 ready (both ready
flags of `CMU_REG15` set), every other register 0. -/
def regs_kr_ready : RegFile where
  mdio_regs := fun _ _ => 0
  cmu_regs := fun r => if r = CMU_REG15 then 0x101 else 0
  rxtx_regs := fun _ => 0

/-- A register file in KR mode whose `CMU_REG16` holds `v`, every other register 0. -/
def regs_cmu16 (v : Nat) : RegFile where
  mdio_regs := fun _ _ => 0
  cmu_regs := fun r => if r = CMU_REG16 then v else 0
  rxtx_regs := fun _ => 0

/-- A driver state on SerDes channel `c` over a register file whose `CMU_REG16` holds
`v`. -/
def phy_channel (c v : Nat) : Phy RegFile :=
  { phy_init (regs_cmu16 v) with serdes_channel := c }

/-- The state `y` has the configuration of `x`: the same auto-negotiation setting,
parallel-detection flag, devices in package and speed set. -/
def Phy.same_config (x y : Phy σ) : Prop :=
  y.autoneg = x.autoneg ∧ y.parallel_detect = x.parallel_detect ∧
  y.devices_in_package = x.devices_in_package ∧ y.speed_set = x.speed_set

/-- A register file in KX mode with the link up, the SerDes ready on channel 0, the
local advertisement offering pause, asymmetric pause and both link codewords, and the
link partner offering pause and the codewords `lpa2`. -/
def regs_status (lpa2 : Nat) : RegFile where
  mdio_regs := fun d r =>
    if d = MDIO_MMD_PCS ∧ r = MDIO_STAT1 then MDIO_STAT1_LSTATUS
    else if d = MDIO_MMD_PCS ∧ r = MDIO_CTRL2 then MDIO_PCS_CTRL2_10GBX
    else if d = MDIO_MMD_AN ∧ r = MDIO_AN_ADVERTISE then 0xc00
    else if d = MDIO_MMD_AN ∧ r = MDIO_AN_LPA then 0x400
    else if d = MDIO_MMD_AN ∧ r = MDIO_AN_ADVERTISE + 1 then 0xa0
    else if d = MDIO_MMD_AN ∧ r = MDIO_AN_LPA + 1 then lpa2
    else 0
  cmu_regs := fun r => if r = CMU_REG15 then 0x101 else 0
  rxtx_regs := fun _ => 0

/-- A driver state at rest with negotiation complete, over `regs_status lpa2`, the
link having been up (`priv_link = 1`) or down (`priv_link = 0`) at the last update. -/
def phy_status (lpa2 priv_link : Nat) : Phy RegFile :=
  { phy_init (regs_status lpa2) with an_result := AMD_XGBE_AN_COMPLETE, priv_link := priv_link }

/-- The macro `GET_BITS`: the field of `width` bits at `index`. -/
def GET_BITS (var index width : Nat) : Nat :=
  (var >>> index) &&& ((1 <<< width) - 1)

/-- The macro `XRXTX_IOREAD_BITS`: read one field of a SerDes Rx/Tx register. -/
def XRXTX_IOREAD_BITS (bus : Hw σ) (s : Phy σ) (reg index width : Nat) : Nat × Phy σ :=
  (GET_BITS (XRXTX_IOREAD bus s reg).1 index width, (XRXTX_IOREAD bus s reg).2)

/-- The number of speeds `XGBE_PHY_SPEEDS`: the length of each tuning table. -/
def XGBE_PHY_SPEEDS : Nat := 3

/-- Modelled from the spec: the error `EOVERFLOW` of `asm-generic/errno.h`. -/
def EOVERFLOW : Int := 75

/-- Modelled from the spec: the device properties read by the probe function: the two
scalar properties and the four optional tuning arrays, each absent or present with its
`u32` entries. -/
structure phy_properties where
  serdes_channel : Option Nat
  speed_set : Option Nat
  serdes_blwc : Option (List Nat)
  serdes_cdr_rate : Option (List Nat)
  serdes_pq_skew : Option (List Nat)
  serdes_tx_amp : Option (List Nat)

/-- Modelled from the spec: `device_property_present` (kernel code, absent). -/
def device_property_present (prop : Option (List Nat)) : Bool := prop.isSome

/-- Modelled from the spec: `device_property_read_u32` (kernel code, absent): the
value of the property, or a negative error when the property is absent. -/
def device_property_read_u32 (prop : Option Nat) : Except Int Nat :=
  match prop with
  | none => Except.error (-EINVAL)
  | some v => Except.ok (v % 4294967296)

/-- Modelled from the spec: `device_property_read_u32_array` (kernel code, absent): the
`nval` entries of the property, or a negative error when the property is absent or
does not hold exactly `nval` entries. -/
def device_property_read_u32_array (prop : Option (List Nat)) (nval : Nat) :
    Except Int (List Nat) :=
  match prop with
  | none => Except.error (-EINVAL)
  | some l =>
    if l.length = nval then Except.ok (l.map (fun v => v % 4294967296))
    else Except.error (-EOVERFLOW)

/-- One of the four blocks `if (device_property_present(...)) { ret =
device_property_read_u32_array(...); if (ret) goto err_cmu; } else { memcpy(...); }` of
`amd_xgbe_phy_probe`: the table of the instance, from the property if it is present and
from the built-in table `dflt` otherwise, or the error. -/
def probe_table (prop : Option (List Nat)) (dflt : List Nat) : Except Int (Nat → Nat) :=
  if device_property_present prop then
    match device_property_read_u32_array prop XGBE_PHY_SPEEDS with
    | Except.error ret => Except.error ret
    | Except.ok l => Except.ok (fun i => l.getD i 0)
  else Except.ok (fun i => dflt.getD i 0)

/-- The function `amd_xgbe_phy_probe` from the reading of the device properties on
(the allocation of the private data, zero-filled, is the first step; the mapping of
the register areas and the interrupt are not part of the model): the channel, the speed
set, which has to be one of the two known ones, the four tuning tables, and
`priv->link = 1`.  On an error the private data is freed: the state is returned as it
was. -/
def amd_xgbe_phy_probe (props : phy_properties) (s : Phy σ) : Int × Phy σ :=
  match device_property_read_u32 props.serdes_channel with
  | Except.error ret => (ret, s)
  | Except.ok channel =>
    match device_property_read_u32 props.speed_set with
    | Except.error ret => (ret, s)
    | Except.ok speed_set =>
      if speed_set ≠ AMD_XGBE_PHY_SPEEDSET_1000_10000 ∧
          speed_set ≠ AMD_XGBE_PHY_SPEEDSET_2500_10000 then (-EINVAL, s)
      else
        match probe_table props.serdes_blwc amd_xgbe_phy_serdes_blwc with
        | Except.error ret => (ret, s)
        | Except.ok blwc =>
          match probe_table props.serdes_cdr_rate amd_xgbe_phy_serdes_cdr_rate with
          | Except.error ret => (ret, s)
          | Except.ok cdr_rate =>
            match probe_table props.serdes_pq_skew amd_xgbe_phy_serdes_pq_skew with
            | Except.error ret => (ret, s)
            | Except.ok pq_skew =>
              match probe_table props.serdes_tx_amp amd_xgbe_phy_serdes_tx_amp with
              | Except.error ret => (ret, s)
              | Except.ok tx_amp =>
                (0, { s with serdes_channel := channel, speed_set := speed_set,
                             priv_link := 1,
                             serdes_blwc := blwc, serdes_cdr_rate := cdr_rate,
                             serdes_pq_skew := pq_skew, serdes_tx_amp := tx_amp,
                             an_result := AMD_XGBE_AN_READY, an_state := AMD_XGBE_AN_READY,
                             kr_state := AMD_XGBE_RX_BPA, kx_state := AMD_XGBE_RX_BPA,
                             an_supported := 0, parallel_detect := 0, fec_ability := 0,
                             lpm_ctrl := 0 })

/-- Device properties with channel 0, speed set 1000/10000 and the tx amplitude table
`amp`, the other tuning properties being absent. -/
def props_tx_amp (amp : List Nat) : phy_properties where
  serdes_channel := some 0
  speed_set := some 0
  serdes_blwc := none
  serdes_cdr_rate := none
  serdes_pq_skew := none
  serdes_tx_amp := some amp

/-- An access of the register, mode and page routines: any action but taking or
releasing the negotiation mutex, enabling or disabling the interrupt, reading the PCS
status register and reading the auto-negotiation interrupt register. -/
def Action.plain : Action → Bool
  | Action.mutex_lock_an => false
  | Action.mutex_unlock_an => false
  | Action.enable_irq => false
  | Action.disable_irq => false
  | Action.mdio_read d r _ =>
    !(decide (d = MDIO_MMD_PCS ∧ r = MDIO_STAT1)) && !(decide (d = MDIO_MMD_AN ∧ r = MDIO_AN_INT))
  | _ => true

/-- The trace of `t` is the trace of `s` followed by plain actions only. -/
def Phy.plain_ext (s t : Phy σ) : Prop :=
  ∃ l, t.trace = s.trace ++ l ∧ ∀ a ∈ l, a.plain = true

/-- The SerDes Rx/Tx register writes of a trace, in order: register and value. -/
def rxtx_writes (trace : List Action) : List (Nat × Nat) :=
  trace.filterMap (fun a =>
    match a with
    | Action.rxtx_write reg val => some (reg, val)
    | _ => none)

/-- A field of a SerDes Rx/Tx register with the value to be written to it. -/
structure serdes_field where
  reg : Nat
  index : Nat
  width : Nat
  val : Nat
  deriving DecidableEq, Repr

/-- The two accesses of the read-modify-write of a field, `v` being the value read. -/
def serdes_field.accesses (f : serdes_field) (v : Nat) : List Action :=
  [Action.rxtx_read f.reg v, Action.rxtx_write f.reg (SET_BITS v f.index f.width f.val)]

/-- The accesses of the read-modify-writes of the fields `fields`, in order, `vs` being
the values read. -/
def serdes_section (fields : List serdes_field) (vs : List Nat) : List Action :=
  (List.zipWith serdes_field.accesses fields vs).join

/-- The ten field writes of a mode-programming routine in the order in which the
specification lists them: tx data rate, tx word mode, tx amplitude, rx data rate, rx word
mode, loss-compensation enable, rx PLL select, tx PLL select, clock-recovery rate, skew;
for the data rate `rate`, the word mode `word`, the PLL select `pll` and the four tuning
values. -/
def spec_mode_fields (rate word pll amp blwc cdr pq : Nat) : List serdes_field :=
  [⟨RXTX_REG3, RXTX_REG3_TX_DATA_RATE_INDEX, RXTX_REG3_TX_DATA_RATE_WIDTH, rate⟩,
   ⟨RXTX_REG3, RXTX_REG3_TX_WORD_MODE_INDEX, RXTX_REG3_TX_WORD_MODE_WIDTH, word⟩,
   ⟨RXTX_REG5, RXTX_REG5_TXAMP_CNTL_INDEX, RXTX_REG5_TXAMP_CNTL_WIDTH, amp⟩,
   ⟨RXTX_REG6, RXTX_REG6_RX_DATA_RATE_INDEX, RXTX_REG6_RX_DATA_RATE_WIDTH, rate⟩,
   ⟨RXTX_REG6, RXTX_REG6_RX_WORD_MODE_INDEX, RXTX_REG6_RX_WORD_MODE_WIDTH, word⟩,
   ⟨RXTX_REG20, RXTX_REG20_BLWC_ENA_INDEX, RXTX_REG20_BLWC_ENA_WIDTH, blwc⟩,
   ⟨RXTX_REG53, RXTX_REG53_RX_PLLSELECT_INDEX, RXTX_REG53_RX_PLLSELECT_WIDTH, pll⟩,
   ⟨RXTX_REG53, RXTX_REG53_TX_PLLSELECT_INDEX, RXTX_REG53_TX_PLLSELECT_WIDTH, pll⟩,
   ⟨RXTX_REG53, RXTX_REG53_PI_SPD_SEL_CDR_INDEX, RXTX_REG53_PI_SPD_SEL_CDR_WIDTH, cdr⟩,
   ⟨RXTX_REG114, RXTX_REG114_PQ_REG_INDEX, RXTX_REG114_PQ_REG_WIDTH, pq⟩]

/-- The field writes `fields` made one after the other with `XRXTX_IOWRITE_BITS`. -/
def write_fields (bus : Hw σ) (s : Phy σ) (fields : List serdes_field) : Phy σ :=
  fields.foldl (fun x f => XRXTX_IOWRITE_BITS bus x f.reg f.index f.width f.val) s

/-- The values read by the field writes of `write_fields`, in order. -/
def read_values (bus : Hw σ) : Phy σ → List serdes_field → List Nat
  | _, [] => []
  | s, f :: fs =>
    (XRXTX_IOREAD bus s f.reg).1 ::
      read_values bus (XRXTX_IOWRITE_BITS bus s f.reg f.index f.width f.val) fs

/-- What the result `r` of a mode-programming routine started in state `s` has to look
like for the field writes `fields`: either the routine fails and has written no SerDes
Rx/Tx register, or it returns 0 and its trace consists of accesses without SerDes Rx/Tx
write, the acquisition of the SerDes lock, the read and the write of `CMU_REG16` that
raise the rate-change flags, the read-modify-writes of `fields` in order and nothing in
between, then the read of `CMU_REG16` that starts the completion and further accesses
without SerDes Rx/Tx write. -/
def writes_fields (s : Phy σ) (r : Int × Phy σ) (fields : List serdes_field) : Prop :=
  (r.1 < 0 ∧ rxtx_writes r.2.trace = rxtx_writes s.trace) ∨
  (r.1 = 0 ∧ ∃ pre vs post a b c, vs.length = fields.length ∧
    r.2.trace = s.trace ++ pre
      ++ [Action.spin_lock_cmu, Action.cmu_read CMU_REG16 a, Action.cmu_write CMU_REG16 b]
      ++ serdes_section fields vs ++ Action.cmu_read CMU_REG16 c :: post ∧
    b &&& ratechange_mask s.serdes_channel = ratechange_mask s.serdes_channel ∧
    rxtx_writes pre = [] ∧ rxtx_writes post = [])

/-- The actions of a list that are not plain, in order: the operations on the
negotiation mutex and on the interrupt, and the reads of the PCS status register and of
the auto-negotiation interrupt register. -/
def marks (l : List Action) : List Action := l.filter (fun a => !a.plain)

/-- The trace of `x` is the trace of `s` followed by actions whose marks are `m`. -/
def Phy.marks_ext (s x : Phy σ) (m : List Action) : Prop :=
  ∃ l, x.trace = s.trace ++ l ∧ marks l = m

/-- The marks of `__amd_xgbe_phy_config_aneg` on each of its return paths, by the tests
that select the path: none on the forced-speed path and when the AN device is missing;
the disabling and the enabling of the interrupt when the mode setting fails; the
disabling alone when the disabling of auto-negotiation fails; the disabling and the
enabling on every later return. -/
def config_aneg_marks (bus : Hw σ) (s : Phy σ) : List Action :=
  if s.autoneg ≠ AUTONEG_ENABLE then []
  else if s.devices_in_package &&& MDIO_DEVS_AN = 0 then []
  else
    let s := s.log Action.disable_irq
    let r : Int × Phy σ :=
      if s.supported &&& SUPPORTED_10000baseKR_Full ≠ 0 then
        amd_xgbe_phy_set_mode bus s AMD_XGBE_MODE_KR
      else if s.supported &&& SUPPORTED_1000baseKX_Full ≠ 0 ∨
          s.supported &&& SUPPORTED_2500baseX_Full ≠ 0 then
        amd_xgbe_phy_set_mode bus s AMD_XGBE_MODE_KX
      else (-EINVAL, s)
    if r.1 < 0 then [Action.disable_irq, Action.enable_irq]
    else if (amd_xgbe_phy_disable_an bus r.2).1 < 0 then [Action.disable_irq]
    else [Action.disable_irq, Action.enable_irq]

/-- A read of the PCS status register, which holds the link-status bit. -/
def Action.link_read : Action → Bool
  | Action.mdio_read d r _ => decide (d = MDIO_MMD_PCS ∧ r = MDIO_STAT1)
  | _ => false

/-- The part of `amd_xgbe_phy_update_link` that settles the link state, from the label
`again` up to the statement `autoneg = ...`: the error of a failed read or of a failed
mode switch, or 0 with `phydev->link` set. -/
def update_link_settle (bus : Hw σ) (s : Phy σ) : Int × Phy σ :=
  let r := update_link_read bus s
  if r.1 < 0 then (r.1, r.2)
  else if r.2.link = 0 ∧ s.autoneg = AUTONEG_ENABLE then
    let w := amd_xgbe_phy_switch_mode bus r.2
    if w.1 < 0 then (w.1, w.2)
    else update_link_read bus w.2
  else (0, r.2)

/-- The state `y` has the link state and the remembered link state of `x`. -/
def Phy.same_link (x y : Phy σ) : Prop := y.link = x.link ∧ y.priv_link = x.priv_link

/-- The register-file hardware on which the read of the KR training control register
fails (with `-EIO`), every other access being that of `regfile`. -/
def pmd_ctrl_fail_hw : Hw RegFile :=
  { regfile with
    mdio_read := fun h d r =>
      if d = MDIO_MMD_PMAPMD ∧ r = MDIO_PMA_10GBR_PMD_CTRL then (-5, h)
      else ((h.mdio_regs d r : Int), h) }

/-- The register-file hardware on which the reset bit of the PCS control register
clears itself: a read of that register shows the bit clear, every other access being
that of `regfile`. -/
def self_clearing_hw : Hw RegFile :=
  { regfile with
    mdio_read := fun h d r =>
      if d = MDIO_MMD_PCS ∧ r = MDIO_CTRL1 then
        ((clear_bits (h.mdio_regs d r) MDIO_CTRL1_RESET : Nat), h)
      else ((h.mdio_regs d r : Int), h) }

/-- The other of the two rx sub-states. -/
def rx_state_ptr.other : rx_state_ptr → rx_state_ptr
  | rx_state_ptr.kr_state => rx_state_ptr.kx_state
  | rx_state_ptr.kx_state => rx_state_ptr.kr_state

/-- The rx sub-state that `amd_xgbe_an_page_received` selects in state `s`: that of the
mode reported by `amd_xgbe_phy_in_kr_mode`. -/
def active_rx_state (bus : Hw σ) (s : Phy σ) : rx_state_ptr :=
  if (amd_xgbe_phy_in_kr_mode bus s).1 then rx_state_ptr.kr_state else rx_state_ptr.kx_state

/-- A driver state in KR mode whose KR rx sub-state is COMPLETE, the KX one being BPA. -/
def phy_rx_complete : Phy RegFile :=
  { phy_init regs_kr_ready with kr_state := AMD_XGBE_RX_COMPLETE }

/-- The values that `priv->an_state` takes while the worker runs from the label `again`
on, in order: in each pass the value at the label, the value after the state switch and
the value after the statement that folds COMPLETE, NO_LINK and ERROR into READY (the
value set at the label `next_int` is the value at the label `again` of the pass that
follows).  The fuel is that of `an_again`. -/
def an_again_phases (bus : Hw σ) : Nat → Phy σ → Int → Option (List amd_xgbe_phy_an)
  | 0, _, _ => none
  | fuel + 1, s, int_reg =>
    let p := an_pass bus s int_reg
    let seen := [s.an_state, (an_switch bus s).an_state, p.2.an_state]
    if s.an_state ≠ p.2.an_state then
      (an_again_phases bus fuel p.2 p.1).map (fun l => seen ++ l)
    else if p.1 ≠ 0 then
      (an_again_phases bus fuel (an_next_int bus p.2 p.1).2 (an_next_int bus p.2 p.1).1).map
        (fun l => seen ++ l)
    else some seen

/-- The values that `priv->an_state` takes during one invocation of the worker, from
the selection of the first event on: none when the interrupt register reads zero. -/
def an_state_machine_phases (bus : Hw σ) (fuel : Nat) (s : Phy σ) :
    Option (List amd_xgbe_phy_an) :=
  let r := phy_read_mmd bus (s.log Action.mutex_lock_an) MDIO_MMD_AN MDIO_AN_INT
  if r.1 = 0 then some []
  else an_again_phases bus fuel (an_next_int bus r.2 r.1).2 (an_next_int bus r.2 r.1).1

/-- No page-received and no incompatible-link event is pending in the snapshot `v`. -/
def an_calm (v : Int) : Prop := ¬ (an_event v).1.in_progress

/-- A state between two page-received events of an exchange of next pages: the phase is
PAGE_RECEIVED, the KR rx sub-state XNP, in KR mode, the interrupt register holding the
page-received bit. -/
def phy_xnp_page : Phy RegFile :=
  { phy_init (regs_kr 4 128) with
    an_state := AMD_XGBE_AN_PAGE_RECEIVED, an_result := AMD_XGBE_AN_PAGE_RECEIVED,
    kr_state := AMD_XGBE_RX_XNP, an_supported := 1 }

/-- A state with the phase PAGE_RECEIVED over the hardware on which the next read of the
PCS control register 2 fails. -/
def phy_page_fail : Phy (Bool × RegFile) :=
  { phy_init (true, regs_kr_ready) with
    an_state := AMD_XGBE_AN_PAGE_RECEIVED, an_result := AMD_XGBE_AN_PAGE_RECEIVED }

/-- Where a trace stands with respect to the global lock of the SerDes and the rate
change of a channel: the lock is free; the lock is held and no rate change has begun;
the rate change has begun (the begin write is done, the complete write is not); the
complete write is done and `polls` polls of the ready flags have been made, none of
which showed the channel ready; `amd_xgbe_phy_serdes_complete_ratechange` has returned
(a poll showed the channel ready, or the budget of polls is used up). -/
inductive serdes_phase where
  | free
  | held
  | begun
  | polling (polls : Nat)
  | returned
  deriving DecidableEq, Repr

/-- One step of the strict check of the locking and bracket discipline on a trace, for
the channel `channel`.  The state is `none` after a violation, and otherwise the phase
with the number of SerDes Rx/Tx writes seen so far.  With the lock free, every access to
a SerDes register (CMU or Rx/Tx, read or write) and every release of the lock is a
violation.  With the lock held, only the read of `CMU_REG16` and the write of `CMU_REG16`
that sets the two rate-change bits of the channel (begin) are allowed.  After begin, only
reads and writes of SerDes Rx/Tx registers, the read of `CMU_REG16` and the write of
`CMU_REG16` that clears the two bits (complete) are allowed.  After the complete write,
only the delay and the read of `CMU_REG15` of a poll are allowed, and the polling ends
with the poll that shows both ready bits of the channel or is the last of the budget
`XGBE_PHY_RATECHANGE_COUNT`.  The lock is released only after that, and nothing else is
allowed there. -/
def serdes_step (channel : Nat) (st : Option (serdes_phase × Nat)) (a : Action) :
    Option (serdes_phase × Nat) :=
  match st, a with
  | none, _ => none
  | some (serdes_phase.free, n), Action.spin_lock_cmu => some (serdes_phase.held, n)
  | some (serdes_phase.free, _), Action.spin_unlock_cmu => none
  | some (serdes_phase.free, _), Action.cmu_read _ _ => none
  | some (serdes_phase.free, _), Action.cmu_write _ _ => none
  | some (serdes_phase.free, _), Action.rxtx_read _ _ => none
  | some (serdes_phase.free, _), Action.rxtx_write _ _ => none
  | some (serdes_phase.free, n), _ => some (serdes_phase.free, n)
  | some (serdes_phase.held, n), Action.cmu_read reg _ =>
    if reg = CMU_REG16 then some (serdes_phase.held, n) else none
  | some (serdes_phase.held, n), Action.cmu_write reg val =>
    if reg = CMU_REG16 ∧ val &&& ratechange_mask channel = ratechange_mask channel then
      some (serdes_phase.begun, n)
    else none
  | some (serdes_phase.held, _), _ => none
  | some (serdes_phase.begun, n), Action.rxtx_read _ _ => some (serdes_phase.begun, n)
  | some (serdes_phase.begun, n), Action.rxtx_write _ _ => some (serdes_phase.begun, n + 1)
  | some (serdes_phase.begun, n), Action.cmu_read reg _ =>
    if reg = CMU_REG16 then some (serdes_phase.begun, n) else none
  | some (serdes_phase.begun, n), Action.cmu_write reg val =>
    if reg = CMU_REG16 ∧ val &&& ratechange_mask channel = 0 then
      some (serdes_phase.polling 0, n)
    else none
  | some (serdes_phase.begun, _), _ => none
  | some (serdes_phase.polling k, n), Action.udelay _ => some (serdes_phase.polling k, n)
  | some (serdes_phase.polling k, n), Action.cmu_read reg val =>
    if reg = CMU_REG15 then
      if val &&& ready_mask channel = ready_mask channel ∨ k + 1 = XGBE_PHY_RATECHANGE_COUNT then
        some (serdes_phase.returned, n)
      else some (serdes_phase.polling (k + 1), n)
    else none
  | some (serdes_phase.polling _, _), _ => none
  | some (serdes_phase.returned, n), Action.spin_unlock_cmu => some (serdes_phase.free, n)
  | some (serdes_phase.returned, _), _ => none

/-- The strict check of the locking and bracket discipline on a whole trace, from the
phase `free` with no write counted. -/
def serdes_run (channel : Nat) (trace : List Action) : Option (serdes_phase × Nat) :=
  trace.foldl (serdes_step channel) (some (serdes_phase.free, 0))

/-- A read of the KR training control register.  Each of the three mode-programming
routines starts with this read (in `amd_xgbe_an_disable_kr_training`), and
`amd_xgbe_phy_switch_mode` runs exactly one of them, so each call of
`amd_xgbe_phy_switch_mode` shows in the trace as one such read. -/
def Action.mode_entry : Action → Bool
  | Action.mdio_read d r _ => decide (d = MDIO_MMD_PMAPMD ∧ r = MDIO_PMA_10GBR_PMD_CTRL)
  | _ => false

/-- The number of reads of the KR training control register in a trace. -/
def mode_entries (trace : List Action) : Nat := trace.countP Action.mode_entry

/-- The register-file hardware on which the link is up in KX mode only: a read of the PCS
status register shows the link-status bit exactly if the PCS type field does not denote
10GBASE-R; every other access is that of `regfile`. -/
def link_in_kx_hw : Hw RegFile :=
  { regfile with
    mdio_read := fun h d r =>
      if d = MDIO_MMD_PCS ∧ r = MDIO_STAT1 then
        (((if h.mdio_regs MDIO_MMD_PCS MDIO_CTRL2 &&& MDIO_PCS_CTRL2_TYPE = MDIO_PCS_CTRL2_10GBR
          then 0 else MDIO_STAT1_LSTATUS : Nat) : Int), h)
      else ((h.mdio_regs d r : Int), h) }

/-- A driver state at rest in KR mode whose link was down at the last update. -/
def phy_link_down : Phy RegFile :=
  { phy_init regs_kr_ready with priv_link := 0 }

/-- A driver state at rest in KX mode with the link up, the link having been down at the
last update, auto-negotiation disabled and the speed forced to 10G. -/
def phy_forced_10g : Phy RegFile :=
  { phy_status 0x20 0 with autoneg := 0, speed := SPEED_10000, duplex := DUPLEX_FULL }

/-- What the history keeps of one execution of the state switch of the worker: the phase
that was handled, the phase the switch left (for PAGE_RECEIVED and INCOMPAT_LINK the
return value of the handler), and `parallel_detect` after the switch. -/
structure an_record where
  handled : amd_xgbe_phy_an
  outcome : amd_xgbe_phy_an
  parallel_detect : Nat
  deriving DecidableEq, Repr

/-- The record of the execution of the state switch in state `s`. -/
def an_pass_record (bus : Hw σ) (s : Phy σ) : an_record :=
  ⟨s.an_state, (an_switch bus s).an_state, (an_switch bus s).parallel_detect⟩

/-- The records of the executions of the state switch made by `an_again`, in order; the
recursion is that of `an_again`. -/
def an_again_records (bus : Hw σ) : Nat → Phy σ → Int → Option (List an_record)
  | 0, _, _ => none
  | fuel + 1, s, int_reg =>
    let p := an_pass bus s int_reg
    if s.an_state ≠ p.2.an_state then
      (an_again_records bus fuel p.2 p.1).map (fun l => an_pass_record bus s :: l)
    else if p.1 ≠ 0 then
      (an_again_records bus fuel (an_next_int bus p.2 p.1).2 (an_next_int bus p.2 p.1).1).map
        (fun l => an_pass_record bus s :: l)
    else some [an_pass_record bus s]

/-- The records of the executions of the state switch made by one invocation of the
worker: none when the interrupt register reads zero. -/
def an_state_machine_records (bus : Hw σ) (fuel : Nat) (s : Phy σ) :
    Option (List an_record) :=
  let r := phy_read_mmd bus (s.log Action.mutex_lock_an) MDIO_MMD_AN MDIO_AN_INT
  if r.1 = 0 then some []
  else an_again_records bus fuel (an_next_int bus r.2 r.1).2 (an_next_int bus r.2 r.1).1

/-- A successful page-received cycle: the PAGE_RECEIVED phase was handled and the
handler returned PAGE_RECEIVED. -/
def an_record.page_cycle (x : an_record) : Bool :=
  decide (x.handled = AMD_XGBE_AN_PAGE_RECEIVED ∧ x.outcome = AMD_XGBE_AN_PAGE_RECEIVED)

/-- The number of successful page-received cycles in a row at the end of a history that
started with `c` of them: a successful cycle adds one, every other record (an
incompatible-link event, a failed cycle, the end of a negotiation) starts the count
again. -/
def page_cycles_from (c : Nat) (l : List an_record) : Nat :=
  l.foldl (fun n x => if x.page_cycle then n + 1 else 0) c

/-- The number of successful page-received cycles in a row at the end of a history. -/
def page_cycles (l : List an_record) : Nat := page_cycles_from 0 l

/-- One step of the history of a device as far as the negotiation is concerned: an
invocation of the worker, a call of `amd_xgbe_phy_config_aneg` (which restarts the
negotiation), or a change of the hardware state from outside (the link partner, the
interrupt logic). -/
inductive an_step (σ : Type) where
  | work
  | config_aneg
  | outside (f : σ → σ)

/-- The state after one step of a history, and the records the step adds. -/
def an_step.run (bus : Hw σ) (s : Phy σ) : an_step σ → Phy σ × List an_record
  | an_step.work =>
    (((amd_xgbe_an_state_machine bus 16 s).map Prod.fst).getD s,
     (an_state_machine_records bus 16 s).getD [])
  | an_step.config_aneg => ((amd_xgbe_phy_config_aneg bus s).2, [])
  | an_step.outside f => ({ s with hw := f s.hw }, [])

/-- The state after a history of steps, and the records of the executions of the state
switch made in it, in order. -/
def an_history (bus : Hw σ) : Phy σ → List (an_step σ) → Phy σ × List an_record
  | s, [] => (s, [])
  | s, st :: rest =>
    ((an_history bus (st.run bus s).1 rest).1,
     (st.run bus s).2 ++ (an_history bus (st.run bus s).1 rest).2)

/-- The count is that of state `x`. -/
def Phy.same_count (x y : Phy σ) : Prop := y.an_supported = x.an_supported

/-- What the history says about `parallel_detect`: in a history that starts with a count
of `c` successful page-received cycles, known (`k`) to be the value of `an_supported`
modulo 2 ^ 32 or not, every record of a handled COMPLETE phase at which the count is
known has `parallel_detect` 1 if the count is 0 modulo 2 ^ 32 and 0 otherwise.  The
count becomes known with the first record that is not a successful page-received
cycle. -/
def detect_follows_count (k : Bool) (c : Nat) : List an_record → Prop
  | [] => True
  | x :: xs =>
    (x.handled = AMD_XGBE_AN_COMPLETE → k = true →
      x.parallel_detect = if c % 4294967296 = 0 then 1 else 0) ∧
    detect_follows_count (k || !x.page_cycle) (page_cycles_from c [x]) xs

/-- A history in which a successful page-received cycle is followed by a complete event:
the worker runs on the page-received interrupt, the hardware then raises the complete
interrupt, and the worker runs again. -/
def steps_page_complete : List (an_step RegFile) :=
  [an_step.work, an_step.outside (fun _ => regs_kr 1 128), an_step.work]

/-- A history in which the device is configured and the complete event arrives with no
page received: `amd_xgbe_phy_config_aneg` runs, the hardware raises the complete
interrupt, and the worker runs. -/
def steps_complete : List (an_step RegFile) :=
  [an_step.config_aneg, an_step.outside (fun _ => regs_kr 1 0), an_step.work]

/-- A history in which a successful page-received cycle is followed by two complete
events: the worker runs on the page-received interrupt, and then twice on a complete
interrupt raised by the hardware. -/
def steps_page_complete_twice : List (an_step RegFile) :=
  [an_step.work, an_step.outside (fun _ => regs_kr 1 128), an_step.work,
   an_step.outside (fun _ => regs_kr 1 128), an_step.work]

/-! # Theorems -/

theorem an_need_pos (a : amd_xgbe_phy_an) (v : Int) : 1 ≤ an_need a v := by
  cases a <;> simp [an_need] <;> omega

theorem an_weight_le (v : Int) : an_weight v ≤ 9 := by
  unfold an_weight
  split_ifs <;> omega

theorem clear_bits_and (n m b : Nat) :
    clear_bits n m &&& b = n &&& ((4294967295 ^^^ m) &&& b) := by
  unfold clear_bits
  exact Nat.and_assoc _ _ _

theorem an_weight_natCast (k : Nat) : an_weight (k : Int) =
    if k = 0 then 0 else 2 + (if k &&& XGBE_AN_PG_RCV ≠ 0 then 3 else 0)
    + (if k &&& XGBE_AN_INC_LINK ≠ 0 then 2 else 0)
    + (if k &&& XGBE_AN_INT_CMPLT ≠ 0 then 2 else 0) := by
  unfold an_weight
  have h : ¬ ((k : Int) < 0) := by omega
  simp [h]

theorem an_event_need (v : Int) (hv : v ≠ 0) :
    an_need (an_event v).1 (int_clear_bits v (an_event v).2) ≤ an_weight v := by
  by_cases hneg : v < 0
  · have h1 : an_event v = (AMD_XGBE_AN_ERROR, XGBE_AN_INT_MASK) := by simp [an_event, hneg]
    rw [h1]; simp [an_need, an_weight, hneg, hv]
  · obtain ⟨n, rfl⟩ : ∃ n : Nat, v = n := ⟨v.toNat, by omega⟩
    have hn : n ≠ 0 := by intro h; apply hv; simp [h]
    have hc : ∀ m, int_clear_bits (n : Int) m = ((clear_bits n m : Nat) : Int) := by
      intro m; simp [int_clear_bits]
    rw [hc, an_weight_natCast]
    simp only [an_event, hneg, if_false, Int.toNat_ofNat, hn]
    have e42 : (4294967295 ^^^ XGBE_AN_PG_RCV) &&& XGBE_AN_PG_RCV = 0 := by decide
    have e41 : (4294967295 ^^^ XGBE_AN_PG_RCV) &&& XGBE_AN_INC_LINK = XGBE_AN_INC_LINK := by decide
    have e40 : (4294967295 ^^^ XGBE_AN_PG_RCV) &&& XGBE_AN_INT_CMPLT = XGBE_AN_INT_CMPLT := by decide
    have e22 : (4294967295 ^^^ XGBE_AN_INC_LINK) &&& XGBE_AN_PG_RCV = XGBE_AN_PG_RCV := by decide
    have e21 : (4294967295 ^^^ XGBE_AN_INC_LINK) &&& XGBE_AN_INC_LINK = 0 := by decide
    have e20 : (4294967295 ^^^ XGBE_AN_INC_LINK) &&& XGBE_AN_INT_CMPLT = XGBE_AN_INT_CMPLT := by decide
    have e12 : (4294967295 ^^^ XGBE_AN_INT_CMPLT) &&& XGBE_AN_PG_RCV = XGBE_AN_PG_RCV := by decide
    have e11 : (4294967295 ^^^ XGBE_AN_INT_CMPLT) &&& XGBE_AN_INC_LINK = XGBE_AN_INC_LINK := by decide
    have e10 : (4294967295 ^^^ XGBE_AN_INT_CMPLT) &&& XGBE_AN_INT_CMPLT = 0 := by decide
    by_cases h2 : n &&& XGBE_AN_PG_RCV = 0 <;> by_cases h1 : n &&& XGBE_AN_INC_LINK = 0 <;>
      by_cases h0 : n &&& XGBE_AN_INT_CMPLT = 0 <;>
      simp only [h2, h1, h0, an_need, an_weight_natCast, clear_bits_and, e42, e41, e40, e22, e21,
        e20, e12, e11, e10, Nat.and_zero, ne_eq, not_true_eq_false, not_false_eq_true, if_true,
        if_false] <;>
      (try split_ifs) <;> omega

theorem tx_training_range (bus : Hw σ) (s : Phy σ) (p : rx_state_ptr) :
    (amd_xgbe_an_tx_training bus s p).1 = AMD_XGBE_AN_PAGE_RECEIVED ∨
    (amd_xgbe_an_tx_training bus s p).1 = AMD_XGBE_AN_ERROR := by
  unfold amd_xgbe_an_tx_training
  lift_lets
  intros
  split_ifs <;> simp

theorem tx_xnp_range (bus : Hw σ) (s : Phy σ) (p : rx_state_ptr) :
    (amd_xgbe_an_tx_xnp bus s p).1 = AMD_XGBE_AN_PAGE_RECEIVED := rfl

theorem rx_bpa_range (bus : Hw σ) (s : Phy σ) (p : rx_state_ptr) :
    (amd_xgbe_an_rx_bpa bus s p).1 = AMD_XGBE_AN_PAGE_RECEIVED ∨
    (amd_xgbe_an_rx_bpa bus s p).1 = AMD_XGBE_AN_INCOMPAT_LINK ∨
    (amd_xgbe_an_rx_bpa bus s p).1 = AMD_XGBE_AN_ERROR := by
  unfold amd_xgbe_an_rx_bpa
  lift_lets
  intro r k ls ad lp
  split_ifs
  · simp
  · simp
  · simp
  · simp
  · simp [tx_xnp_range]
  · rcases tx_training_range bus lp.2 p with h | h <;> simp [h]

theorem rx_xnp_range (bus : Hw σ) (s : Phy σ) (p : rx_state_ptr) :
    (amd_xgbe_an_rx_xnp bus s p).1 = AMD_XGBE_AN_PAGE_RECEIVED ∨
    (amd_xgbe_an_rx_xnp bus s p).1 = AMD_XGBE_AN_ERROR := by
  unfold amd_xgbe_an_rx_xnp
  lift_lets
  intro ad lp
  split_ifs
  · simp
  · simp
  · simp [tx_xnp_range]
  · exact tx_training_range bus lp.2 p

theorem page_received_range (bus : Hw σ) (s : Phy σ) :
    (amd_xgbe_an_page_received bus s).1 = AMD_XGBE_AN_PAGE_RECEIVED ∨
    (amd_xgbe_an_page_received bus s).1 = AMD_XGBE_AN_INCOMPAT_LINK ∨
    (amd_xgbe_an_page_received bus s).1 = AMD_XGBE_AN_ERROR := by
  unfold amd_xgbe_an_page_received
  lift_lets
  intro k st
  split
  · exact rx_bpa_range bus k.2 st
  · rcases rx_xnp_range bus k.2 st with h | h <;> simp [h]
  · simp

theorem incompat_link_switch_range (bus : Hw σ) (s : Phy σ) :
    (an_incompat_link_switch bus s).1 = AMD_XGBE_AN_INCOMPAT_LINK ∨
    (an_incompat_link_switch bus s).1 = AMD_XGBE_AN_ERROR := by
  unfold an_incompat_link_switch
  lift_lets
  intros
  split_ifs <;> simp

theorem incompat_link_range (bus : Hw σ) (s : Phy σ) :
    (amd_xgbe_an_incompat_link bus s).1 = AMD_XGBE_AN_INCOMPAT_LINK ∨
    (amd_xgbe_an_incompat_link bus s).1 = AMD_XGBE_AN_NO_LINK ∨
    (amd_xgbe_an_incompat_link bus s).1 = AMD_XGBE_AN_ERROR := by
  unfold amd_xgbe_an_incompat_link
  simp only []
  split_ifs <;> first
    | exact Or.inr (Or.inl rfl)
    | exact (incompat_link_switch_range bus _).elim Or.inl (fun h => Or.inr (Or.inr h))

theorem frame_refl (x : Phy σ) : x.frame x := rfl

theorem frame_trans {x y z : Phy σ} (h1 : x.frame y) (h2 : y.frame z) : x.frame z := by
  unfold Phy.frame at *
  rw [h2, h1]

theorem frame_via {x y z : Phy σ} (h : y.frame z) : x.frame z ↔ x.frame y := by
  constructor
  · intro hz
    unfold Phy.frame at *
    rw [hz] at h
    cases x; cases y; cases z
    simp only [Phy.mk.injEq] at *
    simp_all
  · intro hy
    exact frame_trans hy h

theorem frame_read (bus : Hw σ) (x : Phy σ) (d r : Nat) : x.frame (phy_read_mmd bus x d r).2 := rfl
theorem frame_write (bus : Hw σ) (x : Phy σ) (d r v : Nat) : x.frame (phy_write_mmd bus x d r v) := rfl
theorem frame_log (x : Phy σ) (a : Action) : x.frame (x.log a) := rfl

@[simp] theorem frame_read_iff (bus : Hw σ) (x y : Phy σ) (d r : Nat) :
    x.frame (phy_read_mmd bus y d r).2 ↔ x.frame y := frame_via (frame_read bus y d r)
@[simp] theorem frame_write_iff (bus : Hw σ) (x y : Phy σ) (d r v : Nat) :
    x.frame (phy_write_mmd bus y d r v) ↔ x.frame y := frame_via (frame_write bus y d r v)
@[simp] theorem frame_log_iff (x y : Phy σ) (a : Action) :
    x.frame (y.log a) ↔ x.frame y := frame_via (frame_log y a)

theorem frame_set_an (bus : Hw σ) (x : Phy σ) (e r : Bool) :
    x.frame (amd_xgbe_phy_set_an bus x e r).2 := by
  unfold amd_xgbe_phy_set_an
  simp only []
  split_ifs <;> simp [frame_refl]

theorem frame_an_state {x y : Phy σ} (h : x.frame y) : y.an_state = x.an_state := by
  rw [h]

theorem an_stop_state (bus : Hw σ) (s : Phy σ) (v : Int) :
    (an_stop bus s v).2.an_state = s.an_state := by
  unfold an_stop
  split_ifs
  · exact frame_an_state (frame_trans (frame_set_an bus s false false) (frame_write bus _ _ _ _))
  · rfl
  · rfl

theorem an_weight_zero : an_weight 0 = 0 := rfl
theorem an_stop_int (bus : Hw σ) (s : Phy σ) (v : Int) :
    (an_stop bus s v).1 =
      if s.an_state = AMD_XGBE_AN_NO_LINK ∨ s.an_state = AMD_XGBE_AN_ERROR then 0 else v := by
  unfold an_stop
  split_ifs <;> simp_all

theorem an_latch_state (s : Phy σ) :
    (an_latch s).an_state =
      if AMD_XGBE_AN_COMPLETE.val ≤ s.an_state.val then AMD_XGBE_AN_READY else s.an_state := by
  unfold an_latch
  split_ifs <;> rfl

theorem an_pass_state (bus : Hw σ) (s : Phy σ) (v : Int) :
    (an_pass bus s v).2.an_state =
      if AMD_XGBE_AN_COMPLETE.val ≤ (an_switch bus s).an_state.val then AMD_XGBE_AN_READY
      else (an_switch bus s).an_state := by
  simp only [an_pass, an_latch_state, an_stop_state]

theorem an_pass_int (bus : Hw σ) (s : Phy σ) (v : Int) :
    (an_pass bus s v).1 =
      if (an_switch bus s).an_state = AMD_XGBE_AN_NO_LINK ∨
        (an_switch bus s).an_state = AMD_XGBE_AN_ERROR then 0 else v := by
  simp only [an_pass, an_stop_int]

/-- Each pass uses up some of the need. -/
theorem an_pass_need (bus : Hw σ) (s : Phy σ) (v : Int) :
    (s.an_state ≠ (an_pass bus s v).2.an_state →
      an_need (an_pass bus s v).2.an_state (an_pass bus s v).1 < an_need s.an_state v) ∧
    (s.an_state = (an_pass bus s v).2.an_state →
      an_weight (an_pass bus s v).1 < an_need s.an_state v) := by
  rw [an_pass_state, an_pass_int]
  cases hs : s.an_state
  · have e : (an_switch bus s).an_state = AMD_XGBE_AN_READY := by
      unfold an_switch; simp [hs]
    simp [e, an_need, amd_xgbe_phy_an.val]
  · have e : (an_switch bus s).an_state = (amd_xgbe_an_page_received bus s).1 := by
      unfold an_switch; simp [hs]
    rcases page_received_range bus s with h1 | h1 | h1 <;>
      (simp [e, h1, an_need, amd_xgbe_phy_an.val, an_weight_zero] <;> omega)
  · have e : (an_switch bus s).an_state =
        (amd_xgbe_an_incompat_link bus { s with an_supported := 0, parallel_detect := 0 }).1 := by
      unfold an_switch; simp [hs]
    rcases incompat_link_range bus { s with an_supported := 0, parallel_detect := 0 }
      with h1 | h1 | h1 <;>
      (simp [e, h1, an_need, amd_xgbe_phy_an.val, an_weight_zero] <;> omega)
  · have e : (an_switch bus s).an_state = AMD_XGBE_AN_COMPLETE := by
      unfold an_switch; simp [hs]
    simp [e, an_need, amd_xgbe_phy_an.val]
  · have e : (an_switch bus s).an_state = AMD_XGBE_AN_NO_LINK := by
      unfold an_switch; simp [hs]
    simp [e, an_need, amd_xgbe_phy_an.val, an_weight_zero]
  · have e : (an_switch bus s).an_state = AMD_XGBE_AN_ERROR := by
      unfold an_switch; simp [hs]
    simp [e, an_need, amd_xgbe_phy_an.val, an_weight_zero]

theorem an_next_int_state (bus : Hw σ) (s : Phy σ) (v : Int) :
    (an_next_int bus s v).2.an_state = (an_event v).1 := rfl

theorem an_next_int_int (bus : Hw σ) (s : Phy σ) (v : Int) :
    (an_next_int bus s v).1 = int_clear_bits v (an_event v).2 := rfl

/-- With fuel for the need of the phase and the snapshot, the worker reaches `out`. -/
theorem an_again_terminates (bus : Hw σ) (fuel : Nat) :
    ∀ (s : Phy σ) (v : Int), an_need s.an_state v ≤ fuel →
      ∃ f n, an_again bus fuel s v = some (f, n) ∧ n ≤ an_need s.an_state v := by
  induction fuel with
  | zero =>
    intro s v h
    have := an_need_pos s.an_state v
    omega
  | succ fuel ih =>
    intro s v h
    have hp := an_pass_need bus s v
    unfold an_again
    simp only []
    by_cases h1 : s.an_state = (an_pass bus s v).2.an_state
    · by_cases h2 : (an_pass bus s v).1 = 0
      · exact ⟨(an_pass bus s v).2, 1, by simp [h1.symm, h2], an_need_pos _ _⟩
      · have hw := hp.2 h1
        have hn := an_event_need (an_pass bus s v).1 h2
        obtain ⟨f, n, e, hle⟩ := ih (an_next_int bus (an_pass bus s v).2 (an_pass bus s v).1).2
          (an_next_int bus (an_pass bus s v).2 (an_pass bus s v).1).1
          (by rw [an_next_int_state, an_next_int_int]; omega)
        refine ⟨f, n + 1, by simp [h1.symm, h2, e], ?_⟩
        rw [an_next_int_state, an_next_int_int] at hle
        omega
    · have hw := hp.1 h1
      obtain ⟨f, n, e, hle⟩ := ih (an_pass bus s v).2 (an_pass bus s v).1 (by omega)
      exact ⟨f, n + 1, by simp [h1, e], by omega⟩

theorem frame_cmu_read (bus : Hw σ) (x : Phy σ) (r : Nat) : x.frame (XCMU_IOREAD bus x r).2 := rfl
theorem frame_cmu_write (bus : Hw σ) (x : Phy σ) (r v : Nat) : x.frame (XCMU_IOWRITE bus x r v) := rfl
theorem frame_rxtx_write_bits (bus : Hw σ) (x : Phy σ) (r i w v : Nat) :
    x.frame (XRXTX_IOWRITE_BITS bus x r i w v) := rfl

@[simp] theorem frame_cmu_read_iff (bus : Hw σ) (x y : Phy σ) (r : Nat) :
    x.frame (XCMU_IOREAD bus y r).2 ↔ x.frame y := frame_via (frame_cmu_read bus y r)
@[simp] theorem frame_cmu_write_iff (bus : Hw σ) (x y : Phy σ) (r v : Nat) :
    x.frame (XCMU_IOWRITE bus y r v) ↔ x.frame y := frame_via (frame_cmu_write bus y r v)
@[simp] theorem frame_rxtx_write_bits_iff (bus : Hw σ) (x y : Phy σ) (r i w v : Nat) :
    x.frame (XRXTX_IOWRITE_BITS bus y r i w v) ↔ x.frame y :=
  frame_via (frame_rxtx_write_bits bus y r i w v)

theorem frame_disable_kr_training (bus : Hw σ) (x : Phy σ) :
    x.frame (amd_xgbe_an_disable_kr_training bus x).2 := by
  unfold amd_xgbe_an_disable_kr_training
  simp only []
  split_ifs <;> simp [frame_refl]

@[simp] theorem frame_disable_kr_training_iff (bus : Hw σ) (x y : Phy σ) :
    x.frame (amd_xgbe_an_disable_kr_training bus y).2 ↔ x.frame y :=
  frame_via (frame_disable_kr_training bus y)

theorem frame_pcs_power_cycle (bus : Hw σ) (x : Phy σ) :
    x.frame (amd_xgbe_phy_pcs_power_cycle bus x).2 := by
  unfold amd_xgbe_phy_pcs_power_cycle
  simp only []
  split_ifs <;> simp [frame_refl]

@[simp] theorem frame_pcs_power_cycle_iff (bus : Hw σ) (x y : Phy σ) :
    x.frame (amd_xgbe_phy_pcs_power_cycle bus y).2 ↔ x.frame y :=
  frame_via (frame_pcs_power_cycle bus y)

theorem frame_start_ratechange (bus : Hw σ) (x : Phy σ) :
    x.frame (amd_xgbe_phy_serdes_start_ratechange bus x) := rfl

@[simp] theorem frame_start_ratechange_iff (bus : Hw σ) (x y : Phy σ) :
    x.frame (amd_xgbe_phy_serdes_start_ratechange bus y) ↔ x.frame y :=
  frame_via (frame_start_ratechange bus y)

theorem frame_ratechange_wait (bus : Hw σ) (mask n : Nat) :
    ∀ x : Phy σ, x.frame (ratechange_wait bus mask n x) := by
  induction n with
  | zero => intro x; exact frame_refl x
  | succ n ih =>
    intro x
    unfold ratechange_wait
    simp only []
    split_ifs
    · simp [frame_refl]
    · exact frame_trans (frame_trans (frame_log x _) (frame_cmu_read bus _ _)) (ih _)

theorem frame_complete_ratechange (bus : Hw σ) (x : Phy σ) :
    x.frame (amd_xgbe_phy_serdes_complete_ratechange bus x) := by
  unfold amd_xgbe_phy_serdes_complete_ratechange
  simp only []
  exact frame_trans (frame_trans (frame_cmu_read bus x _) (frame_cmu_write bus _ _ _))
    (frame_ratechange_wait bus _ _ _)

@[simp] theorem frame_complete_ratechange_iff (bus : Hw σ) (x y : Phy σ) :
    x.frame (amd_xgbe_phy_serdes_complete_ratechange bus y) ↔ x.frame y :=
  frame_via (frame_complete_ratechange bus y)

theorem frame_xgmii_mode (bus : Hw σ) (x : Phy σ) : x.frame (amd_xgbe_phy_xgmii_mode bus x).2 := by
  unfold amd_xgbe_phy_xgmii_mode
  simp only []
  split_ifs <;> simp [frame_refl]

theorem frame_gmii_2500_mode (bus : Hw σ) (x : Phy σ) :
    x.frame (amd_xgbe_phy_gmii_2500_mode bus x).2 := by
  unfold amd_xgbe_phy_gmii_2500_mode
  simp only []
  split_ifs <;> simp [frame_refl]

theorem frame_gmii_mode (bus : Hw σ) (x : Phy σ) : x.frame (amd_xgbe_phy_gmii_mode bus x).2 := by
  unfold amd_xgbe_phy_gmii_mode
  simp only []
  split_ifs <;> simp [frame_refl]

theorem frame_cur_mode (bus : Hw σ) (x : Phy σ) : x.frame (amd_xgbe_phy_cur_mode bus x).2 := by
  unfold amd_xgbe_phy_cur_mode
  simp only []
  split_ifs <;> simp [frame_refl]

theorem frame_in_kr_mode (bus : Hw σ) (x : Phy σ) : x.frame (amd_xgbe_phy_in_kr_mode bus x).2 := by
  unfold amd_xgbe_phy_in_kr_mode
  split <;> exact frame_cur_mode bus x

@[simp] theorem frame_in_kr_mode_iff (bus : Hw σ) (x y : Phy σ) :
    x.frame (amd_xgbe_phy_in_kr_mode bus y).2 ↔ x.frame y := frame_via (frame_in_kr_mode bus y)

theorem frame_switch_mode (bus : Hw σ) (x : Phy σ) : x.frame (amd_xgbe_phy_switch_mode bus x).2 := by
  unfold amd_xgbe_phy_switch_mode
  simp only []
  split_ifs
  · exact frame_trans (frame_in_kr_mode bus x) (frame_gmii_mode bus _)
  · exact frame_trans (frame_in_kr_mode bus x) (frame_gmii_2500_mode bus _)
  · exact frame_trans (frame_in_kr_mode bus x) (frame_xgmii_mode bus _)

theorem frame_set_mode (bus : Hw σ) (x : Phy σ) (m : amd_xgbe_phy_mode) :
    x.frame (amd_xgbe_phy_set_mode bus x m).2 := by
  unfold amd_xgbe_phy_set_mode
  split
  · exact frame_cur_mode bus x
  · split_ifs
    · exact frame_trans (frame_cur_mode bus x) (frame_switch_mode bus _)
    · exact frame_cur_mode bus x

theorem frame_rx_refl (x : Phy σ) : x.frame_rx x := rfl

theorem frame_rx_trans {x y z : Phy σ} (h1 : x.frame_rx y) (h2 : y.frame_rx z) : x.frame_rx z := by
  unfold Phy.frame_rx at *
  rw [h2, h1]

theorem frame_rx_of_frame {x y : Phy σ} (h : x.frame y) : x.frame_rx y := by
  unfold Phy.frame at h
  unfold Phy.frame_rx
  rw [h]

theorem frame_rx_store (x : Phy σ) (p : rx_state_ptr) (v : amd_xgbe_phy_rx) :
    x.frame_rx (x.rx_store p v) := by
  cases p <;> rfl

theorem frame_rx_tx_training (bus : Hw σ) (x : Phy σ) (p : rx_state_ptr) :
    x.frame_rx (amd_xgbe_an_tx_training bus x p).2 := by
  have h0 := frame_rx_store x p AMD_XGBE_RX_COMPLETE
  refine frame_rx_trans h0 (frame_rx_of_frame ?_)
  unfold amd_xgbe_an_tx_training
  simp only []
  split_ifs <;> simp [frame_refl]

theorem frame_rx_tx_xnp (bus : Hw σ) (x : Phy σ) (p : rx_state_ptr) :
    x.frame_rx (amd_xgbe_an_tx_xnp bus x p).2 := by
  have h0 := frame_rx_store x p AMD_XGBE_RX_XNP
  refine frame_rx_trans h0 (frame_rx_of_frame ?_)
  unfold amd_xgbe_an_tx_xnp
  simp [frame_refl]

theorem frame_rx_rx_bpa (bus : Hw σ) (x : Phy σ) (p : rx_state_ptr) :
    x.frame_rx (amd_xgbe_an_rx_bpa bus x p).2 := by
  unfold amd_xgbe_an_rx_bpa
  simp only []
  split_ifs <;> first
    | exact frame_rx_of_frame (by simp [frame_refl])
    | exact frame_rx_trans (frame_rx_of_frame (by simp [frame_refl])) (frame_rx_tx_xnp bus _ p)
    | exact frame_rx_trans (frame_rx_of_frame (by simp [frame_refl])) (frame_rx_tx_training bus _ p)

theorem frame_rx_rx_xnp (bus : Hw σ) (x : Phy σ) (p : rx_state_ptr) :
    x.frame_rx (amd_xgbe_an_rx_xnp bus x p).2 := by
  unfold amd_xgbe_an_rx_xnp
  simp only []
  split_ifs <;> first
    | exact frame_rx_of_frame (by simp [frame_refl])
    | exact frame_rx_trans (frame_rx_of_frame (by simp [frame_refl])) (frame_rx_tx_xnp bus _ p)
    | exact frame_rx_trans (frame_rx_of_frame (by simp [frame_refl])) (frame_rx_tx_training bus _ p)

theorem frame_rx_page_received (bus : Hw σ) (x : Phy σ) :
    x.frame_rx (amd_xgbe_an_page_received bus x).2 := by
  unfold amd_xgbe_an_page_received
  simp only []
  split
  · exact frame_rx_trans (frame_rx_of_frame (frame_in_kr_mode bus x)) (frame_rx_rx_bpa bus _ _)
  · exact frame_rx_trans (frame_rx_of_frame (frame_in_kr_mode bus x)) (frame_rx_rx_xnp bus _ _)
  · exact frame_rx_of_frame (frame_in_kr_mode bus x)

theorem frame_incompat_link_switch (bus : Hw σ) (x : Phy σ) :
    x.frame (an_incompat_link_switch bus x).2 := by
  unfold an_incompat_link_switch amd_xgbe_phy_disable_an amd_xgbe_phy_restart_an
  simp only []
  split_ifs
  · exact frame_set_an bus x _ _
  · exact frame_trans (frame_set_an bus x _ _) (frame_switch_mode bus _)
  · exact frame_trans (frame_trans (frame_set_an bus x _ _) (frame_switch_mode bus _))
      (frame_set_an bus _ _ _)
  · exact frame_trans (frame_trans (frame_set_an bus x _ _) (frame_switch_mode bus _))
      (frame_set_an bus _ _ _)

theorem frame_rx_incompat_link (bus : Hw σ) (x : Phy σ) :
    x.frame_rx (amd_xgbe_an_incompat_link bus x).2 := by
  have hk := frame_in_kr_mode bus x
  have h1 : x.frame_rx { (amd_xgbe_phy_in_kr_mode bus x).2 with kr_state := AMD_XGBE_RX_ERROR } := by
    unfold Phy.frame at hk; unfold Phy.frame_rx; rw [hk]
  have h2 : x.frame_rx { (amd_xgbe_phy_in_kr_mode bus x).2 with kx_state := AMD_XGBE_RX_ERROR } := by
    unfold Phy.frame at hk; unfold Phy.frame_rx; rw [hk]
  unfold amd_xgbe_an_incompat_link
  simp only []
  split_ifs
  · exact h1
  · exact h1
  · exact frame_rx_trans h1 (frame_rx_of_frame (frame_incompat_link_switch bus _))
  · exact h2
  · exact h2
  · exact frame_rx_trans h2 (frame_rx_of_frame (frame_incompat_link_switch bus _))

/-- The fields that a step which changes the hardware, the trace and the rx
sub-states only leaves alone. -/
theorem frame_rx_fields {x y : Phy σ} (h : x.frame_rx y) :
    y.an_state = x.an_state ∧ y.an_result = x.an_result ∧ y.an_supported = x.an_supported ∧
    y.parallel_detect = x.parallel_detect ∧ y.supported = x.supported ∧
    y.speed_set = x.speed_set ∧ y.serdes_channel = x.serdes_channel := by
  unfold Phy.frame_rx at h
  rw [h]
  simp

/-- More fuel does not change a result. -/
theorem an_again_mono (bus : Hw σ) (fuel : Nat) :
    ∀ (s : Phy σ) (v : Int) (r : Phy σ × Nat), an_again bus fuel s v = some r →
      an_again bus (fuel + 1) s v = some r := by
  induction fuel with
  | zero => intro s v r h; simp [an_again] at h
  | succ fuel ih =>
    intro s v r h
    unfold an_again at h ⊢
    simp only [] at h ⊢
    split_ifs at h ⊢ with h1 h2
    · rw [Option.map_eq_some'] at h ⊢
      obtain ⟨a, ha, e⟩ := h
      exact ⟨a, ih _ _ _ ha, e⟩
    · rw [Option.map_eq_some'] at h ⊢
      obtain ⟨a, ha, e⟩ := h
      exact ⟨a, ih _ _ _ ha, e⟩
    · exact h

theorem an_again_mono_le (bus : Hw σ) (s : Phy σ) (v : Int) (r : Phy σ × Nat) (fuel : Nat)
    (h : an_again bus fuel s v = some r) :
    ∀ k, an_again bus (fuel + k) s v = some r := by
  intro k
  induction k with
  | zero => exact h
  | succ k ih => exact an_again_mono bus _ s v r ih

/-- For every hardware behaviour and driver state the worker reaches the label `out`
within 16 executions of the state switch, whatever the fuel from 16 on. -/
theorem an_state_machine_terminates (bus : Hw σ) (s : Phy σ) :
    ∃ f n, amd_xgbe_an_state_machine bus 16 s = some (f, n) ∧ n ≤ 16 ∧
      ∀ fuel, 16 ≤ fuel → amd_xgbe_an_state_machine bus fuel s = some (f, n) := by
  unfold amd_xgbe_an_state_machine
  simp only []
  split_ifs with h0
  · exact ⟨_, 0, rfl, by omega, fun _ _ => rfl⟩
  · have hn := an_event_need _ h0
    have hw := an_weight_le (phy_read_mmd bus (s.log Action.mutex_lock_an) MDIO_MMD_AN MDIO_AN_INT).1
    obtain ⟨f, n, e, hle⟩ := an_again_terminates bus 16 (an_next_int bus
      (phy_read_mmd bus (s.log Action.mutex_lock_an) MDIO_MMD_AN MDIO_AN_INT).2
      (phy_read_mmd bus (s.log Action.mutex_lock_an) MDIO_MMD_AN MDIO_AN_INT).1).2
      (an_next_int bus
      (phy_read_mmd bus (s.log Action.mutex_lock_an) MDIO_MMD_AN MDIO_AN_INT).2
      (phy_read_mmd bus (s.log Action.mutex_lock_an) MDIO_MMD_AN MDIO_AN_INT).1).1
      (by rw [an_next_int_state, an_next_int_int]; omega)
    rw [an_next_int_state, an_next_int_int] at hle
    refine ⟨(f.log Action.enable_irq).log Action.mutex_unlock_an, n, by simp [e], by omega, ?_⟩
    intro fuel hf
    obtain ⟨k, rfl⟩ : ∃ k, fuel = 16 + k := ⟨fuel - 16, by omega⟩
    simp [an_again_mono_le bus _ _ _ 16 e k]

/-- C1: for every hardware behaviour (every value of the interrupt-register read,
error included, and every outcome of the reads made by the handlers) and every
driver state, one invocation of the negotiation worker reaches the label `out` after
at most 16 executions of the state switch; more fuel changes nothing. -/
theorem C1_worker_terminates (bus : Hw σ) (s : Phy σ) :
    ∃ f n, amd_xgbe_an_state_machine bus 16 s = some (f, n) ∧ n ≤ 16 ∧
      ∀ fuel, 16 ≤ fuel → amd_xgbe_an_state_machine bus fuel s = some (f, n) :=
  an_state_machine_terminates bus s

theorem an_again_succ (bus : Hw σ) (fuel : Nat) (s : Phy σ) (v : Int) :
    an_again bus (fuel + 1) s v =
      if s.an_state ≠ (an_pass bus s v).2.an_state then
        (an_again bus fuel (an_pass bus s v).2 (an_pass bus s v).1).map (fun r => (r.1, r.2 + 1))
      else if (an_pass bus s v).1 ≠ 0 then
        (an_again bus fuel (an_next_int bus (an_pass bus s v).2 (an_pass bus s v).1).2
          (an_next_int bus (an_pass bus s v).2 (an_pass bus s v).1).1).map
          (fun r => (r.1, r.2 + 1))
      else some ((an_pass bus s v).2, 1) := by
  rw [an_again]

theorem an_pass_ready (bus : Hw σ) (s : Phy σ) (v : Int) (h : s.an_state = AMD_XGBE_AN_READY) :
    an_pass bus s v = (v, { s with an_supported := 0 }) := by
  simp [an_pass, an_switch, an_stop, an_latch, h, amd_xgbe_phy_an.val]

theorem an_pass_complete (bus : Hw σ) (s : Phy σ) (v : Int)
    (h : s.an_state = AMD_XGBE_AN_COMPLETE) :
    an_pass bus s v = (v, { s with parallel_detect := if s.an_supported ≠ 0 then 0 else 1,
                                   an_result := AMD_XGBE_AN_COMPLETE,
                                   an_state := AMD_XGBE_AN_READY,
                                   kr_state := AMD_XGBE_RX_BPA, kx_state := AMD_XGBE_RX_BPA }) := by
  simp [an_pass, an_switch, an_stop, an_latch, h, amd_xgbe_phy_an.val]

theorem an_pass_page_received (bus : Hw σ) (s : Phy σ) (v : Int)
    (h : s.an_state = AMD_XGBE_AN_PAGE_RECEIVED)
    (hok : (amd_xgbe_an_page_received bus s).1 = AMD_XGBE_AN_PAGE_RECEIVED) :
    an_pass bus s v = (v, { (amd_xgbe_an_page_received bus s).2 with
      an_state := AMD_XGBE_AN_PAGE_RECEIVED,
      an_supported := (s.an_supported + 1) % 4294967296 }) := by
  have hf := (frame_rx_fields (frame_rx_page_received bus s)).2.2.1
  simp [an_pass, an_switch, an_stop, an_latch, h, hok, amd_xgbe_phy_an.val, hf]

/-- In phase READY with nothing pending the worker leaves at the next test. -/
theorem an_again_ready (bus : Hw σ) (fuel : Nat) (s : Phy σ)
    (h : s.an_state = AMD_XGBE_AN_READY) :
    an_again bus (fuel + 1) s 0 = some ({ s with an_supported := 0 }, 1) := by
  rw [an_again_succ, an_pass_ready bus s 0 h]
  simp [h]

theorem an_event_one : an_event 1 = (AMD_XGBE_AN_COMPLETE, XGBE_AN_INT_CMPLT) := by decide
theorem int_clear_bits_one : int_clear_bits 1 XGBE_AN_INT_CMPLT = 0 := by decide

/-- In phase COMPLETE with nothing pending the worker sets `parallel_detect`, latches
the result, passes through READY and leaves. -/
theorem an_again_complete (bus : Hw σ) (fuel : Nat) (s : Phy σ)
    (h : s.an_state = AMD_XGBE_AN_COMPLETE) :
    an_again bus (fuel + 2) s 0 =
      some ({ s with parallel_detect := if s.an_supported ≠ 0 then 0 else 1,
                     an_result := AMD_XGBE_AN_COMPLETE, an_state := AMD_XGBE_AN_READY,
                     kr_state := AMD_XGBE_RX_BPA, kx_state := AMD_XGBE_RX_BPA,
                     an_supported := 0 }, 2) := by
  rw [an_again_succ, an_pass_complete bus s 0 h]
  simp only [h, ne_eq, reduceCtorEq, not_false_eq_true, if_true]
  rw [an_again_ready bus fuel _ rfl]
  rfl

theorem terminal_iff (a : amd_xgbe_phy_an) :
    a.terminal ↔ AMD_XGBE_AN_COMPLETE.val ≤ a.val := by
  cases a <;> simp [amd_xgbe_phy_an.terminal, amd_xgbe_phy_an.val]

theorem an_switch_result (bus : Hw σ) (s : Phy σ) :
    (an_switch bus s).an_result = s.an_result := by
  unfold an_switch
  split
  · rfl
  · exact (frame_rx_fields (frame_rx_page_received bus s)).2.1
  · exact (frame_rx_fields (frame_rx_incompat_link bus _)).2.1
  · rfl
  · rfl
  · rfl

theorem an_stop_frame (bus : Hw σ) (s : Phy σ) (v : Int) : s.frame (an_stop bus s v).2 := by
  unfold an_stop amd_xgbe_phy_disable_an
  split_ifs
  · exact frame_trans (frame_set_an bus s false false) (frame_write bus _ _ _ _)
  · exact frame_write bus _ _ _ _
  · exact frame_refl s

theorem an_stop_result (bus : Hw σ) (s : Phy σ) (v : Int) :
    (an_stop bus s v).2.an_result = s.an_result := by
  have h := an_stop_frame bus s v
  unfold Phy.frame at h
  rw [h]

theorem an_pass_terminal (bus : Hw σ) (s : Phy σ) (v : Int)
    (h : (an_switch bus s).an_state.terminal) :
    (an_pass bus s v).2 = { (an_stop bus (an_switch bus s) v).2 with
      an_result := (an_switch bus s).an_state, an_state := AMD_XGBE_AN_READY,
      kr_state := AMD_XGBE_RX_BPA, kx_state := AMD_XGBE_RX_BPA } := by
  unfold an_pass an_latch
  simp only [an_stop_state, if_pos ((terminal_iff _).mp h)]

theorem an_pass_not_terminal (bus : Hw σ) (s : Phy σ) (v : Int)
    (h : ¬ (an_switch bus s).an_state.terminal) :
    an_pass bus s v = (v, an_switch bus s) := by
  have h1 : ¬ AMD_XGBE_AN_COMPLETE.val ≤ (an_switch bus s).an_state.val := by
    rw [← terminal_iff]; exact h
  have h2 : (an_switch bus s).an_state ≠ AMD_XGBE_AN_NO_LINK := by
    intro e; exact h (Or.inr (Or.inl e))
  have h3 : (an_switch bus s).an_state ≠ AMD_XGBE_AN_ERROR := by
    intro e; exact h (Or.inr (Or.inr e))
  unfold an_pass an_latch an_stop
  simp [h1, h2, h3]

theorem an_switch_ready_iff (bus : Hw σ) (s : Phy σ) :
    (an_switch bus s).an_state = AMD_XGBE_AN_READY ↔ s.an_state = AMD_XGBE_AN_READY := by
  cases hs : s.an_state
  · simp [an_switch, hs]
  · have e : (an_switch bus s).an_state = (amd_xgbe_an_page_received bus s).1 := by
      unfold an_switch; simp [hs]
    rcases page_received_range bus s with h1 | h1 | h1 <;> simp [e, h1]
  · have e : (an_switch bus s).an_state =
        (amd_xgbe_an_incompat_link bus { s with an_supported := 0, parallel_detect := 0 }).1 := by
      unfold an_switch; simp [hs]
    rcases incompat_link_range bus { s with an_supported := 0, parallel_detect := 0 }
      with h1 | h1 | h1 <;> simp [e, h1]
  · simp [an_switch, hs]
  · simp [an_switch, hs]
  · simp [an_switch, hs]

/-- A phase in progress is reached by the switch from a phase in progress only. -/
theorem an_switch_in_progress (bus : Hw σ) (s : Phy σ)
    (h : (an_switch bus s).an_state.in_progress) : s.an_state.in_progress := by
  cases hs : s.an_state
  · have e : (an_switch bus s).an_state = AMD_XGBE_AN_READY := by simp [an_switch, hs]
    simp [e, amd_xgbe_phy_an.in_progress] at h
  · exact Or.inl rfl
  · exact Or.inr rfl
  · have e : (an_switch bus s).an_state = AMD_XGBE_AN_COMPLETE := by simp [an_switch, hs]
    simp [e, amd_xgbe_phy_an.in_progress] at h
  · have e : (an_switch bus s).an_state = AMD_XGBE_AN_NO_LINK := by simp [an_switch, hs]
    simp [e, amd_xgbe_phy_an.in_progress] at h
  · have e : (an_switch bus s).an_state = AMD_XGBE_AN_ERROR := by simp [an_switch, hs]
    simp [e, amd_xgbe_phy_an.in_progress] at h

theorem an_phase_cases (a : amd_xgbe_phy_an) :
    a = AMD_XGBE_AN_READY ∨ a.in_progress ∨ a.terminal := by
  cases a <;> simp [amd_xgbe_phy_an.in_progress, amd_xgbe_phy_an.terminal]

/-- One pass keeps the relation of `an_state` and `an_result`, and ends in READY or
in a phase in progress. -/
theorem an_pass_inv (bus : Hw σ) (s : Phy σ) (v : Int) (h : an_inv s) :
    an_inv (an_pass bus s v).2 ∧ an_at_rest (an_pass bus s v).2 := by
  have key : an_at_rest (an_pass bus s v).2 := by
    rcases an_phase_cases (an_switch bus s).an_state with h1 | h1 | h1
    · have hn : ¬ (an_switch bus s).an_state.terminal := by
        rw [h1]; simp [amd_xgbe_phy_an.terminal]
      rw [an_pass_not_terminal bus s v hn]
      exact Or.inl ⟨h1, by rw [an_switch_result]; exact h.1 ((an_switch_ready_iff bus s).mp h1)⟩
    · have hn : ¬ (an_switch bus s).an_state.terminal := by
        rcases h1 with h1 | h1 <;> rw [h1] <;> simp [amd_xgbe_phy_an.terminal]
      rw [an_pass_not_terminal bus s v hn]
      exact Or.inr ⟨h1, by rw [an_switch_result]; exact h.2 (an_switch_in_progress bus s h1)⟩
    · rw [an_pass_terminal bus s v h1]
      exact Or.inl ⟨rfl, h1⟩
  refine ⟨?_, key⟩
  rcases key with ⟨k1, k2⟩ | ⟨k1, k2⟩
  · exact ⟨fun _ => k2, fun hp => by
      rw [k1] at hp; simp [amd_xgbe_phy_an.in_progress] at hp⟩
  · exact ⟨fun hr => by
      rw [hr] at k1; simp [amd_xgbe_phy_an.in_progress] at k1, fun _ => k2⟩

theorem an_event_phase (v : Int) :
    (an_event v).1.in_progress ∨ (an_event v).1.terminal := by
  unfold an_event
  split_ifs <;> simp [amd_xgbe_phy_an.in_progress, amd_xgbe_phy_an.terminal]

theorem an_next_int_result (bus : Hw σ) (s : Phy σ) (v : Int) :
    (an_next_int bus s v).2.an_result = (an_event v).1 := rfl

theorem an_next_int_inv (bus : Hw σ) (s : Phy σ) (v : Int) : an_inv (an_next_int bus s v).2 := by
  unfold an_inv
  rw [an_next_int_state, an_next_int_result]
  refine ⟨fun h => ?_, fun h => h⟩
  rcases an_event_phase v with h1 | h1
  · rw [h] at h1; simp [amd_xgbe_phy_an.in_progress] at h1
  · exact h1

/-- The worker returns from the label `again` at rest. -/
theorem an_again_at_rest (bus : Hw σ) (fuel : Nat) :
    ∀ (s : Phy σ) (v : Int) (r : Phy σ × Nat), an_inv s → an_again bus fuel s v = some r →
      an_at_rest r.1 := by
  induction fuel with
  | zero => intro s v r _ h; simp [an_again] at h
  | succ fuel ih =>
    intro s v r hinv h
    rw [an_again_succ] at h
    have hp := an_pass_inv bus s v hinv
    split_ifs at h with h1 h2
    · rw [Option.map_eq_some'] at h
      obtain ⟨a, ha, e⟩ := h
      rw [← e]
      exact ih _ _ a hp.1 ha
    · rw [Option.map_eq_some'] at h
      obtain ⟨a, ha, e⟩ := h
      rw [← e]
      exact ih _ _ a (an_next_int_inv bus _ _) ha
    · cases h
      exact hp.2

theorem in_kr_mode_state (bus : Hw σ) (s : Phy σ) :
    (amd_xgbe_phy_in_kr_mode bus s).2 = (phy_read_mmd bus s MDIO_MMD_PCS MDIO_CTRL2).2 := by
  unfold amd_xgbe_phy_in_kr_mode amd_xgbe_phy_cur_mode
  simp only []
  split <;> split_ifs <;> rfl

theorem cur_mode_state (bus : Hw σ) (s : Phy σ) :
    (amd_xgbe_phy_cur_mode bus s).2 = (phy_read_mmd bus s MDIO_MMD_PCS MDIO_CTRL2).2 := by
  unfold amd_xgbe_phy_cur_mode
  simp only []
  split_ifs <;> rfl

/-- C3: in KX mode on a device whose feature set lacks 10000baseKR_Full, the
incompatible-link handler returns NO_LINK and marks the KX rx sub-state ERROR; its
only access to the outside is the one read of the PCS type that determines the mode:
no register is written, no mode switch is attempted. -/
theorem C3_incompat_link_kx_without_kr (bus : Hw σ) (s : Phy σ)
    (hkx : (amd_xgbe_phy_in_kr_mode bus s).1 = false)
    (hsup : s.supported &&& SUPPORTED_10000baseKR_Full = 0) :
    (amd_xgbe_an_incompat_link bus s).1 = AMD_XGBE_AN_NO_LINK ∧
    (amd_xgbe_an_incompat_link bus s).2 =
      { s with kx_state := AMD_XGBE_RX_ERROR,
               hw := (bus.mdio_read s.hw MDIO_MMD_PCS MDIO_CTRL2).2,
               trace := s.trace ++ [Action.mdio_read MDIO_MMD_PCS MDIO_CTRL2
                 (bus.mdio_read s.hw MDIO_MMD_PCS MDIO_CTRL2).1] } := by
  have h2 : ({ (phy_read_mmd bus s MDIO_MMD_PCS MDIO_CTRL2).2 with
      kx_state := AMD_XGBE_RX_ERROR } : Phy σ).supported &&& SUPPORTED_10000baseKR_Full = 0 := hsup
  unfold amd_xgbe_an_incompat_link
  simp only [hkx, in_kr_mode_state, Bool.false_eq_true, if_false, h2, if_true]
  exact ⟨trivial, rfl⟩

/-- C3, witness: a KX-only device in KX mode. -/
theorem C3_incompat_link_kx_without_kr_witness :
    (amd_xgbe_an_incompat_link regfile phy_kx_only).1 = AMD_XGBE_AN_NO_LINK ∧
    (amd_xgbe_an_incompat_link regfile phy_kx_only).2 =
      { phy_kx_only with
          kx_state := AMD_XGBE_RX_ERROR,
          hw := (regfile.mdio_read phy_kx_only.hw MDIO_MMD_PCS MDIO_CTRL2).2,
          trace := phy_kx_only.trace ++ [Action.mdio_read MDIO_MMD_PCS MDIO_CTRL2
            (regfile.mdio_read phy_kx_only.hw MDIO_MMD_PCS MDIO_CTRL2).1] } :=
  C3_incompat_link_kx_without_kr regfile phy_kx_only (by decide) (by decide)

/-- C4: when the PCS type read from control register 2 already denotes the target
mode (10GBASE-R for KR, any other type for KX), `amd_xgbe_phy_set_mode` returns 0 and
its only access to the outside is that one read: nothing is written. -/
theorem C4_set_mode_same_mode (bus : Hw σ) (s : Phy σ) (mode : amd_xgbe_phy_mode)
    (hread : 0 ≤ (bus.mdio_read s.hw MDIO_MMD_PCS MDIO_CTRL2).1)
    (hmode : mode = AMD_XGBE_MODE_KR ↔
      (bus.mdio_read s.hw MDIO_MMD_PCS MDIO_CTRL2).1.toNat &&& MDIO_PCS_CTRL2_TYPE
        = MDIO_PCS_CTRL2_10GBR) :
    amd_xgbe_phy_set_mode bus s mode =
      (0, { s with hw := (bus.mdio_read s.hw MDIO_MMD_PCS MDIO_CTRL2).2,
                   trace := s.trace ++ [Action.mdio_read MDIO_MMD_PCS MDIO_CTRL2
                     (bus.mdio_read s.hw MDIO_MMD_PCS MDIO_CTRL2).1] }) := by
  have hn : ¬ (phy_read_mmd bus s MDIO_MMD_PCS MDIO_CTRL2).1 < 0 := not_lt.mpr hread
  have hv : (phy_read_mmd bus s MDIO_MMD_PCS MDIO_CTRL2).1
      = (bus.mdio_read s.hw MDIO_MMD_PCS MDIO_CTRL2).1 := rfl
  unfold amd_xgbe_phy_set_mode
  rw [cur_mode_state]
  unfold amd_xgbe_phy_cur_mode
  simp only [hn, if_false]
  by_cases hk : (bus.mdio_read s.hw MDIO_MMD_PCS MDIO_CTRL2).1.toNat &&& MDIO_PCS_CTRL2_TYPE
      = MDIO_PCS_CTRL2_10GBR
  · have hm : mode = AMD_XGBE_MODE_KR := hmode.mpr hk
    simp [hv, hk, hm]
    rfl
  · have hm : mode = AMD_XGBE_MODE_KX := by
      cases mode
      · exact absurd (hmode.mp rfl) hk
      · rfl
    simp [hv, hk, hm]
    rfl

/-- C4, witness: both targets over the register-file hardware, where the hardware
state itself is unchanged. -/
theorem C4_set_mode_same_mode_witness :
    amd_xgbe_phy_set_mode regfile (phy_init (regs_kr 0 0)) AMD_XGBE_MODE_KR =
      (0, { phy_init (regs_kr 0 0) with trace := [Action.mdio_read MDIO_MMD_PCS MDIO_CTRL2 0] }) ∧
    amd_xgbe_phy_set_mode regfile (phy_init (regs_kx 0 0)) AMD_XGBE_MODE_KX =
      (0, { phy_init (regs_kx 0 0) with trace := [Action.mdio_read MDIO_MMD_PCS MDIO_CTRL2 1] }) :=
  ⟨C4_set_mode_same_mode regfile (phy_init (regs_kr 0 0)) AMD_XGBE_MODE_KR (by decide) (by decide),
   C4_set_mode_same_mode regfile (phy_init (regs_kx 0 0)) AMD_XGBE_MODE_KX (by decide) (by decide)⟩

/-- C8: when the switch leaves the phase at COMPLETE, NO_LINK or ERROR, the pass
latches `an_result` to that phase and resets `an_state` to READY and both rx
sub-states to BPA; and when nothing is pending after that pass (the event was the
last one), the worker returns, after one more pass through READY, with `an_result`
that phase, `an_state` READY, both rx sub-states BPA and `an_supported` 0. -/
theorem C8_latch_and_reset (bus : Hw σ) (s : Phy σ) (v : Int)
    (h : (an_switch bus s).an_state.terminal) :
    (an_pass bus s v).2.an_result = (an_switch bus s).an_state ∧
    (an_pass bus s v).2.an_state = AMD_XGBE_AN_READY ∧
    (an_pass bus s v).2.kr_state = AMD_XGBE_RX_BPA ∧
    (an_pass bus s v).2.kx_state = AMD_XGBE_RX_BPA ∧
    ((an_pass bus s v).1 = 0 → ∀ fuel, 2 ≤ fuel →
      ∃ f, an_again bus fuel s v = some (f, 2) ∧
        f.an_result = (an_switch bus s).an_state ∧ f.an_state = AMD_XGBE_AN_READY ∧
        f.kr_state = AMD_XGBE_RX_BPA ∧ f.kx_state = AMD_XGBE_RX_BPA ∧ f.an_supported = 0) := by
  have hp := an_pass_terminal bus s v h
  have hs : s.an_state ≠ AMD_XGBE_AN_READY := by
    intro e
    rw [(an_switch_ready_iff bus s).mpr e] at h
    simp [amd_xgbe_phy_an.terminal] at h
  have hr : (an_pass bus s v).2.an_state = AMD_XGBE_AN_READY := by rw [hp]
  refine ⟨by rw [hp], hr, by rw [hp], by rw [hp], ?_⟩
  intro h0 fuel hfuel
  obtain ⟨k, rfl⟩ : ∃ k, fuel = k + 2 := ⟨fuel - 2, by omega⟩
  rw [an_again_succ, if_pos (by rw [hr]; exact hs), h0, an_again_ready bus k _ hr]
  refine ⟨_, rfl, ?_⟩
  rw [hp]
  exact ⟨rfl, rfl, rfl, rfl, rfl⟩

/-- C8, witness: the complete event as the last event. -/
theorem C8_latch_and_reset_witness :
    (an_pass regfile (phy_complete 1) 0).2.an_result = AMD_XGBE_AN_COMPLETE ∧
    (an_pass regfile (phy_complete 1) 0).2.an_state = AMD_XGBE_AN_READY ∧
    (an_pass regfile (phy_complete 1) 0).2.kr_state = AMD_XGBE_RX_BPA ∧
    (an_pass regfile (phy_complete 1) 0).2.kx_state = AMD_XGBE_RX_BPA ∧
    ∃ f, an_again regfile 2 (phy_complete 1) 0 = some (f, 2) ∧
        f.an_result = AMD_XGBE_AN_COMPLETE ∧ f.an_state = AMD_XGBE_AN_READY ∧
        f.kr_state = AMD_XGBE_RX_BPA ∧ f.kx_state = AMD_XGBE_RX_BPA ∧ f.an_supported = 0 :=
  have h := C8_latch_and_reset regfile (phy_complete 1) 0 (Or.inl rfl)
  ⟨h.1, h.2.1, h.2.2.1, h.2.2.2.1, h.2.2.2.2 rfl 2 (le_refl 2)⟩

theorem an_event_four : an_event 4 = (AMD_XGBE_AN_PAGE_RECEIVED, XGBE_AN_PG_RCV) := by decide
theorem int_clear_bits_four : int_clear_bits 4 XGBE_AN_PG_RCV = 0 := by decide

/-- A successful page-received pass with nothing pending ends the worker with the
phase and the result both PAGE_RECEIVED, provided the result was PAGE_RECEIVED. -/
theorem an_again_page_received (bus : Hw σ) (fuel : Nat) (s : Phy σ)
    (h : s.an_state = AMD_XGBE_AN_PAGE_RECEIVED)
    (hok : (amd_xgbe_an_page_received bus s).1 = AMD_XGBE_AN_PAGE_RECEIVED) :
    an_again bus (fuel + 1) s 0 = some ({ (amd_xgbe_an_page_received bus s).2 with
      an_state := AMD_XGBE_AN_PAGE_RECEIVED,
      an_supported := (s.an_supported + 1) % 4294967296 }, 1) := by
  rw [an_again_succ, an_pass_page_received bus s 0 h hok]
  simp [h]

/-- C9 (amended): a worker invocation that reads a zero interrupt register leaves
`an_result` unchanged; any other invocation returns either with `an_state` READY and
`an_result` one of COMPLETE, NO_LINK, ERROR, or with `an_state` and `an_result` both
among PAGE_RECEIVED and INCOMPAT_LINK; and a snapshot with only the page-received bit
whose handler succeeds returns with `an_result = an_state = PAGE_RECEIVED`. -/
theorem C9_an_result (bus : Hw σ) (s : Phy σ) :
    ∃ f n, amd_xgbe_an_state_machine bus 16 s = some (f, n) ∧
      ((bus.mdio_read s.hw MDIO_MMD_AN MDIO_AN_INT).1 = 0 → f.an_result = s.an_result) ∧
      ((bus.mdio_read s.hw MDIO_MMD_AN MDIO_AN_INT).1 ≠ 0 → an_at_rest f) ∧
      ((bus.mdio_read s.hw MDIO_MMD_AN MDIO_AN_INT).1 = 4 →
        (amd_xgbe_an_page_received bus (an_next_int bus
          (phy_read_mmd bus (s.log Action.mutex_lock_an) MDIO_MMD_AN MDIO_AN_INT).2 4).2).1
          = AMD_XGBE_AN_PAGE_RECEIVED →
        f.an_result = AMD_XGBE_AN_PAGE_RECEIVED ∧ f.an_state = AMD_XGBE_AN_PAGE_RECEIVED ∧
          n = 1) := by
  obtain ⟨f, n, e, -, -⟩ := an_state_machine_terminates bus s
  refine ⟨f, n, e, ?_, ?_, ?_⟩
  · intro h0
    have h0' : (phy_read_mmd bus (s.log Action.mutex_lock_an) MDIO_MMD_AN MDIO_AN_INT).1 = 0 := h0
    unfold amd_xgbe_an_state_machine at e
    simp only [h0', if_true, Option.some.injEq, Prod.mk.injEq] at e
    rw [← e.1]
    rfl
  · intro h0
    have h0' : (phy_read_mmd bus (s.log Action.mutex_lock_an) MDIO_MMD_AN MDIO_AN_INT).1 ≠ 0 := h0
    unfold amd_xgbe_an_state_machine at e
    simp only [h0', if_false] at e
    rw [Option.map_eq_some'] at e
    obtain ⟨a, ha, ea⟩ := e
    have hr := an_again_at_rest bus 16 _ _ a (an_next_int_inv bus _ _) ha
    cases ea
    exact hr
  · intro h4 hok
    have h4' : (phy_read_mmd bus (s.log Action.mutex_lock_an) MDIO_MMD_AN MDIO_AN_INT).1 = 4 := h4
    unfold amd_xgbe_an_state_machine at e
    simp only [h4', OfNat.ofNat_ne_zero, if_false] at e
    rw [an_next_int_int, an_event_four, int_clear_bits_four,
      an_again_page_received bus 15 _ (by rw [an_next_int_state, an_event_four]) hok] at e
    simp only [Option.map_some', Option.some.injEq, Prod.mk.injEq] at e
    obtain ⟨e1, e2⟩ := e
    have hres := (frame_rx_fields (frame_rx_page_received bus (an_next_int bus
      (phy_read_mmd bus (s.log Action.mutex_lock_an) MDIO_MMD_AN MDIO_AN_INT).2 4).2)).2.1
    rw [an_next_int_result, an_event_four] at hres
    rw [← e1, ← e2]
    exact ⟨hres, rfl, rfl⟩

/-- C9, witness: the register-file hardware with only the page-received bit set. -/
theorem C9_an_result_witness :
    ∃ f n, amd_xgbe_an_state_machine regfile 16 phy_done_page = some (f, n) ∧
      an_at_rest f ∧ f.an_result = AMD_XGBE_AN_PAGE_RECEIVED ∧
      f.an_state = AMD_XGBE_AN_PAGE_RECEIVED ∧ n = 1 := by
  obtain ⟨f, n, e, -, h2, h3⟩ := C9_an_result regfile phy_done_page
  exact ⟨f, n, e, h2 (by decide), h3 (by decide) (by decide)⟩

/-- C9, counterexample: the result was COMPLETE; the interrupt register holds only the
page-received bit and the page handler succeeds, so no event of the invocation reaches
COMPLETE, NO_LINK or ERROR; the worker returns with `an_result = PAGE_RECEIVED`. -/
theorem C9_counterexample :
    phy_done_page.an_result = AMD_XGBE_AN_COMPLETE ∧
    (amd_xgbe_an_state_machine regfile 16 phy_done_page).map
      (fun r => (r.1.an_result, r.1.an_state, r.2)) =
      some (AMD_XGBE_AN_PAGE_RECEIVED, AMD_XGBE_AN_PAGE_RECEIVED, 1) := by
  constructor <;> decide

theorem ratechange_begin_bits (v c : Nat) :
    (v ||| ratechange_mask c) % 65536 % 65536 &&& ratechange_mask c = ratechange_mask c := by
  have hm : ratechange_mask c < 65536 := Nat.mod_lt _ (by norm_num)
  apply Nat.eq_of_testBit_eq
  intro i
  have h16 : (65536 : Nat) = 2 ^ 16 := by norm_num
  simp only [Nat.testBit_and, h16, Nat.testBit_mod_two_pow, Nat.testBit_or]
  by_cases hi : i < 16
  · simp only [hi]
    cases v.testBit i <;> cases (ratechange_mask c).testBit i <;> rfl
  · have : (ratechange_mask c).testBit i = false := by
      apply Nat.testBit_lt_two_pow
      calc ratechange_mask c < 2 ^ 16 := by rw [← h16]; exact hm
        _ ≤ 2 ^ i := Nat.pow_le_pow_right (by norm_num) (by omega)
    simp [this]

theorem ratechange_end_bits (v c : Nat) :
    clear_bits v (ratechange_mask c) % 65536 % 65536 &&& ratechange_mask c = 0 := by
  apply Nat.eq_of_testBit_eq
  intro i
  have h16 : (65536 : Nat) = 2 ^ 16 := by norm_num
  have h32 : (4294967295 : Nat) = 2 ^ 32 - 1 := by norm_num
  simp only [clear_bits, Nat.testBit_and, h16, Nat.testBit_mod_two_pow, Nat.testBit_xor, h32,
    Nat.testBit_two_pow_sub_one, Nat.zero_testBit]
  by_cases hi : i < 16
  · have : i < 32 := by omega
    simp [hi, this]
  · simp [hi]

theorem frame_channel {x y : Phy σ} (h : x.frame y) : y.serdes_channel = x.serdes_channel := by
  rw [h]

theorem channel_rxtx_write_bits (bus : Hw σ) (s : Phy σ) (r i w v : Nat) :
    (XRXTX_IOWRITE_BITS bus s r i w v).serdes_channel = s.serdes_channel := rfl

theorem channel_start_ratechange (bus : Hw σ) (s : Phy σ) :
    (amd_xgbe_phy_serdes_start_ratechange bus s).serdes_channel = s.serdes_channel := rfl

theorem channel_log (s : Phy σ) (a : Action) : (s.log a).serdes_channel = s.serdes_channel := rfl

theorem channel_read (bus : Hw σ) (s : Phy σ) (d r : Nat) :
    (phy_read_mmd bus s d r).2.serdes_channel = s.serdes_channel := rfl

theorem channel_write (bus : Hw σ) (s : Phy σ) (d r v : Nat) :
    (phy_write_mmd bus s d r v).serdes_channel = s.serdes_channel := rfl

theorem channel_disable_kr_training (bus : Hw σ) (s : Phy σ) :
    (amd_xgbe_an_disable_kr_training bus s).2.serdes_channel = s.serdes_channel :=
  frame_channel (frame_disable_kr_training bus s)

theorem channel_pcs_power_cycle (bus : Hw σ) (s : Phy σ) :
    (amd_xgbe_phy_pcs_power_cycle bus s).2.serdes_channel = s.serdes_channel :=
  frame_channel (frame_pcs_power_cycle bus s)

theorem ready_polls_append (t : List Action) (a : Action) :
    ready_polls (t ++ [a]) = ready_polls t ++ (ready_poll a).toList := by
  unfold ready_polls
  rw [List.filterMap_append]
  cases h : ready_poll a <;> simp [List.filterMap, h]

theorem ready_polls_wait (bus : Hw σ) (mask n : Nat) :
    ∀ s : Phy σ, ∃ vs, ready_polls (ratechange_wait bus mask n s).trace
      = ready_polls s.trace ++ vs ∧ polls_until_ready bus mask n vs := by
  induction n with
  | zero =>
    intro s
    exact ⟨[], by simp [ratechange_wait], by simp [polls_until_ready]⟩
  | succ n ih =>
    intro s
    have h1 : ready_polls (XCMU_IOREAD bus (s.log (Action.udelay 50)) CMU_REG15).2.trace
        = ready_polls s.trace ++ [(XCMU_IOREAD bus (s.log (Action.udelay 50)) CMU_REG15).1] := by
      show ready_polls ((s.trace ++ [_]) ++ [_]) = _
      rw [ready_polls_append, ready_polls_append]
      simp [ready_poll, XCMU_IOREAD, Phy.log]
    have hv : ∃ hw, (XCMU_IOREAD bus (s.log (Action.udelay 50)) CMU_REG15).1
        = (bus.cmu_read hw CMU_REG15).1 % 65536 := ⟨s.hw, rfl⟩
    unfold ratechange_wait
    simp only []
    split_ifs with hr
    · refine ⟨[_], h1, ?_⟩
      refine ⟨by simp, by simp, ?_, by simp, ?_⟩
      · intro v hvm
        simp only [List.mem_singleton] at hvm
        rw [hvm]; exact hv
      · intro _
        exact ⟨_, rfl, hr⟩
    · obtain ⟨vs, e, p1, p2, p3, p4, p5⟩ := ih (XCMU_IOREAD bus (s.log (Action.udelay 50)) CMU_REG15).2
      refine ⟨(XCMU_IOREAD bus (s.log (Action.udelay 50)) CMU_REG15).1 :: vs, ?_, ?_⟩
      · rw [e, h1]; simp
      · refine ⟨by simp; omega, by simp, ?_, ?_, ?_⟩
        · intro v hvm
          rcases List.mem_cons.mp hvm with h | h
          · rw [h]; exact hv
          · exact p3 v h
        · intro v hvm
          cases vs with
          | nil => simp at hvm
          | cons a l =>
            rw [List.dropLast_cons₂] at hvm
            rcases List.mem_cons.mp hvm with h | h
            · rw [h]; exact hr
            · exact p4 v h
        · intro hl
          have hl' : vs.length < n := by simpa using hl
          obtain ⟨l, e1, e2⟩ := p5 hl'
          refine ⟨l, ?_, e2⟩
          cases vs with
          | nil => simp at e1
          | cons a t => simpa [List.getLast?_cons_cons] using e1

theorem polls_read (bus : Hw σ) (s : Phy σ) (d r : Nat) :
    ready_polls (phy_read_mmd bus s d r).2.trace = ready_polls s.trace := by
  show ready_polls (s.trace ++ [_]) = _
  rw [ready_polls_append]; simp [ready_poll]

theorem polls_write (bus : Hw σ) (s : Phy σ) (d r v : Nat) :
    ready_polls (phy_write_mmd bus s d r v).trace = ready_polls s.trace := by
  show ready_polls (s.trace ++ [_]) = _
  rw [ready_polls_append]; simp [ready_poll]

theorem polls_disable_kr_training (bus : Hw σ) (s : Phy σ) :
    ready_polls (amd_xgbe_an_disable_kr_training bus s).2.trace = ready_polls s.trace := by
  unfold amd_xgbe_an_disable_kr_training
  simp only []
  split_ifs <;> simp only [polls_read, polls_write]

theorem polls_pcs_power_cycle (bus : Hw σ) (s : Phy σ) :
    ready_polls (amd_xgbe_phy_pcs_power_cycle bus s).2.trace = ready_polls s.trace := by
  unfold amd_xgbe_phy_pcs_power_cycle
  simp only []
  split_ifs
  · simp only [polls_read]
  · simp only [polls_write, Phy.log, ready_polls_append, polls_read]
    simp [ready_poll]

theorem polls_start_ratechange (bus : Hw σ) (s : Phy σ) :
    ready_polls (amd_xgbe_phy_serdes_start_ratechange bus s).trace = ready_polls s.trace := by
  show ready_polls ((s.trace ++ [_]) ++ [_]) = _
  rw [ready_polls_append, ready_polls_append]
  simp [ready_poll, CMU_REG16, CMU_REG15]

theorem polls_rxtx_write_bits (bus : Hw σ) (s : Phy σ) (r i w v : Nat) :
    ready_polls (XRXTX_IOWRITE_BITS bus s r i w v).trace = ready_polls s.trace := by
  show ready_polls ((s.trace ++ [_]) ++ [_]) = _
  rw [ready_polls_append, ready_polls_append]
  simp [ready_poll]

theorem polls_log_lock (s : Phy σ) :
    ready_polls (s.log Action.spin_lock_cmu).trace = ready_polls s.trace := by
  show ready_polls (s.trace ++ [_]) = _
  rw [ready_polls_append]; simp [ready_poll]

theorem polls_log_unlock (s : Phy σ) :
    ready_polls (s.log Action.spin_unlock_cmu).trace = ready_polls s.trace := by
  show ready_polls (s.trace ++ [_]) = _
  rw [ready_polls_append]; simp [ready_poll]

theorem polls_complete_ratechange (bus : Hw σ) (s : Phy σ) :
    ∃ vs, ready_polls (amd_xgbe_phy_serdes_complete_ratechange bus s).trace
      = ready_polls s.trace ++ vs ∧
      polls_until_ready bus (ready_mask s.serdes_channel) XGBE_PHY_RATECHANGE_COUNT vs := by
  unfold amd_xgbe_phy_serdes_complete_ratechange
  simp only []
  obtain ⟨vs, e, p⟩ := ready_polls_wait bus (ready_mask s.serdes_channel)
    XGBE_PHY_RATECHANGE_COUNT (XCMU_IOWRITE bus (XCMU_IOREAD bus s CMU_REG16).2 CMU_REG16
      (clear_bits (XCMU_IOREAD bus s CMU_REG16).1 (ratechange_mask s.serdes_channel) % 65536))
  refine ⟨vs, ?_, p⟩
  rw [e]
  congr 1
  show ready_polls ((s.trace ++ [_]) ++ [_]) = _
  rw [ready_polls_append, ready_polls_append]
  simp [ready_poll, CMU_REG16, CMU_REG15]

/-- Hardware whose ready flags never come up leaves each call with exactly the whole
budget of polls. -/
theorem polls_stuck (bus : Hw σ) (mask n : Nat) (vs : List Nat)
    (hstuck : ∀ hw, (bus.cmu_read hw CMU_REG15).1 % 65536 &&& mask ≠ mask)
    (p : polls_until_ready bus mask n vs) : vs.length = n := by
  obtain ⟨p1, _, p3, _, p5⟩ := p
  by_contra hne
  obtain ⟨l, e1, e2⟩ := p5 (by omega)
  obtain ⟨hw, e⟩ := p3 l (List.mem_of_getLast?_eq_some e1)
  exact hstuck hw (e ▸ e2)

/-- The polls of the SerDes section of a mode-programming routine are those of its
call of `amd_xgbe_phy_serdes_complete_ratechange`. -/
theorem polls_section (bus : Hw σ) (s : Phy σ)
    (r1 i1 w1 v1 r2 i2 w2 v2 r3 i3 w3 v3 r4 i4 w4 v4 r5 i5 w5 v5 : Nat)
    (r6 i6 w6 v6 r7 i7 w7 v7 r8 i8 w8 v8 r9 i9 w9 v9 r10 i10 w10 v10 : Nat) :
    ∃ vs, ready_polls
      ((amd_xgbe_phy_serdes_complete_ratechange bus
        (XRXTX_IOWRITE_BITS bus (XRXTX_IOWRITE_BITS bus (XRXTX_IOWRITE_BITS bus
        (XRXTX_IOWRITE_BITS bus (XRXTX_IOWRITE_BITS bus (XRXTX_IOWRITE_BITS bus
        (XRXTX_IOWRITE_BITS bus (XRXTX_IOWRITE_BITS bus (XRXTX_IOWRITE_BITS bus
        (XRXTX_IOWRITE_BITS bus
          (amd_xgbe_phy_serdes_start_ratechange bus (s.log Action.spin_lock_cmu))
          r1 i1 w1 v1) r2 i2 w2 v2) r3 i3 w3 v3) r4 i4 w4 v4) r5 i5 w5 v5) r6 i6 w6 v6)
          r7 i7 w7 v7) r8 i8 w8 v8) r9 i9 w9 v9) r10 i10 w10 v10)).log
        Action.spin_unlock_cmu).trace = ready_polls s.trace ++ vs ∧
      polls_until_ready bus (ready_mask s.serdes_channel) XGBE_PHY_RATECHANGE_COUNT vs := by
  obtain ⟨vs, e, p⟩ := polls_complete_ratechange bus
    (XRXTX_IOWRITE_BITS bus (XRXTX_IOWRITE_BITS bus (XRXTX_IOWRITE_BITS bus
        (XRXTX_IOWRITE_BITS bus (XRXTX_IOWRITE_BITS bus (XRXTX_IOWRITE_BITS bus
        (XRXTX_IOWRITE_BITS bus (XRXTX_IOWRITE_BITS bus (XRXTX_IOWRITE_BITS bus
        (XRXTX_IOWRITE_BITS bus
          (amd_xgbe_phy_serdes_start_ratechange bus (s.log Action.spin_lock_cmu))
          r1 i1 w1 v1) r2 i2 w2 v2) r3 i3 w3 v3) r4 i4 w4 v4) r5 i5 w5 v5) r6 i6 w6 v6)
          r7 i7 w7 v7) r8 i8 w8 v8) r9 i9 w9 v9) r10 i10 w10 v10)
  simp only [channel_rxtx_write_bits, channel_start_ratechange, channel_log] at p
  refine ⟨vs, ?_, p⟩
  rw [polls_log_unlock, e]
  simp only [polls_rxtx_write_bits, polls_start_ratechange, polls_log_lock]

theorem read_ok (bus : Hw σ) (s : Phy σ) (d r : Nat)
    (hreads : ∀ hw d r, 0 ≤ (bus.mdio_read hw d r).1) : ¬ (phy_read_mmd bus s d r).1 < 0 :=
  not_lt.mpr (hreads _ _ _)

theorem disable_kr_training_ok (bus : Hw σ) (s : Phy σ)
    (hreads : ∀ hw d r, 0 ≤ (bus.mdio_read hw d r).1) :
    (amd_xgbe_an_disable_kr_training bus s).1 = 0 := by
  unfold amd_xgbe_an_disable_kr_training
  simp only []
  rw [if_neg (read_ok bus _ _ _ hreads)]

theorem pcs_power_cycle_ok (bus : Hw σ) (s : Phy σ)
    (hreads : ∀ hw d r, 0 ≤ (bus.mdio_read hw d r).1) :
    (amd_xgbe_phy_pcs_power_cycle bus s).1 = 0 := by
  unfold amd_xgbe_phy_pcs_power_cycle
  simp only []
  rw [if_neg (read_ok bus _ _ _ hreads)]

/-- With every management-interface read succeeding, a mode-programming routine
returns 0 whatever the ready flags show, after the polls of one call of
`amd_xgbe_phy_serdes_complete_ratechange`. -/
theorem polls_xgmii_mode (bus : Hw σ) (s : Phy σ)
    (hreads : ∀ hw d r, 0 ≤ (bus.mdio_read hw d r).1) :
    (amd_xgbe_phy_xgmii_mode bus s).1 = 0 ∧
    ∃ vs, ready_polls (amd_xgbe_phy_xgmii_mode bus s).2.trace = ready_polls s.trace ++ vs ∧
      polls_until_ready bus (ready_mask s.serdes_channel) XGBE_PHY_RATECHANGE_COUNT vs := by
  have hd := disable_kr_training_ok bus s hreads
  unfold amd_xgbe_phy_xgmii_mode
  simp only []
  rw [if_neg (by rw [hd]; exact lt_irrefl 0), if_neg (read_ok bus _ _ _ hreads),
    if_neg (read_ok bus _ _ _ hreads),
    if_neg (by rw [pcs_power_cycle_ok bus _ hreads]; exact lt_irrefl 0)]
  refine ⟨rfl, ?_⟩
  obtain ⟨vs, e, p⟩ := polls_section bus (amd_xgbe_phy_pcs_power_cycle bus
    (phy_write_mmd bus (phy_read_mmd bus (phy_write_mmd bus (phy_read_mmd bus
      (amd_xgbe_an_disable_kr_training bus s).2 MDIO_MMD_PCS MDIO_CTRL2).2 MDIO_MMD_PCS MDIO_CTRL2
      _) MDIO_MMD_PCS MDIO_CTRL1).2 MDIO_MMD_PCS MDIO_CTRL1 _)).2
    _ _ _ _ _ _ _ _ _ _ _ _ _ _ _ _ _ _ _ _ _ _ _ _ _ _ _ _ _ _ _ _ _ _ _ _ _ _ _ _
  simp only [channel_pcs_power_cycle, channel_write, channel_read,
    channel_disable_kr_training] at p
  refine ⟨vs, ?_, p⟩
  rw [e]
  simp only [polls_pcs_power_cycle, polls_write, polls_read, polls_disable_kr_training]
theorem polls_gmii_2500_mode (bus : Hw σ) (s : Phy σ)
    (hreads : ∀ hw d r, 0 ≤ (bus.mdio_read hw d r).1) :
    (amd_xgbe_phy_gmii_2500_mode bus s).1 = 0 ∧
    ∃ vs, ready_polls (amd_xgbe_phy_gmii_2500_mode bus s).2.trace = ready_polls s.trace ++ vs ∧
      polls_until_ready bus (ready_mask s.serdes_channel) XGBE_PHY_RATECHANGE_COUNT vs := by
  have hd := disable_kr_training_ok bus s hreads
  unfold amd_xgbe_phy_gmii_2500_mode
  simp only []
  rw [if_neg (by rw [hd]; exact lt_irrefl 0), if_neg (read_ok bus _ _ _ hreads),
    if_neg (read_ok bus _ _ _ hreads),
    if_neg (by rw [pcs_power_cycle_ok bus _ hreads]; exact lt_irrefl 0)]
  refine ⟨rfl, ?_⟩
  obtain ⟨vs, e, p⟩ := polls_section bus (amd_xgbe_phy_pcs_power_cycle bus
    (phy_write_mmd bus (phy_read_mmd bus (phy_write_mmd bus (phy_read_mmd bus
      (amd_xgbe_an_disable_kr_training bus s).2 MDIO_MMD_PCS MDIO_CTRL2).2 MDIO_MMD_PCS MDIO_CTRL2
      _) MDIO_MMD_PCS MDIO_CTRL1).2 MDIO_MMD_PCS MDIO_CTRL1 _)).2
    _ _ _ _ _ _ _ _ _ _ _ _ _ _ _ _ _ _ _ _ _ _ _ _ _ _ _ _ _ _ _ _ _ _ _ _ _ _ _ _
  simp only [channel_pcs_power_cycle, channel_write, channel_read,
    channel_disable_kr_training] at p
  refine ⟨vs, ?_, p⟩
  rw [e]
  simp only [polls_pcs_power_cycle, polls_write, polls_read, polls_disable_kr_training]
theorem polls_gmii_mode (bus : Hw σ) (s : Phy σ)
    (hreads : ∀ hw d r, 0 ≤ (bus.mdio_read hw d r).1) :
    (amd_xgbe_phy_gmii_mode bus s).1 = 0 ∧
    ∃ vs, ready_polls (amd_xgbe_phy_gmii_mode bus s).2.trace = ready_polls s.trace ++ vs ∧
      polls_until_ready bus (ready_mask s.serdes_channel) XGBE_PHY_RATECHANGE_COUNT vs := by
  have hd := disable_kr_training_ok bus s hreads
  unfold amd_xgbe_phy_gmii_mode
  simp only []
  rw [if_neg (by rw [hd]; exact lt_irrefl 0), if_neg (read_ok bus _ _ _ hreads),
    if_neg (read_ok bus _ _ _ hreads),
    if_neg (by rw [pcs_power_cycle_ok bus _ hreads]; exact lt_irrefl 0)]
  refine ⟨rfl, ?_⟩
  obtain ⟨vs, e, p⟩ := polls_section bus (amd_xgbe_phy_pcs_power_cycle bus
    (phy_write_mmd bus (phy_read_mmd bus (phy_write_mmd bus (phy_read_mmd bus
      (amd_xgbe_an_disable_kr_training bus s).2 MDIO_MMD_PCS MDIO_CTRL2).2 MDIO_MMD_PCS MDIO_CTRL2
      _) MDIO_MMD_PCS MDIO_CTRL1).2 MDIO_MMD_PCS MDIO_CTRL1 _)).2
    _ _ _ _ _ _ _ _ _ _ _ _ _ _ _ _ _ _ _ _ _ _ _ _ _ _ _ _ _ _ _ _ _ _ _ _ _ _ _ _
  simp only [channel_pcs_power_cycle, channel_write, channel_read,
    channel_disable_kr_training] at p
  refine ⟨vs, ?_, p⟩
  rw [e]
  simp only [polls_pcs_power_cycle, polls_write, polls_read, polls_disable_kr_training]

theorem in_kr_mode_channel (bus : Hw σ) (s : Phy σ) :
    (amd_xgbe_phy_in_kr_mode bus s).2.serdes_channel = s.serdes_channel :=
  frame_channel (frame_in_kr_mode bus s)

theorem switch_mode_ok (bus : Hw σ) (s : Phy σ)
    (hreads : ∀ hw d r, 0 ≤ (bus.mdio_read hw d r).1) :
    (amd_xgbe_phy_switch_mode bus s).1 = 0 := by
  unfold amd_xgbe_phy_switch_mode
  simp only []
  split_ifs
  · exact (polls_gmii_mode bus _ hreads).1
  · exact (polls_gmii_2500_mode bus _ hreads).1
  · exact (polls_xgmii_mode bus _ hreads).1

theorem set_mode_ok (bus : Hw σ) (s : Phy σ) (mode : amd_xgbe_phy_mode)
    (hreads : ∀ hw d r, 0 ≤ (bus.mdio_read hw d r).1) :
    (amd_xgbe_phy_set_mode bus s mode).1 = 0 := by
  unfold amd_xgbe_phy_set_mode
  split
  · rename_i ret hc
    exfalso
    unfold amd_xgbe_phy_cur_mode at hc
    simp only [] at hc
    rw [if_neg (read_ok bus _ _ _ hreads)] at hc
    split_ifs at hc
  · split_ifs
    · exact switch_mode_ok bus _ hreads
    · rfl

/-- C7: `amd_xgbe_phy_serdes_complete_ratechange` polls the ready flags of the channel
(the bits `channel` and `channel + 8` of `CMU_REG15`) at least once and at most 500
times, stops at the first poll that shows both bits set, and returns in any case; on
hardware that never shows both bits set it makes exactly 500 polls.  With every
management-interface read succeeding, on such hardware each mode-programming routine
still returns 0 after these 500 polls, and `amd_xgbe_phy_set_mode` returns 0. -/
theorem C7_ratechange_soft_timeout (bus : Hw σ) (s : Phy σ) :
    (∃ vs, ready_polls (amd_xgbe_phy_serdes_complete_ratechange bus s).trace
        = ready_polls s.trace ++ vs ∧
      polls_until_ready bus (ready_mask s.serdes_channel) 500 vs ∧
      ((∀ hw, (bus.cmu_read hw CMU_REG15).1 % 65536 &&& ready_mask s.serdes_channel
          ≠ ready_mask s.serdes_channel) → vs.length = 500)) ∧
    ((∀ hw d r, 0 ≤ (bus.mdio_read hw d r).1) →
      (∀ hw, (bus.cmu_read hw CMU_REG15).1 % 65536 &&& ready_mask s.serdes_channel
          ≠ ready_mask s.serdes_channel) →
      ((amd_xgbe_phy_xgmii_mode bus s).1 = 0 ∧
        (ready_polls (amd_xgbe_phy_xgmii_mode bus s).2.trace).length
          = (ready_polls s.trace).length + 500) ∧
      ((amd_xgbe_phy_gmii_2500_mode bus s).1 = 0 ∧
        (ready_polls (amd_xgbe_phy_gmii_2500_mode bus s).2.trace).length
          = (ready_polls s.trace).length + 500) ∧
      ((amd_xgbe_phy_gmii_mode bus s).1 = 0 ∧
        (ready_polls (amd_xgbe_phy_gmii_mode bus s).2.trace).length
          = (ready_polls s.trace).length + 500) ∧
      ∀ mode, (amd_xgbe_phy_set_mode bus s mode).1 = 0) := by
  constructor
  · obtain ⟨vs, e, p⟩ := polls_complete_ratechange bus s
    exact ⟨vs, e, p, fun hstuck => polls_stuck bus _ _ vs hstuck p⟩
  · intro hreads hstuck
    refine ⟨?_, ?_, ?_, fun mode => set_mode_ok bus s mode hreads⟩
    · obtain ⟨h0, vs, e, p⟩ := polls_xgmii_mode bus s hreads
      refine ⟨h0, ?_⟩
      rw [e, List.length_append, polls_stuck bus _ _ vs hstuck p]
      rfl
    · obtain ⟨h0, vs, e, p⟩ := polls_gmii_2500_mode bus s hreads
      refine ⟨h0, ?_⟩
      rw [e, List.length_append, polls_stuck bus _ _ vs hstuck p]
      rfl
    · obtain ⟨h0, vs, e, p⟩ := polls_gmii_mode bus s hreads
      refine ⟨h0, ?_⟩
      rw [e, List.length_append, polls_stuck bus _ _ vs hstuck p]
      rfl

theorem stuck_hw_reads (hw : RegFile) (d r : Nat) : 0 ≤ (stuck_hw.mdio_read hw d r).1 :=
  Int.ofNat_nonneg _

theorem stuck_hw_stuck (hw : RegFile) :
    (stuck_hw.cmu_read hw CMU_REG15).1 % 65536 &&& ready_mask 0 ≠ ready_mask 0 := by
  have h : (stuck_hw.cmu_read hw CMU_REG15).1 = 0 := rfl
  rw [h]
  decide

/-- C7, witness: stuck hardware, channel 0, KR mode: 500 polls, and still success. -/
theorem C7_ratechange_soft_timeout_witness :
    (∃ vs, ready_polls (amd_xgbe_phy_serdes_complete_ratechange stuck_hw
          (phy_init (regs_kr 0 0))).trace = [] ++ vs ∧ vs.length = 500) ∧
    ((amd_xgbe_phy_gmii_mode stuck_hw (phy_init (regs_kr 0 0))).1 = 0 ∧
      (ready_polls (amd_xgbe_phy_gmii_mode stuck_hw (phy_init (regs_kr 0 0))).2.trace).length
        = 0 + 500) ∧
    (amd_xgbe_phy_set_mode stuck_hw (phy_init (regs_kr 0 0)) AMD_XGBE_MODE_KX).1 = 0 := by
  have h := C7_ratechange_soft_timeout stuck_hw (phy_init (regs_kr 0 0))
  obtain ⟨vs, e, _, hl⟩ := h.1
  have h2 := h.2 stuck_hw_reads stuck_hw_stuck
  exact ⟨⟨vs, e, hl stuck_hw_stuck⟩, h2.2.2.1, h2.2.2.2 AMD_XGBE_MODE_KX⟩

/-- The bits of `v & ~mask` truncated to 16 bits. -/
theorem clear_bits_testBit16 (n m i : Nat) :
    (clear_bits n m % 65536).testBit i = (decide (i < 16) && (n.testBit i && !m.testBit i)) := by
  have h16 : (65536 : Nat) = 2 ^ 16 := by norm_num
  have h32 : (4294967295 : Nat) = 2 ^ 32 - 1 := by norm_num
  simp only [clear_bits, Nat.testBit_and, h16, Nat.testBit_mod_two_pow, Nat.testBit_xor, h32,
    Nat.testBit_two_pow_sub_one]
  by_cases hi : i < 16
  · have : i < 32 := by omega
    simp [hi, this]
  · simp [hi]

/-- The bits of `v & ~mask` for a value below `2 ^ 32`. -/
theorem clear_bits_testBit (n m i : Nat) (hn : n < 4294967296) :
    (clear_bits n m).testBit i = (n.testBit i && !m.testBit i) := by
  have h32 : (4294967295 : Nat) = 2 ^ 32 - 1 := by norm_num
  simp only [clear_bits, Nat.testBit_and, Nat.testBit_xor, h32, Nat.testBit_two_pow_sub_one]
  by_cases hi : i < 32
  · simp [hi]
  · have : n.testBit i = false := by
      apply Nat.testBit_lt_two_pow
      calc n < 2 ^ 32 := by norm_num; exact hn
        _ ≤ 2 ^ i := Nat.pow_le_pow_right (by norm_num) (by omega)
    simp [this]

/-- The 16-bit image of `v & ~mask` for a C `int` `v`, negative or not. -/
theorem int_clear_bits_low (v : Int) (m : Nat) :
    (int_clear_bits v m % 65536).toNat = clear_bits (v % 4294967296).toNat m % 65536 := by
  unfold int_clear_bits
  split_ifs with h
  · have e : (v % 4294967296).toNat = v.toNat % 4294967296 := by omega
    rw [e]
    have : ((clear_bits v.toNat m : Nat) : Int) % 65536 = ((clear_bits v.toNat m % 65536 : Nat) : Int) := by
      push_cast; rfl
    rw [this, Int.toNat_natCast]
    apply Nat.eq_of_testBit_eq
    intro i
    rw [clear_bits_testBit16, clear_bits_testBit16]
    have h32 : (4294967296 : Nat) = 2 ^ 32 := by norm_num
    rw [h32, Nat.testBit_mod_two_pow]
    by_cases hi : i < 16
    · have : i < 32 := by omega
      simp [hi, this]
    · simp [hi]
  · omega

/-- C11: the event selected from an interrupt snapshot `v` follows the priority error,
page received, incompatible link, complete, none: a negative `v` (failed read) selects
ERROR with all three event bits as mask; otherwise bit 0x04 selects PAGE_RECEIVED, else
bit 0x02 selects INCOMPAT_LINK, else bit 0x01 selects COMPLETE, else ERROR with an empty
mask.  The worker makes the selected phase current, writes back to the interrupt
register the 16-bit image of the snapshot with exactly the bits of the mask removed,
and keeps as its snapshot `v` with exactly these bits removed, so that each other bit
stays as it was. -/
theorem C11_event_selection (bus : Hw σ) (s : Phy σ) (v : Int) :
    (v < 0 → an_event v = (AMD_XGBE_AN_ERROR, XGBE_AN_INT_MASK)) ∧
    (0 ≤ v → v.toNat &&& XGBE_AN_PG_RCV ≠ 0 →
      an_event v = (AMD_XGBE_AN_PAGE_RECEIVED, XGBE_AN_PG_RCV)) ∧
    (0 ≤ v → v.toNat &&& XGBE_AN_PG_RCV = 0 → v.toNat &&& XGBE_AN_INC_LINK ≠ 0 →
      an_event v = (AMD_XGBE_AN_INCOMPAT_LINK, XGBE_AN_INC_LINK)) ∧
    (0 ≤ v → v.toNat &&& XGBE_AN_PG_RCV = 0 → v.toNat &&& XGBE_AN_INC_LINK = 0 →
      v.toNat &&& XGBE_AN_INT_CMPLT ≠ 0 →
      an_event v = (AMD_XGBE_AN_COMPLETE, XGBE_AN_INT_CMPLT)) ∧
    (0 ≤ v → v.toNat &&& XGBE_AN_PG_RCV = 0 → v.toNat &&& XGBE_AN_INC_LINK = 0 →
      v.toNat &&& XGBE_AN_INT_CMPLT = 0 → an_event v = (AMD_XGBE_AN_ERROR, 0)) ∧
    (an_next_int bus s v).2.an_state = (an_event v).1 ∧
    (∃ w, (an_next_int bus s v).2.trace
        = s.trace ++ [Action.mdio_write MDIO_MMD_AN MDIO_AN_INT w] ∧
      (an_next_int bus s v).2.hw = bus.mdio_write s.hw MDIO_MMD_AN MDIO_AN_INT w ∧
      ∀ i, w.testBit i = (decide (i < 16) &&
        ((v % 4294967296).toNat.testBit i && !(an_event v).2.testBit i))) ∧
    (0 ≤ v → v < 4294967296 → 0 ≤ (an_next_int bus s v).1 ∧
      ∀ i, (an_next_int bus s v).1.toNat.testBit i
        = (v.toNat.testBit i && !(an_event v).2.testBit i)) := by
  refine ⟨?_, ?_, ?_, ?_, ?_, rfl, ?_, ?_⟩
  · intro h
    unfold an_event
    rw [if_pos h]
  · intro h h4
    unfold an_event
    rw [if_neg (not_lt.mpr h), if_pos h4]
  · intro h h4 h2
    unfold an_event
    rw [if_neg (not_lt.mpr h), if_neg (not_not.mpr h4), if_pos h2]
  · intro h h4 h2 h1
    unfold an_event
    rw [if_neg (not_lt.mpr h), if_neg (not_not.mpr h4), if_neg (not_not.mpr h2), if_pos h1]
  · intro h h4 h2 h1
    unfold an_event
    rw [if_neg (not_lt.mpr h), if_neg (not_not.mpr h4), if_neg (not_not.mpr h2),
      if_neg (not_not.mpr h1)]
  · refine ⟨(int_clear_bits v (an_event v).2 % 65536).toNat % 65536, rfl, rfl, ?_⟩
    intro i
    rw [int_clear_bits_low, Nat.mod_mod, clear_bits_testBit16]
  · intro h0 h1
    have e : (an_next_int bus s v).1 = ((clear_bits v.toNat (an_event v).2 : Nat) : Int) := by
      unfold an_next_int int_clear_bits
      simp only []
      rw [if_pos h0]
    rw [e]
    refine ⟨Int.ofNat_nonneg _, ?_⟩
    intro i
    rw [Int.toNat_natCast, clear_bits_testBit _ _ _ (by omega)]

/-- C11, witness: the snapshot 6 (incompatible link and page received pending) selects
PAGE_RECEIVED, and the snapshot kept and written back is 2. -/
theorem C11_event_selection_witness :
    an_event 6 = (AMD_XGBE_AN_PAGE_RECEIVED, XGBE_AN_PG_RCV) ∧
    an_event 2 = (AMD_XGBE_AN_INCOMPAT_LINK, XGBE_AN_INC_LINK) ∧
    an_event 1 = (AMD_XGBE_AN_COMPLETE, XGBE_AN_INT_CMPLT) ∧
    an_event 8 = (AMD_XGBE_AN_ERROR, 0) ∧
    an_event (-5) = (AMD_XGBE_AN_ERROR, XGBE_AN_INT_MASK) ∧
    (0 ≤ (an_next_int regfile (phy_init (regs_kr 6 0)) 6).1 ∧
      ∀ i, (an_next_int regfile (phy_init (regs_kr 6 0)) 6).1.toNat.testBit i
        = ((6 : Int).toNat.testBit i && !(an_event 6).2.testBit i)) :=
  ⟨(C11_event_selection regfile (phy_init (regs_kr 6 0)) 6).2.1 (by decide) (by decide),
   (C11_event_selection regfile (phy_init (regs_kr 6 0)) 2).2.2.1 (by decide) (by decide)
     (by decide),
   (C11_event_selection regfile (phy_init (regs_kr 6 0)) 1).2.2.2.1 (by decide) (by decide)
     (by decide) (by decide),
   (C11_event_selection regfile (phy_init (regs_kr 6 0)) 8).2.2.2.2.1 (by decide) (by decide)
     (by decide) (by decide),
   (C11_event_selection regfile (phy_init (regs_kr 6 0)) (-5)).1 (by decide),
   (C11_event_selection regfile (phy_init (regs_kr 6 0)) 6).2.2.2.2.2.2.2 (by decide)
     (by decide)⟩

/-- The handler of the sub-state BPA after a successful read of the link codeword. -/
theorem rx_bpa_unfold (bus : Hw σ) (s : Phy σ) (p : rx_state_ptr)
    (hv : 0 ≤ (bus.mdio_read s.hw MDIO_MMD_AN (MDIO_AN_LPA + 1)).1) :
    amd_xgbe_an_rx_bpa bus s p =
      if (phy_read_mmd bus s MDIO_MMD_AN (MDIO_AN_LPA + 1)).1.toNat &&&
          (if (amd_xgbe_phy_in_kr_mode bus
            (phy_read_mmd bus s MDIO_MMD_AN (MDIO_AN_LPA + 1)).2).1 then 0x80 else 0x20) = 0
      then (AMD_XGBE_AN_INCOMPAT_LINK,
        (amd_xgbe_phy_in_kr_mode bus (phy_read_mmd bus s MDIO_MMD_AN (MDIO_AN_LPA + 1)).2).2)
      else
        (let k := amd_xgbe_phy_in_kr_mode bus (phy_read_mmd bus s MDIO_MMD_AN (MDIO_AN_LPA + 1)).2
         let ad := phy_read_mmd bus k.2 MDIO_MMD_AN MDIO_AN_ADVERTISE
         if ad.1 < 0 then (AMD_XGBE_AN_ERROR, ad.2)
         else
           let lp := phy_read_mmd bus ad.2 MDIO_MMD_AN MDIO_AN_LPA
           if lp.1 < 0 then (AMD_XGBE_AN_ERROR, lp.2)
           else if ad.1.toNat &&& XNP_NP_EXCHANGE ≠ 0 ∨ lp.1.toNat &&& XNP_NP_EXCHANGE ≠ 0 then
             amd_xgbe_an_tx_xnp bus lp.2 p
           else amd_xgbe_an_tx_training bus lp.2 p) := by
  conv_lhs => unfold amd_xgbe_an_rx_bpa
  simp only []
  have hv1 : ¬ (phy_read_mmd bus s MDIO_MMD_AN (MDIO_AN_LPA + 1)).1 < 0 := not_lt.mpr hv
  rw [if_neg hv1]

/-- Past the codeword check the handler of the sub-state BPA does not return
INCOMPAT_LINK. -/
theorem rx_bpa_not_incompat (bus : Hw σ) (s : Phy σ) (p : rx_state_ptr)
    (hv : 0 ≤ (bus.mdio_read s.hw MDIO_MMD_AN (MDIO_AN_LPA + 1)).1)
    (hb : (phy_read_mmd bus s MDIO_MMD_AN (MDIO_AN_LPA + 1)).1.toNat &&&
          (if (amd_xgbe_phy_in_kr_mode bus
            (phy_read_mmd bus s MDIO_MMD_AN (MDIO_AN_LPA + 1)).2).1 then 0x80 else 0x20) ≠ 0) :
    (amd_xgbe_an_rx_bpa bus s p).1 ≠ AMD_XGBE_AN_INCOMPAT_LINK := by
  rw [rx_bpa_unfold bus s p hv, if_neg hb]
  simp only []
  split_ifs
  · simp
  · simp
  · simp [tx_xnp_range]
  · rcases tx_training_range bus
      (phy_read_mmd bus (phy_read_mmd bus (amd_xgbe_phy_in_kr_mode bus
        (phy_read_mmd bus s MDIO_MMD_AN (MDIO_AN_LPA + 1)).2).2 MDIO_MMD_AN
          MDIO_AN_ADVERTISE).2 MDIO_MMD_AN MDIO_AN_LPA).2 p with h | h <;> simp [h]

/-- C12: in `amd_xgbe_an_rx_bpa`, with `v` the value read from the link-partner
base-page ability register 2 (`MDIO_AN_LPA + 1`): if the device is in KR mode and
`v & 0x80 = 0`, or in KX mode and `v & 0x20 = 0`, the handler returns INCOMPAT_LINK
and the state differs from the input by the two reads only (the codeword and the PCS
type): both rx sub-states are unchanged and nothing is written.  If the bit of the mode
is present the handler does not return INCOMPAT_LINK. -/
theorem C12_rx_bpa_codeword (bus : Hw σ) (s : Phy σ) (p : rx_state_ptr)
    (hv : 0 ≤ (bus.mdio_read s.hw MDIO_MMD_AN (MDIO_AN_LPA + 1)).1) :
    (∀ mask : Nat,
      ((amd_xgbe_phy_in_kr_mode bus (phy_read_mmd bus s MDIO_MMD_AN (MDIO_AN_LPA + 1)).2).1
          = true ∧ mask = 0x80) ∨
      ((amd_xgbe_phy_in_kr_mode bus (phy_read_mmd bus s MDIO_MMD_AN (MDIO_AN_LPA + 1)).2).1
          = false ∧ mask = 0x20) →
      ((bus.mdio_read s.hw MDIO_MMD_AN (MDIO_AN_LPA + 1)).1.toNat &&& mask = 0 →
        (amd_xgbe_an_rx_bpa bus s p).1 = AMD_XGBE_AN_INCOMPAT_LINK ∧
        (amd_xgbe_an_rx_bpa bus s p).2 =
          { s with
            hw := (amd_xgbe_an_rx_bpa bus s p).2.hw,
            trace := s.trace ++
              [Action.mdio_read MDIO_MMD_AN (MDIO_AN_LPA + 1)
                (bus.mdio_read s.hw MDIO_MMD_AN (MDIO_AN_LPA + 1)).1,
               Action.mdio_read MDIO_MMD_PCS MDIO_CTRL2
                (bus.mdio_read (bus.mdio_read s.hw MDIO_MMD_AN (MDIO_AN_LPA + 1)).2
                  MDIO_MMD_PCS MDIO_CTRL2).1] } ∧
        (amd_xgbe_an_rx_bpa bus s p).2.rx_load p = s.rx_load p) ∧
      ((bus.mdio_read s.hw MDIO_MMD_AN (MDIO_AN_LPA + 1)).1.toNat &&& mask ≠ 0 →
        (amd_xgbe_an_rx_bpa bus s p).1 ≠ AMD_XGBE_AN_INCOMPAT_LINK)) := by
  intro mask hm
  have hmask : (if (amd_xgbe_phy_in_kr_mode bus
      (phy_read_mmd bus s MDIO_MMD_AN (MDIO_AN_LPA + 1)).2).1 then 0x80 else 0x20) = mask := by
    rcases hm with ⟨h1, h2⟩ | ⟨h1, h2⟩
    · rw [h1, h2]; rfl
    · rw [h1, h2]; rfl
  constructor
  · intro h0
    have hb : (phy_read_mmd bus s MDIO_MMD_AN (MDIO_AN_LPA + 1)).1.toNat &&&
          (if (amd_xgbe_phy_in_kr_mode bus
            (phy_read_mmd bus s MDIO_MMD_AN (MDIO_AN_LPA + 1)).2).1 then 0x80 else 0x20) = 0 := by
      rw [hmask]; exact h0
    rw [rx_bpa_unfold bus s p hv, if_pos hb]
    rw [in_kr_mode_state]
    refine ⟨rfl, ?_, ?_⟩
    · simp [phy_read_mmd]
    · cases p <;> rfl
  · intro h1
    apply rx_bpa_not_incompat bus s p hv
    rw [hmask]; exact h1

/-- C12, witness: in KR mode a partner offering only the KX codeword makes
the handler return INCOMPAT_LINK; offering the KR codeword, it does not. -/
theorem C12_rx_bpa_codeword_witness :
    (amd_xgbe_an_rx_bpa regfile (phy_init (regs_kr 4 0x20)) rx_state_ptr.kr_state).1
      = AMD_XGBE_AN_INCOMPAT_LINK ∧
    (amd_xgbe_an_rx_bpa regfile (phy_init (regs_kr 4 0x80)) rx_state_ptr.kr_state).1
      ≠ AMD_XGBE_AN_INCOMPAT_LINK :=
  ⟨((C12_rx_bpa_codeword regfile (phy_init (regs_kr 4 0x20)) rx_state_ptr.kr_state
      (by decide) 0x80 (Or.inl ⟨by decide, rfl⟩)).1 (by decide)).1,
   (C12_rx_bpa_codeword regfile (phy_init (regs_kr 4 0x80)) rx_state_ptr.kr_state
      (by decide) 0x80 (Or.inl ⟨by decide, rfl⟩)).2 (by decide)⟩

theorem xnp_writes_read (bus : Hw σ) (s : Phy σ) (d r : Nat) :
    xnp_writes (phy_read_mmd bus s d r).2.trace = xnp_writes s.trace := by
  simp [xnp_writes, phy_read_mmd, List.filterMap_append, xnp_write]

theorem xnp_writes_write_pma (bus : Hw σ) (s : Phy σ) (r v : Nat) :
    xnp_writes (phy_write_mmd bus s MDIO_MMD_PMAPMD r v).trace = xnp_writes s.trace := by
  have h : ¬ (MDIO_MMD_PMAPMD = MDIO_MMD_AN ∧ MDIO_AN_XNP ≤ r ∧ r ≤ MDIO_AN_XNP + 2) := by
    intro h; exact absurd h.1 (by decide)
  simp [xnp_writes, phy_write_mmd, List.filterMap_append, xnp_write, h]

theorem rx_store_trace (s : Phy σ) (p : rx_state_ptr) (v : amd_xgbe_phy_rx) :
    (s.rx_store p v).trace = s.trace := by
  cases p <;> rfl

theorem rx_store_hw (s : Phy σ) (p : rx_state_ptr) (v : amd_xgbe_phy_rx) :
    (s.rx_store p v).hw = s.hw := by
  cases p <;> rfl

theorem rx_load_store (s : Phy σ) (p : rx_state_ptr) (v : amd_xgbe_phy_rx) :
    (s.rx_store p v).rx_load p = v := by
  cases p <;> rfl

theorem rx_load_read (bus : Hw σ) (s : Phy σ) (d r : Nat) (p : rx_state_ptr) :
    (phy_read_mmd bus s d r).2.rx_load p = s.rx_load p := by
  cases p <;> rfl

theorem rx_load_write (bus : Hw σ) (s : Phy σ) (d r v : Nat) (p : rx_state_ptr) :
    (phy_write_mmd bus s d r v).rx_load p = s.rx_load p := by
  cases p <;> rfl

/-- The routine `amd_xgbe_an_tx_training` leaves the sub-state it is given at COMPLETE
and writes none of the next-page transmit registers. -/
theorem tx_training_complete (bus : Hw σ) (s : Phy σ) (p : rx_state_ptr) :
    (amd_xgbe_an_tx_training bus s p).2.rx_load p = AMD_XGBE_RX_COMPLETE ∧
    xnp_writes (amd_xgbe_an_tx_training bus s p).2.trace = xnp_writes s.trace := by
  unfold amd_xgbe_an_tx_training
  simp only []
  split_ifs <;>
    simp only [in_kr_mode_state, rx_load_read, rx_load_write, rx_load_store, xnp_writes_read,
      xnp_writes_write_pma, rx_store_trace, and_self]

/-- The mode that `amd_xgbe_phy_cur_mode` reports depends on the hardware state only. -/
theorem cur_mode_fst (bus : Hw σ) (s t : Phy σ) (h : s.hw = t.hw) :
    (amd_xgbe_phy_cur_mode bus s).1 = (amd_xgbe_phy_cur_mode bus t).1 := by
  unfold amd_xgbe_phy_cur_mode phy_read_mmd
  simp only [h]
  split_ifs <;> rfl

theorem in_kr_mode_fst (bus : Hw σ) (s t : Phy σ) (h : s.hw = t.hw) :
    (amd_xgbe_phy_in_kr_mode bus s).1 = (amd_xgbe_phy_in_kr_mode bus t).1 := by
  unfold amd_xgbe_phy_in_kr_mode
  rw [cur_mode_fst bus s t h]
  generalize (amd_xgbe_phy_cur_mode bus t).1 = c
  cases c <;> rfl

/-- In KX mode the routine `amd_xgbe_an_tx_training` returns PAGE_RECEIVED. -/
theorem tx_training_kx (bus : Hw σ) (s : Phy σ) (p : rx_state_ptr)
    (hkx : (amd_xgbe_phy_in_kr_mode bus s).1 = false) :
    (amd_xgbe_an_tx_training bus s p).1 = AMD_XGBE_AN_PAGE_RECEIVED := by
  have e : (amd_xgbe_phy_in_kr_mode bus (s.rx_store p AMD_XGBE_RX_COMPLETE)).1
      = (amd_xgbe_phy_in_kr_mode bus s).1 :=
    in_kr_mode_fst bus _ _ (rx_store_hw s p _)
  unfold amd_xgbe_an_tx_training
  simp only []
  rw [e, hkx]
  simp

/-- C13: the next-page decision is the same in the sub-states BPA (once the codeword
check has passed) and XNP: with the two page registers read successfully (advertisement
and link-partner ability in BPA, `MDIO_AN_XNP` and `MDIO_AN_LPX` in XNP), if bit 15
(`XNP_NP_EXCHANGE`) is set in either value the handler is `amd_xgbe_an_tx_xnp`, which
makes the sub-state XNP, writes 0 to `MDIO_AN_XNP + 2` and to `MDIO_AN_XNP + 1` and
0x2001 to `MDIO_AN_XNP`, and returns PAGE_RECEIVED; otherwise the handler is
`amd_xgbe_an_tx_training`, which makes the sub-state COMPLETE, writes none of the
next-page registers, and returns PAGE_RECEIVED in KX mode. -/
theorem C13_next_page_decision (bus : Hw σ) (s : Phy σ) (p : rx_state_ptr) :
    XNP_NP_EXCHANGE = 2 ^ 15 ∧
    (0 ≤ (phy_read_mmd bus s MDIO_MMD_AN MDIO_AN_XNP).1 →
      0 ≤ (phy_read_mmd bus (phy_read_mmd bus s MDIO_MMD_AN MDIO_AN_XNP).2
        MDIO_MMD_AN MDIO_AN_LPX).1 →
      amd_xgbe_an_rx_xnp bus s p =
        if (phy_read_mmd bus s MDIO_MMD_AN MDIO_AN_XNP).1.toNat &&& XNP_NP_EXCHANGE ≠ 0 ∨
          (phy_read_mmd bus (phy_read_mmd bus s MDIO_MMD_AN MDIO_AN_XNP).2
            MDIO_MMD_AN MDIO_AN_LPX).1.toNat &&& XNP_NP_EXCHANGE ≠ 0
        then amd_xgbe_an_tx_xnp bus (phy_read_mmd bus
          (phy_read_mmd bus s MDIO_MMD_AN MDIO_AN_XNP).2 MDIO_MMD_AN MDIO_AN_LPX).2 p
        else amd_xgbe_an_tx_training bus (phy_read_mmd bus
          (phy_read_mmd bus s MDIO_MMD_AN MDIO_AN_XNP).2 MDIO_MMD_AN MDIO_AN_LPX).2 p) ∧
    (∀ k : Bool × Phy σ,
      k = amd_xgbe_phy_in_kr_mode bus (phy_read_mmd bus s MDIO_MMD_AN (MDIO_AN_LPA + 1)).2 →
      0 ≤ (bus.mdio_read s.hw MDIO_MMD_AN (MDIO_AN_LPA + 1)).1 →
      (phy_read_mmd bus s MDIO_MMD_AN (MDIO_AN_LPA + 1)).1.toNat &&&
        (if k.1 then 0x80 else 0x20) ≠ 0 →
      0 ≤ (phy_read_mmd bus k.2 MDIO_MMD_AN MDIO_AN_ADVERTISE).1 →
      0 ≤ (phy_read_mmd bus (phy_read_mmd bus k.2 MDIO_MMD_AN MDIO_AN_ADVERTISE).2
        MDIO_MMD_AN MDIO_AN_LPA).1 →
      amd_xgbe_an_rx_bpa bus s p =
        if (phy_read_mmd bus k.2 MDIO_MMD_AN MDIO_AN_ADVERTISE).1.toNat
              &&& XNP_NP_EXCHANGE ≠ 0 ∨
          (phy_read_mmd bus (phy_read_mmd bus k.2 MDIO_MMD_AN MDIO_AN_ADVERTISE).2
            MDIO_MMD_AN MDIO_AN_LPA).1.toNat &&& XNP_NP_EXCHANGE ≠ 0
        then amd_xgbe_an_tx_xnp bus (phy_read_mmd bus
          (phy_read_mmd bus k.2 MDIO_MMD_AN MDIO_AN_ADVERTISE).2 MDIO_MMD_AN MDIO_AN_LPA).2 p
        else amd_xgbe_an_tx_training bus (phy_read_mmd bus
          (phy_read_mmd bus k.2 MDIO_MMD_AN MDIO_AN_ADVERTISE).2 MDIO_MMD_AN MDIO_AN_LPA).2 p) ∧
    (∀ t : Phy σ,
      (amd_xgbe_an_tx_xnp bus t p).1 = AMD_XGBE_AN_PAGE_RECEIVED ∧
      (amd_xgbe_an_tx_xnp bus t p).2.rx_load p = AMD_XGBE_RX_XNP ∧
      (amd_xgbe_an_tx_xnp bus t p).2.trace = t.trace ++
        [Action.mdio_write MDIO_MMD_AN (MDIO_AN_XNP + 2) 0,
         Action.mdio_write MDIO_MMD_AN (MDIO_AN_XNP + 1) 0,
         Action.mdio_write MDIO_MMD_AN MDIO_AN_XNP 0x2001]) ∧
    (∀ t : Phy σ,
      (amd_xgbe_an_tx_training bus t p).2.rx_load p = AMD_XGBE_RX_COMPLETE ∧
      xnp_writes (amd_xgbe_an_tx_training bus t p).2.trace = xnp_writes t.trace ∧
      ((amd_xgbe_phy_in_kr_mode bus t).1 = false →
        (amd_xgbe_an_tx_training bus t p).1 = AMD_XGBE_AN_PAGE_RECEIVED)) := by
  refine ⟨rfl, ?_, ?_, ?_, ?_⟩
  · intro h1 h2
    conv_lhs => unfold amd_xgbe_an_rx_xnp
    simp only []
    rw [if_neg (not_lt.mpr h1), if_neg (not_lt.mpr h2)]
  · intro k hk hv hb h1 h2
    subst hk
    rw [rx_bpa_unfold bus s p hv, if_neg hb]
    simp only []
    rw [if_neg (not_lt.mpr h1), if_neg (not_lt.mpr h2)]
  · intro t
    refine ⟨rfl, ?_, ?_⟩
    · unfold amd_xgbe_an_tx_xnp
      simp only [rx_load_write, rx_load_store]
    · unfold amd_xgbe_an_tx_xnp
      simp [phy_write_mmd, rx_store_trace, XNP_MCF_NULL_MESSAGE, XNP_MP_FORMATTED]
  · intro t
    exact ⟨(tx_training_complete bus t p).1, (tx_training_complete bus t p).2,
      tx_training_kx bus t p⟩

/-- C13, witness: in KX mode with no next page requested by either side the handler of
the sub-state XNP leaves the KX sub-state at COMPLETE and returns PAGE_RECEIVED. -/
theorem C13_next_page_decision_witness :
    (amd_xgbe_an_rx_xnp regfile (phy_init (regs_kx 4 0x20)) rx_state_ptr.kx_state).2.kx_state
      = AMD_XGBE_RX_COMPLETE ∧
    (amd_xgbe_an_rx_xnp regfile (phy_init (regs_kx 4 0x20)) rx_state_ptr.kx_state).1
      = AMD_XGBE_AN_PAGE_RECEIVED := by
  have h := (C13_next_page_decision regfile (phy_init (regs_kx 4 0x20))
    rx_state_ptr.kx_state).2.1 (by decide) (by decide)
  rw [h, if_neg (by decide)]
  exact ⟨((C13_next_page_decision regfile (phy_init (regs_kx 4 0x20))
      rx_state_ptr.kx_state).2.2.2.2 _).1,
    ((C13_next_page_decision regfile (phy_init (regs_kx 4 0x20))
      rx_state_ptr.kx_state).2.2.2.2 _).2.2 (by decide)⟩

/-- The two FEC bits of the value written to the FEC control register. -/
theorem fec_bits (v f : Nat) (hf : f ≤ 3) :
    (clear_bits v XGBE_PHY_FEC_MASK ||| f) % 65536 &&& XGBE_PHY_FEC_MASK = f := by
  have h16 : (65536 : Nat) = 2 ^ 16 := by norm_num
  have h32 : (4294967295 : Nat) = 2 ^ 32 - 1 := by norm_num
  have h3 : XGBE_PHY_FEC_MASK = 2 ^ 2 - 1 := by decide
  apply Nat.eq_of_testBit_eq
  intro i
  simp only [clear_bits, Nat.testBit_and, h16, Nat.testBit_mod_two_pow, Nat.testBit_xor, h32,
    Nat.testBit_two_pow_sub_one, Nat.testBit_or, h3]
  by_cases hi : i < 2
  · have h1 : i < 16 := by omega
    have h2 : i < 32 := by omega
    simp [hi, h1, h2]
  · have : f.testBit i = false := by
      apply Nat.testBit_lt_two_pow
      calc f < 2 ^ 2 := by omega
        _ ≤ 2 ^ i := Nat.pow_le_pow_right (by norm_num) (by omega)
    simp [hi, this]

theorem an_latch_trace (s : Phy σ) : (an_latch s).trace = s.trace := by
  unfold an_latch
  split_ifs <;> rfl

theorem an_latch_parallel_detect (s : Phy σ) :
    (an_latch s).parallel_detect = s.parallel_detect := by
  unfold an_latch
  split_ifs <;> rfl

/-- The pass of a phase that the switch leaves at NO_LINK. -/
theorem an_pass_no_link (bus : Hw σ) (s : Phy σ) (v : Int)
    (h : (an_switch bus s).an_state = AMD_XGBE_AN_NO_LINK) :
    an_pass bus s v = (0, an_latch (phy_write_mmd bus
      (amd_xgbe_phy_disable_an bus (an_switch bus s)).2 MDIO_MMD_AN MDIO_AN_INT 0)) := by
  simp [an_pass, an_stop, h]

/-- The pass of a phase that the switch leaves at ERROR. -/
theorem an_pass_error (bus : Hw σ) (s : Phy σ) (v : Int)
    (h : (an_switch bus s).an_state = AMD_XGBE_AN_ERROR) :
    an_pass bus s v = (0, an_latch (phy_write_mmd bus (an_switch bus s)
      MDIO_MMD_AN MDIO_AN_INT 0)) := by
  simp [an_pass, an_stop, h]

/-- What `amd_xgbe_phy_disable_an` does: one read of the control register and, if the
read succeeds, one write of the value read with the enable bit cleared. -/
theorem disable_an_trace (bus : Hw σ) (t : Phy σ) :
    (0 ≤ (bus.mdio_read t.hw MDIO_MMD_AN MDIO_CTRL1).1 →
      (amd_xgbe_phy_disable_an bus t).2.trace = t.trace ++
        [Action.mdio_read MDIO_MMD_AN MDIO_CTRL1 (bus.mdio_read t.hw MDIO_MMD_AN MDIO_CTRL1).1,
         Action.mdio_write MDIO_MMD_AN MDIO_CTRL1
          (clear_bits (bus.mdio_read t.hw MDIO_MMD_AN MDIO_CTRL1).1.toNat
            MDIO_AN_CTRL1_ENABLE % 65536)]) ∧
    ((bus.mdio_read t.hw MDIO_MMD_AN MDIO_CTRL1).1 < 0 →
      (amd_xgbe_phy_disable_an bus t).2.trace = t.trace ++
        [Action.mdio_read MDIO_MMD_AN MDIO_CTRL1
          (bus.mdio_read t.hw MDIO_MMD_AN MDIO_CTRL1).1]) := by
  constructor
  · intro h
    have h1 : ¬ (phy_read_mmd bus t MDIO_MMD_AN MDIO_CTRL1).1 < 0 := not_lt.mpr h
    unfold amd_xgbe_phy_disable_an amd_xgbe_phy_set_an
    simp only []
    rw [if_neg h1]
    simp [phy_read_mmd, phy_write_mmd]
  · intro h
    have h1 : (phy_read_mmd bus t MDIO_MMD_AN MDIO_CTRL1).1 < 0 := h
    unfold amd_xgbe_phy_disable_an amd_xgbe_phy_set_an
    simp only []
    rw [if_pos h1]
    rfl

theorem clear_enable_bit (v : Nat) :
    clear_bits v MDIO_AN_CTRL1_ENABLE % 65536 &&& MDIO_AN_CTRL1_ENABLE = 0 := by
  have h12 : MDIO_AN_CTRL1_ENABLE = 2 ^ 12 := by decide
  apply Nat.eq_of_testBit_eq
  intro i
  rw [Nat.testBit_and, clear_bits_testBit16, h12, Nat.testBit_two_pow]
  by_cases hi : 12 = i
  · simp [hi]
  · simp [hi]

/-- After a pass that the switch leaves at NO_LINK or ERROR the worker returns from
the READY pass, whatever is pending in the snapshot. -/
theorem an_again_stop (bus : Hw σ) (s : Phy σ) (v : Int) (fuel : Nat)
    (h : (an_switch bus s).an_state = AMD_XGBE_AN_NO_LINK ∨
      (an_switch bus s).an_state = AMD_XGBE_AN_ERROR) :
    ∃ f, an_again bus (fuel + 2) s v = some (f, 2) ∧
      f.an_result = (an_switch bus s).an_state ∧
      f.parallel_detect = (an_switch bus s).parallel_detect := by
  have ht : (an_switch bus s).an_state.terminal := by
    rcases h with h | h
    · exact Or.inr (Or.inl h)
    · exact Or.inr (Or.inr h)
  have hp := an_pass_terminal bus s v ht
  have h0 : (an_pass bus s v).1 = 0 := by
    rcases h with h | h
    · rw [an_pass_no_link bus s v h]
    · rw [an_pass_error bus s v h]
  have hs : s.an_state ≠ AMD_XGBE_AN_READY := by
    intro e
    rw [(an_switch_ready_iff bus s).mpr e] at h
    simp at h
  have hr : (an_pass bus s v).2.an_state = AMD_XGBE_AN_READY := by rw [hp]
  rw [an_again_succ, if_pos (by rw [hr]; exact hs), h0, an_again_ready bus fuel _ hr]
  refine ⟨_, rfl, ?_, ?_⟩
  · rw [hp]
  · rw [hp]
    exact (frame_rx_fields (frame_rx_of_frame (an_stop_frame bus (an_switch bus s) v))).2.2.2.1

/-- C15 (amended): when the switch leaves the phase at NO_LINK, the worker calls
`amd_xgbe_phy_disable_an` (which reads the auto-negotiation control register and, if
that read succeeds, writes it back with the enable bit cleared; a failed read is
ignored and nothing is written), writes 0 to the interrupt register and sets its
snapshot to 0: whatever was pending, the worker returns after the READY pass that
follows, with `an_result = NO_LINK` and `parallel_detect` as the switch left it (0 when
the phase was INCOMPAT_LINK).  When the switch leaves the phase at ERROR, the interrupt
register is written 0 and the snapshot set to 0 in the same way. -/
theorem C15_stop_discards (bus : Hw σ) (s : Phy σ) (v : Int) :
    ((an_switch bus s).an_state = AMD_XGBE_AN_NO_LINK →
      (an_pass bus s v).1 = 0 ∧
      (an_pass bus s v).2.trace = (amd_xgbe_phy_disable_an bus (an_switch bus s)).2.trace ++
        [Action.mdio_write MDIO_MMD_AN MDIO_AN_INT 0] ∧
      (0 ≤ (bus.mdio_read (an_switch bus s).hw MDIO_MMD_AN MDIO_CTRL1).1 →
        ∃ w, (amd_xgbe_phy_disable_an bus (an_switch bus s)).2.trace =
          (an_switch bus s).trace ++
            [Action.mdio_read MDIO_MMD_AN MDIO_CTRL1
              (bus.mdio_read (an_switch bus s).hw MDIO_MMD_AN MDIO_CTRL1).1,
             Action.mdio_write MDIO_MMD_AN MDIO_CTRL1 w] ∧
          w &&& MDIO_AN_CTRL1_ENABLE = 0) ∧
      ((bus.mdio_read (an_switch bus s).hw MDIO_MMD_AN MDIO_CTRL1).1 < 0 →
        (amd_xgbe_phy_disable_an bus (an_switch bus s)).2.trace =
          (an_switch bus s).trace ++
            [Action.mdio_read MDIO_MMD_AN MDIO_CTRL1
              (bus.mdio_read (an_switch bus s).hw MDIO_MMD_AN MDIO_CTRL1).1]) ∧
      ∀ fuel, ∃ f, an_again bus (fuel + 2) s v = some (f, 2) ∧
        f.an_result = AMD_XGBE_AN_NO_LINK ∧
        f.parallel_detect = (an_switch bus s).parallel_detect ∧
        (s.an_state = AMD_XGBE_AN_INCOMPAT_LINK → f.parallel_detect = 0)) ∧
    ((an_switch bus s).an_state = AMD_XGBE_AN_ERROR →
      (an_pass bus s v).1 = 0 ∧
      (an_pass bus s v).2.trace = (an_switch bus s).trace ++
        [Action.mdio_write MDIO_MMD_AN MDIO_AN_INT 0] ∧
      ∀ fuel, ∃ f, an_again bus (fuel + 2) s v = some (f, 2) ∧
        f.an_result = AMD_XGBE_AN_ERROR) := by
  constructor
  · intro h
    refine ⟨?_, ?_, ?_, (disable_an_trace bus _).2, ?_⟩
    · rw [an_pass_no_link bus s v h]
    · rw [an_pass_no_link bus s v h, an_latch_trace]
      rfl
    · intro hr
      exact ⟨_, (disable_an_trace bus _).1 hr, clear_enable_bit _⟩
    · intro fuel
      obtain ⟨f, e, h1, h2⟩ := an_again_stop bus s v fuel (Or.inl h)
      refine ⟨f, e, by rw [h1, h], h2, ?_⟩
      intro hs
      rw [h2]
      have e2 : (an_switch bus s).parallel_detect =
          (amd_xgbe_an_incompat_link bus { s with an_supported := 0, parallel_detect := 0 }).2.parallel_detect := by
        unfold an_switch; simp [hs]
      rw [e2]
      exact (frame_rx_fields (frame_rx_incompat_link bus _)).2.2.2.1
  · intro h
    refine ⟨?_, ?_, ?_⟩
    · rw [an_pass_error bus s v h]
    · rw [an_pass_error bus s v h, an_latch_trace]
      rfl
    · intro fuel
      obtain ⟨f, e, h1, -⟩ := an_again_stop bus s v fuel (Or.inr h)
      exact ⟨f, e, by rw [h1, h]⟩

/-- C15, witness: on a device without KR in KX mode, the incompatible-link phase with
the complete bit still pending: the enable bit is cleared, the worker returns after two
executions of the switch with result NO_LINK and `parallel_detect = 0`. -/
theorem C15_stop_discards_witness :
    (∃ w, (amd_xgbe_phy_disable_an regfile (an_switch regfile
        { phy_kx_an 1 with an_state := AMD_XGBE_AN_INCOMPAT_LINK })).2.trace =
        (an_switch regfile { phy_kx_an 1 with an_state := AMD_XGBE_AN_INCOMPAT_LINK }).trace ++
          [Action.mdio_read MDIO_MMD_AN MDIO_CTRL1
            (regfile.mdio_read (an_switch regfile
              { phy_kx_an 1 with an_state := AMD_XGBE_AN_INCOMPAT_LINK }).hw
                MDIO_MMD_AN MDIO_CTRL1).1,
           Action.mdio_write MDIO_MMD_AN MDIO_CTRL1 w] ∧
        w &&& MDIO_AN_CTRL1_ENABLE = 0) ∧
    ∃ f, an_again regfile 2 { phy_kx_an 1 with an_state := AMD_XGBE_AN_INCOMPAT_LINK } 1
        = some (f, 2) ∧
      f.an_result = AMD_XGBE_AN_NO_LINK ∧ f.parallel_detect = 0 :=
  have h := (C15_stop_discards regfile
    { phy_kx_an 1 with an_state := AMD_XGBE_AN_INCOMPAT_LINK } 1).1 (by decide)
  ⟨h.2.2.1 (by decide),
   (h.2.2.2.2 0).elim fun f hf => ⟨f, hf.1, hf.2.1, hf.2.2.2 rfl⟩⟩

/-- C15, counterexample: on hardware whose auto-negotiation control register cannot be
read, the worker run on an incompatible-link event that yields NO_LINK returns with
result NO_LINK while the enable bit of that register is still set: the register was
not written. -/
theorem C15_counterexample :
    (amd_xgbe_an_state_machine an_ctrl1_fail_hw 16 (phy_kx_an 2)).map
      (fun r => (r.1.an_result, an_ctrl1_writes r.1.trace,
        r.1.hw.mdio_regs MDIO_MMD_AN MDIO_CTRL1 &&& MDIO_AN_CTRL1_ENABLE,
        r.1.hw.mdio_regs MDIO_MMD_AN MDIO_AN_INT))
      = some (AMD_XGBE_AN_NO_LINK, [], MDIO_AN_CTRL1_ENABLE, 0) := by
  decide

theorem an_again_stop_supported (bus : Hw σ) (s : Phy σ) (v : Int) (fuel : Nat)
    (h : (an_switch bus s).an_state = AMD_XGBE_AN_NO_LINK ∨
      (an_switch bus s).an_state = AMD_XGBE_AN_ERROR) :
    ∃ f, an_again bus (fuel + 2) s v = some (f, 2) ∧ f.an_supported = 0 := by
  have ht : (an_switch bus s).an_state.terminal := by
    rcases h with h | h
    · exact Or.inr (Or.inl h)
    · exact Or.inr (Or.inr h)
  have hp := an_pass_terminal bus s v ht
  have h0 : (an_pass bus s v).1 = 0 := by
    rcases h with h | h
    · rw [an_pass_no_link bus s v h]
    · rw [an_pass_error bus s v h]
  have hs : s.an_state ≠ AMD_XGBE_AN_READY := by
    intro e
    rw [(an_switch_ready_iff bus s).mpr e] at h
    simp at h
  have hr : (an_pass bus s v).2.an_state = AMD_XGBE_AN_READY := by rw [hp]
  rw [an_again_succ, if_pos (by rw [hr]; exact hs), h0, an_again_ready bus fuel _ hr]
  exact ⟨_, rfl, rfl⟩

theorem an_again_incompat_supported (bus : Hw σ) (t : Phy σ) (fuel : Nat)
    (ht : t.an_state = AMD_XGBE_AN_INCOMPAT_LINK) :
    ∃ f n, an_again bus (fuel + 2) t 0 = some (f, n) ∧ f.an_supported = 0 := by
  have e : (an_switch bus t) =
      { (amd_xgbe_an_incompat_link bus { t with an_supported := 0, parallel_detect := 0 }).2 with
        an_state := (amd_xgbe_an_incompat_link bus
          { t with an_supported := 0, parallel_detect := 0 }).1 } := by
    unfold an_switch; simp [ht]
  have hsup : (an_switch bus t).an_supported = 0 := by
    rw [e]
    exact (frame_rx_fields (frame_rx_incompat_link bus _)).2.2.1
  have hst : (an_switch bus t).an_state = (amd_xgbe_an_incompat_link bus
      { t with an_supported := 0, parallel_detect := 0 }).1 := by rw [e]
  rcases incompat_link_range bus { t with an_supported := 0, parallel_detect := 0 }
    with h | h | h
  · have hnt : ¬ (an_switch bus t).an_state.terminal := by
      rw [hst, h]; simp [amd_xgbe_phy_an.terminal]
    have hp := an_pass_not_terminal bus t 0 hnt
    have hIL : (an_switch bus t).an_state = AMD_XGBE_AN_INCOMPAT_LINK := by rw [hst, h]
    refine ⟨an_switch bus t, 1, ?_, hsup⟩
    rw [an_again_succ, hp]
    dsimp only
    rw [if_neg (by rw [ht, hIL]; exact not_not.mpr rfl), if_neg (not_not.mpr rfl)]
  · obtain ⟨f, e1, e2⟩ := an_again_stop_supported bus t 0 fuel (Or.inl (by rw [hst, h]))
    exact ⟨f, 2, e1, e2⟩
  · obtain ⟨f, e1, e2⟩ := an_again_stop_supported bus t 0 fuel (Or.inr (by rw [hst, h]))
    exact ⟨f, 2, e1, e2⟩

theorem an_again_page_fail (bus : Hw σ) (s : Phy σ) (fuel : Nat)
    (h1 : s.an_state = AMD_XGBE_AN_PAGE_RECEIVED)
    (hfail : (amd_xgbe_an_page_received bus s).1 ≠ AMD_XGBE_AN_PAGE_RECEIVED) :
    ∃ f n, an_again bus (fuel + 3) s 0 = some (f, n) ∧ f.an_supported = 0 := by
  have hst : (an_switch bus s).an_state = (amd_xgbe_an_page_received bus s).1 := by
    unfold an_switch; simp [h1]
  rcases page_received_range bus s with h | h | h
  · exact absurd h hfail
  · have hnt : ¬ (an_switch bus s).an_state.terminal := by
      rw [hst, h]; simp [amd_xgbe_phy_an.terminal]
    have hp := an_pass_not_terminal bus s 0 hnt
    obtain ⟨f, n, e1, e2⟩ := an_again_incompat_supported bus (an_switch bus s) fuel
      (by rw [hst, h])
    have hIL : (an_switch bus s).an_state = AMD_XGBE_AN_INCOMPAT_LINK := by rw [hst, h]
    refine ⟨f, n + 1, ?_, e2⟩
    rw [an_again_succ, hp]
    dsimp only
    rw [if_pos (by rw [h1, hIL]; decide), e1]
    rfl
  · obtain ⟨f, e1, e2⟩ := an_again_stop_supported bus s 0 (fuel + 1) (Or.inr (by rw [hst, h]))
    exact ⟨f, 2, e1, e2⟩

/-- C16 (amended): for a worker invocation that reads the snapshot 4 (only the
page-received bit), if the receive sub-state machine returns PAGE_RECEIVED the worker
returns after one execution of the switch with `an_supported` one more than before
modulo 2 ^ 32 (`an_supported` is an `unsigned int`), and if it returns anything else
(INCOMPAT_LINK or ERROR) the worker returns with `an_supported = 0`. -/
theorem C16_supported_count (bus : Hw σ) (s : Phy σ)
    (hv : (bus.mdio_read s.hw MDIO_MMD_AN MDIO_AN_INT).1 = 4) :
    ∃ f n, amd_xgbe_an_state_machine bus 16 s = some (f, n) ∧
      ((amd_xgbe_an_page_received bus (an_next_int bus
          (phy_read_mmd bus (s.log Action.mutex_lock_an) MDIO_MMD_AN MDIO_AN_INT).2 4).2).1
          = AMD_XGBE_AN_PAGE_RECEIVED →
        n = 1 ∧ f.an_supported = (s.an_supported + 1) % 4294967296) ∧
      ((amd_xgbe_an_page_received bus (an_next_int bus
          (phy_read_mmd bus (s.log Action.mutex_lock_an) MDIO_MMD_AN MDIO_AN_INT).2 4).2).1
          ≠ AMD_XGBE_AN_PAGE_RECEIVED →
        f.an_supported = 0) := by
  have h4 : (phy_read_mmd bus (s.log Action.mutex_lock_an) MDIO_MMD_AN MDIO_AN_INT).1 = 4 := hv
  have hst : (an_next_int bus
      (phy_read_mmd bus (s.log Action.mutex_lock_an) MDIO_MMD_AN MDIO_AN_INT).2 4).2.an_state
      = AMD_XGBE_AN_PAGE_RECEIVED := by rw [an_next_int_state, an_event_four]
  unfold amd_xgbe_an_state_machine
  simp only [h4, OfNat.ofNat_ne_zero, if_false]
  rw [an_next_int_int, an_event_four, int_clear_bits_four]
  by_cases hok : (amd_xgbe_an_page_received bus (an_next_int bus
      (phy_read_mmd bus (s.log Action.mutex_lock_an) MDIO_MMD_AN MDIO_AN_INT).2 4).2).1
      = AMD_XGBE_AN_PAGE_RECEIVED
  · rw [an_again_page_received bus 15 _ hst hok]
    exact ⟨_, _, rfl, fun _ => ⟨rfl, rfl⟩, fun h => absurd hok h⟩
  · obtain ⟨f, n, e1, e2⟩ := an_again_page_fail bus _ 13 hst hok
    rw [e1]
    exact ⟨_, _, rfl, fun h => absurd h hok, fun _ => e2⟩

/-- C16, witness: the register-file hardware in KR mode with only the page-received
bit set and the link partner offering the KR codeword: the count goes from 0 to 1. -/
theorem C16_supported_count_witness :
    ∃ f n, amd_xgbe_an_state_machine regfile 16 (phy_init (regs_kr 4 0x80)) = some (f, n) ∧
      n = 1 ∧ f.an_supported = 1 := by
  obtain ⟨f, n, e, h1, -⟩ := C16_supported_count regfile (phy_init (regs_kr 4 0x80)) rfl
  exact ⟨f, n, e, h1 (by decide)⟩

/-- C16, counterexample: with `an_supported = 4294967295` a successful page-received
cycle leaves `an_supported = 0`, not one more than before. -/
theorem C16_counterexample :
    (amd_xgbe_an_page_received regfile (an_next_int regfile
      (phy_read_mmd regfile (phy_wrap_page.log Action.mutex_lock_an)
        MDIO_MMD_AN MDIO_AN_INT).2 4).2).1 = AMD_XGBE_AN_PAGE_RECEIVED ∧
    phy_wrap_page.an_supported = 4294967295 ∧
    (amd_xgbe_an_state_machine regfile 16 phy_wrap_page).map
      (fun r => (r.1.an_supported, r.2)) = some (0, 1) := by
  decide

theorem failed_reads_append (t : List Action) (a : Action) :
    failed_reads (t ++ [a]) = failed_reads t ++ (failed_read a).toList := by
  unfold failed_reads
  rw [List.filterMap_append]
  cases h : failed_read a <;> simp [List.filterMap, h]

theorem failed_reads_read_ok (bus : Hw σ) (s : Phy σ) (d r : Nat)
    (h : ¬ (phy_read_mmd bus s d r).1 < 0) :
    failed_reads (phy_read_mmd bus s d r).2.trace = failed_reads s.trace := by
  have e : (phy_read_mmd bus s d r).2.trace
      = s.trace ++ [Action.mdio_read d r (phy_read_mmd bus s d r).1] := rfl
  rw [e, failed_reads_append]
  simp [failed_read, h]

theorem failed_reads_read_fail (bus : Hw σ) (s : Phy σ) (d r : Nat)
    (h : (phy_read_mmd bus s d r).1 < 0) :
    failed_reads (phy_read_mmd bus s d r).2.trace
      = failed_reads s.trace ++ [(phy_read_mmd bus s d r).1] := by
  have e : (phy_read_mmd bus s d r).2.trace
      = s.trace ++ [Action.mdio_read d r (phy_read_mmd bus s d r).1] := rfl
  rw [e, failed_reads_append]
  simp [failed_read, h]

@[simp] theorem failed_reads_write (bus : Hw σ) (s : Phy σ) (d r v : Nat) :
    failed_reads (phy_write_mmd bus s d r v).trace = failed_reads s.trace := by
  unfold phy_write_mmd
  simp [failed_reads_append, failed_read]

@[simp] theorem failed_reads_log (s : Phy σ) (a : Action) (h : failed_read a = none) :
    failed_reads (s.log a).trace = failed_reads s.trace := by
  unfold Phy.log
  simp [failed_reads_append, h]

@[simp] theorem failed_reads_cmu_read (bus : Hw σ) (s : Phy σ) (r : Nat) :
    failed_reads (XCMU_IOREAD bus s r).2.trace = failed_reads s.trace := by
  unfold XCMU_IOREAD
  simp [failed_reads_append, failed_read]

@[simp] theorem failed_reads_cmu_write (bus : Hw σ) (s : Phy σ) (r v : Nat) :
    failed_reads (XCMU_IOWRITE bus s r v).trace = failed_reads s.trace := by
  unfold XCMU_IOWRITE
  simp [failed_reads_append, failed_read]

@[simp] theorem failed_reads_rxtx_read (bus : Hw σ) (s : Phy σ) (r : Nat) :
    failed_reads (XRXTX_IOREAD bus s r).2.trace = failed_reads s.trace := by
  unfold XRXTX_IOREAD
  simp [failed_reads_append, failed_read]

@[simp] theorem failed_reads_rxtx_write (bus : Hw σ) (s : Phy σ) (r v : Nat) :
    failed_reads (XRXTX_IOWRITE bus s r v).trace = failed_reads s.trace := by
  unfold XRXTX_IOWRITE
  simp [failed_reads_append, failed_read]

@[simp] theorem failed_reads_rxtx_write_bits (bus : Hw σ) (s : Phy σ) (r i w v : Nat) :
    failed_reads (XRXTX_IOWRITE_BITS bus s r i w v).trace = failed_reads s.trace := by
  unfold XRXTX_IOWRITE_BITS
  simp

@[simp] theorem failed_reads_start_ratechange (bus : Hw σ) (s : Phy σ) :
    failed_reads (amd_xgbe_phy_serdes_start_ratechange bus s).trace = failed_reads s.trace := by
  unfold amd_xgbe_phy_serdes_start_ratechange
  simp

theorem failed_reads_ratechange_wait (bus : Hw σ) (mask n : Nat) :
    ∀ s : Phy σ, failed_reads (ratechange_wait bus mask n s).trace = failed_reads s.trace := by
  induction n with
  | zero => intro s; rfl
  | succ n ih =>
    intro s
    unfold ratechange_wait
    simp only []
    split_ifs
    · simp [failed_read]
    · rw [ih]; simp [failed_read]

@[simp] theorem failed_reads_complete_ratechange (bus : Hw σ) (s : Phy σ) :
    failed_reads (amd_xgbe_phy_serdes_complete_ratechange bus s).trace
      = failed_reads s.trace := by
  unfold amd_xgbe_phy_serdes_complete_ratechange
  simp [failed_reads_ratechange_wait]

theorem abort_read (bus : Hw σ) (s m : Phy σ) (d r : Nat)
    (hm : failed_reads m.trace = failed_reads s.trace)
    (h : (phy_read_mmd bus m d r).1 < 0) :
    aborts_at_failed_read s ((phy_read_mmd bus m d r).1, (phy_read_mmd bus m d r).2) := by
  refine Or.inr ⟨h, ?_, d, r, ?_⟩
  · rw [failed_reads_read_fail bus m d r h, hm]
  · simp [phy_read_mmd]

theorem abort_mono {s m : Phy σ} {r : Int × Phy σ}
    (hm : failed_reads m.trace = failed_reads s.trace) (h : aborts_at_failed_read m r) :
    aborts_at_failed_read s r := by
  unfold aborts_at_failed_read at *
  rw [← hm]
  exact h

theorem abort_ok {s : Phy σ} {r : Int × Phy σ} (h : aborts_at_failed_read s r)
    (hr : ¬ r.1 < 0) : failed_reads r.2.trace = failed_reads s.trace := by
  rcases h with h | h
  · exact h.2
  · exact absurd h.1 hr

theorem abort_disable_kr_training (bus : Hw σ) (s : Phy σ) :
    aborts_at_failed_read s (amd_xgbe_an_disable_kr_training bus s) := by
  unfold amd_xgbe_an_disable_kr_training
  simp only []
  split_ifs with h
  · exact abort_read bus s s _ _ rfl h
  · exact Or.inl ⟨rfl, by simp [failed_reads_read_ok bus s _ _ h]⟩

theorem abort_pcs_power_cycle (bus : Hw σ) (s : Phy σ) :
    aborts_at_failed_read s (amd_xgbe_phy_pcs_power_cycle bus s) := by
  unfold amd_xgbe_phy_pcs_power_cycle
  simp only []
  split_ifs with h
  · exact abort_read bus s s _ _ rfl h
  · exact Or.inl ⟨rfl, by simp [failed_reads_read_ok bus s _ _ h, failed_read]⟩

theorem abort_xgmii_mode (bus : Hw σ) (s : Phy σ) :
    aborts_at_failed_read s (amd_xgbe_phy_xgmii_mode bus s) := by
  have hd := abort_disable_kr_training bus s
  unfold amd_xgbe_phy_xgmii_mode
  simp only []
  split_ifs with h1 h2 h3 h4
  · exact hd
  · exact abort_read bus s _ _ _ (abort_ok hd h1) h2
  · exact abort_read bus s _ _ _
      (by simp [failed_reads_read_ok bus _ _ _ h2, abort_ok hd h1]) h3
  · exact abort_mono
      (by simp [failed_reads_read_ok bus _ _ _ h2, failed_reads_read_ok bus _ _ _ h3,
        abort_ok hd h1]) (abort_pcs_power_cycle bus _)
  · refine Or.inl ⟨rfl, ?_⟩
    simp [failed_read, abort_ok (abort_pcs_power_cycle bus _) h4,
      failed_reads_read_ok bus _ _ _ h2, failed_reads_read_ok bus _ _ _ h3, abort_ok hd h1]

theorem abort_gmii_2500_mode (bus : Hw σ) (s : Phy σ) :
    aborts_at_failed_read s (amd_xgbe_phy_gmii_2500_mode bus s) := by
  have hd := abort_disable_kr_training bus s
  unfold amd_xgbe_phy_gmii_2500_mode
  simp only []
  split_ifs with h1 h2 h3 h4
  · exact hd
  · exact abort_read bus s _ _ _ (abort_ok hd h1) h2
  · exact abort_read bus s _ _ _
      (by simp [failed_reads_read_ok bus _ _ _ h2, abort_ok hd h1]) h3
  · exact abort_mono
      (by simp [failed_reads_read_ok bus _ _ _ h2, failed_reads_read_ok bus _ _ _ h3,
        abort_ok hd h1]) (abort_pcs_power_cycle bus _)
  · refine Or.inl ⟨rfl, ?_⟩
    simp [failed_read, abort_ok (abort_pcs_power_cycle bus _) h4,
      failed_reads_read_ok bus _ _ _ h2, failed_reads_read_ok bus _ _ _ h3, abort_ok hd h1]

theorem abort_gmii_mode (bus : Hw σ) (s : Phy σ) :
    aborts_at_failed_read s (amd_xgbe_phy_gmii_mode bus s) := by
  have hd := abort_disable_kr_training bus s
  unfold amd_xgbe_phy_gmii_mode
  simp only []
  split_ifs with h1 h2 h3 h4
  · exact hd
  · exact abort_read bus s _ _ _ (abort_ok hd h1) h2
  · exact abort_read bus s _ _ _
      (by simp [failed_reads_read_ok bus _ _ _ h2, abort_ok hd h1]) h3
  · exact abort_mono
      (by simp [failed_reads_read_ok bus _ _ _ h2, failed_reads_read_ok bus _ _ _ h3,
        abort_ok hd h1]) (abort_pcs_power_cycle bus _)
  · refine Or.inl ⟨rfl, ?_⟩
    simp [failed_read, abort_ok (abort_pcs_power_cycle bus _) h4,
      failed_reads_read_ok bus _ _ _ h2, failed_reads_read_ok bus _ _ _ h3, abort_ok hd h1]

theorem abort_switch_mode (bus : Hw σ) (s : Phy σ) :
    aborts_at_failed_read (phy_read_mmd bus s MDIO_MMD_PCS MDIO_CTRL2).2
      (amd_xgbe_phy_switch_mode bus s) := by
  unfold amd_xgbe_phy_switch_mode
  simp only []
  rw [in_kr_mode_state]
  split_ifs
  · exact abort_gmii_mode bus _
  · exact abort_gmii_2500_mode bus _
  · exact abort_xgmii_mode bus _

/-- A failed read of the PCS type makes `amd_xgbe_phy_in_kr_mode` return false. -/
theorem in_kr_mode_fail (bus : Hw σ) (s : Phy σ)
    (h : (phy_read_mmd bus s MDIO_MMD_PCS MDIO_CTRL2).1 < 0) :
    (amd_xgbe_phy_in_kr_mode bus s).1 = false := by
  unfold amd_xgbe_phy_in_kr_mode amd_xgbe_phy_cur_mode
  simp only [h, if_true]

/-- C18 (amended): each of the three mode-programming routines either returns 0 with
no failed read, or returns the error of a failed management-interface read that is its
last access.  `amd_xgbe_phy_set_mode` returns the error of its read of the PCS type
without a further access; when that read succeeds it returns 0 at once or is
`amd_xgbe_phy_switch_mode`.  `amd_xgbe_phy_switch_mode` reads the PCS type itself and,
from the state after that read, behaves as the routine it selects; the failure of that
read is not returned: the device is taken not to be in KR mode and
`amd_xgbe_phy_xgmii_mode` is run. -/
theorem C18_read_errors (bus : Hw σ) (s : Phy σ) :
    aborts_at_failed_read s (amd_xgbe_phy_xgmii_mode bus s) ∧
    aborts_at_failed_read s (amd_xgbe_phy_gmii_2500_mode bus s) ∧
    aborts_at_failed_read s (amd_xgbe_phy_gmii_mode bus s) ∧
    (∀ mode, (phy_read_mmd bus s MDIO_MMD_PCS MDIO_CTRL2).1 < 0 →
      amd_xgbe_phy_set_mode bus s mode = phy_read_mmd bus s MDIO_MMD_PCS MDIO_CTRL2) ∧
    (∀ mode, 0 ≤ (phy_read_mmd bus s MDIO_MMD_PCS MDIO_CTRL2).1 →
      amd_xgbe_phy_set_mode bus s mode = (0, (phy_read_mmd bus s MDIO_MMD_PCS MDIO_CTRL2).2) ∨
      amd_xgbe_phy_set_mode bus s mode
        = amd_xgbe_phy_switch_mode bus (phy_read_mmd bus s MDIO_MMD_PCS MDIO_CTRL2).2) ∧
    aborts_at_failed_read (phy_read_mmd bus s MDIO_MMD_PCS MDIO_CTRL2).2
      (amd_xgbe_phy_switch_mode bus s) ∧
    ((phy_read_mmd bus s MDIO_MMD_PCS MDIO_CTRL2).1 < 0 →
      amd_xgbe_phy_switch_mode bus s
        = amd_xgbe_phy_xgmii_mode bus (phy_read_mmd bus s MDIO_MMD_PCS MDIO_CTRL2).2) := by
  refine ⟨abort_xgmii_mode bus s, abort_gmii_2500_mode bus s, abort_gmii_mode bus s,
    ?_, ?_, abort_switch_mode bus s, ?_⟩
  · intro mode h
    unfold amd_xgbe_phy_set_mode
    rw [cur_mode_state]
    unfold amd_xgbe_phy_cur_mode
    simp only [h, if_true]
  · intro mode h
    unfold amd_xgbe_phy_set_mode
    rw [cur_mode_state]
    unfold amd_xgbe_phy_cur_mode
    simp only [not_lt.mpr h, if_false]
    split_ifs with hk <;>
      (dsimp only; split_ifs <;> first | exact Or.inl rfl | exact Or.inr rfl)
  · intro h
    unfold amd_xgbe_phy_switch_mode
    simp only []
    rw [in_kr_mode_fail bus s h, in_kr_mode_state]
    simp

/-- C18, witness: on the hardware whose next read of the PCS type fails,
`amd_xgbe_phy_set_mode` returns the error after that one read, and
`amd_xgbe_phy_switch_mode` runs `amd_xgbe_phy_xgmii_mode`. -/
theorem C18_read_errors_witness :
    amd_xgbe_phy_set_mode fail_once_hw (phy_init (true, regs_kr 0 0)) AMD_XGBE_MODE_KX
      = phy_read_mmd fail_once_hw (phy_init (true, regs_kr 0 0)) MDIO_MMD_PCS MDIO_CTRL2 ∧
    amd_xgbe_phy_switch_mode fail_once_hw (phy_init (true, regs_kr 0 0))
      = amd_xgbe_phy_xgmii_mode fail_once_hw (phy_read_mmd fail_once_hw
          (phy_init (true, regs_kr 0 0)) MDIO_MMD_PCS MDIO_CTRL2).2 :=
  ⟨(C18_read_errors fail_once_hw (phy_init (true, regs_kr 0 0))).2.2.2.1 AMD_XGBE_MODE_KX
      (by decide),
   (C18_read_errors fail_once_hw (phy_init (true, regs_kr 0 0))).2.2.2.2.2.2 (by decide)⟩

/-- C18, counterexample: in KR mode, on the hardware whose next read of the PCS type
fails, `amd_xgbe_phy_switch_mode` starts with the failed read, goes on to program KR
mode (ten SerDes writes inside the bracket) and returns 0; the device is still in KR
mode afterwards. -/
theorem C18_counterexample :
    (amd_xgbe_phy_switch_mode fail_once_hw (phy_init (true, regs_kr_ready))).1 = 0 ∧
    (amd_xgbe_phy_switch_mode fail_once_hw (phy_init (true, regs_kr_ready))).2.trace.head?
      = some (Action.mdio_read MDIO_MMD_PCS MDIO_CTRL2 (-5)) ∧
    failed_reads (amd_xgbe_phy_switch_mode fail_once_hw
      (phy_init (true, regs_kr_ready))).2.trace = [-5] ∧
    bracket_run (ratechange_mask 0)
      (amd_xgbe_phy_switch_mode fail_once_hw (phy_init (true, regs_kr_ready))).2.trace
      = some (bracket_phase.unlocked, 10) ∧
    (amd_xgbe_phy_in_kr_mode fail_once_hw
      (amd_xgbe_phy_switch_mode fail_once_hw (phy_init (true, regs_kr_ready))).2).1 = true := by
  refine ⟨by decide, by decide, by decide, by decide, by decide⟩

/-- The bits of the rate-change mask of a channel from 0 to 7. -/
theorem ratechange_mask_testBit (c i : Nat) (hc : c ≤ 7) :
    (ratechange_mask c).testBit i = (decide (i = 15 - 2 * c) || decide (i = 14 - 2 * c)) := by
  have h16 : (65536 : Nat) = 2 ^ 16 := by norm_num
  unfold ratechange_mask CMU_REG16_TX_RATE_CHANGE_BASE CMU_REG16_RX_RATE_CHANGE_BASE
    CMU_REG16_RATE_CHANGE_DECR
  rw [h16, Nat.testBit_mod_two_pow, Nat.testBit_or, Nat.one_shiftLeft, Nat.one_shiftLeft,
    Nat.testBit_two_pow, Nat.testBit_two_pow]
  by_cases h1 : i = 15 - 2 * c
  · have : i < 16 := by omega
    have e : 15 - c * 2 = i := by omega
    simp [h1, this, e]
    omega
  · by_cases h2 : i = 14 - 2 * c
    · have : i < 16 := by omega
      have e : 14 - c * 2 = i := by omega
      simp [h2, this, e]
      omega
    · have e1 : ¬ 15 - c * 2 = i := by omega
      have e2 : ¬ 14 - c * 2 = i := by omega
      simp [h1, h2, e1, e2]

theorem testBit_lt_65536 (v i : Nat) (hv : v < 65536) (hi : ¬ i < 16) : v.testBit i = false := by
  apply Nat.testBit_lt_two_pow
  calc v < 2 ^ 16 := by norm_num; exact hv
    _ ≤ 2 ^ i := Nat.pow_le_pow_right (by norm_num) (by omega)

theorem ratechange_wait_hw (mask n : Nat) :
    ∀ s : Phy RegFile, (ratechange_wait regfile mask n s).hw = s.hw := by
  induction n with
  | zero => intro s; rfl
  | succ n ih =>
    intro s
    unfold ratechange_wait
    simp only []
    split_ifs
    · rfl
    · rw [ih]; rfl

/-- The value of `CMU_REG16` after `amd_xgbe_phy_serdes_start_ratechange` on the
register file. -/
theorem start_ratechange_reg (s : Phy RegFile) :
    (amd_xgbe_phy_serdes_start_ratechange regfile s).hw.cmu_regs CMU_REG16
      = (s.hw.cmu_regs CMU_REG16 % 65536 ||| ratechange_mask s.serdes_channel) % 65536 % 65536 := by
  unfold amd_xgbe_phy_serdes_start_ratechange XCMU_IOWRITE XCMU_IOREAD
  simp [regfile]

/-- The value of `CMU_REG16` after `amd_xgbe_phy_serdes_complete_ratechange` on the
register file. -/
theorem complete_ratechange_reg (s : Phy RegFile) :
    (amd_xgbe_phy_serdes_complete_ratechange regfile s).hw.cmu_regs CMU_REG16
      = clear_bits (s.hw.cmu_regs CMU_REG16 % 65536) (ratechange_mask s.serdes_channel)
          % 65536 % 65536 := by
  unfold amd_xgbe_phy_serdes_complete_ratechange
  simp only []
  rw [ratechange_wait_hw]
  unfold XCMU_IOWRITE XCMU_IOREAD
  simp [regfile]

theorem start_ratechange_testBit (s : Phy RegFile) (c v i : Nat) (hc : c ≤ 7)
    (hv : v < 65536) (hch : s.serdes_channel = c) (hreg : s.hw.cmu_regs CMU_REG16 = v) :
    ((amd_xgbe_phy_serdes_start_ratechange regfile s).hw.cmu_regs CMU_REG16).testBit i
      = (v.testBit i || (decide (i = 15 - 2 * c) || decide (i = 14 - 2 * c))) := by
  have h16 : (65536 : Nat) = 2 ^ 16 := by norm_num
  rw [start_ratechange_reg, hch, hreg, Nat.mod_mod, Nat.mod_eq_of_lt hv, h16,
    Nat.testBit_mod_two_pow, Nat.testBit_or, ratechange_mask_testBit c i hc]
  by_cases hi : i < 16
  · simp [hi]
  · have h1 : ¬ i = 15 - 2 * c := by omega
    have h2 : ¬ i = 14 - 2 * c := by omega
    simp [hi, h1, h2, testBit_lt_65536 v i hv hi]

theorem complete_ratechange_testBit (s : Phy RegFile) (c v i : Nat) (hc : c ≤ 7)
    (hv : v < 65536) (hch : s.serdes_channel = c) (hreg : s.hw.cmu_regs CMU_REG16 = v) :
    ((amd_xgbe_phy_serdes_complete_ratechange regfile s).hw.cmu_regs CMU_REG16).testBit i
      = (v.testBit i && !(decide (i = 15 - 2 * c) || decide (i = 14 - 2 * c))) := by
  rw [complete_ratechange_reg, hch, hreg, Nat.mod_mod, Nat.mod_eq_of_lt hv,
    clear_bits_testBit16, ratechange_mask_testBit c i hc]
  by_cases hi : i < 16
  · simp [hi]
  · simp [hi, testBit_lt_65536 v i hv hi]

/-- C19: on the register file, for a channel `c` from 0 to 7 and a 16-bit value `v` of
`CMU_REG16`: `amd_xgbe_phy_serdes_start_ratechange` sets exactly the bits `15 - 2c` and
`14 - 2c` and `amd_xgbe_phy_serdes_complete_ratechange` clears exactly these two bits,
every other bit being as in `v`; the masks of two distinct channels have no bit in
common, so neither operation changes the pair of another channel; and start followed
by complete gives back a value whose pair for `c` was clear. -/
theorem C19_ratechange_bits (s : Phy RegFile) (c v : Nat) (hc : c ≤ 7) (hv : v < 65536)
    (hch : s.serdes_channel = c) (hreg : s.hw.cmu_regs CMU_REG16 = v) :
    (∀ i, ((amd_xgbe_phy_serdes_start_ratechange regfile s).hw.cmu_regs CMU_REG16).testBit i
      = (v.testBit i || (decide (i = 15 - 2 * c) || decide (i = 14 - 2 * c)))) ∧
    (∀ i, ((amd_xgbe_phy_serdes_complete_ratechange regfile s).hw.cmu_regs CMU_REG16).testBit i
      = (v.testBit i && !(decide (i = 15 - 2 * c) || decide (i = 14 - 2 * c)))) ∧
    (∀ c1, c1 ≤ 7 → c1 ≠ c →
      ratechange_mask c &&& ratechange_mask c1 = 0 ∧
      (amd_xgbe_phy_serdes_start_ratechange regfile s).hw.cmu_regs CMU_REG16
        &&& ratechange_mask c1 = v &&& ratechange_mask c1 ∧
      (amd_xgbe_phy_serdes_complete_ratechange regfile s).hw.cmu_regs CMU_REG16
        &&& ratechange_mask c1 = v &&& ratechange_mask c1) ∧
    (v &&& ratechange_mask c = 0 →
      (amd_xgbe_phy_serdes_complete_ratechange regfile
        (amd_xgbe_phy_serdes_start_ratechange regfile s)).hw.cmu_regs CMU_REG16 = v) := by
  refine ⟨fun i => start_ratechange_testBit s c v i hc hv hch hreg,
    fun i => complete_ratechange_testBit s c v i hc hv hch hreg, ?_, ?_⟩
  · intro c1 hc1 hne
    refine ⟨?_, ?_, ?_⟩
    · apply Nat.eq_of_testBit_eq
      intro i
      rw [Nat.testBit_and, ratechange_mask_testBit c i hc, ratechange_mask_testBit c1 i hc1,
        Nat.zero_testBit]
      by_cases h1 : i = 15 - 2 * c <;> by_cases h2 : i = 14 - 2 * c <;>
        by_cases h3 : i = 15 - 2 * c1 <;> by_cases h4 : i = 14 - 2 * c1 <;>
        simp [h1, h2, h3, h4] <;> omega
    · apply Nat.eq_of_testBit_eq
      intro i
      rw [Nat.testBit_and, Nat.testBit_and, start_ratechange_testBit s c v i hc hv hch hreg,
        ratechange_mask_testBit c1 i hc1]
      by_cases h1 : i = 15 - 2 * c <;> by_cases h2 : i = 14 - 2 * c <;>
        by_cases h3 : i = 15 - 2 * c1 <;> by_cases h4 : i = 14 - 2 * c1 <;>
        simp [h1, h2, h3, h4] <;> omega
    · apply Nat.eq_of_testBit_eq
      intro i
      rw [Nat.testBit_and, Nat.testBit_and,
        complete_ratechange_testBit s c v i hc hv hch hreg, ratechange_mask_testBit c1 i hc1]
      by_cases h1 : i = 15 - 2 * c <;> by_cases h2 : i = 14 - 2 * c <;>
        by_cases h3 : i = 15 - 2 * c1 <;> by_cases h4 : i = 14 - 2 * c1 <;>
        simp [h1, h2, h3, h4] <;> omega
  · intro h0
    have hb : ∀ i, (v.testBit i && (decide (i = 15 - 2 * c) || decide (i = 14 - 2 * c)))
        = false := by
      intro i
      have := congrArg (fun n => n.testBit i) h0
      simp only [Nat.testBit_and, Nat.zero_testBit, ratechange_mask_testBit c i hc] at this
      exact this
    have hlt : (amd_xgbe_phy_serdes_start_ratechange regfile s).hw.cmu_regs CMU_REG16
        < 65536 := by
      rw [start_ratechange_reg]
      exact Nat.mod_lt _ (by norm_num)
    have hch2 : (amd_xgbe_phy_serdes_start_ratechange regfile s).serdes_channel = c := by
      rw [channel_start_ratechange]; exact hch
    apply Nat.eq_of_testBit_eq
    intro i
    rw [complete_ratechange_testBit _ c _ i hc hlt hch2 rfl,
      start_ratechange_testBit s c v i hc hv hch hreg]
    have := hb i
    by_cases h1 : i = 15 - 2 * c <;> by_cases h2 : i = 14 - 2 * c <;>
      simp [h1, h2] at this ⊢ <;> simp [this]

/-- C19, witness: channel 3 with the pairs of the channels 0 and 7 set: start sets the
bits 9 and 8, and complete after start gives the register back. -/
theorem C19_ratechange_bits_witness :
    (∀ i, ((amd_xgbe_phy_serdes_start_ratechange regfile
        (phy_channel 3 0xc003)).hw.cmu_regs CMU_REG16).testBit i
      = ((0xc003 : Nat).testBit i || (decide (i = 15 - 2 * 3) || decide (i = 14 - 2 * 3)))) ∧
    (amd_xgbe_phy_serdes_complete_ratechange regfile
        (amd_xgbe_phy_serdes_start_ratechange regfile
          (phy_channel 3 0xc003))).hw.cmu_regs CMU_REG16 = 0xc003 :=
  ⟨(C19_ratechange_bits (phy_channel 3 0xc003) 3 0xc003 (by decide) (by decide) rfl rfl).1,
   (C19_ratechange_bits (phy_channel 3 0xc003) 3 0xc003 (by decide) (by decide) rfl rfl).2.2.2
     (by decide)⟩

/-- Two values below `2 ^ 16` with the same 16 low bits are equal. -/
theorem u16_ext (a b : Nat) (ha : a < 65536) (hb : b < 65536)
    (h : ∀ i, i < 16 → a.testBit i = b.testBit i) : a = b := by
  apply Nat.eq_of_testBit_eq
  intro i
  by_cases hi : i < 16
  · exact h i hi
  · rw [testBit_lt_65536 a i ha hi, testBit_lt_65536 b i hb hi]

theorem and_lt_65536 (a m : Nat) (hm : m < 65536) : a &&& m < 65536 :=
  lt_of_le_of_lt Nat.and_le_right hm

theorem regfile_reads (hw : RegFile) (d r : Nat) : 0 ≤ (regfile.mdio_read hw d r).1 :=
  Int.ofNat_nonneg _

theorem regfile_read_hw (s : Phy RegFile) (d r : Nat) :
    (phy_read_mmd regfile s d r).2.hw = s.hw := rfl

theorem regfile_read_val (s : Phy RegFile) (d r : Nat) :
    (phy_read_mmd regfile s d r).1.toNat = s.hw.mdio_regs d r := rfl

theorem regfile_read_int (s : Phy RegFile) (d r : Nat) :
    (phy_read_mmd regfile s d r).1 = (s.hw.mdio_regs d r : Int) := rfl

theorem regfile_write_regs (s : Phy RegFile) (d0 r0 v d r : Nat) :
    (phy_write_mmd regfile s d0 r0 v).hw.mdio_regs d r
      = if d = d0 ∧ r = r0 then v % 65536 else s.hw.mdio_regs d r := rfl

theorem regfile_log_hw (s : Phy RegFile) (a : Action) : (s.log a).hw = s.hw := rfl

theorem regfile_start_mdio (s : Phy RegFile) :
    (amd_xgbe_phy_serdes_start_ratechange regfile s).hw.mdio_regs = s.hw.mdio_regs := rfl

theorem regfile_rxtx_write_bits_mdio (s : Phy RegFile) (r i w v : Nat) :
    (XRXTX_IOWRITE_BITS regfile s r i w v).hw.mdio_regs = s.hw.mdio_regs := rfl

theorem regfile_complete_mdio (s : Phy RegFile) :
    (amd_xgbe_phy_serdes_complete_ratechange regfile s).hw.mdio_regs = s.hw.mdio_regs := by
  unfold amd_xgbe_phy_serdes_complete_ratechange
  simp only []
  rw [ratechange_wait_hw]
  rfl

theorem regfile_disable_kr_training_regs (s : Phy RegFile) (d r : Nat) :
    (amd_xgbe_an_disable_kr_training regfile s).2.hw.mdio_regs d r
      = if d = MDIO_MMD_PMAPMD ∧ r = MDIO_PMA_10GBR_PMD_CTRL then
          clear_bits (s.hw.mdio_regs MDIO_MMD_PMAPMD MDIO_PMA_10GBR_PMD_CTRL)
            XGBE_PHY_KR_TRAINING_ENABLE % 65536
        else s.hw.mdio_regs d r := by
  unfold amd_xgbe_an_disable_kr_training
  simp only []
  rw [if_neg (read_ok regfile _ _ _ regfile_reads)]
  rfl

theorem regfile_pcs_power_cycle_regs (s : Phy RegFile) (d r : Nat) :
    (amd_xgbe_phy_pcs_power_cycle regfile s).2.hw.mdio_regs d r
      = if d = MDIO_MMD_PCS ∧ r = MDIO_CTRL1 then
          clear_bits (s.hw.mdio_regs MDIO_MMD_PCS MDIO_CTRL1 ||| MDIO_CTRL1_LPOWER)
            MDIO_CTRL1_LPOWER % 65536
        else s.hw.mdio_regs d r := by
  unfold amd_xgbe_phy_pcs_power_cycle
  simp only []
  rw [if_neg (read_ok regfile _ _ _ regfile_reads)]
  simp only [regfile_write_regs, regfile_log_hw, regfile_read_hw, regfile_read_val]
  split_ifs <;> rfl

/-- The management-interface registers after `amd_xgbe_phy_xgmii_mode` on the register
file. -/
theorem regfile_xgmii_mode_regs (s : Phy RegFile) (d r : Nat) :
    (amd_xgbe_phy_xgmii_mode regfile s).2.hw.mdio_regs d r
      = if d = MDIO_MMD_PCS ∧ r = MDIO_CTRL1 then
          clear_bits ((clear_bits (s.hw.mdio_regs MDIO_MMD_PCS MDIO_CTRL1) MDIO_CTRL1_SPEEDSEL
            ||| MDIO_CTRL1_SPEED10G) % 65536 ||| MDIO_CTRL1_LPOWER) MDIO_CTRL1_LPOWER % 65536
        else if d = MDIO_MMD_PCS ∧ r = MDIO_CTRL2 then
          (clear_bits (s.hw.mdio_regs MDIO_MMD_PCS MDIO_CTRL2) MDIO_PCS_CTRL2_TYPE
            ||| MDIO_PCS_CTRL2_10GBR) % 65536
        else if d = MDIO_MMD_PMAPMD ∧ r = MDIO_PMA_10GBR_PMD_CTRL then
          clear_bits (s.hw.mdio_regs MDIO_MMD_PMAPMD MDIO_PMA_10GBR_PMD_CTRL)
            XGBE_PHY_KR_TRAINING_ENABLE % 65536
        else s.hw.mdio_regs d r := by
  unfold amd_xgbe_phy_xgmii_mode
  simp only []
  rw [if_neg (by rw [disable_kr_training_ok regfile _ regfile_reads]; exact lt_irrefl 0),
    if_neg (read_ok regfile _ _ _ regfile_reads), if_neg (read_ok regfile _ _ _ regfile_reads),
    if_neg (by rw [pcs_power_cycle_ok regfile _ regfile_reads]; exact lt_irrefl 0)]
  simp only [regfile_log_hw, regfile_complete_mdio, regfile_rxtx_write_bits_mdio,
    regfile_start_mdio, regfile_pcs_power_cycle_regs, regfile_write_regs, regfile_read_hw,
    regfile_read_val, regfile_disable_kr_training_regs]
  simp only [MDIO_MMD_PCS, MDIO_MMD_PMAPMD, MDIO_CTRL1, MDIO_CTRL2, MDIO_PMA_10GBR_PMD_CTRL]
  split_ifs <;> simp_all
/-- The management-interface registers after `amd_xgbe_phy_gmii_2500_mode` on the register
file. -/
theorem regfile_gmii_2500_mode_regs (s : Phy RegFile) (d r : Nat) :
    (amd_xgbe_phy_gmii_2500_mode regfile s).2.hw.mdio_regs d r
      = if d = MDIO_MMD_PCS ∧ r = MDIO_CTRL1 then
          clear_bits ((clear_bits (s.hw.mdio_regs MDIO_MMD_PCS MDIO_CTRL1) MDIO_CTRL1_SPEEDSEL
            ||| MDIO_CTRL1_SPEED1G) % 65536 ||| MDIO_CTRL1_LPOWER) MDIO_CTRL1_LPOWER % 65536
        else if d = MDIO_MMD_PCS ∧ r = MDIO_CTRL2 then
          (clear_bits (s.hw.mdio_regs MDIO_MMD_PCS MDIO_CTRL2) MDIO_PCS_CTRL2_TYPE
            ||| MDIO_PCS_CTRL2_10GBX) % 65536
        else if d = MDIO_MMD_PMAPMD ∧ r = MDIO_PMA_10GBR_PMD_CTRL then
          clear_bits (s.hw.mdio_regs MDIO_MMD_PMAPMD MDIO_PMA_10GBR_PMD_CTRL)
            XGBE_PHY_KR_TRAINING_ENABLE % 65536
        else s.hw.mdio_regs d r := by
  unfold amd_xgbe_phy_gmii_2500_mode
  simp only []
  rw [if_neg (by rw [disable_kr_training_ok regfile _ regfile_reads]; exact lt_irrefl 0),
    if_neg (read_ok regfile _ _ _ regfile_reads), if_neg (read_ok regfile _ _ _ regfile_reads),
    if_neg (by rw [pcs_power_cycle_ok regfile _ regfile_reads]; exact lt_irrefl 0)]
  simp only [regfile_log_hw, regfile_complete_mdio, regfile_rxtx_write_bits_mdio,
    regfile_start_mdio, regfile_pcs_power_cycle_regs, regfile_write_regs, regfile_read_hw,
    regfile_read_val, regfile_disable_kr_training_regs]
  simp only [MDIO_MMD_PCS, MDIO_MMD_PMAPMD, MDIO_CTRL1, MDIO_CTRL2, MDIO_PMA_10GBR_PMD_CTRL]
  split_ifs <;> simp_all
/-- The management-interface registers after `amd_xgbe_phy_gmii_mode` on the register
file. -/
theorem regfile_gmii_mode_regs (s : Phy RegFile) (d r : Nat) :
    (amd_xgbe_phy_gmii_mode regfile s).2.hw.mdio_regs d r
      = if d = MDIO_MMD_PCS ∧ r = MDIO_CTRL1 then
          clear_bits ((clear_bits (s.hw.mdio_regs MDIO_MMD_PCS MDIO_CTRL1) MDIO_CTRL1_SPEEDSEL
            ||| MDIO_CTRL1_SPEED1G) % 65536 ||| MDIO_CTRL1_LPOWER) MDIO_CTRL1_LPOWER % 65536
        else if d = MDIO_MMD_PCS ∧ r = MDIO_CTRL2 then
          (clear_bits (s.hw.mdio_regs MDIO_MMD_PCS MDIO_CTRL2) MDIO_PCS_CTRL2_TYPE
            ||| MDIO_PCS_CTRL2_10GBX) % 65536
        else if d = MDIO_MMD_PMAPMD ∧ r = MDIO_PMA_10GBR_PMD_CTRL then
          clear_bits (s.hw.mdio_regs MDIO_MMD_PMAPMD MDIO_PMA_10GBR_PMD_CTRL)
            XGBE_PHY_KR_TRAINING_ENABLE % 65536
        else s.hw.mdio_regs d r := by
  unfold amd_xgbe_phy_gmii_mode
  simp only []
  rw [if_neg (by rw [disable_kr_training_ok regfile _ regfile_reads]; exact lt_irrefl 0),
    if_neg (read_ok regfile _ _ _ regfile_reads), if_neg (read_ok regfile _ _ _ regfile_reads),
    if_neg (by rw [pcs_power_cycle_ok regfile _ regfile_reads]; exact lt_irrefl 0)]
  simp only [regfile_log_hw, regfile_complete_mdio, regfile_rxtx_write_bits_mdio,
    regfile_start_mdio, regfile_pcs_power_cycle_regs, regfile_write_regs, regfile_read_hw,
    regfile_read_val, regfile_disable_kr_training_regs]
  simp only [MDIO_MMD_PCS, MDIO_MMD_PMAPMD, MDIO_CTRL1, MDIO_CTRL2, MDIO_PMA_10GBR_PMD_CTRL]
  split_ifs <;> simp_all

theorem ctrl2_type_bits (v f : Nat) (hf : f ≤ 3) :
    (clear_bits v MDIO_PCS_CTRL2_TYPE ||| f) % 65536 &&& MDIO_PCS_CTRL2_TYPE = f :=
  fec_bits v f hf

theorem ctrl1_speed10g_bits (c : Nat) :
    clear_bits ((clear_bits c MDIO_CTRL1_SPEEDSEL ||| MDIO_CTRL1_SPEED10G) % 65536
      ||| MDIO_CTRL1_LPOWER) MDIO_CTRL1_LPOWER % 65536 &&& MDIO_CTRL1_SPEEDSEL
      = MDIO_CTRL1_SPEED10G := by
  apply u16_ext _ _ (and_lt_65536 _ _ (by decide)) (by decide)
  intro i hi
  have h16 : (65536 : Nat) = 2 ^ 16 := by norm_num
  simp only [clear_bits, Nat.testBit_and, Nat.testBit_or, Nat.testBit_xor, h16,
    Nat.testBit_mod_two_pow, hi, decide_True, Bool.true_and]
  interval_cases i <;> (generalize c.testBit _ = b; cases b <;> decide)

theorem ctrl1_speed1g_bits (c : Nat) :
    clear_bits ((clear_bits c MDIO_CTRL1_SPEEDSEL ||| MDIO_CTRL1_SPEED1G) % 65536
      ||| MDIO_CTRL1_LPOWER) MDIO_CTRL1_LPOWER % 65536 &&& MDIO_CTRL1_SPEEDSEL
      = MDIO_CTRL1_SPEED1G := by
  apply u16_ext _ _ (and_lt_65536 _ _ (by decide)) (by decide)
  intro i hi
  have h16 : (65536 : Nat) = 2 ^ 16 := by norm_num
  simp only [clear_bits, Nat.testBit_and, Nat.testBit_or, Nat.testBit_xor, h16,
    Nat.testBit_mod_two_pow, hi, decide_True, Bool.true_and]
  interval_cases i <;> (generalize c.testBit _ = b; cases b <;> decide)

theorem ctrl1_lpower_bit (c : Nat) :
    clear_bits c MDIO_CTRL1_LPOWER % 65536 &&& MDIO_CTRL1_LPOWER = 0 := by
  apply u16_ext _ _ (and_lt_65536 _ _ (by decide)) (by decide)
  intro i hi
  have h16 : (65536 : Nat) = 2 ^ 16 := by norm_num
  simp only [clear_bits, Nat.testBit_and, Nat.testBit_or, Nat.testBit_xor, h16,
    Nat.testBit_mod_two_pow, hi, decide_True, Bool.true_and]
  interval_cases i <;> (generalize c.testBit _ = b; cases b <;> decide)

theorem kr_training_enable_bit (c : Nat) :
    clear_bits c XGBE_PHY_KR_TRAINING_ENABLE % 65536 &&& XGBE_PHY_KR_TRAINING_ENABLE = 0 := by
  apply u16_ext _ _ (and_lt_65536 _ _ (by decide)) (by decide)
  intro i hi
  have h16 : (65536 : Nat) = 2 ^ 16 := by norm_num
  simp only [clear_bits, Nat.testBit_and, Nat.testBit_or, Nat.testBit_xor, h16,
    Nat.testBit_mod_two_pow, hi, decide_True, Bool.true_and]
  interval_cases i <;> (generalize c.testBit _ = b; cases b <;> decide)

/-- On the register file `amd_xgbe_phy_in_kr_mode` reports the PCS type field. -/
theorem regfile_in_kr_mode (s : Phy RegFile) :
    (amd_xgbe_phy_in_kr_mode regfile s).1
      = decide (s.hw.mdio_regs MDIO_MMD_PCS MDIO_CTRL2 &&& MDIO_PCS_CTRL2_TYPE
          = MDIO_PCS_CTRL2_10GBR) := by
  unfold amd_xgbe_phy_in_kr_mode amd_xgbe_phy_cur_mode
  simp only []
  rw [if_neg (read_ok regfile _ _ _ regfile_reads), regfile_read_val]
  split_ifs with h <;> simp [h]

theorem regfile_in_kr_mode_hw (s : Phy RegFile) :
    (amd_xgbe_phy_in_kr_mode regfile s).2.hw = s.hw := by
  rw [in_kr_mode_state]
  rfl

theorem regfile_cur_mode (s : Phy RegFile) :
    (amd_xgbe_phy_cur_mode regfile s).1
      = Except.ok (if s.hw.mdio_regs MDIO_MMD_PCS MDIO_CTRL2 &&& MDIO_PCS_CTRL2_TYPE
          = MDIO_PCS_CTRL2_10GBR then AMD_XGBE_MODE_KR else AMD_XGBE_MODE_KX) := by
  unfold amd_xgbe_phy_cur_mode
  simp only []
  rw [if_neg (read_ok regfile _ _ _ regfile_reads), regfile_read_val]
  split_ifs <;> rfl

/-- What the registers written by a mode-programming routine hold afterwards. -/
theorem mode_regs_facts (regs regs1 : Nat → Nat → Nat) (ty sp : Nat) (hty : ty ≤ 3)
    (hsp : sp = MDIO_CTRL1_SPEED10G ∨ sp = MDIO_CTRL1_SPEED1G)
    (h : ∀ d r, regs1 d r
      = if d = MDIO_MMD_PCS ∧ r = MDIO_CTRL1 then
          clear_bits ((clear_bits (regs MDIO_MMD_PCS MDIO_CTRL1) MDIO_CTRL1_SPEEDSEL
            ||| sp) % 65536 ||| MDIO_CTRL1_LPOWER) MDIO_CTRL1_LPOWER % 65536
        else if d = MDIO_MMD_PCS ∧ r = MDIO_CTRL2 then
          (clear_bits (regs MDIO_MMD_PCS MDIO_CTRL2) MDIO_PCS_CTRL2_TYPE ||| ty) % 65536
        else if d = MDIO_MMD_PMAPMD ∧ r = MDIO_PMA_10GBR_PMD_CTRL then
          clear_bits (regs MDIO_MMD_PMAPMD MDIO_PMA_10GBR_PMD_CTRL)
            XGBE_PHY_KR_TRAINING_ENABLE % 65536
        else regs d r) :
    regs1 MDIO_MMD_PCS MDIO_CTRL2 &&& MDIO_PCS_CTRL2_TYPE = ty ∧
    regs1 MDIO_MMD_PCS MDIO_CTRL1 &&& MDIO_CTRL1_SPEEDSEL = sp ∧
    regs1 MDIO_MMD_PCS MDIO_CTRL1 &&& MDIO_CTRL1_LPOWER = 0 ∧
    regs1 MDIO_MMD_PMAPMD MDIO_PMA_10GBR_PMD_CTRL &&& XGBE_PHY_KR_TRAINING_ENABLE = 0 ∧
    ∀ r, regs1 MDIO_MMD_AN r = regs MDIO_MMD_AN r := by
  refine ⟨?_, ?_, ?_, ?_, ?_⟩
  · rw [h, if_neg (by decide), if_pos (by decide)]
    exact ctrl2_type_bits _ _ hty
  · rw [h, if_pos (by decide)]
    rcases hsp with e | e
    · rw [e]; exact ctrl1_speed10g_bits _
    · rw [e]; exact ctrl1_speed1g_bits _
  · rw [h, if_pos (by decide)]
    exact ctrl1_lpower_bit _
  · rw [h, if_neg (by decide), if_neg (by decide), if_pos (by decide)]
    exact kr_training_enable_bit _
  · intro r
    rw [h, if_neg (fun e => absurd e.1 (by decide)), if_neg (fun e => absurd e.1 (by decide)),
      if_neg (fun e => absurd e.1 (by decide))]

/-- On the register file `amd_xgbe_phy_switch_mode` succeeds and programs the mode
other than the one it finds. -/
theorem regfile_switch_mode (s : Phy RegFile) :
    (amd_xgbe_phy_switch_mode regfile s).1 = 0 ∧
    (amd_xgbe_phy_switch_mode regfile s).2.hw.mdio_regs MDIO_MMD_PCS MDIO_CTRL2
      &&& MDIO_PCS_CTRL2_TYPE
      = (if (amd_xgbe_phy_in_kr_mode regfile s).1 then MDIO_PCS_CTRL2_10GBX
          else MDIO_PCS_CTRL2_10GBR) ∧
    (amd_xgbe_phy_switch_mode regfile s).2.hw.mdio_regs MDIO_MMD_PCS MDIO_CTRL1
      &&& MDIO_CTRL1_SPEEDSEL
      = (if (amd_xgbe_phy_in_kr_mode regfile s).1 then MDIO_CTRL1_SPEED1G
          else MDIO_CTRL1_SPEED10G) ∧
    (amd_xgbe_phy_switch_mode regfile s).2.hw.mdio_regs MDIO_MMD_PCS MDIO_CTRL1
      &&& MDIO_CTRL1_LPOWER = 0 ∧
    (amd_xgbe_phy_switch_mode regfile s).2.hw.mdio_regs MDIO_MMD_PMAPMD
      MDIO_PMA_10GBR_PMD_CTRL &&& XGBE_PHY_KR_TRAINING_ENABLE = 0 ∧
    ∀ r, (amd_xgbe_phy_switch_mode regfile s).2.hw.mdio_regs MDIO_MMD_AN r
      = s.hw.mdio_regs MDIO_MMD_AN r := by
  refine ⟨switch_mode_ok regfile s regfile_reads, ?_⟩
  by_cases hk : (amd_xgbe_phy_in_kr_mode regfile s).1 = true
  · by_cases hs : (amd_xgbe_phy_in_kr_mode regfile s).2.speed_set
        = AMD_XGBE_PHY_SPEEDSET_1000_10000
    · have e : amd_xgbe_phy_switch_mode regfile s
          = amd_xgbe_phy_gmii_mode regfile (amd_xgbe_phy_in_kr_mode regfile s).2 := by
        unfold amd_xgbe_phy_switch_mode
        simp only [hk, hs, if_true]
      rw [e, hk]
      exact mode_regs_facts s.hw.mdio_regs
        (amd_xgbe_phy_gmii_mode regfile (amd_xgbe_phy_in_kr_mode regfile s).2).2.hw.mdio_regs
        MDIO_PCS_CTRL2_10GBX MDIO_CTRL1_SPEED1G
        (by decide) (Or.inr rfl) (fun d r => by
          rw [regfile_gmii_mode_regs, regfile_in_kr_mode_hw])
    · have e : amd_xgbe_phy_switch_mode regfile s
          = amd_xgbe_phy_gmii_2500_mode regfile (amd_xgbe_phy_in_kr_mode regfile s).2 := by
        unfold amd_xgbe_phy_switch_mode
        simp only [hk, hs, if_true, if_false]
      rw [e, hk]
      exact mode_regs_facts s.hw.mdio_regs
        (amd_xgbe_phy_gmii_2500_mode regfile
          (amd_xgbe_phy_in_kr_mode regfile s).2).2.hw.mdio_regs
        MDIO_PCS_CTRL2_10GBX MDIO_CTRL1_SPEED1G
        (by decide) (Or.inr rfl) (fun d r => by
          rw [regfile_gmii_2500_mode_regs, regfile_in_kr_mode_hw])
  · have e : amd_xgbe_phy_switch_mode regfile s
        = amd_xgbe_phy_xgmii_mode regfile (amd_xgbe_phy_in_kr_mode regfile s).2 := by
      unfold amd_xgbe_phy_switch_mode
      simp only []
      rw [if_neg hk]
    rw [e, if_neg hk, if_neg hk]
    exact mode_regs_facts s.hw.mdio_regs
      (amd_xgbe_phy_xgmii_mode regfile (amd_xgbe_phy_in_kr_mode regfile s).2).2.hw.mdio_regs
      MDIO_PCS_CTRL2_10GBR MDIO_CTRL1_SPEED10G
      (by decide) (Or.inl rfl) (fun d r => by
        rw [regfile_xgmii_mode_regs, regfile_in_kr_mode_hw])

/-- On the register file, `amd_xgbe_phy_set_mode` with a target other than the current
mode is `amd_xgbe_phy_switch_mode` after the read of the PCS type. -/
theorem regfile_set_mode_switch (s : Phy RegFile) (target : amd_xgbe_phy_mode)
    (hcur : (amd_xgbe_phy_cur_mode regfile s).1 ≠ Except.ok target) :
    amd_xgbe_phy_set_mode regfile s target
      = amd_xgbe_phy_switch_mode regfile (phy_read_mmd regfile s MDIO_MMD_PCS MDIO_CTRL2).2 ∧
    (amd_xgbe_phy_in_kr_mode regfile (phy_read_mmd regfile s MDIO_MMD_PCS MDIO_CTRL2).2).1
      = decide (target = AMD_XGBE_MODE_KX) := by
  rw [regfile_cur_mode] at hcur
  constructor
  · unfold amd_xgbe_phy_set_mode
    rw [regfile_cur_mode, cur_mode_state]
    dsimp only
    rw [if_pos (fun e => hcur (by rw [e]))]
  · rw [regfile_in_kr_mode, regfile_read_hw]
    by_cases hk : s.hw.mdio_regs MDIO_MMD_PCS MDIO_CTRL2 &&& MDIO_PCS_CTRL2_TYPE
        = MDIO_PCS_CTRL2_10GBR
    · rw [if_pos hk] at hcur
      cases target
      · exact absurd rfl hcur
      · simp [hk]
    · rw [if_neg hk] at hcur
      cases target
      · simp [hk]
      · exact absurd rfl hcur

/-- C17: on the register file (every write is read back, every read succeeds),
`amd_xgbe_phy_set_mode` called with a target other than the current mode returns 0,
and afterwards the current-mode read yields the target: the type field of the PCS
control register 2 is 10GBASE-R for KR and 10GBASE-X for KX, the speed-select bits of the
PCS control register 1 are those of 10G for KR and of 1G for KX, the KR training-enable
bit is clear and the low-power bit is clear.  `amd_xgbe_phy_switch_mode` always flips
the mode that `amd_xgbe_phy_in_kr_mode` reports. -/
theorem C17_mode_change (s : Phy RegFile) (target : amd_xgbe_phy_mode)
    (hcur : (amd_xgbe_phy_cur_mode regfile s).1 ≠ Except.ok target) :
    (amd_xgbe_phy_set_mode regfile s target).1 = 0 ∧
    (amd_xgbe_phy_cur_mode regfile (amd_xgbe_phy_set_mode regfile s target).2).1
      = Except.ok target ∧
    (amd_xgbe_phy_set_mode regfile s target).2.hw.mdio_regs MDIO_MMD_PCS MDIO_CTRL2
      &&& MDIO_PCS_CTRL2_TYPE
      = (if target = AMD_XGBE_MODE_KR then MDIO_PCS_CTRL2_10GBR else MDIO_PCS_CTRL2_10GBX) ∧
    (amd_xgbe_phy_set_mode regfile s target).2.hw.mdio_regs MDIO_MMD_PCS MDIO_CTRL1
      &&& MDIO_CTRL1_SPEEDSEL
      = (if target = AMD_XGBE_MODE_KR then MDIO_CTRL1_SPEED10G else MDIO_CTRL1_SPEED1G) ∧
    (amd_xgbe_phy_set_mode regfile s target).2.hw.mdio_regs MDIO_MMD_PMAPMD
      MDIO_PMA_10GBR_PMD_CTRL &&& XGBE_PHY_KR_TRAINING_ENABLE = 0 ∧
    (amd_xgbe_phy_set_mode regfile s target).2.hw.mdio_regs MDIO_MMD_PCS MDIO_CTRL1
      &&& MDIO_CTRL1_LPOWER = 0 ∧
    (amd_xgbe_phy_in_kr_mode regfile (amd_xgbe_phy_switch_mode regfile s).2).1
      = !(amd_xgbe_phy_in_kr_mode regfile s).1 := by
  obtain ⟨e, hk⟩ := regfile_set_mode_switch s target hcur
  obtain ⟨h0, h1, h2, h3, h4, -⟩ :=
    regfile_switch_mode (phy_read_mmd regfile s MDIO_MMD_PCS MDIO_CTRL2).2
  rw [hk] at h1 h2
  have hty : (amd_xgbe_phy_set_mode regfile s target).2.hw.mdio_regs MDIO_MMD_PCS MDIO_CTRL2
      &&& MDIO_PCS_CTRL2_TYPE
      = (if target = AMD_XGBE_MODE_KR then MDIO_PCS_CTRL2_10GBR else MDIO_PCS_CTRL2_10GBX) := by
    rw [e, h1]
    cases target <;> rfl
  refine ⟨by rw [e]; exact h0, ?_, hty, ?_, by rw [e]; exact h4, by rw [e]; exact h3, ?_⟩
  · rw [regfile_cur_mode, hty]
    cases target <;> rfl
  · rw [e, h2]
    cases target <;> rfl
  · obtain ⟨-, g1, -⟩ := regfile_switch_mode s
    rw [regfile_in_kr_mode (amd_xgbe_phy_switch_mode regfile s).2, g1]
    cases (amd_xgbe_phy_in_kr_mode regfile s).1 <;> rfl

/-- C17, witness: from KR mode to KX and from KX mode to KR. -/
theorem C17_mode_change_witness :
    (amd_xgbe_phy_cur_mode regfile
      (amd_xgbe_phy_set_mode regfile (phy_init regs_kr_ready) AMD_XGBE_MODE_KX).2).1
      = Except.ok AMD_XGBE_MODE_KX ∧
    (amd_xgbe_phy_cur_mode regfile
      (amd_xgbe_phy_set_mode regfile (phy_init (regs_kx 0 0)) AMD_XGBE_MODE_KR).2).1
      = Except.ok AMD_XGBE_MODE_KR :=
  ⟨(C17_mode_change (phy_init regs_kr_ready) AMD_XGBE_MODE_KX
      (fun h => by cases h)).2.1,
   (C17_mode_change (phy_init (regs_kx 0 0)) AMD_XGBE_MODE_KR
      (fun h => by cases h)).2.1⟩

theorem rx_load_of_frame {x y : Phy σ} (h : x.frame y) (p : rx_state_ptr) :
    y.rx_load p = x.rx_load p := by
  rw [h]
  cases p <;> rfl

theorem same_config_refl (x : Phy σ) : x.same_config x := ⟨rfl, rfl, rfl, rfl⟩

theorem same_config_via {x y z : Phy σ} (h : y.frame z) :
    x.same_config z ↔ x.same_config y := by
  unfold Phy.same_config
  rw [h]

@[simp] theorem same_config_read (bus : Hw σ) (x y : Phy σ) (d r : Nat) :
    x.same_config (phy_read_mmd bus y d r).2 ↔ x.same_config y := Iff.rfl
@[simp] theorem same_config_write (bus : Hw σ) (x y : Phy σ) (d r v : Nat) :
    x.same_config (phy_write_mmd bus y d r v) ↔ x.same_config y := Iff.rfl
@[simp] theorem same_config_log (x y : Phy σ) (a : Action) :
    x.same_config (y.log a) ↔ x.same_config y := Iff.rfl
@[simp] theorem same_config_set_an (bus : Hw σ) (x y : Phy σ) (e r : Bool) :
    x.same_config (amd_xgbe_phy_set_an bus y e r).2 ↔ x.same_config y :=
  same_config_via (frame_set_an bus y e r)
@[simp] theorem same_config_disable_an (bus : Hw σ) (x y : Phy σ) :
    x.same_config (amd_xgbe_phy_disable_an bus y).2 ↔ x.same_config y :=
  same_config_via (frame_set_an bus y false false)
@[simp] theorem same_config_restart_an (bus : Hw σ) (x y : Phy σ) :
    x.same_config (amd_xgbe_phy_restart_an bus y).2 ↔ x.same_config y :=
  same_config_via (frame_set_an bus y true true)
@[simp] theorem same_config_set_mode (bus : Hw σ) (x y : Phy σ) (m : amd_xgbe_phy_mode) :
    x.same_config (amd_xgbe_phy_set_mode bus y m).2 ↔ x.same_config y :=
  same_config_via (frame_set_mode bus y m)
@[simp] theorem same_config_switch_mode (bus : Hw σ) (x y : Phy σ) :
    x.same_config (amd_xgbe_phy_switch_mode bus y).2 ↔ x.same_config y :=
  same_config_via (frame_switch_mode bus y)
@[simp] theorem same_config_link (x y : Phy σ) (v : Nat) :
    x.same_config { y with link := v } ↔ x.same_config y := Iff.rfl
@[simp] theorem same_config_priv_link (x y : Phy σ) (v : Nat) :
    x.same_config { y with priv_link := v } ↔ x.same_config y := Iff.rfl
@[simp] theorem same_config_pause (x y : Phy σ) (v w : Nat) :
    x.same_config { y with pause := v, asym_pause := w } ↔ x.same_config y := Iff.rfl
@[simp] theorem same_config_an (x y : Phy σ) (a b : amd_xgbe_phy_an) (c d : amd_xgbe_phy_rx) :
    x.same_config { y with an_result := a, an_state := b, kr_state := c, kx_state := d }
      ↔ x.same_config y := Iff.rfl

theorem frame_an_init (bus : Hw σ) (x : Phy σ) : x.frame (amd_xgbe_an_init bus x).2 := by
  unfold amd_xgbe_an_init
  lift_lets
  intro r1 v1 s1 r2 v2 v3 s2 r3 v4 v5 v6
  split_ifs
  · exact frame_read bus x _ _
  · exact frame_trans (frame_trans (frame_read bus x _ _) (frame_write bus _ _ _ _))
      (frame_read bus _ _ _)
  · exact frame_trans (frame_trans (frame_trans (frame_trans (frame_read bus x _ _)
      (frame_write bus _ _ _ _)) (frame_read bus _ _ _)) (frame_write bus _ _ _ _))
      (frame_read bus _ _ _)
  · exact frame_trans (frame_trans (frame_trans (frame_trans (frame_trans
      (frame_read bus x _ _) (frame_write bus _ _ _ _)) (frame_read bus _ _ _))
      (frame_write bus _ _ _ _)) (frame_read bus _ _ _)) (frame_write bus _ _ _ _)

@[simp] theorem same_config_an_init (bus : Hw σ) (x y : Phy σ) :
    x.same_config (amd_xgbe_an_init bus y).2 ↔ x.same_config y :=
  same_config_via (frame_an_init bus y)

theorem same_config_congr {x y z : Phy σ} (h : y.same_config z) :
    x.same_config z ↔ x.same_config y := by
  unfold Phy.same_config at *
  rw [h.1, h.2.1, h.2.2.1, h.2.2.2]

theorem same_config_setup_forced (bus : Hw σ) (x : Phy σ) :
    x.same_config (amd_xgbe_phy_setup_forced bus x).2 := by
  unfold amd_xgbe_phy_setup_forced
  simp only []
  split_ifs <;> simp [same_config_refl]

@[simp] theorem same_config_setup_forced_iff (bus : Hw σ) (x y : Phy σ) :
    x.same_config (amd_xgbe_phy_setup_forced bus y).2 ↔ x.same_config y :=
  same_config_congr (same_config_setup_forced bus y)

theorem same_config_config_aneg (bus : Hw σ) (x : Phy σ) :
    x.same_config (amd_xgbe_phy_config_aneg bus x).2 := by
  unfold amd_xgbe_phy_config_aneg __amd_xgbe_phy_config_aneg
  simp only []
  split_ifs <;> simp [same_config_refl]

@[simp] theorem same_config_config_aneg_iff (bus : Hw σ) (x y : Phy σ) :
    x.same_config (amd_xgbe_phy_config_aneg bus y).2 ↔ x.same_config y :=
  same_config_congr (same_config_config_aneg bus y)

theorem same_config_update_link_read (bus : Hw σ) (x : Phy σ) :
    x.same_config (update_link_read bus x).2 := by
  unfold update_link_read
  simp only []
  split_ifs <;> simp [same_config_refl]

@[simp] theorem same_config_update_link_read_iff (bus : Hw σ) (x y : Phy σ) :
    x.same_config (update_link_read bus y).2 ↔ x.same_config y :=
  same_config_congr (same_config_update_link_read bus y)

theorem same_config_update_link_done (bus : Hw σ) (x : Phy σ) :
    x.same_config (update_link_done bus x).2 := by
  unfold update_link_done
  simp only []
  split_ifs <;> simp [same_config_refl]

@[simp] theorem same_config_update_link_done_iff (bus : Hw σ) (x y : Phy σ) :
    x.same_config (update_link_done bus y).2 ↔ x.same_config y :=
  same_config_congr (same_config_update_link_done bus y)

theorem same_config_update_link (bus : Hw σ) (x : Phy σ) :
    x.same_config (amd_xgbe_phy_update_link bus x).2 := by
  unfold amd_xgbe_phy_update_link
  simp only []
  split_ifs <;> simp [same_config_refl]

theorem frame_status_fields {x y : Phy σ} (h : x.frame y) :
    y.pause = x.pause ∧ y.asym_pause = x.asym_pause ∧ y.speed = x.speed := by
  rw [h]
  exact ⟨rfl, rfl, rfl⟩

/-- The value of `amd_xgbe_phy_read_status` once the link update has returned 0 with
the state `u`, negotiation being complete. -/
theorem read_status_eq (bus : Hw σ) (s u a : Phy σ) (l : Int × Phy σ)
    (hU : amd_xgbe_phy_update_link bus s = (0, u))
    (hreads : ∀ hw d r, 0 ≤ (bus.mdio_read hw d r).1)
    (ha : u.autoneg = AUTONEG_ENABLE) (hp : u.parallel_detect = 0)
    (hd : u.devices_in_package &&& MDIO_DEVS_AN ≠ 0)
    (hr : u.an_result = AMD_XGBE_AN_COMPLETE)
    (ea : a = { (phy_read_mmd bus (phy_read_mmd bus u MDIO_MMD_AN MDIO_AN_ADVERTISE).2
        MDIO_MMD_AN MDIO_AN_LPA).2 with
      pause := if ((phy_read_mmd bus u MDIO_MMD_AN MDIO_AN_ADVERTISE).1.toNat &&&
        (phy_read_mmd bus (phy_read_mmd bus u MDIO_MMD_AN MDIO_AN_ADVERTISE).2
          MDIO_MMD_AN MDIO_AN_LPA).1.toNat) &&& 0x400 ≠ 0 then 1 else 0,
      asym_pause := if ((phy_read_mmd bus u MDIO_MMD_AN MDIO_AN_ADVERTISE).1.toNat &&&
        (phy_read_mmd bus (phy_read_mmd bus u MDIO_MMD_AN MDIO_AN_ADVERTISE).2
          MDIO_MMD_AN MDIO_AN_LPA).1.toNat) &&& 0x800 ≠ 0 then 1 else 0 })
    (el : l = phy_read_mmd bus (phy_read_mmd bus a MDIO_MMD_AN (MDIO_AN_ADVERTISE + 1)).2
      MDIO_MMD_AN (MDIO_AN_LPA + 1)) :
    amd_xgbe_phy_read_status bus s =
      if ((phy_read_mmd bus a MDIO_MMD_AN (MDIO_AN_ADVERTISE + 1)).1.toNat &&& l.1.toNat)
          &&& 0x80 ≠ 0 then
        (0, { (amd_xgbe_phy_set_mode bus { l.2 with speed := SPEED_10000 }
          AMD_XGBE_MODE_KR).2 with duplex := DUPLEX_FULL })
      else
        (0, { (amd_xgbe_phy_set_mode bus
          (if l.2.speed_set = AMD_XGBE_PHY_SPEEDSET_1000_10000 then
              { l.2 with speed := SPEED_1000 }
            else if l.2.speed_set = AMD_XGBE_PHY_SPEEDSET_2500_10000 then
              { l.2 with speed := SPEED_2500 }
            else l.2) AMD_XGBE_MODE_KX).2 with duplex := DUPLEX_FULL }) := by
  have hdone : ¬ ¬ (amd_xgbe_phy_aneg_done u = true) := by
    unfold amd_xgbe_phy_aneg_done
    simp [hr]
  have hm : ∀ (t : Phy σ) (m : amd_xgbe_phy_mode),
      ¬ (amd_xgbe_phy_set_mode bus t m).1 ≠ 0 :=
    fun t m => not_not.mpr (set_mode_ok bus t m hreads)
  subst ea el
  unfold amd_xgbe_phy_read_status
  rw [hU]
  simp only []
  rw [if_neg (not_not.mpr rfl), if_pos ⟨ha, hp⟩, if_neg hd, if_neg hdone,
    if_neg (read_ok bus _ _ _ hreads), if_neg (read_ok bus _ _ _ hreads),
    if_neg (read_ok bus _ _ _ hreads), if_neg (read_ok bus _ _ _ hreads)]
  refine if_congr Iff.rfl ?_ ?_
  · exact if_neg (hm _ _)
  · exact if_neg (hm _ _)

theorem status_fields (bus : Hw σ) (t : Phy σ) (m : amd_xgbe_phy_mode) (r : Int × Phy σ)
    (hr : r = (0, { (amd_xgbe_phy_set_mode bus t m).2 with duplex := DUPLEX_FULL })) :
    r.1 = 0 ∧ r.2.pause = t.pause ∧ r.2.asym_pause = t.asym_pause ∧
    r.2.duplex = DUPLEX_FULL ∧ r.2.speed = t.speed ∧
    r.2 = { (amd_xgbe_phy_set_mode bus t m).2 with duplex := DUPLEX_FULL } := by
  subst hr
  have f := frame_status_fields (frame_set_mode bus t m)
  exact ⟨rfl, f.1, f.2.1, rfl, f.2.2, rfl⟩

/-- C6 (amended): for every state in which auto-negotiation is enabled,
`parallel_detect` is 0 and the AN device is present, with every register read
succeeding, if the link update that `amd_xgbe_phy_read_status` starts with returns 0
and leaves `an_result` at COMPLETE (it resets `an_result` when it sees the link come
up), then `amd_xgbe_phy_read_status` returns 0 and reports pause and asymmetric pause
as the bits 0x400 and 0x800 of the advertisement register 1 AND the link-partner
ability register 1, full duplex, and, with `v` the advertisement register 2 AND the
link-partner ability register 2: speed 10000 after `amd_xgbe_phy_set_mode` for KR if
bit 0x80 of `v` is set, and otherwise speed 1000 (speed set 1000/10000) or 2500 (speed
set 2500/10000) after `amd_xgbe_phy_set_mode` for KX. -/
theorem C6_read_status (bus : Hw σ) (s : Phy σ) (r1 r2 r3 r4 : Int × σ)
    (hreads : ∀ hw d r, 0 ≤ (bus.mdio_read hw d r).1)
    (ha : s.autoneg = AUTONEG_ENABLE) (hp : s.parallel_detect = 0)
    (hd : s.devices_in_package &&& MDIO_DEVS_AN ≠ 0)
    (hu : (amd_xgbe_phy_update_link bus s).1 = 0)
    (hr : (amd_xgbe_phy_update_link bus s).2.an_result = AMD_XGBE_AN_COMPLETE)
    (e1 : r1 = bus.mdio_read (amd_xgbe_phy_update_link bus s).2.hw MDIO_MMD_AN
      MDIO_AN_ADVERTISE)
    (e2 : r2 = bus.mdio_read r1.2 MDIO_MMD_AN MDIO_AN_LPA)
    (e3 : r3 = bus.mdio_read r2.2 MDIO_MMD_AN (MDIO_AN_ADVERTISE + 1))
    (e4 : r4 = bus.mdio_read r3.2 MDIO_MMD_AN (MDIO_AN_LPA + 1)) :
    (amd_xgbe_phy_read_status bus s).1 = 0 ∧
    (amd_xgbe_phy_read_status bus s).2.pause
      = (if (r1.1.toNat &&& r2.1.toNat) &&& 0x400 ≠ 0 then 1 else 0) ∧
    (amd_xgbe_phy_read_status bus s).2.asym_pause
      = (if (r1.1.toNat &&& r2.1.toNat) &&& 0x800 ≠ 0 then 1 else 0) ∧
    (amd_xgbe_phy_read_status bus s).2.duplex = DUPLEX_FULL ∧
    ((r3.1.toNat &&& r4.1.toNat) &&& 0x80 ≠ 0 →
      (amd_xgbe_phy_read_status bus s).2.speed = SPEED_10000 ∧
      ∃ t : Phy σ, t.hw = r4.2 ∧ (amd_xgbe_phy_read_status bus s).2
        = { (amd_xgbe_phy_set_mode bus t AMD_XGBE_MODE_KR).2 with duplex := DUPLEX_FULL }) ∧
    ((r3.1.toNat &&& r4.1.toNat) &&& 0x80 = 0 →
      (s.speed_set = AMD_XGBE_PHY_SPEEDSET_1000_10000 →
        (amd_xgbe_phy_read_status bus s).2.speed = SPEED_1000) ∧
      (s.speed_set = AMD_XGBE_PHY_SPEEDSET_2500_10000 →
        (amd_xgbe_phy_read_status bus s).2.speed = SPEED_2500) ∧
      ∃ t : Phy σ, t.hw = r4.2 ∧ (amd_xgbe_phy_read_status bus s).2
        = { (amd_xgbe_phy_set_mode bus t AMD_XGBE_MODE_KX).2 with duplex := DUPLEX_FULL }) := by
  have hc := same_config_update_link bus s
  have hU : amd_xgbe_phy_update_link bus s = (0, (amd_xgbe_phy_update_link bus s).2) :=
    Prod.ext hu rfl
  have E := read_status_eq bus s (amd_xgbe_phy_update_link bus s).2 _ _ hU hreads
    (hc.1.trans ha) (hc.2.1.trans hp) (by rw [hc.2.2.1]; exact hd) hr rfl rfl
  have hss : ∀ (x y : Phy σ), x.frame y → y.speed_set = x.speed_set := by
    intro x y h; rw [h]
  subst e1 e2 e3 e4
  by_cases hb : ((bus.mdio_read (bus.mdio_read (bus.mdio_read
      (amd_xgbe_phy_update_link bus s).2.hw MDIO_MMD_AN MDIO_AN_ADVERTISE).2 MDIO_MMD_AN
      MDIO_AN_LPA).2 MDIO_MMD_AN (MDIO_AN_ADVERTISE + 1)).1.toNat &&&
      (bus.mdio_read (bus.mdio_read (bus.mdio_read (bus.mdio_read
      (amd_xgbe_phy_update_link bus s).2.hw MDIO_MMD_AN MDIO_AN_ADVERTISE).2 MDIO_MMD_AN
      MDIO_AN_LPA).2 MDIO_MMD_AN (MDIO_AN_ADVERTISE + 1)).2 MDIO_MMD_AN
      (MDIO_AN_LPA + 1)).1.toNat) &&& 0x80 ≠ 0
  · obtain ⟨g1, g2, g3, g4, g5, g6⟩ := status_fields bus _ _ _ (E.trans (if_pos hb))
    refine ⟨g1, g2, g3, g4, fun _ => ⟨g5, _, rfl, g6⟩, fun h => absurd h hb⟩
  · have E2 := E.trans (if_neg hb)
    have hs : (phy_read_mmd bus (phy_read_mmd bus
        { (phy_read_mmd bus (phy_read_mmd bus (amd_xgbe_phy_update_link bus s).2 MDIO_MMD_AN
            MDIO_AN_ADVERTISE).2 MDIO_MMD_AN MDIO_AN_LPA).2 with
          pause := if ((phy_read_mmd bus (amd_xgbe_phy_update_link bus s).2 MDIO_MMD_AN
              MDIO_AN_ADVERTISE).1.toNat &&&
            (phy_read_mmd bus (phy_read_mmd bus (amd_xgbe_phy_update_link bus s).2 MDIO_MMD_AN
              MDIO_AN_ADVERTISE).2 MDIO_MMD_AN MDIO_AN_LPA).1.toNat) &&& 0x400 ≠ 0
            then 1 else 0,
          asym_pause := if ((phy_read_mmd bus (amd_xgbe_phy_update_link bus s).2 MDIO_MMD_AN
              MDIO_AN_ADVERTISE).1.toNat &&&
            (phy_read_mmd bus (phy_read_mmd bus (amd_xgbe_phy_update_link bus s).2 MDIO_MMD_AN
              MDIO_AN_ADVERTISE).2 MDIO_MMD_AN MDIO_AN_LPA).1.toNat) &&& 0x800 ≠ 0
            then 1 else 0 }
        MDIO_MMD_AN (MDIO_AN_ADVERTISE + 1)).2 MDIO_MMD_AN (MDIO_AN_LPA + 1)).2.speed_set
        = s.speed_set := hc.2.2.2
    rw [hs] at E2
    by_cases h0 : s.speed_set = AMD_XGBE_PHY_SPEEDSET_1000_10000
    · rw [if_pos h0] at E2
      obtain ⟨g1, g2, g3, g4, g5, g6⟩ := status_fields bus _ _ _ E2
      refine ⟨g1, g2, g3, g4, fun h => absurd h hb,
        fun _ => ⟨fun _ => g5, fun h1 => ?_, _, rfl, g6⟩⟩
      rw [h0] at h1
      exact absurd h1 (by decide)
    · rw [if_neg h0] at E2
      by_cases h1 : s.speed_set = AMD_XGBE_PHY_SPEEDSET_2500_10000
      · rw [if_pos h1] at E2
        obtain ⟨g1, g2, g3, g4, g5, g6⟩ := status_fields bus _ _ _ E2
        exact ⟨g1, g2, g3, g4, fun h => absurd h hb,
          fun _ => ⟨fun h => absurd h h0, fun _ => g5, _, rfl, g6⟩⟩
      · rw [if_neg h1] at E2
        obtain ⟨g1, g2, g3, g4, g5, g6⟩ := status_fields bus _ _ _ E2
        exact ⟨g1, g2, g3, g4, fun h => absurd h hb,
          fun _ => ⟨fun h => absurd h h0, fun h => absurd h h1, _, rfl, g6⟩⟩

/-- C6, witness: the link up as before, the partner offering only the KX codeword,
speed set 1000/10000: speed 1000, full duplex, pause without asymmetric pause. -/
theorem C6_read_status_witness :
    (amd_xgbe_phy_read_status regfile (phy_status 0x20 1)).1 = 0 ∧
    (amd_xgbe_phy_read_status regfile (phy_status 0x20 1)).2.speed = SPEED_1000 ∧
    (amd_xgbe_phy_read_status regfile (phy_status 0x20 1)).2.duplex = DUPLEX_FULL ∧
    (amd_xgbe_phy_read_status regfile (phy_status 0x20 1)).2.pause = 1 ∧
    (amd_xgbe_phy_read_status regfile (phy_status 0x20 1)).2.asym_pause = 0 :=
  have h := C6_read_status regfile (phy_status 0x20 1) (0xc00, regs_status 0x20)
    (0x400, regs_status 0x20) (0xa0, regs_status 0x20) (0x20, regs_status 0x20)
    regfile_reads rfl rfl (by decide) (by decide) (by decide) rfl rfl rfl rfl
  ⟨h.1, (h.2.2.2.2.2 (by decide)).1 rfl, h.2.2.2.1, h.2.1, h.2.2.1⟩

/-- C6, counterexample: the same state with the link seen down at the last update
(`priv_link = 0`): negotiation is enabled, `parallel_detect` is 0, `an_result` is
COMPLETE, the AN device is present and every read succeeds, but the link update sees
the link come up and restarts negotiation, and `amd_xgbe_phy_read_status` returns 0
without reporting: speed and duplex are still 0, and the device has been put in KR
mode. -/
theorem C6_counterexample :
    (phy_status 0x20 0).autoneg = AUTONEG_ENABLE ∧
    (phy_status 0x20 0).parallel_detect = 0 ∧
    (phy_status 0x20 0).an_result = AMD_XGBE_AN_COMPLETE ∧
    (phy_status 0x20 0).devices_in_package &&& MDIO_DEVS_AN ≠ 0 ∧
    (amd_xgbe_phy_read_status regfile (phy_status 0x20 0)).1 = 0 ∧
    (amd_xgbe_phy_read_status regfile (phy_status 0x20 0)).2.speed = 0 ∧
    (amd_xgbe_phy_read_status regfile (phy_status 0x20 0)).2.duplex = 0 ∧
    (amd_xgbe_phy_read_status regfile (phy_status 0x20 0)).2.an_result = AMD_XGBE_AN_READY ∧
    (amd_xgbe_phy_in_kr_mode regfile
      (amd_xgbe_phy_read_status regfile (phy_status 0x20 0)).2).1 = true := by
  decide

/-- A field read back after `SET_BITS` is the value masked to the field width. -/
theorem get_set_bits (v i w x : Nat) (h : i + w ≤ 16) :
    GET_BITS (SET_BITS v i w x) i w = x &&& ((1 <<< w) - 1) := by
  have h16 : (65536 : Nat) = 2 ^ 16 := by norm_num
  have h32 : (4294967295 : Nat) = 2 ^ 32 - 1 := by norm_num
  apply Nat.eq_of_testBit_eq
  intro j
  unfold GET_BITS SET_BITS
  simp only [Nat.testBit_and, Nat.testBit_shiftRight, Nat.one_shiftLeft,
    Nat.testBit_two_pow_sub_one, h16, Nat.testBit_mod_two_pow, Nat.testBit_or, Nat.testBit_xor,
    h32, Nat.testBit_shiftLeft]
  by_cases hj : j < w
  · have h1 : i + j < 16 := by omega
    have h2 : i + j < 32 := by omega
    have h3 : i + j ≥ i := by omega
    have h4 : i + j - i = j := by omega
    simp [hj, h1, h2, h3, h4]
  · simp [hj]

theorem and_mask_eq_iff (x w : Nat) : x &&& ((1 <<< w) - 1) = x ↔ x < 2 ^ w := by
  rw [Nat.one_shiftLeft, Nat.and_pow_two_sub_one_eq_mod]
  constructor
  · intro h
    rw [← h]
    exact Nat.mod_lt _ (by positivity)
  · exact Nat.mod_eq_of_lt

theorem set_bits_lt (v i w x : Nat) : SET_BITS v i w x < 65536 :=
  Nat.mod_lt _ (by norm_num)

theorem regfile_rxtx_same (s : Phy RegFile) (r i w v : Nat) :
    (XRXTX_IOWRITE_BITS regfile s r i w v).hw.rxtx_regs r
      = SET_BITS (s.hw.rxtx_regs r % 65536) i w v := by
  unfold XRXTX_IOWRITE_BITS XRXTX_IOWRITE XRXTX_IOREAD
  simp only [regfile, if_true]
  exact Nat.mod_eq_of_lt (set_bits_lt _ _ _ _)

theorem regfile_rxtx_other (s : Phy RegFile) (r i w v r1 : Nat) (h : r1 ≠ r) :
    (XRXTX_IOWRITE_BITS regfile s r i w v).hw.rxtx_regs r1 = s.hw.rxtx_regs r1 := by
  unfold XRXTX_IOWRITE_BITS XRXTX_IOWRITE XRXTX_IOREAD
  simp only [regfile, if_neg h]

theorem regfile_complete_rxtx (s : Phy RegFile) :
    (amd_xgbe_phy_serdes_complete_ratechange regfile s).hw.rxtx_regs = s.hw.rxtx_regs := by
  unfold amd_xgbe_phy_serdes_complete_ratechange
  simp only []
  rw [ratechange_wait_hw]
  rfl

theorem frame_tables {x y : Phy σ} (h : x.frame y) :
    y.serdes_blwc = x.serdes_blwc ∧ y.serdes_cdr_rate = x.serdes_cdr_rate ∧
    y.serdes_pq_skew = x.serdes_pq_skew ∧ y.serdes_tx_amp = x.serdes_tx_amp := by
  rw [h]
  exact ⟨rfl, rfl, rfl, rfl⟩

theorem regfile_start_rxtx (s : Phy RegFile) :
    (amd_xgbe_phy_serdes_start_ratechange regfile s).hw.rxtx_regs = s.hw.rxtx_regs := rfl

/-- The four tuning fields read back after `amd_xgbe_phy_xgmii_mode` on the register
file. -/
theorem regfile_xgmii_mode_fields (s : Phy RegFile) :
    GET_BITS ((amd_xgbe_phy_xgmii_mode regfile s).2.hw.rxtx_regs RXTX_REG5)
        RXTX_REG5_TXAMP_CNTL_INDEX RXTX_REG5_TXAMP_CNTL_WIDTH
      = s.serdes_tx_amp XGBE_PHY_SPEED_10000 &&& ((1 <<< RXTX_REG5_TXAMP_CNTL_WIDTH) - 1) ∧
    GET_BITS ((amd_xgbe_phy_xgmii_mode regfile s).2.hw.rxtx_regs RXTX_REG20)
        RXTX_REG20_BLWC_ENA_INDEX RXTX_REG20_BLWC_ENA_WIDTH
      = s.serdes_blwc XGBE_PHY_SPEED_10000 &&& ((1 <<< RXTX_REG20_BLWC_ENA_WIDTH) - 1) ∧
    GET_BITS ((amd_xgbe_phy_xgmii_mode regfile s).2.hw.rxtx_regs RXTX_REG53)
        RXTX_REG53_PI_SPD_SEL_CDR_INDEX RXTX_REG53_PI_SPD_SEL_CDR_WIDTH
      = s.serdes_cdr_rate XGBE_PHY_SPEED_10000
          &&& ((1 <<< RXTX_REG53_PI_SPD_SEL_CDR_WIDTH) - 1) ∧
    GET_BITS ((amd_xgbe_phy_xgmii_mode regfile s).2.hw.rxtx_regs RXTX_REG114)
        RXTX_REG114_PQ_REG_INDEX RXTX_REG114_PQ_REG_WIDTH
      = s.serdes_pq_skew XGBE_PHY_SPEED_10000 &&& ((1 <<< RXTX_REG114_PQ_REG_WIDTH) - 1) := by
  have ht : ∀ {y : Phy RegFile}, s.frame y → y.serdes_tx_amp = s.serdes_tx_amp :=
    fun h => (frame_tables h).2.2.2
  have hb : ∀ {y : Phy RegFile}, s.frame y → y.serdes_blwc = s.serdes_blwc :=
    fun h => (frame_tables h).1
  have hc : ∀ {y : Phy RegFile}, s.frame y → y.serdes_cdr_rate = s.serdes_cdr_rate :=
    fun h => (frame_tables h).2.1
  have hq : ∀ {y : Phy RegFile}, s.frame y → y.serdes_pq_skew = s.serdes_pq_skew :=
    fun h => (frame_tables h).2.2.1
  unfold amd_xgbe_phy_xgmii_mode
  simp only []
  rw [if_neg (by rw [disable_kr_training_ok regfile _ regfile_reads]; exact lt_irrefl 0),
    if_neg (read_ok regfile _ _ _ regfile_reads), if_neg (read_ok regfile _ _ _ regfile_reads),
    if_neg (by rw [pcs_power_cycle_ok regfile _ regfile_reads]; exact lt_irrefl 0)]
  simp only [regfile_log_hw, regfile_complete_rxtx]
  refine ⟨?_, ?_, ?_, ?_⟩
  · rw [regfile_rxtx_other _ _ _ _ _ _ (by decide), regfile_rxtx_other _ _ _ _ _ _ (by decide),
      regfile_rxtx_other _ _ _ _ _ _ (by decide), regfile_rxtx_other _ _ _ _ _ _ (by decide),
      regfile_rxtx_other _ _ _ _ _ _ (by decide), regfile_rxtx_other _ _ _ _ _ _ (by decide),
      regfile_rxtx_other _ _ _ _ _ _ (by decide), regfile_rxtx_same,
      get_set_bits _ _ _ _ (by decide), ht (by simp [frame_refl])]
  · rw [regfile_rxtx_other _ _ _ _ _ _ (by decide), regfile_rxtx_other _ _ _ _ _ _ (by decide),
      regfile_rxtx_other _ _ _ _ _ _ (by decide), regfile_rxtx_other _ _ _ _ _ _ (by decide),
      regfile_rxtx_same, get_set_bits _ _ _ _ (by decide), hb (by simp [frame_refl])]
  · rw [regfile_rxtx_other _ _ _ _ _ _ (by decide), regfile_rxtx_same,
      get_set_bits _ _ _ _ (by decide), hc (by simp [frame_refl])]
  · rw [regfile_rxtx_same, get_set_bits _ _ _ _ (by decide), hq (by simp [frame_refl])]

/-- The four tuning fields read back after `amd_xgbe_phy_gmii_2500_mode` on the register
file. -/
theorem regfile_gmii_2500_mode_fields (s : Phy RegFile) :
    GET_BITS ((amd_xgbe_phy_gmii_2500_mode regfile s).2.hw.rxtx_regs RXTX_REG5)
        RXTX_REG5_TXAMP_CNTL_INDEX RXTX_REG5_TXAMP_CNTL_WIDTH
      = s.serdes_tx_amp XGBE_PHY_SPEED_2500 &&& ((1 <<< RXTX_REG5_TXAMP_CNTL_WIDTH) - 1) ∧
    GET_BITS ((amd_xgbe_phy_gmii_2500_mode regfile s).2.hw.rxtx_regs RXTX_REG20)
        RXTX_REG20_BLWC_ENA_INDEX RXTX_REG20_BLWC_ENA_WIDTH
      = s.serdes_blwc XGBE_PHY_SPEED_2500 &&& ((1 <<< RXTX_REG20_BLWC_ENA_WIDTH) - 1) ∧
    GET_BITS ((amd_xgbe_phy_gmii_2500_mode regfile s).2.hw.rxtx_regs RXTX_REG53)
        RXTX_REG53_PI_SPD_SEL_CDR_INDEX RXTX_REG53_PI_SPD_SEL_CDR_WIDTH
      = s.serdes_cdr_rate XGBE_PHY_SPEED_2500
          &&& ((1 <<< RXTX_REG53_PI_SPD_SEL_CDR_WIDTH) - 1) ∧
    GET_BITS ((amd_xgbe_phy_gmii_2500_mode regfile s).2.hw.rxtx_regs RXTX_REG114)
        RXTX_REG114_PQ_REG_INDEX RXTX_REG114_PQ_REG_WIDTH
      = s.serdes_pq_skew XGBE_PHY_SPEED_2500 &&& ((1 <<< RXTX_REG114_PQ_REG_WIDTH) - 1) := by
  have ht : ∀ {y : Phy RegFile}, s.frame y → y.serdes_tx_amp = s.serdes_tx_amp :=
    fun h => (frame_tables h).2.2.2
  have hb : ∀ {y : Phy RegFile}, s.frame y → y.serdes_blwc = s.serdes_blwc :=
    fun h => (frame_tables h).1
  have hc : ∀ {y : Phy RegFile}, s.frame y → y.serdes_cdr_rate = s.serdes_cdr_rate :=
    fun h => (frame_tables h).2.1
  have hq : ∀ {y : Phy RegFile}, s.frame y → y.serdes_pq_skew = s.serdes_pq_skew :=
    fun h => (frame_tables h).2.2.1
  unfold amd_xgbe_phy_gmii_2500_mode
  simp only []
  rw [if_neg (by rw [disable_kr_training_ok regfile _ regfile_reads]; exact lt_irrefl 0),
    if_neg (read_ok regfile _ _ _ regfile_reads), if_neg (read_ok regfile _ _ _ regfile_reads),
    if_neg (by rw [pcs_power_cycle_ok regfile _ regfile_reads]; exact lt_irrefl 0)]
  simp only [regfile_log_hw, regfile_complete_rxtx]
  refine ⟨?_, ?_, ?_, ?_⟩
  · rw [regfile_rxtx_other _ _ _ _ _ _ (by decide), regfile_rxtx_other _ _ _ _ _ _ (by decide),
      regfile_rxtx_other _ _ _ _ _ _ (by decide), regfile_rxtx_other _ _ _ _ _ _ (by decide),
      regfile_rxtx_other _ _ _ _ _ _ (by decide), regfile_rxtx_other _ _ _ _ _ _ (by decide),
      regfile_rxtx_other _ _ _ _ _ _ (by decide), regfile_rxtx_same,
      get_set_bits _ _ _ _ (by decide), ht (by simp [frame_refl])]
  · rw [regfile_rxtx_other _ _ _ _ _ _ (by decide), regfile_rxtx_other _ _ _ _ _ _ (by decide),
      regfile_rxtx_other _ _ _ _ _ _ (by decide), regfile_rxtx_other _ _ _ _ _ _ (by decide),
      regfile_rxtx_same, get_set_bits _ _ _ _ (by decide), hb (by simp [frame_refl])]
  · rw [regfile_rxtx_other _ _ _ _ _ _ (by decide), regfile_rxtx_same,
      get_set_bits _ _ _ _ (by decide), hc (by simp [frame_refl])]
  · rw [regfile_rxtx_same, get_set_bits _ _ _ _ (by decide), hq (by simp [frame_refl])]

/-- The four tuning fields read back after `amd_xgbe_phy_gmii_mode` on the register
file. -/
theorem regfile_gmii_mode_fields (s : Phy RegFile) :
    GET_BITS ((amd_xgbe_phy_gmii_mode regfile s).2.hw.rxtx_regs RXTX_REG5)
        RXTX_REG5_TXAMP_CNTL_INDEX RXTX_REG5_TXAMP_CNTL_WIDTH
      = s.serdes_tx_amp XGBE_PHY_SPEED_1000 &&& ((1 <<< RXTX_REG5_TXAMP_CNTL_WIDTH) - 1) ∧
    GET_BITS ((amd_xgbe_phy_gmii_mode regfile s).2.hw.rxtx_regs RXTX_REG20)
        RXTX_REG20_BLWC_ENA_INDEX RXTX_REG20_BLWC_ENA_WIDTH
      = s.serdes_blwc XGBE_PHY_SPEED_1000 &&& ((1 <<< RXTX_REG20_BLWC_ENA_WIDTH) - 1) ∧
    GET_BITS ((amd_xgbe_phy_gmii_mode regfile s).2.hw.rxtx_regs RXTX_REG53)
        RXTX_REG53_PI_SPD_SEL_CDR_INDEX RXTX_REG53_PI_SPD_SEL_CDR_WIDTH
      = s.serdes_cdr_rate XGBE_PHY_SPEED_1000
          &&& ((1 <<< RXTX_REG53_PI_SPD_SEL_CDR_WIDTH) - 1) ∧
    GET_BITS ((amd_xgbe_phy_gmii_mode regfile s).2.hw.rxtx_regs RXTX_REG114)
        RXTX_REG114_PQ_REG_INDEX RXTX_REG114_PQ_REG_WIDTH
      = s.serdes_pq_skew XGBE_PHY_SPEED_1000 &&& ((1 <<< RXTX_REG114_PQ_REG_WIDTH) - 1) := by
  have ht : ∀ {y : Phy RegFile}, s.frame y → y.serdes_tx_amp = s.serdes_tx_amp :=
    fun h => (frame_tables h).2.2.2
  have hb : ∀ {y : Phy RegFile}, s.frame y → y.serdes_blwc = s.serdes_blwc :=
    fun h => (frame_tables h).1
  have hc : ∀ {y : Phy RegFile}, s.frame y → y.serdes_cdr_rate = s.serdes_cdr_rate :=
    fun h => (frame_tables h).2.1
  have hq : ∀ {y : Phy RegFile}, s.frame y → y.serdes_pq_skew = s.serdes_pq_skew :=
    fun h => (frame_tables h).2.2.1
  unfold amd_xgbe_phy_gmii_mode
  simp only []
  rw [if_neg (by rw [disable_kr_training_ok regfile _ regfile_reads]; exact lt_irrefl 0),
    if_neg (read_ok regfile _ _ _ regfile_reads), if_neg (read_ok regfile _ _ _ regfile_reads),
    if_neg (by rw [pcs_power_cycle_ok regfile _ regfile_reads]; exact lt_irrefl 0)]
  simp only [regfile_log_hw, regfile_complete_rxtx]
  refine ⟨?_, ?_, ?_, ?_⟩
  · rw [regfile_rxtx_other _ _ _ _ _ _ (by decide), regfile_rxtx_other _ _ _ _ _ _ (by decide),
      regfile_rxtx_other _ _ _ _ _ _ (by decide), regfile_rxtx_other _ _ _ _ _ _ (by decide),
      regfile_rxtx_other _ _ _ _ _ _ (by decide), regfile_rxtx_other _ _ _ _ _ _ (by decide),
      regfile_rxtx_other _ _ _ _ _ _ (by decide), regfile_rxtx_same,
      get_set_bits _ _ _ _ (by decide), ht (by simp [frame_refl])]
  · rw [regfile_rxtx_other _ _ _ _ _ _ (by decide), regfile_rxtx_other _ _ _ _ _ _ (by decide),
      regfile_rxtx_other _ _ _ _ _ _ (by decide), regfile_rxtx_other _ _ _ _ _ _ (by decide),
      regfile_rxtx_same, get_set_bits _ _ _ _ (by decide), hb (by simp [frame_refl])]
  · rw [regfile_rxtx_other _ _ _ _ _ _ (by decide), regfile_rxtx_same,
      get_set_bits _ _ _ _ (by decide), hc (by simp [frame_refl])]
  · rw [regfile_rxtx_same, get_set_bits _ _ _ _ (by decide), hq (by simp [frame_refl])]

theorem getD_map_mod (l : List Nat) (i : Nat) (h : ∀ v ∈ l, v < 4294967296) :
    (l.map (fun v => v % 4294967296)).getD i 0 = l.getD i 0 := by
  have e : l.map (fun v => v % 4294967296) = l := by
    conv_rhs => rw [← List.map_id l]
    apply List.map_congr_left
    intro v hv
    exact Nat.mod_eq_of_lt (h v hv)
  rw [e]

theorem probe_table_some (l d : List Nat) (h : l.length = XGBE_PHY_SPEEDS) :
    probe_table (some l) d
      = Except.ok (fun i => (l.map (fun v => v % 4294967296)).getD i 0) := by
  unfold probe_table device_property_read_u32_array
  rw [if_pos (show device_property_present (some l) = true from rfl)]
  dsimp only
  rw [if_pos h]

theorem probe_table_short (l d : List Nat) (h : ¬ l.length = XGBE_PHY_SPEEDS) :
    probe_table (some l) d = Except.error (-EOVERFLOW) := by
  unfold probe_table device_property_read_u32_array
  rw [if_pos (show device_property_present (some l) = true from rfl)]
  dsimp only
  rw [if_neg h]

theorem probe_table_none (d : List Nat) :
    probe_table none d = Except.ok (fun i => d.getD i 0) := rfl

theorem probe_table_cases (p : Option (List Nat)) (d : List Nat) :
    (∃ tb, probe_table p d = Except.ok tb) ∨
    (∃ ret, ret ≠ 0 ∧ probe_table p d = Except.error ret) := by
  cases p with
  | none => exact Or.inl ⟨_, rfl⟩
  | some l =>
    by_cases h : l.length = XGBE_PHY_SPEEDS
    · exact Or.inl ⟨_, probe_table_some l d h⟩
    · exact Or.inr ⟨-EOVERFLOW, by decide, probe_table_short l d h⟩

/-- The table that `probe_table` gives: the property entry for entry if it is present
with `XGBE_PHY_SPEEDS` entries, the built-in table if it is absent. -/
theorem table_of_prop (p : Option (List Nat)) (d : List Nat) (tb : Nat → Nat)
    (h : probe_table p d = Except.ok tb) :
    (∀ l, p = some l → l.length = XGBE_PHY_SPEEDS → (∀ v ∈ l, v < 4294967296) →
      ∀ i, tb i = l.getD i 0) ∧
    (p = none → ∀ i, tb i = d.getD i 0) := by
  constructor
  · intro l hl hlen hv i
    subst hl
    rw [probe_table_some l d hlen] at h
    rw [← Except.ok.inj h]
    exact getD_map_mod l i hv
  · intro hn i
    subst hn
    rw [probe_table_none] at h
    rw [← Except.ok.inj h]

/-- A successful probe has read its four tables with `probe_table`. -/
theorem probe_tables (props : phy_properties) (s : Phy σ)
    (hok : (amd_xgbe_phy_probe props s).1 = 0) :
    probe_table props.serdes_blwc amd_xgbe_phy_serdes_blwc
      = Except.ok (amd_xgbe_phy_probe props s).2.serdes_blwc ∧
    probe_table props.serdes_cdr_rate amd_xgbe_phy_serdes_cdr_rate
      = Except.ok (amd_xgbe_phy_probe props s).2.serdes_cdr_rate ∧
    probe_table props.serdes_pq_skew amd_xgbe_phy_serdes_pq_skew
      = Except.ok (amd_xgbe_phy_probe props s).2.serdes_pq_skew ∧
    probe_table props.serdes_tx_amp amd_xgbe_phy_serdes_tx_amp
      = Except.ok (amd_xgbe_phy_probe props s).2.serdes_tx_amp := by
  unfold amd_xgbe_phy_probe at hok ⊢
  cases hc : props.serdes_channel with
  | none =>
    simp only [hc, device_property_read_u32] at hok
    exact absurd hok (show (-EINVAL : Int) ≠ 0 from by decide)
  | some c =>
    cases hs : props.speed_set with
    | none =>
      simp only [hc, hs, device_property_read_u32] at hok
      exact absurd hok (show (-EINVAL : Int) ≠ 0 from by decide)
    | some sp =>
      simp only [hc, hs, device_property_read_u32] at hok ⊢
      split_ifs at hok ⊢ with hv
      · exact absurd hok (show (-EINVAL : Int) ≠ 0 from by decide)
      · rcases probe_table_cases props.serdes_blwc amd_xgbe_phy_serdes_blwc
          with ⟨b, hb⟩ | ⟨r, hr0, hb⟩ <;> rw [hb] at hok ⊢
        swap
        · exact absurd hok hr0
        rcases probe_table_cases props.serdes_cdr_rate amd_xgbe_phy_serdes_cdr_rate
          with ⟨c1, hc1⟩ | ⟨r, hr0, hc1⟩ <;> rw [hc1] at hok ⊢
        swap
        · exact absurd hok hr0
        rcases probe_table_cases props.serdes_pq_skew amd_xgbe_phy_serdes_pq_skew
          with ⟨q, hq⟩ | ⟨r, hr0, hq⟩ <;> rw [hq] at hok ⊢
        swap
        · exact absurd hok hr0
        rcases probe_table_cases props.serdes_tx_amp amd_xgbe_phy_serdes_tx_amp
          with ⟨a, ha⟩ | ⟨r, hr0, ha⟩ <;> rw [ha] at hok ⊢
        swap
        · exact absurd hok hr0
        exact ⟨rfl, rfl, rfl, rfl⟩

/-- C20 (amended): after a successful probe, a tuning table (tx amplitude, loss
compensation, clock-recovery rate, skew) whose property is present with
`XGBE_PHY_SPEEDS` entries equals the property entry for entry, and a table whose
property is absent equals the built-in table; on the register file each
mode-programming routine then writes the entry of its speed into the field of the
parameter, and the field read back is that entry masked to the width of the field (4, 1,
4 and 7 bits): it is the entry itself exactly when the entry fits the field. -/
theorem C20_tuning_override (props : phy_properties) (s : Phy RegFile)
    (hok : (amd_xgbe_phy_probe props s).1 = 0) :
    (∀ l, props.serdes_tx_amp = some l → l.length = XGBE_PHY_SPEEDS →
      (∀ v ∈ l, v < 4294967296) →
      (∀ i, (amd_xgbe_phy_probe props s).2.serdes_tx_amp i = l.getD i 0) ∧
      GET_BITS ((amd_xgbe_phy_xgmii_mode regfile
          (amd_xgbe_phy_probe props s).2).2.hw.rxtx_regs RXTX_REG5) RXTX_REG5_TXAMP_CNTL_INDEX RXTX_REG5_TXAMP_CNTL_WIDTH
        = l.getD XGBE_PHY_SPEED_10000 0 &&& ((1 <<< RXTX_REG5_TXAMP_CNTL_WIDTH) - 1) ∧
      GET_BITS ((amd_xgbe_phy_gmii_2500_mode regfile
          (amd_xgbe_phy_probe props s).2).2.hw.rxtx_regs RXTX_REG5) RXTX_REG5_TXAMP_CNTL_INDEX RXTX_REG5_TXAMP_CNTL_WIDTH
        = l.getD XGBE_PHY_SPEED_2500 0 &&& ((1 <<< RXTX_REG5_TXAMP_CNTL_WIDTH) - 1) ∧
      GET_BITS ((amd_xgbe_phy_gmii_mode regfile
          (amd_xgbe_phy_probe props s).2).2.hw.rxtx_regs RXTX_REG5) RXTX_REG5_TXAMP_CNTL_INDEX RXTX_REG5_TXAMP_CNTL_WIDTH
        = l.getD XGBE_PHY_SPEED_1000 0 &&& ((1 <<< RXTX_REG5_TXAMP_CNTL_WIDTH) - 1)) ∧
    (props.serdes_tx_amp = none →
      ∀ i, (amd_xgbe_phy_probe props s).2.serdes_tx_amp i = amd_xgbe_phy_serdes_tx_amp.getD i 0) ∧
    (∀ l, props.serdes_blwc = some l → l.length = XGBE_PHY_SPEEDS →
      (∀ v ∈ l, v < 4294967296) →
      (∀ i, (amd_xgbe_phy_probe props s).2.serdes_blwc i = l.getD i 0) ∧
      GET_BITS ((amd_xgbe_phy_xgmii_mode regfile
          (amd_xgbe_phy_probe props s).2).2.hw.rxtx_regs RXTX_REG20) RXTX_REG20_BLWC_ENA_INDEX RXTX_REG20_BLWC_ENA_WIDTH
        = l.getD XGBE_PHY_SPEED_10000 0 &&& ((1 <<< RXTX_REG20_BLWC_ENA_WIDTH) - 1) ∧
      GET_BITS ((amd_xgbe_phy_gmii_2500_mode regfile
          (amd_xgbe_phy_probe props s).2).2.hw.rxtx_regs RXTX_REG20) RXTX_REG20_BLWC_ENA_INDEX RXTX_REG20_BLWC_ENA_WIDTH
        = l.getD XGBE_PHY_SPEED_2500 0 &&& ((1 <<< RXTX_REG20_BLWC_ENA_WIDTH) - 1) ∧
      GET_BITS ((amd_xgbe_phy_gmii_mode regfile
          (amd_xgbe_phy_probe props s).2).2.hw.rxtx_regs RXTX_REG20) RXTX_REG20_BLWC_ENA_INDEX RXTX_REG20_BLWC_ENA_WIDTH
        = l.getD XGBE_PHY_SPEED_1000 0 &&& ((1 <<< RXTX_REG20_BLWC_ENA_WIDTH) - 1)) ∧
    (props.serdes_blwc = none →
      ∀ i, (amd_xgbe_phy_probe props s).2.serdes_blwc i = amd_xgbe_phy_serdes_blwc.getD i 0) ∧
    (∀ l, props.serdes_cdr_rate = some l → l.length = XGBE_PHY_SPEEDS →
      (∀ v ∈ l, v < 4294967296) →
      (∀ i, (amd_xgbe_phy_probe props s).2.serdes_cdr_rate i = l.getD i 0) ∧
      GET_BITS ((amd_xgbe_phy_xgmii_mode regfile
          (amd_xgbe_phy_probe props s).2).2.hw.rxtx_regs RXTX_REG53) RXTX_REG53_PI_SPD_SEL_CDR_INDEX RXTX_REG53_PI_SPD_SEL_CDR_WIDTH
        = l.getD XGBE_PHY_SPEED_10000 0 &&& ((1 <<< RXTX_REG53_PI_SPD_SEL_CDR_WIDTH) - 1) ∧
      GET_BITS ((amd_xgbe_phy_gmii_2500_mode regfile
          (amd_xgbe_phy_probe props s).2).2.hw.rxtx_regs RXTX_REG53) RXTX_REG53_PI_SPD_SEL_CDR_INDEX RXTX_REG53_PI_SPD_SEL_CDR_WIDTH
        = l.getD XGBE_PHY_SPEED_2500 0 &&& ((1 <<< RXTX_REG53_PI_SPD_SEL_CDR_WIDTH) - 1) ∧
      GET_BITS ((amd_xgbe_phy_gmii_mode regfile
          (amd_xgbe_phy_probe props s).2).2.hw.rxtx_regs RXTX_REG53) RXTX_REG53_PI_SPD_SEL_CDR_INDEX RXTX_REG53_PI_SPD_SEL_CDR_WIDTH
        = l.getD XGBE_PHY_SPEED_1000 0 &&& ((1 <<< RXTX_REG53_PI_SPD_SEL_CDR_WIDTH) - 1)) ∧
    (props.serdes_cdr_rate = none →
      ∀ i, (amd_xgbe_phy_probe props s).2.serdes_cdr_rate i = amd_xgbe_phy_serdes_cdr_rate.getD i 0) ∧
    (∀ l, props.serdes_pq_skew = some l → l.length = XGBE_PHY_SPEEDS →
      (∀ v ∈ l, v < 4294967296) →
      (∀ i, (amd_xgbe_phy_probe props s).2.serdes_pq_skew i = l.getD i 0) ∧
      GET_BITS ((amd_xgbe_phy_xgmii_mode regfile
          (amd_xgbe_phy_probe props s).2).2.hw.rxtx_regs RXTX_REG114) RXTX_REG114_PQ_REG_INDEX RXTX_REG114_PQ_REG_WIDTH
        = l.getD XGBE_PHY_SPEED_10000 0 &&& ((1 <<< RXTX_REG114_PQ_REG_WIDTH) - 1) ∧
      GET_BITS ((amd_xgbe_phy_gmii_2500_mode regfile
          (amd_xgbe_phy_probe props s).2).2.hw.rxtx_regs RXTX_REG114) RXTX_REG114_PQ_REG_INDEX RXTX_REG114_PQ_REG_WIDTH
        = l.getD XGBE_PHY_SPEED_2500 0 &&& ((1 <<< RXTX_REG114_PQ_REG_WIDTH) - 1) ∧
      GET_BITS ((amd_xgbe_phy_gmii_mode regfile
          (amd_xgbe_phy_probe props s).2).2.hw.rxtx_regs RXTX_REG114) RXTX_REG114_PQ_REG_INDEX RXTX_REG114_PQ_REG_WIDTH
        = l.getD XGBE_PHY_SPEED_1000 0 &&& ((1 <<< RXTX_REG114_PQ_REG_WIDTH) - 1)) ∧
    (props.serdes_pq_skew = none →
      ∀ i, (amd_xgbe_phy_probe props s).2.serdes_pq_skew i = amd_xgbe_phy_serdes_pq_skew.getD i 0) ∧
    (∀ x w : Nat, x &&& ((1 <<< w) - 1) = x ↔ x < 2 ^ w) := by
  obtain ⟨tb, tc, tq, ta⟩ := probe_tables props s hok
  have fx := regfile_xgmii_mode_fields (amd_xgbe_phy_probe props s).2
  have f25 := regfile_gmii_2500_mode_fields (amd_xgbe_phy_probe props s).2
  have fg := regfile_gmii_mode_fields (amd_xgbe_phy_probe props s).2
  refine ⟨?_, (table_of_prop _ _ _ ta).2, ?_, (table_of_prop _ _ _ tb).2,
    ?_, (table_of_prop _ _ _ tc).2, ?_, (table_of_prop _ _ _ tq).2, and_mask_eq_iff⟩
  · intro l hl hlen hv
    have e := (table_of_prop _ _ _ ta).1 l hl hlen hv
    refine ⟨e, ?_, ?_, ?_⟩
    · rw [fx.1, e]
    · rw [f25.1, e]
    · rw [fg.1, e]
  · intro l hl hlen hv
    have e := (table_of_prop _ _ _ tb).1 l hl hlen hv
    refine ⟨e, ?_, ?_, ?_⟩
    · rw [fx.2.1, e]
    · rw [f25.2.1, e]
    · rw [fg.2.1, e]
  · intro l hl hlen hv
    have e := (table_of_prop _ _ _ tc).1 l hl hlen hv
    refine ⟨e, ?_, ?_, ?_⟩
    · rw [fx.2.2.1, e]
    · rw [f25.2.2.1, e]
    · rw [fg.2.2.1, e]
  · intro l hl hlen hv
    have e := (table_of_prop _ _ _ tq).1 l hl hlen hv
    refine ⟨e, ?_, ?_, ?_⟩
    · rw [fx.2.2.2, e]
    · rw [f25.2.2.2, e]
    · rw [fg.2.2.2, e]

/-- C20, witness: the tx amplitude table 5, 6, 7: the table of the instance holds these
entries, and the field reads 7 after the 10G routine and 5 after the 1G routine. -/
theorem C20_tuning_override_witness :
    (∀ i, (amd_xgbe_phy_probe (props_tx_amp [5, 6, 7])
        (phy_init regs_kr_ready)).2.serdes_tx_amp i = [5, 6, 7].getD i 0) ∧
    GET_BITS ((amd_xgbe_phy_xgmii_mode regfile (amd_xgbe_phy_probe (props_tx_amp [5, 6, 7])
        (phy_init regs_kr_ready)).2).2.hw.rxtx_regs RXTX_REG5)
        RXTX_REG5_TXAMP_CNTL_INDEX RXTX_REG5_TXAMP_CNTL_WIDTH = 7 ∧
    GET_BITS ((amd_xgbe_phy_gmii_mode regfile (amd_xgbe_phy_probe (props_tx_amp [5, 6, 7])
        (phy_init regs_kr_ready)).2).2.hw.rxtx_regs RXTX_REG5)
        RXTX_REG5_TXAMP_CNTL_INDEX RXTX_REG5_TXAMP_CNTL_WIDTH = 5 :=
  have h := (C20_tuning_override (props_tx_amp [5, 6, 7]) (phy_init regs_kr_ready) rfl).1
    [5, 6, 7] rfl rfl (by decide)
  ⟨h.1, h.2.1, h.2.2.2⟩

/-- C20, counterexample: the tx amplitude table 16, 16, 16 has the right length and
becomes the table of the instance, but the field is 4 bits wide: after the 10G routine
it reads 0, not 16. -/
theorem C20_counterexample :
    (amd_xgbe_phy_probe (props_tx_amp [16, 16, 16]) (phy_init regs_kr_ready)).1 = 0 ∧
    (amd_xgbe_phy_probe (props_tx_amp [16, 16, 16])
      (phy_init regs_kr_ready)).2.serdes_tx_amp XGBE_PHY_SPEED_10000 = 16 ∧
    (amd_xgbe_phy_xgmii_mode regfile (amd_xgbe_phy_probe (props_tx_amp [16, 16, 16])
      (phy_init regs_kr_ready)).2).1 = 0 ∧
    (XRXTX_IOREAD_BITS regfile
      (amd_xgbe_phy_xgmii_mode regfile (amd_xgbe_phy_probe (props_tx_amp [16, 16, 16])
        (phy_init regs_kr_ready)).2).2
      RXTX_REG5 RXTX_REG5_TXAMP_CNTL_INDEX RXTX_REG5_TXAMP_CNTL_WIDTH).1 = 0 := by
  decide

theorem plain_ext_refl (s : Phy σ) : s.plain_ext s := ⟨[], by simp, by simp⟩

theorem plain_ext_trans {s x y : Phy σ} (h1 : s.plain_ext x) (h2 : x.plain_ext y) :
    s.plain_ext y := by
  obtain ⟨l1, e1, p1⟩ := h1
  obtain ⟨l2, e2, p2⟩ := h2
  refine ⟨l1 ++ l2, by rw [e2, e1, List.append_assoc], ?_⟩
  intro a ha
  rcases List.mem_append.mp ha with h | h
  · exact p1 a h
  · exact p2 a h

theorem plain_ext_same {s x y : Phy σ} (hy : y.trace = x.trace) (hx : s.plain_ext x) :
    s.plain_ext y := by
  obtain ⟨l, e, p⟩ := hx
  exact ⟨l, by rw [hy, e], p⟩

theorem plain_ext_step {s x y : Phy σ} (a : Action) (ha : a.plain = true)
    (hy : y.trace = x.trace ++ [a]) (hx : s.plain_ext x) : s.plain_ext y :=
  plain_ext_trans hx ⟨[a], hy, by simpa using ha⟩

theorem plain_read (bus : Hw σ) {s x : Phy σ} {d r : Nat}
    (h : ∀ v, (Action.mdio_read d r v).plain = true) (hx : s.plain_ext x) :
    s.plain_ext (phy_read_mmd bus x d r).2 :=
  plain_ext_step _ (h _) rfl hx

theorem plain_write (bus : Hw σ) {s x : Phy σ} {d r v : Nat} (hx : s.plain_ext x) :
    s.plain_ext (phy_write_mmd bus x d r v) :=
  plain_ext_step (Action.mdio_write d r (v % 65536)) rfl rfl hx

theorem plain_log {s x : Phy σ} {a : Action} (ha : a.plain = true) (hx : s.plain_ext x) :
    s.plain_ext (x.log a) :=
  plain_ext_step a ha rfl hx

theorem plain_cmu_read (bus : Hw σ) {s x : Phy σ} {r : Nat} (hx : s.plain_ext x) :
    s.plain_ext (XCMU_IOREAD bus x r).2 :=
  plain_ext_step (Action.cmu_read r ((bus.cmu_read x.hw r).1 % 65536)) rfl rfl hx

theorem plain_cmu_write (bus : Hw σ) {s x : Phy σ} {r v : Nat} (hx : s.plain_ext x) :
    s.plain_ext (XCMU_IOWRITE bus x r v) :=
  plain_ext_step (Action.cmu_write r (v % 65536)) rfl rfl hx

theorem plain_rxtx_read (bus : Hw σ) {s x : Phy σ} {r : Nat} (hx : s.plain_ext x) :
    s.plain_ext (XRXTX_IOREAD bus x r).2 :=
  plain_ext_step (Action.rxtx_read r ((bus.rxtx_read x.hw r).1 % 65536)) rfl rfl hx

theorem plain_rxtx_write (bus : Hw σ) {s x : Phy σ} {r v : Nat} (hx : s.plain_ext x) :
    s.plain_ext (XRXTX_IOWRITE bus x r v) :=
  plain_ext_step (Action.rxtx_write r (v % 65536)) rfl rfl hx

theorem plain_rxtx_write_bits (bus : Hw σ) {s x : Phy σ} {r i w v : Nat} (hx : s.plain_ext x) :
    s.plain_ext (XRXTX_IOWRITE_BITS bus x r i w v) :=
  plain_rxtx_write bus (plain_rxtx_read bus hx)

theorem plain_disable_kr_training (bus : Hw σ) {s x : Phy σ} (hx : s.plain_ext x) :
    s.plain_ext (amd_xgbe_an_disable_kr_training bus x).2 := by
  unfold amd_xgbe_an_disable_kr_training
  simp only []
  split_ifs
  · exact plain_read bus (fun _ => rfl) hx
  · exact plain_write bus (plain_read bus (fun _ => rfl) hx)

theorem plain_pcs_power_cycle (bus : Hw σ) {s x : Phy σ} (hx : s.plain_ext x) :
    s.plain_ext (amd_xgbe_phy_pcs_power_cycle bus x).2 := by
  unfold amd_xgbe_phy_pcs_power_cycle
  simp only []
  split_ifs
  · exact plain_read bus (fun _ => rfl) hx
  · exact plain_write bus (plain_log rfl (plain_write bus (plain_read bus (fun _ => rfl) hx)))

theorem plain_start_ratechange (bus : Hw σ) {s x : Phy σ} (hx : s.plain_ext x) :
    s.plain_ext (amd_xgbe_phy_serdes_start_ratechange bus x) :=
  plain_cmu_write bus (plain_cmu_read bus hx)

theorem plain_ratechange_wait (bus : Hw σ) (mask n : Nat) :
    ∀ {s x : Phy σ}, s.plain_ext x → s.plain_ext (ratechange_wait bus mask n x) := by
  induction n with
  | zero => intro s x hx; exact hx
  | succ n ih =>
    intro s x hx
    unfold ratechange_wait
    simp only []
    split_ifs
    · exact plain_cmu_read bus (plain_log rfl hx)
    · exact ih (plain_cmu_read bus (plain_log rfl hx))

theorem plain_complete_ratechange (bus : Hw σ) {s x : Phy σ} (hx : s.plain_ext x) :
    s.plain_ext (amd_xgbe_phy_serdes_complete_ratechange bus x) :=
  plain_ratechange_wait bus _ _ (plain_cmu_write bus (plain_cmu_read bus hx))

theorem plain_xgmii_mode (bus : Hw σ) {s x : Phy σ} (hx : s.plain_ext x) :
    s.plain_ext (amd_xgbe_phy_xgmii_mode bus x).2 := by
  unfold amd_xgbe_phy_xgmii_mode
  simp only []
  have h1 := plain_disable_kr_training bus hx
  have h2 := @plain_read σ bus s _ MDIO_MMD_PCS MDIO_CTRL2 (fun _ => rfl) h1
  split_ifs
  · exact h1
  · exact h2
  · exact plain_read bus (fun _ => rfl) (plain_write bus h2)
  · exact plain_pcs_power_cycle bus (plain_write bus (plain_read bus (fun _ => rfl)
      (plain_write bus h2)))
  · exact plain_log rfl (plain_complete_ratechange bus
      (plain_rxtx_write_bits bus (plain_rxtx_write_bits bus (plain_rxtx_write_bits bus
      (plain_rxtx_write_bits bus (plain_rxtx_write_bits bus (plain_rxtx_write_bits bus
      (plain_rxtx_write_bits bus (plain_rxtx_write_bits bus (plain_rxtx_write_bits bus
      (plain_rxtx_write_bits bus (plain_start_ratechange bus (plain_log rfl
      (plain_pcs_power_cycle bus (plain_write bus (plain_read bus (fun _ => rfl)
      (plain_write bus h2)))))))))))))))))

theorem plain_gmii_2500_mode (bus : Hw σ) {s x : Phy σ} (hx : s.plain_ext x) :
    s.plain_ext (amd_xgbe_phy_gmii_2500_mode bus x).2 := by
  unfold amd_xgbe_phy_gmii_2500_mode
  simp only []
  have h1 := plain_disable_kr_training bus hx
  have h2 := @plain_read σ bus s _ MDIO_MMD_PCS MDIO_CTRL2 (fun _ => rfl) h1
  split_ifs
  · exact h1
  · exact h2
  · exact plain_read bus (fun _ => rfl) (plain_write bus h2)
  · exact plain_pcs_power_cycle bus (plain_write bus (plain_read bus (fun _ => rfl)
      (plain_write bus h2)))
  · exact plain_log rfl (plain_complete_ratechange bus
      (plain_rxtx_write_bits bus (plain_rxtx_write_bits bus (plain_rxtx_write_bits bus
      (plain_rxtx_write_bits bus (plain_rxtx_write_bits bus (plain_rxtx_write_bits bus
      (plain_rxtx_write_bits bus (plain_rxtx_write_bits bus (plain_rxtx_write_bits bus
      (plain_rxtx_write_bits bus (plain_start_ratechange bus (plain_log rfl
      (plain_pcs_power_cycle bus (plain_write bus (plain_read bus (fun _ => rfl)
      (plain_write bus h2)))))))))))))))))

theorem plain_gmii_mode (bus : Hw σ) {s x : Phy σ} (hx : s.plain_ext x) :
    s.plain_ext (amd_xgbe_phy_gmii_mode bus x).2 := by
  unfold amd_xgbe_phy_gmii_mode
  simp only []
  have h1 := plain_disable_kr_training bus hx
  have h2 := @plain_read σ bus s _ MDIO_MMD_PCS MDIO_CTRL2 (fun _ => rfl) h1
  split_ifs
  · exact h1
  · exact h2
  · exact plain_read bus (fun _ => rfl) (plain_write bus h2)
  · exact plain_pcs_power_cycle bus (plain_write bus (plain_read bus (fun _ => rfl)
      (plain_write bus h2)))
  · exact plain_log rfl (plain_complete_ratechange bus
      (plain_rxtx_write_bits bus (plain_rxtx_write_bits bus (plain_rxtx_write_bits bus
      (plain_rxtx_write_bits bus (plain_rxtx_write_bits bus (plain_rxtx_write_bits bus
      (plain_rxtx_write_bits bus (plain_rxtx_write_bits bus (plain_rxtx_write_bits bus
      (plain_rxtx_write_bits bus (plain_start_ratechange bus (plain_log rfl
      (plain_pcs_power_cycle bus (plain_write bus (plain_read bus (fun _ => rfl)
      (plain_write bus h2)))))))))))))))))

theorem plain_cur_mode (bus : Hw σ) {s x : Phy σ} (hx : s.plain_ext x) :
    s.plain_ext (amd_xgbe_phy_cur_mode bus x).2 := by
  unfold amd_xgbe_phy_cur_mode
  simp only []
  split_ifs <;> exact plain_read bus (fun _ => rfl) hx

theorem plain_in_kr_mode (bus : Hw σ) {s x : Phy σ} (hx : s.plain_ext x) :
    s.plain_ext (amd_xgbe_phy_in_kr_mode bus x).2 := by
  unfold amd_xgbe_phy_in_kr_mode
  split <;> exact plain_cur_mode bus hx

theorem plain_switch_mode (bus : Hw σ) {s x : Phy σ} (hx : s.plain_ext x) :
    s.plain_ext (amd_xgbe_phy_switch_mode bus x).2 := by
  unfold amd_xgbe_phy_switch_mode
  simp only []
  split_ifs
  · exact plain_gmii_mode bus (plain_in_kr_mode bus hx)
  · exact plain_gmii_2500_mode bus (plain_in_kr_mode bus hx)
  · exact plain_xgmii_mode bus (plain_in_kr_mode bus hx)

theorem plain_set_mode (bus : Hw σ) {s x : Phy σ} (m : amd_xgbe_phy_mode)
    (hx : s.plain_ext x) : s.plain_ext (amd_xgbe_phy_set_mode bus x m).2 := by
  unfold amd_xgbe_phy_set_mode
  split
  · exact plain_cur_mode bus hx
  · split_ifs
    · exact plain_switch_mode bus (plain_cur_mode bus hx)
    · exact plain_cur_mode bus hx

theorem plain_set_an (bus : Hw σ) {s x : Phy σ} (e r : Bool) (hx : s.plain_ext x) :
    s.plain_ext (amd_xgbe_phy_set_an bus x e r).2 := by
  unfold amd_xgbe_phy_set_an
  simp only []
  split_ifs <;> dsimp only
  all_goals first
    | exact plain_read bus (fun _ => rfl) hx
    | exact plain_write bus (plain_read bus (fun _ => rfl) hx)

theorem plain_disable_an (bus : Hw σ) {s x : Phy σ} (hx : s.plain_ext x) :
    s.plain_ext (amd_xgbe_phy_disable_an bus x).2 := plain_set_an bus _ _ hx

theorem plain_restart_an (bus : Hw σ) {s x : Phy σ} (hx : s.plain_ext x) :
    s.plain_ext (amd_xgbe_phy_restart_an bus x).2 := plain_set_an bus _ _ hx

theorem plain_rx_store {s x : Phy σ} (p : rx_state_ptr) (v : amd_xgbe_phy_rx)
    (hx : s.plain_ext x) : s.plain_ext (x.rx_store p v) :=
  plain_ext_same (by cases p <;> rfl) hx

theorem plain_tx_training (bus : Hw σ) {s x : Phy σ} (p : rx_state_ptr) (hx : s.plain_ext x) :
    s.plain_ext (amd_xgbe_an_tx_training bus x p).2 := by
  unfold amd_xgbe_an_tx_training
  simp only []
  split_ifs <;> (try dsimp only) <;>
    repeat (first
      | exact hx
      | with_reducible apply plain_write
      | with_reducible apply plain_read bus
      | (intro _; rfl)
      | with_reducible apply plain_in_kr_mode
      | with_reducible apply plain_rx_store)

theorem plain_tx_xnp (bus : Hw σ) {s x : Phy σ} (p : rx_state_ptr) (hx : s.plain_ext x) :
    s.plain_ext (amd_xgbe_an_tx_xnp bus x p).2 := by
  unfold amd_xgbe_an_tx_xnp
  exact plain_write bus (plain_write bus (plain_write bus (plain_rx_store p _ hx)))

theorem plain_rx_bpa (bus : Hw σ) {s x : Phy σ} (p : rx_state_ptr) (hx : s.plain_ext x) :
    s.plain_ext (amd_xgbe_an_rx_bpa bus x p).2 := by
  unfold amd_xgbe_an_rx_bpa
  simp only []
  split_ifs <;> (try dsimp only) <;>
    repeat (first
      | exact hx
      | with_reducible apply plain_tx_xnp
      | with_reducible apply plain_tx_training
      | with_reducible apply plain_read bus
      | (intro _; rfl)
      | with_reducible apply plain_in_kr_mode)

theorem plain_rx_xnp (bus : Hw σ) {s x : Phy σ} (p : rx_state_ptr) (hx : s.plain_ext x) :
    s.plain_ext (amd_xgbe_an_rx_xnp bus x p).2 := by
  unfold amd_xgbe_an_rx_xnp
  simp only []
  split_ifs <;> (try dsimp only) <;>
    repeat (first
      | exact hx
      | with_reducible apply plain_tx_xnp
      | with_reducible apply plain_tx_training
      | with_reducible apply plain_read bus
      | (intro _; rfl))

theorem plain_page_received (bus : Hw σ) {s x : Phy σ} (hx : s.plain_ext x) :
    s.plain_ext (amd_xgbe_an_page_received bus x).2 := by
  unfold amd_xgbe_an_page_received
  simp only []
  split
  · exact plain_rx_bpa bus _ (plain_in_kr_mode bus hx)
  · exact plain_rx_xnp bus _ (plain_in_kr_mode bus hx)
  · exact plain_in_kr_mode bus hx

theorem plain_incompat_link_switch (bus : Hw σ) {s x : Phy σ} (hx : s.plain_ext x) :
    s.plain_ext (an_incompat_link_switch bus x).2 := by
  unfold an_incompat_link_switch
  simp only []
  split_ifs <;> (try dsimp only) <;>
    repeat (first
      | exact hx
      | with_reducible apply plain_restart_an
      | with_reducible apply plain_switch_mode
      | with_reducible apply plain_disable_an)

theorem plain_incompat_link (bus : Hw σ) {s x : Phy σ} (hx : s.plain_ext x) :
    s.plain_ext (amd_xgbe_an_incompat_link bus x).2 := by
  have hk := plain_in_kr_mode bus hx
  have h1 : ∀ v, s.plain_ext { (amd_xgbe_phy_in_kr_mode bus x).2 with kr_state := v } :=
    fun v => plain_ext_same rfl hk
  have h2 : ∀ v, s.plain_ext { (amd_xgbe_phy_in_kr_mode bus x).2 with kx_state := v } :=
    fun v => plain_ext_same rfl hk
  unfold amd_xgbe_an_incompat_link
  simp only []
  split_ifs <;> (try dsimp only) <;>
    first
      | exact h1 _
      | exact h2 _
      | exact plain_incompat_link_switch bus (h1 _)
      | exact plain_incompat_link_switch bus (h2 _)

theorem plain_an_next_int (bus : Hw σ) {s x : Phy σ} (v : Int) (hx : s.plain_ext x) :
    s.plain_ext (an_next_int bus x v).2 := by
  unfold an_next_int
  exact plain_ext_same rfl (plain_write bus (plain_ext_same rfl hx))

theorem plain_an_switch (bus : Hw σ) {s x : Phy σ} (hx : s.plain_ext x) :
    s.plain_ext (an_switch bus x) := by
  unfold an_switch
  split
  · exact plain_ext_same rfl hx
  · exact plain_ext_same rfl (plain_page_received bus hx)
  · exact plain_ext_same rfl (plain_incompat_link bus (plain_ext_same rfl hx))
  · exact plain_ext_same rfl hx
  · exact hx
  · exact plain_ext_same rfl hx

theorem plain_an_stop (bus : Hw σ) {s x : Phy σ} (v : Int) (hx : s.plain_ext x) :
    s.plain_ext (an_stop bus x v).2 := by
  unfold an_stop
  split_ifs
  · exact plain_write bus (plain_disable_an bus hx)
  · exact plain_write bus hx
  · exact hx

theorem plain_an_latch {s x : Phy σ} (hx : s.plain_ext x) : s.plain_ext (an_latch x) :=
  plain_ext_same (an_latch_trace x) hx

theorem plain_an_pass (bus : Hw σ) {s x : Phy σ} (v : Int) (hx : s.plain_ext x) :
    s.plain_ext (an_pass bus x v).2 :=
  plain_an_latch (plain_an_stop bus v (plain_an_switch bus hx))

theorem plain_an_again (bus : Hw σ) (fuel : Nat) :
    ∀ (s x : Phy σ) (v : Int) (r : Phy σ × Nat), s.plain_ext x →
      an_again bus fuel x v = some r → s.plain_ext r.1 := by
  induction fuel with
  | zero => intro s x v r _ h; simp [an_again] at h
  | succ n ih =>
    intro s x v r hx h
    unfold an_again at h
    simp only [] at h
    have hp := plain_an_pass bus v hx
    split_ifs at h with h1 h2
    · obtain ⟨q, hq, e⟩ := Option.map_eq_some.mp h
      have := ih s _ _ q hp hq
      rw [← e]; exact this
    · obtain ⟨q, hq, e⟩ := Option.map_eq_some.mp h
      have := ih s _ _ q (plain_an_next_int bus _ hp) hq
      rw [← e]; exact this
    · cases h; exact hp

theorem plain_an_init (bus : Hw σ) {s x : Phy σ} (hx : s.plain_ext x) :
    s.plain_ext (amd_xgbe_an_init bus x).2 := by
  unfold amd_xgbe_an_init
  lift_lets
  intro r1 v1 s1 r2 v2 v3 s2 r3 v4 v5 v6
  have h1 : s.plain_ext r1.2 := plain_read bus (fun _ => rfl) hx
  have h2 : s.plain_ext r2.2 := plain_read bus (fun _ => rfl) (plain_write bus h1)
  have h3 : s.plain_ext r3.2 := plain_read bus (fun _ => rfl) (plain_write bus h2)
  split_ifs
  · exact h1
  · exact h2
  · exact h3
  · exact plain_write bus h3

theorem plain_setup_forced (bus : Hw σ) {s x : Phy σ} (hx : s.plain_ext x) :
    s.plain_ext (amd_xgbe_phy_setup_forced bus x).2 := by
  have hd := plain_disable_an bus hx
  unfold amd_xgbe_phy_setup_forced
  simp only []
  split_ifs <;> (try dsimp only) <;>
    first
      | exact hd
      | exact plain_set_mode bus _ hd

theorem plain_count_zero (l : List Action) (h : ∀ a ∈ l, a.plain = true) (b : Action)
    (hb : b.plain = false) : l.count b = 0 := by
  rw [List.count_eq_zero]
  intro hm
  have := h b hm
  rw [hb] at this
  exact Bool.noConfusion this

/-- C27: in the trace of every invocation of the negotiation worker, on every path, the
first action is the acquisition of the negotiation mutex and the second the read of the
interrupt register, the driver fields being still those of the entry state at that
point; the last two actions are the enabling of the interrupt and, after it, the
release of the mutex; every action in between (the accesses of the state-machine
processing, none when the register reads zero) is a plain access: the mutex is taken
once, the interrupt is enabled once and the mutex is released once. -/
theorem C27_worker_lock_order (bus : Hw σ) (s : Phy σ) :
    ∃ t n mid, amd_xgbe_an_state_machine bus 16 s = some (t, n) ∧
      t.trace = s.trace ++ (Action.mutex_lock_an ::
          Action.mdio_read MDIO_MMD_AN MDIO_AN_INT
            (bus.mdio_read s.hw MDIO_MMD_AN MDIO_AN_INT).1 ::
          (mid ++ [Action.enable_irq, Action.mutex_unlock_an])) ∧
      (∀ a ∈ mid, a.plain = true) ∧
      s.frame (phy_read_mmd bus (s.log Action.mutex_lock_an) MDIO_MMD_AN MDIO_AN_INT).2 ∧
      (t.trace.drop s.trace.length).count Action.mutex_lock_an = 1 ∧
      (t.trace.drop s.trace.length).count Action.enable_irq = 1 ∧
      (t.trace.drop s.trace.length).count Action.mutex_unlock_an = 1 ∧
      (t.trace.drop s.trace.length).count Action.disable_irq = 0 ∧
      ((bus.mdio_read s.hw MDIO_MMD_AN MDIO_AN_INT).1 = 0 → mid = [] ∧ s.frame t) := by
  have key : ∃ t n mid, amd_xgbe_an_state_machine bus 16 s = some (t, n) ∧
      t.trace = s.trace ++ (Action.mutex_lock_an ::
          Action.mdio_read MDIO_MMD_AN MDIO_AN_INT
            (bus.mdio_read s.hw MDIO_MMD_AN MDIO_AN_INT).1 ::
          (mid ++ [Action.enable_irq, Action.mutex_unlock_an])) ∧
      (∀ a ∈ mid, a.plain = true) ∧
      ((bus.mdio_read s.hw MDIO_MMD_AN MDIO_AN_INT).1 = 0 → mid = [] ∧ s.frame t) := by
    obtain ⟨f, n, e, -, -⟩ := an_state_machine_terminates bus s
    have e0 := e
    unfold amd_xgbe_an_state_machine at e
    simp only [] at e
    split_ifs at e with h0
    · cases e
      refine ⟨_, 0, [], e0, ?_, by simp, fun _ => ⟨rfl, rfl⟩⟩
      simp [Phy.log, phy_read_mmd]
    · obtain ⟨a, ha, ea⟩ := Option.map_eq_some.mp e
      obtain ⟨mid, em, pm⟩ := plain_an_again bus 16 _ _ _ a
        (plain_an_next_int bus _ (plain_ext_refl _)) ha
      refine ⟨f, n, mid, e0, ?_, pm, fun h => absurd h h0⟩
      cases ea
      simp [Phy.log, em, phy_read_mmd]
  obtain ⟨t, n, mid, e, et, pm, hz⟩ := key
  have c1 := plain_count_zero mid pm Action.mutex_lock_an rfl
  have c2 := plain_count_zero mid pm Action.enable_irq rfl
  have c3 := plain_count_zero mid pm Action.mutex_unlock_an rfl
  have c4 := plain_count_zero mid pm Action.disable_irq rfl
  refine ⟨t, n, mid, e, et, pm, rfl, ?_, ?_, ?_, ?_, hz⟩
  all_goals
    rw [et, List.drop_left, List.count_cons, List.count_cons, List.count_append]
    simp [c1, c2, c3, c4]

theorem rxtx_writes_append (t u : List Action) :
    rxtx_writes (t ++ u) = rxtx_writes t ++ rxtx_writes u := by
  unfold rxtx_writes
  rw [List.filterMap_append]

theorem rxtx_writes_plain (l : List Action) (h : ∀ a ∈ l, ∀ r v, a ≠ Action.rxtx_write r v) :
    rxtx_writes l = [] := by
  unfold rxtx_writes
  rw [List.filterMap_eq_nil_iff]
  intro a ha
  cases a <;> first | rfl | exact absurd rfl (h _ ha _ _)

theorem write_fields_trace (bus : Hw σ) (fields : List serdes_field) :
    ∀ s : Phy σ, (write_fields bus s fields).trace
      = s.trace ++ serdes_section fields (read_values bus s fields) ∧
      (read_values bus s fields).length = fields.length ∧
      s.frame (write_fields bus s fields) := by
  induction fields with
  | nil => intro s; simp [write_fields, serdes_section, read_values, frame_refl]
  | cons f fs ih =>
    intro s
    obtain ⟨e, l, fr⟩ := ih (XRXTX_IOWRITE_BITS bus s f.reg f.index f.width f.val)
    refine ⟨?_, by simp [read_values, l], ?_⟩
    · show (write_fields bus (XRXTX_IOWRITE_BITS bus s f.reg f.index f.width f.val) fs).trace = _
      rw [e]
      simp [serdes_section, read_values, serdes_field.accesses, XRXTX_IOWRITE_BITS,
        XRXTX_IOWRITE, XRXTX_IOREAD, Nat.mod_eq_of_lt (set_bits_lt _ _ _ _)]
    · exact frame_trans (frame_rxtx_write_bits bus s _ _ _ _) fr

theorem rxtx_writes_ext {s x : Phy σ} (h : s.plain_ext x)
    (hw : rxtx_writes x.trace = rxtx_writes s.trace) :
    ∃ l, x.trace = s.trace ++ l ∧ rxtx_writes l = [] := by
  obtain ⟨l, e, -⟩ := h
  refine ⟨l, e, ?_⟩
  rw [e, rxtx_writes_append] at hw
  exact List.append_cancel_left (hw.trans (List.append_nil _).symm)

@[simp] theorem rxtx_writes_snoc (t : List Action) (a : Action) :
    rxtx_writes (t ++ [a]) = rxtx_writes t ++ rxtx_writes [a] := rxtx_writes_append t [a]

@[simp] theorem rxtx_writes_read (bus : Hw σ) (s : Phy σ) (d r : Nat) :
    rxtx_writes (phy_read_mmd bus s d r).2.trace = rxtx_writes s.trace := by
  simp [phy_read_mmd, rxtx_writes]

@[simp] theorem rxtx_writes_write (bus : Hw σ) (s : Phy σ) (d r v : Nat) :
    rxtx_writes (phy_write_mmd bus s d r v).trace = rxtx_writes s.trace := by
  simp [phy_write_mmd, rxtx_writes]

@[simp] theorem rxtx_writes_cmu_read (bus : Hw σ) (s : Phy σ) (r : Nat) :
    rxtx_writes (XCMU_IOREAD bus s r).2.trace = rxtx_writes s.trace := by
  simp [XCMU_IOREAD, rxtx_writes]

@[simp] theorem rxtx_writes_cmu_write (bus : Hw σ) (s : Phy σ) (r v : Nat) :
    rxtx_writes (XCMU_IOWRITE bus s r v).trace = rxtx_writes s.trace := by
  simp [XCMU_IOWRITE, rxtx_writes]

@[simp] theorem rxtx_writes_log (s : Phy σ) (a : Action) :
    rxtx_writes (s.log a).trace = rxtx_writes s.trace ++ rxtx_writes [a] := by
  simp [Phy.log]

@[simp] theorem rxtx_writes_udelay (n : Nat) : rxtx_writes [Action.udelay n] = [] := rfl
@[simp] theorem rxtx_writes_usleep_range (a b : Nat) :
    rxtx_writes [Action.usleep_range a b] = [] := rfl
@[simp] theorem rxtx_writes_spin_lock : rxtx_writes [Action.spin_lock_cmu] = [] := rfl
@[simp] theorem rxtx_writes_spin_unlock : rxtx_writes [Action.spin_unlock_cmu] = [] := rfl

@[simp] theorem rxtx_writes_disable_kr_training (bus : Hw σ) (s : Phy σ) :
    rxtx_writes (amd_xgbe_an_disable_kr_training bus s).2.trace = rxtx_writes s.trace := by
  unfold amd_xgbe_an_disable_kr_training
  simp only []
  split_ifs <;> simp

@[simp] theorem rxtx_writes_pcs_power_cycle (bus : Hw σ) (s : Phy σ) :
    rxtx_writes (amd_xgbe_phy_pcs_power_cycle bus s).2.trace = rxtx_writes s.trace := by
  unfold amd_xgbe_phy_pcs_power_cycle
  simp only []
  split_ifs <;> simp

theorem rxtx_writes_ratechange_wait (bus : Hw σ) (mask n : Nat) :
    ∀ s : Phy σ, rxtx_writes (ratechange_wait bus mask n s).trace = rxtx_writes s.trace := by
  induction n with
  | zero => intro s; rfl
  | succ n ih =>
    intro s
    unfold ratechange_wait
    simp only []
    split_ifs
    · simp
    · rw [ih]; simp

/-- The completion of a rate change starts with the read of `CMU_REG16` and writes no
SerDes Rx/Tx register. -/
theorem complete_ratechange_trace (bus : Hw σ) (x : Phy σ) :
    ∃ c post, (amd_xgbe_phy_serdes_complete_ratechange bus x).trace
        = x.trace ++ Action.cmu_read CMU_REG16 c :: post ∧ rxtx_writes post = [] := by
  have hp : (XCMU_IOREAD bus x CMU_REG16).2.plain_ext
      (amd_xgbe_phy_serdes_complete_ratechange bus x) :=
    plain_ratechange_wait bus _ _ (plain_cmu_write bus (plain_ext_refl _))
  have hw : rxtx_writes (amd_xgbe_phy_serdes_complete_ratechange bus x).trace
      = rxtx_writes (XCMU_IOREAD bus x CMU_REG16).2.trace := by
    unfold amd_xgbe_phy_serdes_complete_ratechange
    simp only []
    rw [rxtx_writes_ratechange_wait]
    simp
  obtain ⟨l, e, hl⟩ := rxtx_writes_ext hp hw
  refine ⟨(XCMU_IOREAD bus x CMU_REG16).1, l, ?_, hl⟩
  rw [e]
  simp [XCMU_IOREAD]

/-- The SerDes section of a mode-programming routine, for any list of fields. -/
theorem writes_fields_section (bus : Hw σ) (s y : Phy σ) (fields : List serdes_field)
    (hy : ∃ pre, y.trace = s.trace ++ pre ∧ rxtx_writes pre = [])
    (hch : y.serdes_channel = s.serdes_channel) :
    writes_fields s (0, (amd_xgbe_phy_serdes_complete_ratechange bus
      (write_fields bus (amd_xgbe_phy_serdes_start_ratechange bus
        (y.log Action.spin_lock_cmu)) fields)).log Action.spin_unlock_cmu) fields := by
  obtain ⟨pre, ey, hpre⟩ := hy
  obtain ⟨ew, lw, -⟩ := write_fields_trace bus fields
    (amd_xgbe_phy_serdes_start_ratechange bus (y.log Action.spin_lock_cmu))
  obtain ⟨c, post, ec, hpost⟩ := complete_ratechange_trace bus
    (write_fields bus (amd_xgbe_phy_serdes_start_ratechange bus
      (y.log Action.spin_lock_cmu)) fields)
  refine Or.inr ⟨rfl, pre, _, post ++ [Action.spin_unlock_cmu],
    (XCMU_IOREAD bus (y.log Action.spin_lock_cmu) CMU_REG16).1,
    ((XCMU_IOREAD bus (y.log Action.spin_lock_cmu) CMU_REG16).1
      ||| ratechange_mask y.serdes_channel) % 65536 % 65536, c, lw, ?_, ?_, hpre, ?_⟩
  · show (amd_xgbe_phy_serdes_complete_ratechange bus _).trace ++ [Action.spin_unlock_cmu] = _
    rw [ec, ew]
    show ((((y.trace ++ [Action.spin_lock_cmu]) ++ [_]) ++ [_]) ++ _ ++ _) ++ _ = _
    rw [ey]
    simp only [List.append_assoc, List.cons_append, List.nil_append]
    rfl
  · rw [← hch]
    exact ratechange_begin_bits _ _
  · rw [rxtx_writes_append, hpost]
    rfl

theorem writes_fields_xgmii_mode (bus : Hw σ) (s : Phy σ) :
    writes_fields s (amd_xgbe_phy_xgmii_mode bus s)
      (spec_mode_fields 0 7 1 (s.serdes_tx_amp 2) (s.serdes_blwc 2)
        (s.serdes_cdr_rate 2) (s.serdes_pq_skew 2)) := by
  have key : ∀ y : Phy σ, s.frame y → s.plain_ext y →
      rxtx_writes y.trace = rxtx_writes s.trace →
      writes_fields s (0, (amd_xgbe_phy_serdes_complete_ratechange bus
        (write_fields bus (amd_xgbe_phy_serdes_start_ratechange bus
          (y.log Action.spin_lock_cmu))
          (spec_mode_fields 0 7 1 (y.serdes_tx_amp 2) (y.serdes_blwc 2)
            (y.serdes_cdr_rate 2) (y.serdes_pq_skew 2)))).log Action.spin_unlock_cmu)
        (spec_mode_fields 0 7 1 (s.serdes_tx_amp 2) (s.serdes_blwc 2)
          (s.serdes_cdr_rate 2) (s.serdes_pq_skew 2)) := by
    intro y fy py wy
    obtain ⟨e1, e2, e3, e4⟩ := frame_tables fy
    have h := writes_fields_section bus s y
      (spec_mode_fields 0 7 1 (y.serdes_tx_amp 2) (y.serdes_blwc 2)
        (y.serdes_cdr_rate 2) (y.serdes_pq_skew 2))
      (rxtx_writes_ext py wy) (frame_channel fy)
    rw [e1, e2, e3, e4] at h
    rw [e1, e2, e3, e4]
    exact h
  unfold amd_xgbe_phy_xgmii_mode
  simp only []
  split_ifs with h1 h2 h3 h4
  · exact Or.inl ⟨h1, by simp⟩
  · exact Or.inl ⟨h2, by simp⟩
  · exact Or.inl ⟨h3, by simp⟩
  · exact Or.inl ⟨h4, by simp⟩
  · exact key _
      (frame_trans (frame_disable_kr_training bus s) (frame_trans (frame_read bus _ _ _)
        (frame_trans (frame_write bus _ _ _ _) (frame_trans (frame_read bus _ _ _)
        (frame_trans (frame_write bus _ _ _ _) (frame_pcs_power_cycle bus _))))))
      (plain_pcs_power_cycle bus (plain_write bus (plain_read bus (fun _ => rfl)
        (plain_write bus (plain_read bus (fun _ => rfl)
        (plain_disable_kr_training bus (plain_ext_refl s)))))))
      (by simp)

theorem writes_fields_gmii_2500_mode (bus : Hw σ) (s : Phy σ) :
    writes_fields s (amd_xgbe_phy_gmii_2500_mode bus s)
      (spec_mode_fields 1 1 0 (s.serdes_tx_amp 1) (s.serdes_blwc 1)
        (s.serdes_cdr_rate 1) (s.serdes_pq_skew 1)) := by
  have key : ∀ y : Phy σ, s.frame y → s.plain_ext y →
      rxtx_writes y.trace = rxtx_writes s.trace →
      writes_fields s (0, (amd_xgbe_phy_serdes_complete_ratechange bus
        (write_fields bus (amd_xgbe_phy_serdes_start_ratechange bus
          (y.log Action.spin_lock_cmu))
          (spec_mode_fields 1 1 0 (y.serdes_tx_amp 1) (y.serdes_blwc 1)
            (y.serdes_cdr_rate 1) (y.serdes_pq_skew 1)))).log Action.spin_unlock_cmu)
        (spec_mode_fields 1 1 0 (s.serdes_tx_amp 1) (s.serdes_blwc 1)
          (s.serdes_cdr_rate 1) (s.serdes_pq_skew 1)) := by
    intro y fy py wy
    obtain ⟨e1, e2, e3, e4⟩ := frame_tables fy
    have h := writes_fields_section bus s y
      (spec_mode_fields 1 1 0 (y.serdes_tx_amp 1) (y.serdes_blwc 1)
        (y.serdes_cdr_rate 1) (y.serdes_pq_skew 1))
      (rxtx_writes_ext py wy) (frame_channel fy)
    rw [e1, e2, e3, e4] at h
    rw [e1, e2, e3, e4]
    exact h
  unfold amd_xgbe_phy_gmii_2500_mode
  simp only []
  split_ifs with h1 h2 h3 h4
  · exact Or.inl ⟨h1, by simp⟩
  · exact Or.inl ⟨h2, by simp⟩
  · exact Or.inl ⟨h3, by simp⟩
  · exact Or.inl ⟨h4, by simp⟩
  · exact key _
      (frame_trans (frame_disable_kr_training bus s) (frame_trans (frame_read bus _ _ _)
        (frame_trans (frame_write bus _ _ _ _) (frame_trans (frame_read bus _ _ _)
        (frame_trans (frame_write bus _ _ _ _) (frame_pcs_power_cycle bus _))))))
      (plain_pcs_power_cycle bus (plain_write bus (plain_read bus (fun _ => rfl)
        (plain_write bus (plain_read bus (fun _ => rfl)
        (plain_disable_kr_training bus (plain_ext_refl s)))))))
      (by simp)

theorem writes_fields_gmii_mode (bus : Hw σ) (s : Phy σ) :
    writes_fields s (amd_xgbe_phy_gmii_mode bus s)
      (spec_mode_fields 3 1 0 (s.serdes_tx_amp 0) (s.serdes_blwc 0)
        (s.serdes_cdr_rate 0) (s.serdes_pq_skew 0)) := by
  have key : ∀ y : Phy σ, s.frame y → s.plain_ext y →
      rxtx_writes y.trace = rxtx_writes s.trace →
      writes_fields s (0, (amd_xgbe_phy_serdes_complete_ratechange bus
        (write_fields bus (amd_xgbe_phy_serdes_start_ratechange bus
          (y.log Action.spin_lock_cmu))
          (spec_mode_fields 3 1 0 (y.serdes_tx_amp 0) (y.serdes_blwc 0)
            (y.serdes_cdr_rate 0) (y.serdes_pq_skew 0)))).log Action.spin_unlock_cmu)
        (spec_mode_fields 3 1 0 (s.serdes_tx_amp 0) (s.serdes_blwc 0)
          (s.serdes_cdr_rate 0) (s.serdes_pq_skew 0)) := by
    intro y fy py wy
    obtain ⟨e1, e2, e3, e4⟩ := frame_tables fy
    have h := writes_fields_section bus s y
      (spec_mode_fields 3 1 0 (y.serdes_tx_amp 0) (y.serdes_blwc 0)
        (y.serdes_cdr_rate 0) (y.serdes_pq_skew 0))
      (rxtx_writes_ext py wy) (frame_channel fy)
    rw [e1, e2, e3, e4] at h
    rw [e1, e2, e3, e4]
    exact h
  unfold amd_xgbe_phy_gmii_mode
  simp only []
  split_ifs with h1 h2 h3 h4
  · exact Or.inl ⟨h1, by simp⟩
  · exact Or.inl ⟨h2, by simp⟩
  · exact Or.inl ⟨h3, by simp⟩
  · exact Or.inl ⟨h4, by simp⟩
  · exact key _
      (frame_trans (frame_disable_kr_training bus s) (frame_trans (frame_read bus _ _ _)
        (frame_trans (frame_write bus _ _ _ _) (frame_trans (frame_read bus _ _ _)
        (frame_trans (frame_write bus _ _ _ _) (frame_pcs_power_cycle bus _))))))
      (plain_pcs_power_cycle bus (plain_write bus (plain_read bus (fun _ => rfl)
        (plain_write bus (plain_read bus (fun _ => rfl)
        (plain_disable_kr_training bus (plain_ext_refl s)))))))
      (by simp)

/-- The SerDes Rx/Tx writes of the three routines on the register file with the
built-in tables, every register being 0 at the start. -/
theorem serdes_writes_regfile :
    (amd_xgbe_phy_xgmii_mode regfile (phy_init regs_kr_ready)).1 = 0 ∧
    rxtx_writes (amd_xgbe_phy_xgmii_mode regfile (phy_init regs_kr_ready)).2.trace
      = [(12, 0), (12, 14336), (20, 1280), (24, 0), (24, 14336), (80, 0), (212, 32768),
         (212, 49152), (212, 56320), (456, 15360)] ∧
    rxtx_writes (amd_xgbe_phy_gmii_2500_mode regfile (phy_init regs_kr_ready)).2.trace
      = [(12, 16384), (12, 18432), (20, 1920), (24, 512), (24, 2560), (80, 4), (212, 0),
         (212, 0), (212, 2048), (456, 5120)] ∧
    rxtx_writes (amd_xgbe_phy_gmii_mode regfile (phy_init regs_kr_ready)).2.trace
      = [(12, 49152), (12, 51200), (20, 1920), (24, 1536), (24, 3584), (80, 4), (212, 0),
         (212, 0), (212, 2048), (456, 5120)] := by
  decide

theorem marks_append (l1 l2 : List Action) : marks (l1 ++ l2) = marks l1 ++ marks l2 := by
  simp [marks]

theorem marks_plain (l : List Action) (h : ∀ a ∈ l, a.plain = true) : marks l = [] := by
  unfold marks
  rw [List.filter_eq_nil_iff]
  intro a ha
  simp [h a ha]

theorem marks_ext_of_plain {s x : Phy σ} (h : s.plain_ext x) : s.marks_ext x [] := by
  obtain ⟨l, e, p⟩ := h
  exact ⟨l, e, marks_plain l p⟩

theorem marks_ext_refl (s : Phy σ) : s.marks_ext s [] := marks_ext_of_plain (plain_ext_refl s)

theorem marks_ext_trans {s x y : Phy σ} {m1 m2 : List Action} (h1 : s.marks_ext x m1)
    (h2 : x.marks_ext y m2) : s.marks_ext y (m1 ++ m2) := by
  obtain ⟨l1, e1, p1⟩ := h1
  obtain ⟨l2, e2, p2⟩ := h2
  exact ⟨l1 ++ l2, by rw [e2, e1, List.append_assoc], by rw [marks_append, p1, p2]⟩

theorem marks_ext_plain_right {s x y : Phy σ} {m : List Action} (h1 : s.marks_ext x m)
    (h2 : x.plain_ext y) : s.marks_ext y m := by
  have := marks_ext_trans h1 (marks_ext_of_plain h2)
  rwa [List.append_nil] at this

theorem marks_ext_same {s x y : Phy σ} {m : List Action} (hy : y.trace = x.trace)
    (h : s.marks_ext x m) : s.marks_ext y m := by
  obtain ⟨l, e, p⟩ := h
  exact ⟨l, by rw [hy, e], p⟩

theorem marks_ext_log {s x : Phy σ} {m : List Action} (a : Action) (ha : a.plain = false)
    (h : s.marks_ext x m) : s.marks_ext (x.log a) (m ++ [a]) :=
  marks_ext_trans h ⟨[a], rfl, by simp [marks, ha]⟩

theorem marks_ext_read_mark (bus : Hw σ) {s x : Phy σ} {m : List Action} (d r : Nat)
    (ha : ∀ v, (Action.mdio_read d r v).plain = false) (h : s.marks_ext x m) :
    s.marks_ext (phy_read_mmd bus x d r).2
      (m ++ [Action.mdio_read d r (phy_read_mmd bus x d r).1]) :=
  marks_ext_trans h ⟨[Action.mdio_read d r (phy_read_mmd bus x d r).1], rfl, by
    simp [marks, ha]⟩

theorem marks_ext_count {s x : Phy σ} {m : List Action} (h : s.marks_ext x m) (b : Action)
    (hb : b.plain = false) : x.trace.count b = s.trace.count b + m.count b := by
  obtain ⟨l, e, p⟩ := h
  rw [e, List.count_append, ← p]
  congr 1
  unfold marks
  rw [List.count_filter]
  simp [hb]

theorem config_aneg_marks_ext (bus : Hw σ) (s : Phy σ) :
    s.marks_ext (__amd_xgbe_phy_config_aneg bus s).2 (config_aneg_marks bus s) := by
  unfold __amd_xgbe_phy_config_aneg config_aneg_marks
  lift_lets
  intro s1 r d s2 s3 s4 i r1 s5
  have hs1 : s.marks_ext s1 [Action.disable_irq] :=
    marks_ext_log Action.disable_irq rfl (marks_ext_refl s)
  have hr : s1.plain_ext r.2 := by
    show s1.plain_ext (Prod.snd (ite _ _ _))
    split_ifs
    · exact plain_set_mode bus _ (plain_ext_refl _)
    · exact plain_set_mode bus _ (plain_ext_refl _)
    · exact plain_ext_refl _
  have hd : s1.plain_ext d.2 := plain_disable_an bus hr
  have hs4 : s.marks_ext s4 [Action.disable_irq, Action.enable_irq] :=
    marks_ext_log Action.enable_irq rfl
      (@marks_ext_same σ s s2 s3 _ rfl (marks_ext_plain_right hs1 (plain_write bus hd)))
  have hi : s.marks_ext i.2 [Action.disable_irq, Action.enable_irq] :=
    marks_ext_plain_right hs4 (plain_an_init bus (plain_ext_refl _))
  have hr1 : s.marks_ext r1.2 [Action.disable_irq, Action.enable_irq] :=
    marks_ext_plain_right hi (plain_read bus (fun _ => rfl) (plain_ext_refl _))
  split_ifs
  · exact marks_ext_of_plain (plain_setup_forced bus (plain_ext_refl s))
  · exact marks_ext_refl s
  · exact marks_ext_log Action.enable_irq rfl (marks_ext_plain_right hs1 hr)
  · exact marks_ext_plain_right hs1 hd
  · exact hi
  · exact hr1
  · exact marks_ext_plain_right hr1 (plain_restart_an bus (plain_write bus (plain_ext_refl _)))

theorem config_aneg_marks_cases (bus : Hw σ) (s : Phy σ) :
    config_aneg_marks bus s = [] ∨
    config_aneg_marks bus s = [Action.disable_irq, Action.enable_irq] ∨
    config_aneg_marks bus s = [Action.disable_irq] := by
  unfold config_aneg_marks
  simp only []
  split_ifs <;> simp

theorem marks_ext_countP {s x : Phy σ} {m : List Action} (h : s.marks_ext x m)
    (p : Action → Bool) (hp : ∀ a, p a = true → a.plain = false) :
    x.trace.countP p = s.trace.countP p + m.countP p := by
  obtain ⟨l, e, q⟩ := h
  rw [e, List.countP_append, ← q]
  congr 1
  unfold marks
  rw [List.countP_filter]
  apply List.countP_congr
  intro a _
  cases hpa : p a <;> simp [hpa]
  exact hp a hpa

theorem link_read_not_plain (a : Action) (h : a.link_read = true) : a.plain = false := by
  cases a <;> simp_all [Action.link_read, Action.plain]

theorem config_aneg_ext (bus : Hw σ) (s : Phy σ) :
    s.marks_ext (amd_xgbe_phy_config_aneg bus s).2
      (Action.mutex_lock_an ::
        (config_aneg_marks bus (s.log Action.mutex_lock_an) ++ [Action.mutex_unlock_an])) := by
  have h1 : s.marks_ext (s.log Action.mutex_lock_an) [Action.mutex_lock_an] :=
    marks_ext_log Action.mutex_lock_an rfl (marks_ext_refl s)
  have h2 := marks_ext_trans h1 (config_aneg_marks_ext bus (s.log Action.mutex_lock_an))
  exact marks_ext_log Action.mutex_unlock_an rfl h2

theorem same_link_refl (x : Phy σ) : x.same_link x := ⟨rfl, rfl⟩

theorem same_link_via {x y z : Phy σ} (h : y.frame z) : x.same_link z ↔ x.same_link y := by
  unfold Phy.same_link
  rw [h]

theorem same_link_congr {x y z : Phy σ} (h : y.same_link z) :
    x.same_link z ↔ x.same_link y := by
  unfold Phy.same_link at *
  rw [h.1, h.2]

@[simp] theorem same_link_read (bus : Hw σ) (x y : Phy σ) (d r : Nat) :
    x.same_link (phy_read_mmd bus y d r).2 ↔ x.same_link y := Iff.rfl
@[simp] theorem same_link_write (bus : Hw σ) (x y : Phy σ) (d r v : Nat) :
    x.same_link (phy_write_mmd bus y d r v) ↔ x.same_link y := Iff.rfl
@[simp] theorem same_link_log (x y : Phy σ) (a : Action) :
    x.same_link (y.log a) ↔ x.same_link y := Iff.rfl
@[simp] theorem same_link_disable_an (bus : Hw σ) (x y : Phy σ) :
    x.same_link (amd_xgbe_phy_disable_an bus y).2 ↔ x.same_link y :=
  same_link_via (frame_set_an bus y false false)
@[simp] theorem same_link_restart_an (bus : Hw σ) (x y : Phy σ) :
    x.same_link (amd_xgbe_phy_restart_an bus y).2 ↔ x.same_link y :=
  same_link_via (frame_set_an bus y true true)
@[simp] theorem same_link_set_mode (bus : Hw σ) (x y : Phy σ) (m : amd_xgbe_phy_mode) :
    x.same_link (amd_xgbe_phy_set_mode bus y m).2 ↔ x.same_link y :=
  same_link_via (frame_set_mode bus y m)
@[simp] theorem same_link_switch_mode (bus : Hw σ) (x y : Phy σ) :
    x.same_link (amd_xgbe_phy_switch_mode bus y).2 ↔ x.same_link y :=
  same_link_via (frame_switch_mode bus y)
@[simp] theorem same_link_pause (x y : Phy σ) (v w : Nat) :
    x.same_link { y with pause := v, asym_pause := w } ↔ x.same_link y := Iff.rfl
@[simp] theorem same_link_an (x y : Phy σ) (a b : amd_xgbe_phy_an) (c d : amd_xgbe_phy_rx) :
    x.same_link { y with an_result := a, an_state := b, kr_state := c, kx_state := d }
      ↔ x.same_link y := Iff.rfl
@[simp] theorem same_link_an_init (bus : Hw σ) (x y : Phy σ) :
    x.same_link (amd_xgbe_an_init bus y).2 ↔ x.same_link y :=
  same_link_via (frame_an_init bus y)

theorem same_link_setup_forced (bus : Hw σ) (x : Phy σ) :
    x.same_link (amd_xgbe_phy_setup_forced bus x).2 := by
  unfold amd_xgbe_phy_setup_forced
  simp only []
  split_ifs <;> simp [same_link_refl]

@[simp] theorem same_link_setup_forced_iff (bus : Hw σ) (x y : Phy σ) :
    x.same_link (amd_xgbe_phy_setup_forced bus y).2 ↔ x.same_link y :=
  same_link_congr (same_link_setup_forced bus y)

theorem same_link_config_aneg (bus : Hw σ) (x : Phy σ) :
    x.same_link (amd_xgbe_phy_config_aneg bus x).2 := by
  unfold amd_xgbe_phy_config_aneg __amd_xgbe_phy_config_aneg
  simp only []
  split_ifs <;> simp [same_link_refl]

theorem update_link_read_priv (bus : Hw σ) (x : Phy σ) :
    (update_link_read bus x).2.priv_link = x.priv_link ∧
    (update_link_read bus x).2.autoneg = x.autoneg := by
  unfold update_link_read
  simp only []
  split_ifs <;> exact ⟨rfl, rfl⟩

theorem update_link_read_trace (bus : Hw σ) (x : Phy σ) :
    ∃ l, (update_link_read bus x).2.trace = x.trace ++ l ∧
      (∀ a ∈ l, a.link_read = true) ∧ l.length ≤ 2 ∧
      (¬ (update_link_read bus x).1 < 0 → l.length = 2) := by
  have key : (update_link_read bus x).2.trace = x.trace ++
      (if (update_link_read bus x).1 < 0 ∧ (phy_read_mmd bus x MDIO_MMD_PCS MDIO_STAT1).1 < 0
        then [Action.mdio_read MDIO_MMD_PCS MDIO_STAT1
          (phy_read_mmd bus x MDIO_MMD_PCS MDIO_STAT1).1]
        else [Action.mdio_read MDIO_MMD_PCS MDIO_STAT1
          (phy_read_mmd bus x MDIO_MMD_PCS MDIO_STAT1).1,
          Action.mdio_read MDIO_MMD_PCS MDIO_STAT1
            (phy_read_mmd bus (phy_read_mmd bus x MDIO_MMD_PCS MDIO_STAT1).2
              MDIO_MMD_PCS MDIO_STAT1).1]) := by
    unfold update_link_read
    simp only []
    split_ifs <;> simp_all [phy_read_mmd] <;> omega
  refine ⟨_, key, ?_, ?_, ?_⟩
  · intro a ha
    split_ifs at ha <;> simp at ha
    · rw [ha]; rfl
    · rcases ha with rfl | rfl <;> rfl
  · split_ifs <;> simp
  · intro h
    rw [if_neg (fun c => h c.1)]
    rfl

theorem update_link_read_count (bus : Hw σ) (x : Phy σ) :
    (update_link_read bus x).2.trace.countP Action.link_read
        ≤ x.trace.countP Action.link_read + 2 ∧
    (¬ (update_link_read bus x).1 < 0 →
      (update_link_read bus x).2.trace.countP Action.link_read
        = x.trace.countP Action.link_read + 2) ∧
    (∀ b : Action, b.link_read = false →
      (update_link_read bus x).2.trace.count b = x.trace.count b) := by
  obtain ⟨l, e, hl, h2, h3⟩ := update_link_read_trace bus x
  have hc : l.countP Action.link_read = l.length := by
    rw [List.countP_eq_length]
    exact hl
  have hz : ∀ b : Action, b.link_read = false → l.count b = 0 := by
    intro b hb
    rw [List.count_eq_zero]
    intro hm
    rw [hl b hm] at hb
    exact Bool.noConfusion hb
  refine ⟨?_, fun h => ?_, fun b hb => ?_⟩
  · rw [e, List.countP_append, hc]; omega
  · rw [e, List.countP_append, hc, h3 h]
  · rw [e, List.count_append, hz b hb, Nat.add_zero]

theorem update_link_done_eq (bus : Hw σ) (x : Phy σ) :
    update_link_done bus x =
      if x.link ≠ 0 ∧ x.priv_link = 0 then
        (if (amd_xgbe_phy_config_aneg bus { x with priv_link := x.link }).1 < 0 then
          (amd_xgbe_phy_config_aneg bus { x with priv_link := x.link }).1 else 0,
         (amd_xgbe_phy_config_aneg bus { x with priv_link := x.link }).2)
      else (0, { x with priv_link := x.link }) := by
  unfold update_link_done
  simp only [decide_eq_true_eq]
  split_ifs <;> rfl

theorem update_link_done_link (bus : Hw σ) (x : Phy σ) :
    (update_link_done bus x).2.link = x.link ∧ (update_link_done bus x).2.priv_link = x.link := by
  rw [update_link_done_eq]
  by_cases he : x.link ≠ 0 ∧ x.priv_link = 0
  · rw [if_pos he]
    exact same_link_config_aneg bus { x with priv_link := x.link }
  · rw [if_neg he]
    exact ⟨rfl, rfl⟩

theorem config_aneg_marks_count (bus : Hw σ) (x : Phy σ) :
    (config_aneg_marks bus x).countP Action.link_read = 0 ∧
    (config_aneg_marks bus x).count Action.mutex_lock_an = 0 := by
  rcases config_aneg_marks_cases bus x with h | h | h <;> rw [h] <;> exact ⟨rfl, rfl⟩

theorem update_link_done_count (bus : Hw σ) (x : Phy σ) :
    (update_link_done bus x).2.trace.countP Action.link_read
      = x.trace.countP Action.link_read ∧
    (update_link_done bus x).2.trace.count Action.mutex_lock_an
      = x.trace.count Action.mutex_lock_an + if x.link ≠ 0 ∧ x.priv_link = 0 then 1 else 0 := by
  rw [update_link_done_eq]
  by_cases he : x.link ≠ 0 ∧ x.priv_link = 0
  swap
  · rw [if_neg he, if_neg he]
    exact ⟨rfl, rfl⟩
  · rw [if_pos he, if_pos he]
    have h := config_aneg_ext bus { x with priv_link := x.link }
    have c := config_aneg_marks_count bus
      (({ x with priv_link := x.link } : Phy σ).log Action.mutex_lock_an)
    constructor
    · rw [marks_ext_countP h _ link_read_not_plain]
      show _ + List.countP _ ([Action.mutex_lock_an] ++ (_ ++ [Action.mutex_unlock_an])) = _
      rw [List.countP_append, List.countP_append, c.1]
      rfl
    · rw [marks_ext_count h Action.mutex_lock_an rfl]
      show _ + List.count _ ([Action.mutex_lock_an] ++ (_ ++ [Action.mutex_unlock_an])) = _
      rw [List.count_append, List.count_append, c.2]
      rfl

theorem plain_countP_link {s x : Phy σ} (h : s.plain_ext x) :
    x.trace.countP Action.link_read = s.trace.countP Action.link_read := by
  rw [marks_ext_countP (marks_ext_of_plain h) _ link_read_not_plain]
  rfl

theorem update_link_eq_settle (bus : Hw σ) (s : Phy σ) (h : s.an_state = AMD_XGBE_AN_READY) :
    amd_xgbe_phy_update_link bus s =
      if (update_link_settle bus s).1 < 0 then update_link_settle bus s
      else update_link_done bus (update_link_settle bus s).2 := by
  unfold amd_xgbe_phy_update_link update_link_settle
  simp only [h, ne_eq, not_true_eq_false, if_false, decide_eq_true_eq]
  split_ifs <;> first | rfl | omega

theorem update_link_settle_facts (bus : Hw σ) (s : Phy σ) :
    (update_link_settle bus s).2.priv_link = s.priv_link ∧
    (update_link_settle bus s).2.trace.count Action.mutex_lock_an
      = s.trace.count Action.mutex_lock_an := by
  have r1 := update_link_read_priv bus s
  have c1 := (update_link_read_count bus s).2.2 Action.mutex_lock_an rfl
  have fw := frame_switch_mode bus (update_link_read bus s).2
  have pw : (amd_xgbe_phy_switch_mode bus (update_link_read bus s).2).2.priv_link
      = (update_link_read bus s).2.priv_link := by rw [fw]
  have cw := marks_ext_count (marks_ext_of_plain
    (plain_switch_mode bus (plain_ext_refl (update_link_read bus s).2))) Action.mutex_lock_an rfl
  have r2 := update_link_read_priv bus (amd_xgbe_phy_switch_mode bus (update_link_read bus s).2).2
  have c2 := (update_link_read_count bus
    (amd_xgbe_phy_switch_mode bus (update_link_read bus s).2).2).2.2 Action.mutex_lock_an rfl
  unfold update_link_settle
  simp only []
  split_ifs
  · exact ⟨r1.1, c1⟩
  · exact ⟨pw.trans r1.1, by rw [cw, c1]; rfl⟩
  · exact ⟨r2.1.trans (pw.trans r1.1), by rw [c2, cw, c1]; rfl⟩
  · exact ⟨r1.1, c1⟩

/-- C23: with the negotiation at rest (`an_state` READY) and the link state settled
without a failing read or mode switch, `amd_xgbe_phy_update_link` goes on with the link
state `phydev->link` it has just determined and the remembered state `priv->link`
untouched so far; it runs `amd_xgbe_phy_config_aneg` (seen in the trace as one more
acquisition of the negotiation mutex) exactly if the determined state is up and the
remembered one was down, and otherwise returns 0 without any further access; in both
cases the remembered state is then the determined one, and the determined one is what
`phydev->link` holds on return.  So when the determined state equals the remembered
one, as on a second call with the link unchanged, nothing is re-configured. -/
theorem C23_link_edge (bus : Hw σ) (s : Phy σ) (h : s.an_state = AMD_XGBE_AN_READY)
    (hs : ¬ (update_link_settle bus s).1 < 0) :
    amd_xgbe_phy_update_link bus s = update_link_done bus (update_link_settle bus s).2 ∧
    (update_link_settle bus s).2.priv_link = s.priv_link ∧
    (amd_xgbe_phy_update_link bus s).2.trace.count Action.mutex_lock_an
      = s.trace.count Action.mutex_lock_an
        + (if (update_link_settle bus s).2.link ≠ 0 ∧ s.priv_link = 0 then 1 else 0) ∧
    ((update_link_settle bus s).2.link ≠ 0 ∧ s.priv_link = 0 →
      (amd_xgbe_phy_update_link bus s).2 = (amd_xgbe_phy_config_aneg bus
        { (update_link_settle bus s).2 with
          priv_link := (update_link_settle bus s).2.link }).2) ∧
    (¬ ((update_link_settle bus s).2.link ≠ 0 ∧ s.priv_link = 0) →
      amd_xgbe_phy_update_link bus s = (0, { (update_link_settle bus s).2 with
        priv_link := (update_link_settle bus s).2.link })) ∧
    (amd_xgbe_phy_update_link bus s).2.priv_link = (update_link_settle bus s).2.link ∧
    (amd_xgbe_phy_update_link bus s).2.link = (update_link_settle bus s).2.link ∧
    ((update_link_settle bus s).2.link = s.priv_link →
      amd_xgbe_phy_update_link bus s = (0, { (update_link_settle bus s).2 with
        priv_link := (update_link_settle bus s).2.link })) := by
  have e : amd_xgbe_phy_update_link bus s
      = update_link_done bus (update_link_settle bus s).2 := by
    rw [update_link_eq_settle bus s h, if_neg hs]
  obtain ⟨hp, hc⟩ := update_link_settle_facts bus s
  have hd := update_link_done_eq bus (update_link_settle bus s).2
  have hl := update_link_done_link bus (update_link_settle bus s).2
  have hn := (update_link_done_count bus (update_link_settle bus s).2).2
  rw [hp] at hd hn
  rw [hc] at hn
  have hno : ¬ ((update_link_settle bus s).2.link ≠ 0 ∧ s.priv_link = 0) →
      amd_xgbe_phy_update_link bus s = (0, { (update_link_settle bus s).2 with
        priv_link := (update_link_settle bus s).2.link }) := by
    intro hedge
    rw [e, hd, if_neg hedge]
  refine ⟨e, hp, by rw [e]; exact hn, ?_, hno, by rw [e]; exact hl.2, by rw [e]; exact hl.1, ?_⟩
  · intro hedge
    rw [e, hd, if_pos hedge]
  · intro heq
    apply hno
    rintro ⟨h1, h2⟩
    exact h1 (heq.trans h2)

/-- C23, witness: the register file with the link up, the link remembered as down: the
configuration is run once. -/
theorem C23_link_edge_witness :
    (phy_status 0x20 0).an_state = AMD_XGBE_AN_READY ∧
    ¬ (update_link_settle regfile (phy_status 0x20 0)).1 < 0 ∧
    (amd_xgbe_phy_update_link regfile (phy_status 0x20 0)).2.trace.count Action.mutex_lock_an
      = (phy_status 0x20 0).trace.count Action.mutex_lock_an
        + (if (update_link_settle regfile (phy_status 0x20 0)).2.link ≠ 0 ∧
            (phy_status 0x20 0).priv_link = 0 then 1 else 0) ∧
    (amd_xgbe_phy_update_link regfile (phy_status 0x20 0)).2.priv_link
      = (update_link_settle regfile (phy_status 0x20 0)).2.link ∧
    (update_link_settle regfile (phy_status 0x20 0)).2.link = 1 :=
  have h := C23_link_edge regfile (phy_status 0x20 0) rfl (by decide)
  ⟨rfl, by decide, h.2.2.1, h.2.2.2.2.2.1, by decide⟩

theorem update_link_eq (bus : Hw σ) (s : Phy σ) (h : s.an_state = AMD_XGBE_AN_READY) :
    amd_xgbe_phy_update_link bus s =
      if (update_link_read bus s).1 < 0 then
        ((update_link_read bus s).1, (update_link_read bus s).2)
      else if (update_link_read bus s).2.link = 0 ∧ decide (s.autoneg = AUTONEG_ENABLE) = true
          then
        if (amd_xgbe_phy_switch_mode bus (update_link_read bus s).2).1 < 0 then
          ((amd_xgbe_phy_switch_mode bus (update_link_read bus s).2).1,
            (amd_xgbe_phy_switch_mode bus (update_link_read bus s).2).2)
        else if (update_link_read bus
            (amd_xgbe_phy_switch_mode bus (update_link_read bus s).2).2).1 < 0 then
          ((update_link_read bus
              (amd_xgbe_phy_switch_mode bus (update_link_read bus s).2).2).1,
            (update_link_read bus
              (amd_xgbe_phy_switch_mode bus (update_link_read bus s).2).2).2)
        else update_link_done bus (update_link_read bus
          (amd_xgbe_phy_switch_mode bus (update_link_read bus s).2).2).2
      else update_link_done bus (update_link_read bus s).2 := by
  unfold amd_xgbe_phy_update_link
  simp only [h, ne_eq, not_true_eq_false, if_false]

/-- The disabling and enabling of the interrupt by `__amd_xgbe_phy_config_aneg`, for
every hardware and state: the calls of `disable_irq` and `enable_irq` it adds to the
trace are those of `config_aneg_marks`, which are balanced on every return path but the
one taken when the disabling of auto-negotiation fails. -/
theorem config_aneg_irq_counts (bus : Hw σ) (s : Phy σ) :
    (__amd_xgbe_phy_config_aneg bus s).2.trace.count Action.disable_irq
      = s.trace.count Action.disable_irq + (config_aneg_marks bus s).count Action.disable_irq ∧
    (__amd_xgbe_phy_config_aneg bus s).2.trace.count Action.enable_irq
      = s.trace.count Action.enable_irq + (config_aneg_marks bus s).count Action.enable_irq ∧
    ((config_aneg_marks bus s).count Action.disable_irq
        = (config_aneg_marks bus s).count Action.enable_irq ∨
      config_aneg_marks bus s = [Action.disable_irq]) :=
  ⟨marks_ext_count (config_aneg_marks_ext bus s) Action.disable_irq rfl,
   marks_ext_count (config_aneg_marks_ext bus s) Action.enable_irq rfl, by
    rcases config_aneg_marks_cases bus s with h | h | h
    · rw [h]; exact Or.inl rfl
    · rw [h]; exact Or.inl (by decide)
    · exact Or.inr h⟩

/-- C30, the code at the failing input: auto-negotiation enabled, the AN device present,
the device already in KR mode, and a hardware on which the read of the auto-negotiation
control register fails.  `__amd_xgbe_phy_config_aneg` disables the interrupt, finds the
mode set, fails to disable auto-negotiation and returns the error with the interrupt
still disabled: one `disable_irq`, no `enable_irq`.  On the sibling path, a hardware on
which the mode read fails, the interrupt is enabled again before the return. -/
theorem C30_irq_left_disabled :
    (__amd_xgbe_phy_config_aneg an_ctrl1_fail_hw (phy_init regs_kr_ready)).1 = -5 ∧
    (__amd_xgbe_phy_config_aneg an_ctrl1_fail_hw (phy_init regs_kr_ready)).2.trace
      = [Action.disable_irq, Action.mdio_read MDIO_MMD_PCS MDIO_CTRL2 0,
         Action.mdio_read MDIO_MMD_AN MDIO_CTRL1 (-5)] ∧
    (__amd_xgbe_phy_config_aneg an_ctrl1_fail_hw (phy_init regs_kr_ready)).2.trace.count
      Action.disable_irq = 1 ∧
    (__amd_xgbe_phy_config_aneg an_ctrl1_fail_hw (phy_init regs_kr_ready)).2.trace.count
      Action.enable_irq = 0 ∧
    (__amd_xgbe_phy_config_aneg fail_once_hw (phy_init (true, regs_kr_ready))).1 = -5 ∧
    (__amd_xgbe_phy_config_aneg fail_once_hw (phy_init (true, regs_kr_ready))).2.trace
      = [Action.disable_irq, Action.mdio_read MDIO_MMD_PCS MDIO_CTRL2 (-5),
         Action.enable_irq] := by
  decide

set_option maxRecDepth 20000 in
/-- The soft reset on the register file, where the reset bit stays set once written:
50 polls, then `-ETIMEDOUT`; and on a hardware whose reset bit clears itself: one poll,
auto-negotiation disabled, the interrupt register cleared, 0 returned. -/
theorem soft_reset_examples :
    (amd_xgbe_phy_soft_reset regfile (phy_init regs_kr_ready)).1 = -ETIMEDOUT ∧
    (amd_xgbe_phy_soft_reset regfile (phy_init regs_kr_ready)).2.trace.length = 102 ∧
    (amd_xgbe_phy_soft_reset self_clearing_hw (phy_init regs_kr_ready)).1 = 0 ∧
    (amd_xgbe_phy_soft_reset self_clearing_hw (phy_init regs_kr_ready)).2.trace
      = [Action.mdio_read MDIO_MMD_PCS MDIO_CTRL1 0,
         Action.mdio_write MDIO_MMD_PCS MDIO_CTRL1 MDIO_CTRL1_RESET,
         Action.msleep 20, Action.mdio_read MDIO_MMD_PCS MDIO_CTRL1 0,
         Action.mdio_read MDIO_MMD_AN MDIO_CTRL1 0, Action.mdio_write MDIO_MMD_AN MDIO_CTRL1 0,
         Action.mdio_write MDIO_MMD_AN MDIO_AN_INT 0] := by
  decide

theorem read_rx_store (bus : Hw σ) (x : Phy σ) (q : rx_state_ptr) (v : amd_xgbe_phy_rx)
    (d r : Nat) :
    phy_read_mmd bus (x.rx_store q v) d r
      = ((phy_read_mmd bus x d r).1, (phy_read_mmd bus x d r).2.rx_store q v) := by
  cases q <;> rfl

theorem write_rx_store (bus : Hw σ) (x : Phy σ) (q : rx_state_ptr) (v : amd_xgbe_phy_rx)
    (d r w : Nat) :
    phy_write_mmd bus (x.rx_store q v) d r w = (phy_write_mmd bus x d r w).rx_store q v := by
  cases q <;> rfl

theorem in_kr_mode_rx_store (bus : Hw σ) (x : Phy σ) (q : rx_state_ptr) (v : amd_xgbe_phy_rx) :
    amd_xgbe_phy_in_kr_mode bus (x.rx_store q v)
      = ((amd_xgbe_phy_in_kr_mode bus x).1, (amd_xgbe_phy_in_kr_mode bus x).2.rx_store q v) := by
  unfold amd_xgbe_phy_in_kr_mode amd_xgbe_phy_cur_mode
  simp only [read_rx_store]
  split_ifs <;> rfl

theorem rx_store_comm (x : Phy σ) (p : rx_state_ptr) (a v : amd_xgbe_phy_rx) :
    (x.rx_store p.other v).rx_store p a = (x.rx_store p a).rx_store p.other v := by
  cases p <;> rfl

theorem fec_ability_rx_store (x : Phy σ) (q : rx_state_ptr) (v : amd_xgbe_phy_rx) :
    (x.rx_store q v).fec_ability = x.fec_ability := by
  cases q <;> rfl

theorem tx_training_rx_store (bus : Hw σ) (x : Phy σ) (p : rx_state_ptr)
    (v : amd_xgbe_phy_rx) :
    amd_xgbe_an_tx_training bus (x.rx_store p.other v) p
      = ((amd_xgbe_an_tx_training bus x p).1,
         (amd_xgbe_an_tx_training bus x p).2.rx_store p.other v) := by
  unfold amd_xgbe_an_tx_training
  simp only [rx_store_comm, in_kr_mode_rx_store, read_rx_store, write_rx_store,
    fec_ability_rx_store]
  split_ifs <;> rfl

theorem tx_xnp_rx_store (bus : Hw σ) (x : Phy σ) (p : rx_state_ptr) (v : amd_xgbe_phy_rx) :
    amd_xgbe_an_tx_xnp bus (x.rx_store p.other v) p
      = ((amd_xgbe_an_tx_xnp bus x p).1, (amd_xgbe_an_tx_xnp bus x p).2.rx_store p.other v) := by
  unfold amd_xgbe_an_tx_xnp
  simp only [rx_store_comm, write_rx_store]

theorem rx_bpa_rx_store (bus : Hw σ) (x : Phy σ) (p : rx_state_ptr) (v : amd_xgbe_phy_rx) :
    amd_xgbe_an_rx_bpa bus (x.rx_store p.other v) p
      = ((amd_xgbe_an_rx_bpa bus x p).1, (amd_xgbe_an_rx_bpa bus x p).2.rx_store p.other v) := by
  unfold amd_xgbe_an_rx_bpa
  simp only [in_kr_mode_rx_store, read_rx_store, tx_xnp_rx_store, tx_training_rx_store]
  split_ifs <;> rfl

theorem rx_xnp_rx_store (bus : Hw σ) (x : Phy σ) (p : rx_state_ptr) (v : amd_xgbe_phy_rx) :
    amd_xgbe_an_rx_xnp bus (x.rx_store p.other v) p
      = ((amd_xgbe_an_rx_xnp bus x p).1, (amd_xgbe_an_rx_xnp bus x p).2.rx_store p.other v) := by
  unfold amd_xgbe_an_rx_xnp
  simp only [read_rx_store, tx_xnp_rx_store, tx_training_rx_store]
  split_ifs <;> rfl

theorem rx_load_other (x : Phy σ) (p : rx_state_ptr) (v : amd_xgbe_phy_rx) :
    (x.rx_store p.other v).rx_load p = x.rx_load p := by
  cases p <;> rfl

theorem rx_store_self (x : Phy σ) (q : rx_state_ptr) : x.rx_store q (x.rx_load q) = x := by
  cases q <;> rfl

theorem page_received_eq (bus : Hw σ) (s : Phy σ) :
    amd_xgbe_an_page_received bus s =
      match (amd_xgbe_phy_in_kr_mode bus s).2.rx_load (active_rx_state bus s) with
      | AMD_XGBE_RX_BPA =>
        amd_xgbe_an_rx_bpa bus (amd_xgbe_phy_in_kr_mode bus s).2 (active_rx_state bus s)
      | AMD_XGBE_RX_XNP =>
        amd_xgbe_an_rx_xnp bus (amd_xgbe_phy_in_kr_mode bus s).2 (active_rx_state bus s)
      | _ => (AMD_XGBE_AN_ERROR, (amd_xgbe_phy_in_kr_mode bus s).2) := rfl

theorem active_rx_store (bus : Hw σ) (s : Phy σ) (q : rx_state_ptr) (v : amd_xgbe_phy_rx) :
    active_rx_state bus (s.rx_store q v) = active_rx_state bus s := by
  unfold active_rx_state
  rw [in_kr_mode_rx_store]

theorem page_received_rx_store (bus : Hw σ) (s : Phy σ) (v : amd_xgbe_phy_rx) :
    amd_xgbe_an_page_received bus (s.rx_store (active_rx_state bus s).other v)
      = ((amd_xgbe_an_page_received bus s).1,
         (amd_xgbe_an_page_received bus s).2.rx_store (active_rx_state bus s).other v) := by
  rw [page_received_eq, page_received_eq, active_rx_store, in_kr_mode_rx_store]
  simp only [rx_load_other, rx_bpa_rx_store, rx_xnp_rx_store]
  split <;> rfl

/-- C25: `amd_xgbe_an_page_received` works on the rx sub-state of the mode that
`amd_xgbe_phy_in_kr_mode` reports (`kr_state` in KR mode, `kx_state` otherwise) and on no
other driver field: whatever value the other sub-state holds, the result is the same and
that value is still there afterwards; besides the hardware state and the trace only the
rx sub-states can differ from the entry state, and the other one does not.  When the
active sub-state is COMPLETE or ERROR the function returns ERROR after the read of the
mode alone, with both sub-states as they were. -/
theorem C25_rx_state_frame (bus : Hw σ) (s : Phy σ) :
    (∀ v, amd_xgbe_an_page_received bus (s.rx_store (active_rx_state bus s).other v)
      = ((amd_xgbe_an_page_received bus s).1,
         (amd_xgbe_an_page_received bus s).2.rx_store (active_rx_state bus s).other v)) ∧
    (amd_xgbe_an_page_received bus s).2.rx_load (active_rx_state bus s).other
      = s.rx_load (active_rx_state bus s).other ∧
    s.frame_rx (amd_xgbe_an_page_received bus s).2 ∧
    (active_rx_state bus s = if (amd_xgbe_phy_in_kr_mode bus s).1 = true
      then rx_state_ptr.kr_state else rx_state_ptr.kx_state) ∧
    (s.rx_load (active_rx_state bus s) = AMD_XGBE_RX_COMPLETE ∨
      s.rx_load (active_rx_state bus s) = AMD_XGBE_RX_ERROR →
      amd_xgbe_an_page_received bus s
        = (AMD_XGBE_AN_ERROR, (amd_xgbe_phy_in_kr_mode bus s).2) ∧
      (amd_xgbe_phy_in_kr_mode bus s).2
        = (phy_read_mmd bus s MDIO_MMD_PCS MDIO_CTRL2).2 ∧
      (amd_xgbe_an_page_received bus s).2.kr_state = s.kr_state ∧
      (amd_xgbe_an_page_received bus s).2.kx_state = s.kx_state) := by
  refine ⟨page_received_rx_store bus s, ?_, frame_rx_page_received bus s, rfl, ?_⟩
  · have h := page_received_rx_store bus s (s.rx_load (active_rx_state bus s).other)
    rw [rx_store_self] at h
    have h2 := congrArg (fun r => r.2.rx_load (active_rx_state bus s).other) h
    simp only [rx_load_store] at h2
    exact h2
  · intro hc
    have hk : (amd_xgbe_phy_in_kr_mode bus s).2.rx_load (active_rx_state bus s)
        = s.rx_load (active_rx_state bus s) :=
      rx_load_of_frame (frame_in_kr_mode bus s) _
    have e : amd_xgbe_an_page_received bus s
        = (AMD_XGBE_AN_ERROR, (amd_xgbe_phy_in_kr_mode bus s).2) := by
      rw [page_received_eq, hk]
      rcases hc with hc | hc <;> rw [hc]
    have hs : (amd_xgbe_phy_in_kr_mode bus s).2
        = (phy_read_mmd bus s MDIO_MMD_PCS MDIO_CTRL2).2 := by
      unfold amd_xgbe_phy_in_kr_mode amd_xgbe_phy_cur_mode
      simp only []
      split_ifs <;> rfl
    refine ⟨e, hs, ?_, ?_⟩
    · rw [e, hs]; rfl
    · rw [e, hs]; rfl

/-- C25, witness: in KR mode with the KR sub-state COMPLETE the dispatch returns ERROR
and leaves both sub-states as they were, the KX one being the other sub-state. -/
theorem C25_rx_state_frame_witness :
    (phy_rx_complete.rx_load (active_rx_state regfile phy_rx_complete) = AMD_XGBE_RX_COMPLETE ∨
      phy_rx_complete.rx_load (active_rx_state regfile phy_rx_complete) = AMD_XGBE_RX_ERROR) ∧
    active_rx_state regfile phy_rx_complete = rx_state_ptr.kr_state ∧
    amd_xgbe_an_page_received regfile phy_rx_complete
      = (AMD_XGBE_AN_ERROR, (amd_xgbe_phy_in_kr_mode regfile phy_rx_complete).2) ∧
    (amd_xgbe_an_page_received regfile phy_rx_complete).2.kr_state = AMD_XGBE_RX_COMPLETE ∧
    (amd_xgbe_an_page_received regfile phy_rx_complete).2.kx_state = AMD_XGBE_RX_BPA :=
  have h := (C25_rx_state_frame regfile phy_rx_complete).2.2.2.2 (Or.inl (by decide))
  ⟨Or.inl (by decide), by decide, h.1, h.2.2.1, h.2.2.2⟩

theorem an_again_phases_succ (bus : Hw σ) (fuel : Nat) (s : Phy σ) (v : Int) :
    an_again_phases bus (fuel + 1) s v =
      if s.an_state ≠ (an_pass bus s v).2.an_state then
        (an_again_phases bus fuel (an_pass bus s v).2 (an_pass bus s v).1).map
          (fun l => [s.an_state, (an_switch bus s).an_state, (an_pass bus s v).2.an_state] ++ l)
      else if (an_pass bus s v).1 ≠ 0 then
        (an_again_phases bus fuel (an_next_int bus (an_pass bus s v).2 (an_pass bus s v).1).2
          (an_next_int bus (an_pass bus s v).2 (an_pass bus s v).1).1).map
          (fun l => [s.an_state, (an_switch bus s).an_state, (an_pass bus s v).2.an_state] ++ l)
      else some [s.an_state, (an_switch bus s).an_state, (an_pass bus s v).2.an_state] := by
  rw [an_again_phases]

theorem an_again_phases_head (bus : Hw σ) (fuel : Nat) (s : Phy σ) (v : Int)
    (ph : List amd_xgbe_phy_an) (h : an_again_phases bus fuel s v = some ph) :
    s.an_state ∈ ph ∧ ph ≠ [] := by
  cases fuel with
  | zero => simp [an_again_phases] at h
  | succ n =>
    rw [an_again_phases_succ] at h
    split_ifs at h
    · obtain ⟨l, -, e⟩ := Option.map_eq_some.mp h
      rw [← e]; simp
    · obtain ⟨l, -, e⟩ := Option.map_eq_some.mp h
      rw [← e]; simp
    · cases h; simp

theorem an_calm_zero : an_calm 0 := by
  have h : an_event 0 = (AMD_XGBE_AN_ERROR, 0) := by decide
  unfold an_calm
  rw [h]
  simp [amd_xgbe_phy_an.in_progress]

theorem an_event_not_ready (v : Int) : (an_event v).1 ≠ AMD_XGBE_AN_READY := by
  unfold an_event
  split_ifs <;> simp

theorem an_calm_after_complete (v : Int) (h : (an_event v).1 = AMD_XGBE_AN_COMPLETE) :
    an_calm (int_clear_bits v (an_event v).2) := by
  by_cases hneg : v < 0
  · simp [an_event, hneg] at h
  · obtain ⟨n, rfl⟩ : ∃ n : Nat, v = n := ⟨v.toNat, by omega⟩
    have hc : ∀ m, int_clear_bits (n : Int) m = ((clear_bits n m : Nat) : Int) := by
      intro m; simp [int_clear_bits]
    have e12 : (4294967295 ^^^ XGBE_AN_INT_CMPLT) &&& XGBE_AN_PG_RCV = XGBE_AN_PG_RCV := by
      decide
    have e11 : (4294967295 ^^^ XGBE_AN_INT_CMPLT) &&& XGBE_AN_INC_LINK = XGBE_AN_INC_LINK := by
      decide
    have hn : ∀ k : Nat, ¬ ((k : Int) < 0) := by intro k; omega
    have h2 : n &&& XGBE_AN_PG_RCV = 0 := by
      by_contra h2
      simp [an_event, hn, h2] at h
    have h1 : n &&& XGBE_AN_INC_LINK = 0 := by
      by_contra h1
      simp [an_event, hn, h2, h1] at h
    have h0 : n &&& XGBE_AN_INT_CMPLT ≠ 0 := by
      intro h0
      simp [an_event, hn, h2, h1, h0] at h
    have hm : (an_event (n : Int)).2 = XGBE_AN_INT_CMPLT := by
      simp [an_event, hn, h2, h1, h0]
    have p2 : clear_bits n XGBE_AN_INT_CMPLT &&& XGBE_AN_PG_RCV = 0 := by
      rw [clear_bits_and, e12, h2]
    have p1 : clear_bits n XGBE_AN_INT_CMPLT &&& XGBE_AN_INC_LINK = 0 := by
      rw [clear_bits_and, e11, h1]
    unfold an_calm
    rw [hm, hc]
    unfold an_event
    simp only [hn, if_false, Int.toNat_ofNat, p2, p1, ne_eq, not_true_eq_false]
    split_ifs <;> simp [amd_xgbe_phy_an.in_progress]

/-- The three kinds of pass: to a terminal phase, folded into READY; at READY; within the
phases in progress. -/
theorem an_pass_cases (bus : Hw σ) (s : Phy σ) (v : Int) :
    ((an_switch bus s).an_state.terminal ∧ s.an_state ≠ AMD_XGBE_AN_READY ∧
      (an_pass bus s v).2.an_state = AMD_XGBE_AN_READY ∧
      ((an_pass bus s v).1 = 0 ∨
        ((an_pass bus s v).1 = v ∧ s.an_state = AMD_XGBE_AN_COMPLETE))) ∨
    ((an_switch bus s).an_state = AMD_XGBE_AN_READY ∧ s.an_state = AMD_XGBE_AN_READY ∧
      (an_pass bus s v).2.an_state = AMD_XGBE_AN_READY ∧ (an_pass bus s v).1 = v) ∨
    ((an_switch bus s).an_state.in_progress ∧ s.an_state.in_progress ∧
      (an_pass bus s v).2.an_state = (an_switch bus s).an_state ∧ (an_pass bus s v).1 = v) := by
  rcases an_phase_cases (an_switch bus s).an_state with h1 | h1 | h1
  · have hn : ¬ (an_switch bus s).an_state.terminal := by
      rw [h1]; simp [amd_xgbe_phy_an.terminal]
    refine Or.inr (Or.inl ⟨h1, (an_switch_ready_iff bus s).mp h1, ?_, ?_⟩)
    · rw [an_pass_not_terminal bus s v hn]; exact h1
    · rw [an_pass_not_terminal bus s v hn]
  · have hn : ¬ (an_switch bus s).an_state.terminal := by
      rcases h1 with h1 | h1 <;> rw [h1] <;> simp [amd_xgbe_phy_an.terminal]
    refine Or.inr (Or.inr ⟨h1, an_switch_in_progress bus s h1, ?_, ?_⟩)
    · rw [an_pass_not_terminal bus s v hn]
    · rw [an_pass_not_terminal bus s v hn]
  · refine Or.inl ⟨h1, ?_, ?_, ?_⟩
    · intro hr
      rw [(an_switch_ready_iff bus s).mpr hr] at h1
      simp [amd_xgbe_phy_an.terminal] at h1
    · rw [an_pass_terminal bus s v h1]
    · rw [an_pass_int]
      rcases h1 with h1 | h1 | h1
      · refine Or.inr ⟨by simp [h1], ?_⟩
        cases hs : s.an_state
        · rw [(an_switch_ready_iff bus s).mpr hs] at h1; simp at h1
        · have e : (an_switch bus s).an_state = (amd_xgbe_an_page_received bus s).1 := by
            unfold an_switch; simp [hs]
          rcases page_received_range bus s with h2 | h2 | h2 <;> simp [e, h2] at h1
        · have e : (an_switch bus s).an_state = (amd_xgbe_an_incompat_link bus
              { s with an_supported := 0, parallel_detect := 0 }).1 := by
            unfold an_switch; simp [hs]
          rcases incompat_link_range bus { s with an_supported := 0, parallel_detect := 0 }
            with h2 | h2 | h2 <;> simp [e, h2] at h1
        · rfl
        · have e : (an_switch bus s).an_state = AMD_XGBE_AN_NO_LINK := by
            simp [an_switch, hs]
          rw [e] at h1; simp at h1
        · have e : (an_switch bus s).an_state = AMD_XGBE_AN_ERROR := by simp [an_switch, hs]
          rw [e] at h1; simp at h1
      · exact Or.inl (by simp [h1])
      · exact Or.inl (by simp [h1])

theorem not_in_progress_ready : ¬ AMD_XGBE_AN_READY.in_progress := by
  simp [amd_xgbe_phy_an.in_progress]

theorem not_in_progress_of_terminal {a : amd_xgbe_phy_an} (h : a.terminal) :
    ¬ a.in_progress := by
  rcases h with h | h | h <;> rw [h] <;> simp [amd_xgbe_phy_an.in_progress]

/-- From the label `again` on: the last value of the phase is the one the worker returns
with, which is READY or a phase in progress; if it is a phase in progress, every value
taken was one; if it is READY and the run did not start at READY, a terminal phase was
passed through. -/
theorem an_again_phases_spec (bus : Hw σ) (fuel : Nat) :
    ∀ (s : Phy σ) (v : Int) (r : Phy σ × Nat) (ph : List amd_xgbe_phy_an),
      (s.an_state = AMD_XGBE_AN_READY ∨ s.an_state = AMD_XGBE_AN_COMPLETE → an_calm v) →
      an_again bus fuel s v = some r → an_again_phases bus fuel s v = some ph →
      ph.getLast? = some r.1.an_state ∧
      (r.1.an_state = AMD_XGBE_AN_READY ∨ r.1.an_state.in_progress) ∧
      (r.1.an_state.in_progress → ∀ a ∈ ph, a.in_progress) ∧
      (r.1.an_state = AMD_XGBE_AN_READY → s.an_state ≠ AMD_XGBE_AN_READY →
        ∃ a ∈ ph, a.terminal) := by
  induction fuel with
  | zero => intro s v r ph _ h; simp [an_again] at h
  | succ n ih =>
    intro s v r ph hJ hr hph
    rw [an_again_succ] at hr
    rw [an_again_phases_succ] at hph
    have hnext : ∀ x : Phy σ, ∀ u : Int,
        ((an_next_int bus x u).2.an_state = AMD_XGBE_AN_READY ∨
          (an_next_int bus x u).2.an_state = AMD_XGBE_AN_COMPLETE) →
        an_calm (an_next_int bus x u).1 := by
      intro x u hx
      rw [an_next_int_state] at hx
      rcases hx with hx | hx
      · exact absurd hx (an_event_not_ready u)
      · rw [an_next_int_int]; exact an_calm_after_complete u hx
    rcases an_pass_cases bus s v with ⟨hsw, hs, hp, hv⟩ | ⟨hsw, hs, hp, hv⟩ | ⟨hsw, hs, hp, hv⟩
    · -- a terminal phase, folded into READY
      have hne : s.an_state ≠ (an_pass bus s v).2.an_state := by rw [hp]; exact hs
      rw [if_pos hne] at hr hph
      obtain ⟨r1, hr1, er⟩ := Option.map_eq_some.mp hr
      obtain ⟨ph1, hph1, eph⟩ := Option.map_eq_some.mp hph
      have hJ1 : (an_pass bus s v).2.an_state = AMD_XGBE_AN_READY ∨
          (an_pass bus s v).2.an_state = AMD_XGBE_AN_COMPLETE → an_calm (an_pass bus s v).1 := by
        intro _
        rcases hv with hv | ⟨hv, hc⟩
        · rw [hv]; exact an_calm_zero
        · rw [hv]; exact hJ (Or.inr hc)
      obtain ⟨g1, g2, g3, -⟩ := ih _ _ r1 ph1 hJ1 hr1 hph1
      obtain ⟨hmem, hnil⟩ := an_again_phases_head bus n _ _ ph1 hph1
      rw [hp] at hmem
      have hready : r1.1.an_state = AMD_XGBE_AN_READY := by
        rcases g2 with g2 | g2
        · exact g2
        · exact absurd (g3 g2 _ hmem) not_in_progress_ready
      rw [← er, ← eph]
      refine ⟨?_, Or.inl hready, ?_, ?_⟩
      · rw [List.getLast?_append_of_ne_nil _ hnil]; exact g1
      · intro hc
        rw [hready] at hc
        exact absurd hc not_in_progress_ready
      · intro _ _
        exact ⟨_, by simp, hsw⟩
    · -- a pass at READY
      have heq : ¬ s.an_state ≠ (an_pass bus s v).2.an_state := by rw [hp, hs]; simp
      rw [if_neg heq] at hr hph
      by_cases hv0 : (an_pass bus s v).1 ≠ 0
      · rw [if_pos hv0] at hr hph
        obtain ⟨r1, hr1, er⟩ := Option.map_eq_some.mp hr
        obtain ⟨ph1, hph1, eph⟩ := Option.map_eq_some.mp hph
        obtain ⟨g1, g2, g3, -⟩ := ih _ _ r1 ph1 (hnext _ _) hr1 hph1
        obtain ⟨hmem, hnil⟩ := an_again_phases_head bus n _ _ ph1 hph1
        have hcalm : an_calm v := hJ (Or.inl hs)
        have hready : r1.1.an_state = AMD_XGBE_AN_READY := by
          rcases g2 with g2 | g2
          · exact g2
          · have := g3 g2 _ hmem
            rw [an_next_int_state, hv] at this
            exact absurd this hcalm
        rw [← er, ← eph]
        refine ⟨?_, Or.inl hready, ?_, fun _ hc => absurd hs hc⟩
        · rw [List.getLast?_append_of_ne_nil _ hnil]; exact g1
        · intro hc
          rw [hready] at hc
          exact absurd hc not_in_progress_ready
      · rw [if_neg hv0] at hr hph
        cases hr
        cases hph
        refine ⟨rfl, Or.inl hp, ?_, fun _ hc => absurd hs hc⟩
        intro hc
        rw [hp] at hc
        exact absurd hc not_in_progress_ready
    · -- a pass within the phases in progress
      have hpin : (an_pass bus s v).2.an_state.in_progress := by rw [hp]; exact hsw
      have hseen : ∀ a ∈ [s.an_state, (an_switch bus s).an_state, (an_pass bus s v).2.an_state],
          a.in_progress := by
        intro a ha
        simp only [List.mem_cons, List.mem_singleton, List.not_mem_nil, or_false] at ha
        rcases ha with rfl | rfl | rfl
        · exact hs
        · exact hsw
        · exact hpin
      have hnr : (an_pass bus s v).2.an_state ≠ AMD_XGBE_AN_READY := by
        intro hc
        rw [hc] at hpin
        exact not_in_progress_ready hpin
      by_cases hne : s.an_state ≠ (an_pass bus s v).2.an_state
      · rw [if_pos hne] at hr hph
        obtain ⟨r1, hr1, er⟩ := Option.map_eq_some.mp hr
        obtain ⟨ph1, hph1, eph⟩ := Option.map_eq_some.mp hph
        have hJ1 : (an_pass bus s v).2.an_state = AMD_XGBE_AN_READY ∨
            (an_pass bus s v).2.an_state = AMD_XGBE_AN_COMPLETE →
            an_calm (an_pass bus s v).1 := by
          intro hc
          rcases hc with hc | hc
          · exact absurd hc hnr
          · rw [hc] at hpin
            exact absurd hpin (not_in_progress_of_terminal (Or.inl rfl))
        obtain ⟨g1, g2, g3, g4⟩ := ih _ _ r1 ph1 hJ1 hr1 hph1
        obtain ⟨-, hnil⟩ := an_again_phases_head bus n _ _ ph1 hph1
        rw [← er, ← eph]
        refine ⟨?_, g2, ?_, ?_⟩
        · rw [List.getLast?_append_of_ne_nil _ hnil]; exact g1
        · intro hc a ha
          rcases List.mem_append.mp ha with h | h
          · exact hseen a h
          · exact g3 hc a h
        · intro hc _
          obtain ⟨a, ha, hta⟩ := g4 hc hnr
          exact ⟨a, List.mem_append_right _ ha, hta⟩
      · rw [if_neg hne] at hr hph
        by_cases hv0 : (an_pass bus s v).1 ≠ 0
        · rw [if_pos hv0] at hr hph
          obtain ⟨r1, hr1, er⟩ := Option.map_eq_some.mp hr
          obtain ⟨ph1, hph1, eph⟩ := Option.map_eq_some.mp hph
          obtain ⟨g1, g2, g3, g4⟩ := ih _ _ r1 ph1 (hnext _ _) hr1 hph1
          obtain ⟨-, hnil⟩ := an_again_phases_head bus n _ _ ph1 hph1
          rw [← er, ← eph]
          refine ⟨?_, g2, ?_, ?_⟩
          · rw [List.getLast?_append_of_ne_nil _ hnil]; exact g1
          · intro hc a ha
            rcases List.mem_append.mp ha with h | h
            · exact hseen a h
            · exact g3 hc a h
          · intro hc _
            obtain ⟨a, ha, hta⟩ := g4 hc (by rw [an_next_int_state]; exact an_event_not_ready _)
            exact ⟨a, List.mem_append_right _ ha, hta⟩
        · rw [if_neg hv0] at hr hph
          cases hr
          cases hph
          refine ⟨rfl, Or.inr hpin, fun _ => hseen, fun hc => absurd hc hnr⟩

theorem an_again_phases_some (bus : Hw σ) (fuel : Nat) :
    ∀ (s : Phy σ) (v : Int) (r : Phy σ × Nat), an_again bus fuel s v = some r →
      ∃ ph, an_again_phases bus fuel s v = some ph := by
  induction fuel with
  | zero => intro s v r h; simp [an_again] at h
  | succ n ih =>
    intro s v r h
    rw [an_again_succ] at h
    rw [an_again_phases_succ]
    split_ifs at h ⊢
    · obtain ⟨r1, hr1, -⟩ := Option.map_eq_some.mp h
      obtain ⟨ph, hph⟩ := ih _ _ r1 hr1
      exact ⟨_, by rw [hph]; rfl⟩
    · obtain ⟨r1, hr1, -⟩ := Option.map_eq_some.mp h
      obtain ⟨ph, hph⟩ := ih _ _ r1 hr1
      exact ⟨_, by rw [hph]; rfl⟩
    · exact ⟨_, rfl⟩

/-- C26 (amended): for every nonzero interrupt snapshot the worker returns, and the
values its phase has taken from the selection of the first event on end with the phase
it returns with; that phase is either READY, and then the state machine has passed
through COMPLETE, NO_LINK or ERROR, or it is PAGE_RECEIVED or INCOMPAT_LINK, and then
the phase has had no other value than these two during the invocation. -/
theorem C26_phases_passed (bus : Hw σ) (s : Phy σ)
    (h0 : (bus.mdio_read s.hw MDIO_MMD_AN MDIO_AN_INT).1 ≠ 0) :
    ∃ t n ph, amd_xgbe_an_state_machine bus 16 s = some (t, n) ∧
      an_state_machine_phases bus 16 s = some ph ∧
      ph.getLast? = some t.an_state ∧
      ((t.an_state = AMD_XGBE_AN_READY ∧ ∃ a ∈ ph, a.terminal) ∨
        (t.an_state.in_progress ∧ ∀ a ∈ ph, a.in_progress)) := by
  obtain ⟨f, n, e, -, -⟩ := an_state_machine_terminates bus s
  have e0 := e
  have h0' : (phy_read_mmd bus (s.log Action.mutex_lock_an) MDIO_MMD_AN MDIO_AN_INT).1 ≠ 0 := h0
  unfold amd_xgbe_an_state_machine at e
  simp only [h0', if_false] at e
  obtain ⟨a, ha, ea⟩ := Option.map_eq_some.mp e
  obtain ⟨ph, hph⟩ := an_again_phases_some bus 16 _ _ a ha
  have hJ : (an_next_int bus
        (phy_read_mmd bus (s.log Action.mutex_lock_an) MDIO_MMD_AN MDIO_AN_INT).2
        (phy_read_mmd bus (s.log Action.mutex_lock_an) MDIO_MMD_AN MDIO_AN_INT).1).2.an_state
        = AMD_XGBE_AN_READY ∨
      (an_next_int bus
        (phy_read_mmd bus (s.log Action.mutex_lock_an) MDIO_MMD_AN MDIO_AN_INT).2
        (phy_read_mmd bus (s.log Action.mutex_lock_an) MDIO_MMD_AN MDIO_AN_INT).1).2.an_state
        = AMD_XGBE_AN_COMPLETE →
      an_calm (an_next_int bus
        (phy_read_mmd bus (s.log Action.mutex_lock_an) MDIO_MMD_AN MDIO_AN_INT).2
        (phy_read_mmd bus (s.log Action.mutex_lock_an) MDIO_MMD_AN MDIO_AN_INT).1).1 := by
    intro hx
    rw [an_next_int_state] at hx
    rcases hx with hx | hx
    · exact absurd hx (an_event_not_ready _)
    · rw [an_next_int_int]; exact an_calm_after_complete _ hx
  obtain ⟨g1, g2, g3, g4⟩ := an_again_phases_spec bus 16 _ _ a ph hJ ha hph
  have et : f.an_state = a.1.an_state := by
    cases ea
    rfl
  refine ⟨f, n, ph, e0, ?_, by rw [et]; exact g1, ?_⟩
  · unfold an_state_machine_phases
    simp only [h0', if_false]
    exact hph
  · rw [et]
    rcases g2 with g2 | g2
    · exact Or.inl ⟨g2, g4 g2 (by rw [an_next_int_state]; exact an_event_not_ready _)⟩
    · exact Or.inr ⟨g2, g3 g2⟩

/-- C26, witness: the register file with the complete bit set in the interrupt
register. -/
theorem C26_phases_passed_witness :
    (regfile.mdio_read (phy_init (regs_kr 1 0)).hw MDIO_MMD_AN MDIO_AN_INT).1 ≠ 0 ∧
    ∃ t n ph, amd_xgbe_an_state_machine regfile 16 (phy_init (regs_kr 1 0)) = some (t, n) ∧
      an_state_machine_phases regfile 16 (phy_init (regs_kr 1 0)) = some ph ∧
      ph.getLast? = some t.an_state ∧
      ((t.an_state = AMD_XGBE_AN_READY ∧ ∃ a ∈ ph, a.terminal) ∨
        (t.an_state.in_progress ∧ ∀ a ∈ ph, a.in_progress)) :=
  ⟨by decide, C26_phases_passed regfile (phy_init (regs_kr 1 0)) (by decide)⟩

/-- C26, counterexample: the phase is PAGE_RECEIVED on entry (an exchange of next pages
is under way), the snapshot holds the page-received bit, and the page handler succeeds:
the phase is PAGE_RECEIVED throughout the invocation and on return; it has not been
READY, NO_LINK or ERROR. -/
theorem C26_counterexample :
    (regfile.mdio_read phy_xnp_page.hw MDIO_MMD_AN MDIO_AN_INT).1 = 4 ∧
    phy_xnp_page.an_state = AMD_XGBE_AN_PAGE_RECEIVED ∧
    an_state_machine_phases regfile 16 phy_xnp_page
      = some [AMD_XGBE_AN_PAGE_RECEIVED, AMD_XGBE_AN_PAGE_RECEIVED, AMD_XGBE_AN_PAGE_RECEIVED] ∧
    (amd_xgbe_an_state_machine regfile 16 phy_xnp_page).map (fun r => (r.1.an_state, r.2))
      = some (AMD_XGBE_AN_PAGE_RECEIVED, 1) := by
  decide

theorem frame_an_result {x y : Phy σ} (h : x.frame y) : y.an_result = x.an_result := by
  rw [h]

theorem config_aneg_an_state (bus : Hw σ) (s : Phy σ) :
    ((__amd_xgbe_phy_config_aneg bus s).2.an_state = s.an_state ∧
      (__amd_xgbe_phy_config_aneg bus s).2.an_result = s.an_result ∧
      ((__amd_xgbe_phy_config_aneg bus s).1 < 0 ∨ s.autoneg ≠ AUTONEG_ENABLE)) ∨
    ((__amd_xgbe_phy_config_aneg bus s).2.an_state = AMD_XGBE_AN_READY ∧
      (__amd_xgbe_phy_config_aneg bus s).2.an_result = AMD_XGBE_AN_READY ∧
      (__amd_xgbe_phy_config_aneg bus s).2.kr_state = AMD_XGBE_RX_BPA ∧
      (__amd_xgbe_phy_config_aneg bus s).2.kx_state = AMD_XGBE_RX_BPA) := by
  have hforced : (amd_xgbe_phy_setup_forced bus s).2.an_state = s.an_state ∧
      (amd_xgbe_phy_setup_forced bus s).2.an_result = s.an_result := by
    have f1 : s.frame (amd_xgbe_phy_disable_an bus s).2 := frame_set_an bus s false false
    have f2 : ∀ m, s.frame (amd_xgbe_phy_set_mode bus (amd_xgbe_phy_disable_an bus s).2 m).2 :=
      fun m => frame_trans f1 (frame_set_mode bus _ m)
    unfold amd_xgbe_phy_setup_forced
    simp only []
    split_ifs
    all_goals first
      | exact ⟨frame_an_state f1, frame_an_result f1⟩
      | exact ⟨frame_an_state (f2 _), frame_an_result (f2 _)⟩
      | exact ⟨by show (amd_xgbe_phy_set_mode bus _ _).2.an_state = _
                  exact frame_an_state (f2 _),
               by show (amd_xgbe_phy_set_mode bus _ _).2.an_result = _
                  exact frame_an_result (f2 _)⟩
      | exact ⟨by show (amd_xgbe_phy_disable_an bus _).2.an_state = _
                  exact frame_an_state f1,
               by show (amd_xgbe_phy_disable_an bus _).2.an_result = _
                  exact frame_an_result f1⟩
  unfold __amd_xgbe_phy_config_aneg
  lift_lets
  intro s1 r d s2 s3 s4 i r1 s5
  have hr : s.frame r.2 := by
    show s.frame (Prod.snd (ite _ _ _))
    split_ifs
    · exact frame_trans (frame_log s _) (frame_set_mode bus _ _)
    · exact frame_trans (frame_log s _) (frame_set_mode bus _ _)
    · exact frame_log s _
  have hd : s.frame d.2 := frame_trans hr (frame_set_an bus _ false false)
  have h4 : s4.an_state = AMD_XGBE_AN_READY ∧ s4.an_result = AMD_XGBE_AN_READY ∧
      s4.kr_state = AMD_XGBE_RX_BPA ∧ s4.kx_state = AMD_XGBE_RX_BPA := ⟨rfl, rfl, rfl, rfl⟩
  have hi : s4.frame i.2 := frame_an_init bus s4
  have hr1 : s4.frame r1.2 := frame_trans hi (frame_read bus _ _ _)
  have h5 : s4.frame (amd_xgbe_phy_restart_an bus s5).2 :=
    frame_trans (frame_trans hr1 (frame_write bus _ _ _ _)) (frame_set_an bus _ true true)
  have key : ∀ y : Phy σ, s4.frame y → y.an_state = AMD_XGBE_AN_READY ∧
      y.an_result = AMD_XGBE_AN_READY ∧ y.kr_state = AMD_XGBE_RX_BPA ∧
      y.kx_state = AMD_XGBE_RX_BPA := by
    intro y hy
    rw [hy]
    exact h4
  split_ifs with a1 a2 a3 a4 a5 a6
  · exact Or.inl ⟨hforced.1, hforced.2, Or.inr a1⟩
  · exact Or.inl ⟨rfl, rfl, Or.inl (show -EINVAL < 0 from by decide)⟩
  · exact Or.inl ⟨frame_an_state (frame_trans hr (frame_log _ _)),
      frame_an_result (frame_trans hr (frame_log _ _)), Or.inl a3⟩
  · exact Or.inl ⟨frame_an_state hd, frame_an_result hd, Or.inl a4⟩
  · exact Or.inr (key _ hi)
  · exact Or.inr (key _ hr1)
  · exact Or.inr (key _ h5)

theorem rest_iff_not_terminal (a : amd_xgbe_phy_an) :
    (a = AMD_XGBE_AN_READY ∨ a.in_progress) ↔ ¬ a.terminal := by
  cases a <;> simp [amd_xgbe_phy_an.in_progress, amd_xgbe_phy_an.terminal]

/-- C29 (amended): the worker returns with the phase at READY, PAGE_RECEIVED or
INCOMPAT_LINK, never at COMPLETE, NO_LINK or ERROR, whenever it has handled an event, and
with the phase unchanged when the interrupt register reads zero: a phase in that set on
entry is in it on return, for every hardware.  `amd_xgbe_phy_config_aneg` leaves the
phase either at READY or as it was, so it keeps the set too; with auto-negotiation
enabled it leaves the phase at READY whenever it returns 0 (it sets READY once the mode
setting and the disabling of auto-negotiation have succeeded, and returns an error with
the phase untouched when it fails before that). -/
theorem C29_resting_phase (bus : Hw σ) (s : Phy σ) :
    (∃ t n, amd_xgbe_an_state_machine bus 16 s = some (t, n) ∧
      ((bus.mdio_read s.hw MDIO_MMD_AN MDIO_AN_INT).1 ≠ 0 → ¬ t.an_state.terminal) ∧
      ((bus.mdio_read s.hw MDIO_MMD_AN MDIO_AN_INT).1 = 0 → t.an_state = s.an_state) ∧
      ((s.an_state = AMD_XGBE_AN_READY ∨ s.an_state.in_progress) →
        (t.an_state = AMD_XGBE_AN_READY ∨ t.an_state.in_progress))) ∧
    ((amd_xgbe_phy_config_aneg bus s).2.an_state = AMD_XGBE_AN_READY ∨
      ((amd_xgbe_phy_config_aneg bus s).2.an_state = s.an_state ∧
        ((amd_xgbe_phy_config_aneg bus s).1 < 0 ∨ s.autoneg ≠ AUTONEG_ENABLE))) ∧
    (s.autoneg = AUTONEG_ENABLE → (amd_xgbe_phy_config_aneg bus s).1 = 0 →
      (amd_xgbe_phy_config_aneg bus s).2.an_state = AMD_XGBE_AN_READY) ∧
    ((s.an_state = AMD_XGBE_AN_READY ∨ s.an_state.in_progress) →
      ((amd_xgbe_phy_config_aneg bus s).2.an_state = AMD_XGBE_AN_READY ∨
        (amd_xgbe_phy_config_aneg bus s).2.an_state.in_progress)) := by
  have hcfg : (amd_xgbe_phy_config_aneg bus s).2.an_state = AMD_XGBE_AN_READY ∨
      ((amd_xgbe_phy_config_aneg bus s).2.an_state = s.an_state ∧
        ((amd_xgbe_phy_config_aneg bus s).1 < 0 ∨ s.autoneg ≠ AUTONEG_ENABLE)) := by
    rcases config_aneg_an_state bus (s.log Action.mutex_lock_an) with ⟨h1, -, h3⟩ | ⟨h1, -⟩
    · exact Or.inr ⟨h1, h3⟩
    · exact Or.inl h1
  refine ⟨?_, hcfg, ?_, ?_⟩
  · obtain ⟨f, n, e, -, -⟩ := an_state_machine_terminates bus s
    have hnz : (bus.mdio_read s.hw MDIO_MMD_AN MDIO_AN_INT).1 ≠ 0 → ¬ f.an_state.terminal := by
      intro h0
      have h0' : (phy_read_mmd bus (s.log Action.mutex_lock_an) MDIO_MMD_AN MDIO_AN_INT).1 ≠ 0 :=
        h0
      unfold amd_xgbe_an_state_machine at e
      simp only [h0', if_false] at e
      obtain ⟨a, ha, ea⟩ := Option.map_eq_some.mp e
      have hr := an_again_at_rest bus 16 _ _ a (an_next_int_inv bus _ _) ha
      have et : f.an_state = a.1.an_state := by
        cases ea
        rfl
      rw [et, ← rest_iff_not_terminal]
      rcases hr with ⟨h1, -⟩ | ⟨h1, -⟩
      · exact Or.inl h1
      · exact Or.inr h1
    have hz : (bus.mdio_read s.hw MDIO_MMD_AN MDIO_AN_INT).1 = 0 → f.an_state = s.an_state := by
      intro h0
      have h0' : (phy_read_mmd bus (s.log Action.mutex_lock_an) MDIO_MMD_AN MDIO_AN_INT).1 = 0 :=
        h0
      unfold amd_xgbe_an_state_machine at e
      simp only [h0', if_true, Option.some.injEq, Prod.mk.injEq] at e
      rw [← e.1]
      rfl
    refine ⟨f, n, e, hnz, hz, ?_⟩
    intro hs
    by_cases h0 : (bus.mdio_read s.hw MDIO_MMD_AN MDIO_AN_INT).1 = 0
    · rw [hz h0]; exact hs
    · exact (rest_iff_not_terminal _).mpr (hnz h0)
  · intro ha h0
    rcases hcfg with h | ⟨-, h | h⟩
    · exact h
    · omega
    · exact absurd ha h
  · intro hs
    rcases hcfg with h | ⟨h, -⟩
    · exact Or.inl h
    · rw [h]; exact hs

/-- C29, witness: on the register file, with auto-negotiation enabled and the phase at
PAGE_RECEIVED, the configuration returns 0 and leaves the phase at READY. -/
theorem C29_resting_phase_witness :
    phy_xnp_page.autoneg = AUTONEG_ENABLE ∧
    phy_xnp_page.an_state = AMD_XGBE_AN_PAGE_RECEIVED ∧
    (amd_xgbe_phy_config_aneg regfile phy_xnp_page).1 = 0 ∧
    (amd_xgbe_phy_config_aneg regfile phy_xnp_page).2.an_state = AMD_XGBE_AN_READY :=
  ⟨rfl, rfl, by decide, (C29_resting_phase regfile phy_xnp_page).2.2.1 rfl (by decide)⟩

/-- C29, counterexample: auto-negotiation is enabled and the phase is PAGE_RECEIVED; the
read of the current mode fails, the configuration returns that error, and the phase is
still PAGE_RECEIVED, not READY. -/
theorem C29_counterexample :
    phy_page_fail.autoneg = AUTONEG_ENABLE ∧
    phy_page_fail.an_state = AMD_XGBE_AN_PAGE_RECEIVED ∧
    (amd_xgbe_phy_config_aneg fail_once_hw phy_page_fail).1 = -5 ∧
    (amd_xgbe_phy_config_aneg fail_once_hw phy_page_fail).2.an_state
      = AMD_XGBE_AN_PAGE_RECEIVED ∧
    (amd_xgbe_phy_config_aneg fail_once_hw phy_page_fail).2.an_state ≠ AMD_XGBE_AN_READY := by
  decide

theorem disable_kr_training_reads_ok (bus : Hw σ) (s : Phy σ)
    (h : ∀ hw d r, 0 ≤ (bus.mdio_read hw d r).1) :
    ¬ (amd_xgbe_an_disable_kr_training bus s).1 < 0 := by
  unfold amd_xgbe_an_disable_kr_training
  simp only []
  split_ifs with h1
  · exact absurd h1 (not_lt.mpr (h _ _ _))
  · exact show ¬ ((0 : Int) < 0) from by decide

theorem pcs_power_cycle_reads_ok (bus : Hw σ) (s : Phy σ)
    (h : ∀ hw d r, 0 ≤ (bus.mdio_read hw d r).1) :
    ¬ (amd_xgbe_phy_pcs_power_cycle bus s).1 < 0 := by
  unfold amd_xgbe_phy_pcs_power_cycle
  simp only []
  split_ifs with h1
  · exact absurd h1 (not_lt.mpr (h _ _ _))
  · exact show ¬ ((0 : Int) < 0) from by decide

/-- On a hardware none of whose management-interface reads fails, each mode-programming
routine returns 0: it reaches its SerDes section. -/
theorem mode_routines_reads_ok (bus : Hw σ) (s : Phy σ)
    (h : ∀ hw d r, 0 ≤ (bus.mdio_read hw d r).1) :
    (amd_xgbe_phy_xgmii_mode bus s).1 = 0 ∧ (amd_xgbe_phy_gmii_2500_mode bus s).1 = 0 ∧
    (amd_xgbe_phy_gmii_mode bus s).1 = 0 := by
  refine ⟨?_, ?_, ?_⟩
  · unfold amd_xgbe_phy_xgmii_mode
    simp only []
    split_ifs with h1 h2 h3 h4
    · exact absurd h1 (disable_kr_training_reads_ok bus _ h)
    · exact absurd h2 (not_lt.mpr (h _ _ _))
    · exact absurd h3 (not_lt.mpr (h _ _ _))
    · exact absurd h4 (pcs_power_cycle_reads_ok bus _ h)
    · rfl
  · unfold amd_xgbe_phy_gmii_2500_mode
    simp only []
    split_ifs with h1 h2 h3 h4
    · exact absurd h1 (disable_kr_training_reads_ok bus _ h)
    · exact absurd h2 (not_lt.mpr (h _ _ _))
    · exact absurd h3 (not_lt.mpr (h _ _ _))
    · exact absurd h4 (pcs_power_cycle_reads_ok bus _ h)
    · rfl
  · unfold amd_xgbe_phy_gmii_mode
    simp only []
    split_ifs with h1 h2 h3 h4
    · exact absurd h1 (disable_kr_training_reads_ok bus _ h)
    · exact absurd h2 (not_lt.mpr (h _ _ _))
    · exact absurd h3 (not_lt.mpr (h _ _ _))
    · exact absurd h4 (pcs_power_cycle_reads_ok bus _ h)
    · rfl

/-- C21: each mode-programming routine returns 0 unless one of its reads over the
management interface fails, and it then has made, between the write of `CMU_REG16` that
raises the rate-change flags of the channel and the read of `CMU_REG16` that starts the
completion, exactly the ten read-modify-writes of the fields tx data rate, tx word mode,
tx amplitude, rx data rate, rx word mode, loss-compensation enable, rx PLL select, tx PLL
select, clock-recovery rate, skew, in this order and with nothing in between, and has
written no SerDes Rx/Tx register anywhere else; data rate, word mode and PLL select are
0, 7, 1 for 10G, 1, 1, 0 for 2.5G and 3, 1, 0 for 1G, and the tuning values are the
entries 2, 1 and 0 of the four tables.  The only other outcome is the error of a failed
read, which is then the last access of the routine, no SerDes Rx/Tx register having been
written; on a hardware whose reads do not fail the three routines return 0 and make
their ten writes.  Each such write puts the value, masked to the width of the field, into
the field. -/
theorem C21_serdes_field_order (bus : Hw σ) (s : Phy σ) :
    (writes_fields s (amd_xgbe_phy_xgmii_mode bus s)
        (spec_mode_fields 0 7 1 (s.serdes_tx_amp 2) (s.serdes_blwc 2)
          (s.serdes_cdr_rate 2) (s.serdes_pq_skew 2)) ∧
      aborts_at_failed_read s (amd_xgbe_phy_xgmii_mode bus s)) ∧
    (writes_fields s (amd_xgbe_phy_gmii_2500_mode bus s)
        (spec_mode_fields 1 1 0 (s.serdes_tx_amp 1) (s.serdes_blwc 1)
          (s.serdes_cdr_rate 1) (s.serdes_pq_skew 1)) ∧
      aborts_at_failed_read s (amd_xgbe_phy_gmii_2500_mode bus s)) ∧
    (writes_fields s (amd_xgbe_phy_gmii_mode bus s)
        (spec_mode_fields 3 1 0 (s.serdes_tx_amp 0) (s.serdes_blwc 0)
          (s.serdes_cdr_rate 0) (s.serdes_pq_skew 0)) ∧
      aborts_at_failed_read s (amd_xgbe_phy_gmii_mode bus s)) ∧
    ((∀ hw d r, 0 ≤ (bus.mdio_read hw d r).1) →
      (amd_xgbe_phy_xgmii_mode bus s).1 = 0 ∧ (amd_xgbe_phy_gmii_2500_mode bus s).1 = 0 ∧
      (amd_xgbe_phy_gmii_mode bus s).1 = 0) ∧
    (∀ rate word pll amp blwc cdr pq : Nat,
      ∀ f ∈ spec_mode_fields rate word pll amp blwc cdr pq, ∀ v : Nat,
        GET_BITS (SET_BITS v f.index f.width f.val) f.index f.width
          = f.val &&& ((1 <<< f.width) - 1)) := by
  refine ⟨⟨writes_fields_xgmii_mode bus s, abort_xgmii_mode bus s⟩,
    ⟨writes_fields_gmii_2500_mode bus s, abort_gmii_2500_mode bus s⟩,
    ⟨writes_fields_gmii_mode bus s, abort_gmii_mode bus s⟩,
    mode_routines_reads_ok bus s, ?_⟩
  intro rate word pll amp blwc cdr pq f hf v
  simp only [spec_mode_fields, List.mem_cons, List.mem_singleton, List.not_mem_nil,
    or_false] at hf
  rcases hf with rfl | rfl | rfl | rfl | rfl | rfl | rfl | rfl | rfl | rfl <;>
    exact get_set_bits _ _ _ _ (by dsimp only; decide)

/-- C21, witness: on the register file no read fails, so the three routines return 0;
the 2.5G routine then has the shape of a successful run: its ten field writes in order
inside the bracket. -/
theorem C21_serdes_field_order_witness :
    (∀ hw d r, 0 ≤ (regfile.mdio_read hw d r).1) ∧
    (amd_xgbe_phy_xgmii_mode regfile (phy_init regs_kr_ready)).1 = 0 ∧
    (amd_xgbe_phy_gmii_2500_mode regfile (phy_init regs_kr_ready)).1 = 0 ∧
    (amd_xgbe_phy_gmii_mode regfile (phy_init regs_kr_ready)).1 = 0 ∧
    writes_fields (phy_init regs_kr_ready)
      (amd_xgbe_phy_gmii_2500_mode regfile (phy_init regs_kr_ready))
      (spec_mode_fields 1 1 0 15 1 2 10) :=
  have hr : ∀ (hw : RegFile) (d r : Nat), 0 ≤ (regfile.mdio_read hw d r).1 :=
    fun hw d r => Int.natCast_nonneg (hw.mdio_regs d r)
  have h := C21_serdes_field_order regfile (phy_init regs_kr_ready)
  ⟨hr, (h.2.2.2.1 hr).1, (h.2.2.2.1 hr).2.1, (h.2.2.2.1 hr).2.2, h.2.1.1⟩

theorem serdes_run_append (c : Nat) (t : List Action) (a : Action) :
    serdes_run c (t ++ [a]) = serdes_step c (serdes_run c t) a := by
  simp [serdes_run, List.foldl_append]

theorem serdes_log (c : Nat) (s : Phy σ) (a : Action) :
    serdes_run c (s.log a).trace = serdes_step c (serdes_run c s.trace) a :=
  serdes_run_append c s.trace a

theorem serdes_read (bus : Hw σ) (c n : Nat) (s : Phy σ) (d r : Nat)
    (h : serdes_run c s.trace = some (serdes_phase.free, n)) :
    serdes_run c (phy_read_mmd bus s d r).2.trace = some (serdes_phase.free, n) := by
  show serdes_run c (s.trace ++ [_]) = _
  rw [serdes_run_append, h]
  rfl

theorem serdes_write (bus : Hw σ) (c n : Nat) (s : Phy σ) (d r v : Nat)
    (h : serdes_run c s.trace = some (serdes_phase.free, n)) :
    serdes_run c (phy_write_mmd bus s d r v).trace = some (serdes_phase.free, n) := by
  show serdes_run c (s.trace ++ [_]) = _
  rw [serdes_run_append, h]
  rfl

theorem serdes_disable_kr_training (bus : Hw σ) (c n : Nat) (s : Phy σ)
    (h : serdes_run c s.trace = some (serdes_phase.free, n)) :
    serdes_run c (amd_xgbe_an_disable_kr_training bus s).2.trace
      = some (serdes_phase.free, n) := by
  unfold amd_xgbe_an_disable_kr_training
  simp only []
  split_ifs
  · exact serdes_read bus c n s _ _ h
  · exact serdes_write bus c n _ _ _ _ (serdes_read bus c n s _ _ h)

theorem serdes_pcs_power_cycle (bus : Hw σ) (c n : Nat) (s : Phy σ)
    (h : serdes_run c s.trace = some (serdes_phase.free, n)) :
    serdes_run c (amd_xgbe_phy_pcs_power_cycle bus s).2.trace
      = some (serdes_phase.free, n) := by
  unfold amd_xgbe_phy_pcs_power_cycle
  simp only []
  split_ifs
  · exact serdes_read bus c n s _ _ h
  · apply serdes_write
    rw [serdes_log, serdes_write bus c n _ _ _ _ (serdes_read bus c n s _ _ h)]
    rfl

theorem serdes_step_poll (c k n v : Nat) :
    serdes_step c (some (serdes_phase.polling k, n)) (Action.cmu_read CMU_REG15 v)
      = if v &&& ready_mask c = ready_mask c ∨ k + 1 = XGBE_PHY_RATECHANGE_COUNT then
          some (serdes_phase.returned, n)
        else some (serdes_phase.polling (k + 1), n) := by
  simp [serdes_step]

/-- The polls of the ready flags: from `k` polls made with `wait` polls left of the
budget, the loop ends with the completion returned. -/
theorem serdes_ratechange_wait (bus : Hw σ) (c n : Nat) :
    ∀ (wait k : Nat) (s : Phy σ), 0 < wait → k + wait = XGBE_PHY_RATECHANGE_COUNT →
      serdes_run c s.trace = some (serdes_phase.polling k, n) →
      serdes_run c (ratechange_wait bus (ready_mask c) wait s).trace
        = some (serdes_phase.returned, n) := by
  intro wait
  induction wait with
  | zero => intro k s h; omega
  | succ wait ih =>
    intro k s _ hk h
    have h1 : serdes_run c (XCMU_IOREAD bus (s.log (Action.udelay 50)) CMU_REG15).2.trace
        = serdes_step c (some (serdes_phase.polling k, n))
            (Action.cmu_read CMU_REG15
              (XCMU_IOREAD bus (s.log (Action.udelay 50)) CMU_REG15).1) := by
      show serdes_run c ((s.trace ++ [_]) ++ [_]) = _
      rw [serdes_run_append, serdes_run_append, h]
      rfl
    unfold ratechange_wait
    simp only []
    split_ifs with hr
    · rw [h1, serdes_step_poll, if_pos (Or.inl hr)]
    · rcases Nat.eq_zero_or_pos wait with h0 | hpos
      · subst h0
        show serdes_run c (XCMU_IOREAD bus (s.log (Action.udelay 50)) CMU_REG15).2.trace = _
        rw [h1, serdes_step_poll, if_pos (Or.inr (by omega))]
      · apply ih (k + 1) _ hpos (by omega)
        rw [h1, serdes_step_poll, if_neg]
        rintro (hx | hx)
        · exact hr hx
        · omega

theorem serdes_start_ratechange (bus : Hw σ) (s : Phy σ) (c n : Nat)
    (hc : s.serdes_channel = c)
    (h : serdes_run c s.trace = some (serdes_phase.held, n)) :
    serdes_run c (amd_xgbe_phy_serdes_start_ratechange bus s).trace
      = some (serdes_phase.begun, n) := by
  subst hc
  show serdes_run _ ((s.trace ++ [_]) ++ [_]) = _
  rw [serdes_run_append, serdes_run_append, h]
  show (if CMU_REG16 = CMU_REG16 ∧ _ then _ else _) = _
  rw [if_pos ⟨rfl, ratechange_begin_bits _ _⟩]

theorem serdes_rxtx_write_bits (bus : Hw σ) (c : Nat) (s : Phy σ) (n r i w v : Nat)
    (h : serdes_run c s.trace = some (serdes_phase.begun, n)) :
    serdes_run c (XRXTX_IOWRITE_BITS bus s r i w v).trace
      = some (serdes_phase.begun, n + 1) := by
  show serdes_run _ ((s.trace ++ [_]) ++ [_]) = _
  rw [serdes_run_append, serdes_run_append, h]
  rfl

theorem serdes_complete_ratechange (bus : Hw σ) (s : Phy σ) (c n : Nat)
    (hc : s.serdes_channel = c)
    (h : serdes_run c s.trace = some (serdes_phase.begun, n)) :
    serdes_run c (amd_xgbe_phy_serdes_complete_ratechange bus s).trace
      = some (serdes_phase.returned, n) := by
  subst hc
  unfold amd_xgbe_phy_serdes_complete_ratechange
  simp only []
  apply serdes_ratechange_wait bus _ n XGBE_PHY_RATECHANGE_COUNT 0 _ (by decide) (by omega)
  show serdes_run _ ((s.trace ++ [_]) ++ [_]) = _
  rw [serdes_run_append, serdes_run_append, h]
  show (if CMU_REG16 = CMU_REG16 ∧ _ then _ else _) = _
  rw [if_pos ⟨rfl, ratechange_end_bits _ _⟩]

/-- The SerDes section of a mode-programming routine passes the strict check: lock,
begin, ten field writes, complete with its polls, unlock, for any registers, fields and
values. -/
theorem serdes_section_run (bus : Hw σ) (s : Phy σ) (c n : Nat)
    (r1 i1 w1 v1 r2 i2 w2 v2 r3 i3 w3 v3 r4 i4 w4 v4 r5 i5 w5 v5 : Nat)
    (r6 i6 w6 v6 r7 i7 w7 v7 r8 i8 w8 v8 r9 i9 w9 v9 r10 i10 w10 v10 : Nat)
    (hc : s.serdes_channel = c)
    (h : serdes_run c s.trace = some (serdes_phase.free, n)) :
    serdes_run c
      ((amd_xgbe_phy_serdes_complete_ratechange bus
        (XRXTX_IOWRITE_BITS bus (XRXTX_IOWRITE_BITS bus (XRXTX_IOWRITE_BITS bus
        (XRXTX_IOWRITE_BITS bus (XRXTX_IOWRITE_BITS bus (XRXTX_IOWRITE_BITS bus
        (XRXTX_IOWRITE_BITS bus (XRXTX_IOWRITE_BITS bus (XRXTX_IOWRITE_BITS bus
        (XRXTX_IOWRITE_BITS bus
          (amd_xgbe_phy_serdes_start_ratechange bus (s.log Action.spin_lock_cmu))
          r1 i1 w1 v1) r2 i2 w2 v2) r3 i3 w3 v3) r4 i4 w4 v4) r5 i5 w5 v5) r6 i6 w6 v6)
          r7 i7 w7 v7) r8 i8 w8 v8) r9 i9 w9 v9) r10 i10 w10 v10)).log
        Action.spin_unlock_cmu).trace = some (serdes_phase.free, n + 10) := by
  have h0 : serdes_run c (s.log Action.spin_lock_cmu).trace
      = some (serdes_phase.held, n) := by
    rw [serdes_log, h]
    rfl
  have h1 := serdes_start_ratechange bus (s.log Action.spin_lock_cmu) c n hc h0
  have k1 := serdes_rxtx_write_bits bus _ _ n r1 i1 w1 v1 h1
  have k2 := serdes_rxtx_write_bits bus _ _ _ r2 i2 w2 v2 k1
  have k3 := serdes_rxtx_write_bits bus _ _ _ r3 i3 w3 v3 k2
  have k4 := serdes_rxtx_write_bits bus _ _ _ r4 i4 w4 v4 k3
  have k5 := serdes_rxtx_write_bits bus _ _ _ r5 i5 w5 v5 k4
  have k6 := serdes_rxtx_write_bits bus _ _ _ r6 i6 w6 v6 k5
  have k7 := serdes_rxtx_write_bits bus _ _ _ r7 i7 w7 v7 k6
  have k8 := serdes_rxtx_write_bits bus _ _ _ r8 i8 w8 v8 k7
  have k9 := serdes_rxtx_write_bits bus _ _ _ r9 i9 w9 v9 k8
  have k10 := serdes_rxtx_write_bits bus _ _ _ r10 i10 w10 v10 k9
  rw [serdes_log, serdes_complete_ratechange bus _ c _ (by
    simp only [channel_rxtx_write_bits, channel_start_ratechange, channel_log]; exact hc) k10]
  rfl

/-- A mode-programming routine either fails before the SerDes section, leaving the
strict check where it was, or returns 0 after one complete bracket with ten SerDes
writes. -/
theorem serdes_xgmii_mode (bus : Hw σ) (s : Phy σ) (n : Nat)
    (h : serdes_run s.serdes_channel s.trace = some (serdes_phase.free, n)) :
    ((amd_xgbe_phy_xgmii_mode bus s).1 < 0 ∧
      serdes_run s.serdes_channel (amd_xgbe_phy_xgmii_mode bus s).2.trace
        = some (serdes_phase.free, n)) ∨
    ((amd_xgbe_phy_xgmii_mode bus s).1 = 0 ∧
      serdes_run s.serdes_channel (amd_xgbe_phy_xgmii_mode bus s).2.trace
        = some (serdes_phase.free, n + 10)) := by
  have a1 := serdes_disable_kr_training bus _ n s h
  have a2 := serdes_read bus _ n _ MDIO_MMD_PCS MDIO_CTRL2 a1
  unfold amd_xgbe_phy_xgmii_mode
  simp only []
  split_ifs with h1 h2 h3 h4
  · exact Or.inl ⟨h1, a1⟩
  · exact Or.inl ⟨h2, a2⟩
  · exact Or.inl ⟨h3, serdes_read bus _ n _ _ _ (serdes_write bus _ n _ _ _ _ a2)⟩
  · exact Or.inl ⟨h4, serdes_pcs_power_cycle bus _ n _ (serdes_write bus _ n _ _ _ _
      (serdes_read bus _ n _ _ _ (serdes_write bus _ n _ _ _ _ a2)))⟩
  · refine Or.inr ⟨rfl, ?_⟩
    apply serdes_section_run
    · simp only [channel_pcs_power_cycle, channel_write, channel_read,
        channel_disable_kr_training]
    · exact serdes_pcs_power_cycle bus _ n _ (serdes_write bus _ n _ _ _ _
        (serdes_read bus _ n _ _ _ (serdes_write bus _ n _ _ _ _ a2)))

theorem serdes_gmii_2500_mode (bus : Hw σ) (s : Phy σ) (n : Nat)
    (h : serdes_run s.serdes_channel s.trace = some (serdes_phase.free, n)) :
    ((amd_xgbe_phy_gmii_2500_mode bus s).1 < 0 ∧
      serdes_run s.serdes_channel (amd_xgbe_phy_gmii_2500_mode bus s).2.trace
        = some (serdes_phase.free, n)) ∨
    ((amd_xgbe_phy_gmii_2500_mode bus s).1 = 0 ∧
      serdes_run s.serdes_channel (amd_xgbe_phy_gmii_2500_mode bus s).2.trace
        = some (serdes_phase.free, n + 10)) := by
  have a1 := serdes_disable_kr_training bus _ n s h
  have a2 := serdes_read bus _ n _ MDIO_MMD_PCS MDIO_CTRL2 a1
  unfold amd_xgbe_phy_gmii_2500_mode
  simp only []
  split_ifs with h1 h2 h3 h4
  · exact Or.inl ⟨h1, a1⟩
  · exact Or.inl ⟨h2, a2⟩
  · exact Or.inl ⟨h3, serdes_read bus _ n _ _ _ (serdes_write bus _ n _ _ _ _ a2)⟩
  · exact Or.inl ⟨h4, serdes_pcs_power_cycle bus _ n _ (serdes_write bus _ n _ _ _ _
      (serdes_read bus _ n _ _ _ (serdes_write bus _ n _ _ _ _ a2)))⟩
  · refine Or.inr ⟨rfl, ?_⟩
    apply serdes_section_run
    · simp only [channel_pcs_power_cycle, channel_write, channel_read,
        channel_disable_kr_training]
    · exact serdes_pcs_power_cycle bus _ n _ (serdes_write bus _ n _ _ _ _
        (serdes_read bus _ n _ _ _ (serdes_write bus _ n _ _ _ _ a2)))

theorem serdes_gmii_mode (bus : Hw σ) (s : Phy σ) (n : Nat)
    (h : serdes_run s.serdes_channel s.trace = some (serdes_phase.free, n)) :
    ((amd_xgbe_phy_gmii_mode bus s).1 < 0 ∧
      serdes_run s.serdes_channel (amd_xgbe_phy_gmii_mode bus s).2.trace
        = some (serdes_phase.free, n)) ∨
    ((amd_xgbe_phy_gmii_mode bus s).1 = 0 ∧
      serdes_run s.serdes_channel (amd_xgbe_phy_gmii_mode bus s).2.trace
        = some (serdes_phase.free, n + 10)) := by
  have a1 := serdes_disable_kr_training bus _ n s h
  have a2 := serdes_read bus _ n _ MDIO_MMD_PCS MDIO_CTRL2 a1
  unfold amd_xgbe_phy_gmii_mode
  simp only []
  split_ifs with h1 h2 h3 h4
  · exact Or.inl ⟨h1, a1⟩
  · exact Or.inl ⟨h2, a2⟩
  · exact Or.inl ⟨h3, serdes_read bus _ n _ _ _ (serdes_write bus _ n _ _ _ _ a2)⟩
  · exact Or.inl ⟨h4, serdes_pcs_power_cycle bus _ n _ (serdes_write bus _ n _ _ _ _
      (serdes_read bus _ n _ _ _ (serdes_write bus _ n _ _ _ _ a2)))⟩
  · refine Or.inr ⟨rfl, ?_⟩
    apply serdes_section_run
    · simp only [channel_pcs_power_cycle, channel_write, channel_read,
        channel_disable_kr_training]
    · exact serdes_pcs_power_cycle bus _ n _ (serdes_write bus _ n _ _ _ _
        (serdes_read bus _ n _ _ _ (serdes_write bus _ n _ _ _ _ a2)))

/-- C5: in the trace of each of the three mode-programming routines, started with the
global lock free, the strict check of the locking and bracket discipline for the channel
of the device passes and ends with the lock free.  The check allows an access to a
SerDes register, read or write, with the lock held only, so the lock is taken before the
read of `CMU_REG16` with which the begin of the rate change starts; it allows a write to
a SerDes Rx/Tx register only between the begin write of `CMU_REG16` (the two rate-change
bits of the channel set) and the complete write (the two bits cleared); and it allows the
release of the lock only after the polls of the ready flags that follow the complete
write have ended, with a poll showing the channel ready or with the last poll of the
budget, that is after `amd_xgbe_phy_serdes_complete_ratechange` has returned.  A routine
that returns 0 has made its ten SerDes Rx/Tx writes inside the one bracket; a routine
that fails has made none and has not taken the lock. -/
theorem C5_bracket_discipline (bus : Hw σ) (s : Phy σ) (n : Nat)
    (h : serdes_run s.serdes_channel s.trace = some (serdes_phase.free, n)) :
    serdes_run s.serdes_channel (amd_xgbe_phy_xgmii_mode bus s).2.trace
      = some (serdes_phase.free,
          n + if (amd_xgbe_phy_xgmii_mode bus s).1 = 0 then 10 else 0) ∧
    serdes_run s.serdes_channel (amd_xgbe_phy_gmii_2500_mode bus s).2.trace
      = some (serdes_phase.free,
          n + if (amd_xgbe_phy_gmii_2500_mode bus s).1 = 0 then 10 else 0) ∧
    serdes_run s.serdes_channel (amd_xgbe_phy_gmii_mode bus s).2.trace
      = some (serdes_phase.free,
          n + if (amd_xgbe_phy_gmii_mode bus s).1 = 0 then 10 else 0) := by
  refine ⟨?_, ?_, ?_⟩
  · rcases serdes_xgmii_mode bus s n h with ⟨h1, h2⟩ | ⟨h1, h2⟩
    · rw [h2, if_neg (by omega)]; rfl
    · rw [h2, if_pos h1]
  · rcases serdes_gmii_2500_mode bus s n h with ⟨h1, h2⟩ | ⟨h1, h2⟩
    · rw [h2, if_neg (by omega)]; rfl
    · rw [h2, if_pos h1]
  · rcases serdes_gmii_mode bus s n h with ⟨h1, h2⟩ | ⟨h1, h2⟩
    · rw [h2, if_neg (by omega)]; rfl
    · rw [h2, if_pos h1]

/-- C5, witness: the three routines on the register-file hardware, from an empty
trace: each returns 0 with its ten SerDes writes inside the bracket. -/
theorem C5_bracket_discipline_witness :
    serdes_run 0 (phy_init regs_kr_ready).trace = some (serdes_phase.free, 0) ∧
    (amd_xgbe_phy_xgmii_mode regfile (phy_init regs_kr_ready)).1 = 0 ∧
    serdes_run 0 (amd_xgbe_phy_xgmii_mode regfile (phy_init regs_kr_ready)).2.trace
      = some (serdes_phase.free, 10) ∧
    serdes_run 0 (amd_xgbe_phy_gmii_2500_mode regfile (phy_init regs_kr_ready)).2.trace
      = some (serdes_phase.free, 10) ∧
    serdes_run 0 (amd_xgbe_phy_gmii_mode regfile (phy_init regs_kr_ready)).2.trace
      = some (serdes_phase.free, 10) :=
  ⟨rfl, by decide, C5_bracket_discipline regfile (phy_init regs_kr_ready) 0 rfl⟩

/-- The strict check rejects traces that break the discipline: a SerDes Rx/Tx write
without the lock; a read of `CMU_REG16` without the lock; a SerDes Rx/Tx write with the
lock held but before the begin write; a SerDes Rx/Tx write after the complete write; a
release of the lock right after the complete write, before any poll of the ready flags;
a release of the lock after a poll that did not show the channel ready; a begin write
that sets the bits of another channel.  It accepts the bracket with one poll showing
channel 0 ready. -/
theorem serdes_run_examples :
    serdes_run 0 [Action.rxtx_write RXTX_REG3 0] = none ∧
    serdes_run 0 [Action.cmu_read CMU_REG16 0] = none ∧
    serdes_run 0 [Action.spin_lock_cmu, Action.cmu_read CMU_REG16 0,
      Action.rxtx_write RXTX_REG3 0] = none ∧
    serdes_run 0 [Action.spin_lock_cmu, Action.cmu_read CMU_REG16 0,
      Action.cmu_write CMU_REG16 0xc000, Action.cmu_read CMU_REG16 0xc000,
      Action.cmu_write CMU_REG16 0, Action.rxtx_write RXTX_REG3 0] = none ∧
    serdes_run 0 [Action.spin_lock_cmu, Action.cmu_read CMU_REG16 0,
      Action.cmu_write CMU_REG16 0xc000, Action.cmu_read CMU_REG16 0xc000,
      Action.cmu_write CMU_REG16 0, Action.spin_unlock_cmu] = none ∧
    serdes_run 0 [Action.spin_lock_cmu, Action.cmu_read CMU_REG16 0,
      Action.cmu_write CMU_REG16 0xc000, Action.cmu_read CMU_REG16 0xc000,
      Action.cmu_write CMU_REG16 0, Action.udelay 50, Action.cmu_read CMU_REG15 0,
      Action.spin_unlock_cmu] = none ∧
    serdes_run 0 [Action.spin_lock_cmu, Action.cmu_read CMU_REG16 0,
      Action.cmu_write CMU_REG16 0x3000] = none ∧
    serdes_run 0 [Action.spin_lock_cmu, Action.cmu_read CMU_REG16 0,
      Action.cmu_write CMU_REG16 0xc000, Action.rxtx_read RXTX_REG3 0,
      Action.rxtx_write RXTX_REG3 0, Action.cmu_read CMU_REG16 0xc000,
      Action.cmu_write CMU_REG16 0, Action.udelay 50, Action.cmu_read CMU_REG15 0x101,
      Action.spin_unlock_cmu] = some (serdes_phase.free, 1) := by
  decide

theorem mode_entries_append (a b : List Action) :
    mode_entries (a ++ b) = mode_entries a + mode_entries b := by
  simp [mode_entries]

theorem mode_entries_read (bus : Hw σ) (s : Phy σ) (d r : Nat) :
    mode_entries (phy_read_mmd bus s d r).2.trace = mode_entries s.trace +
      (if d = MDIO_MMD_PMAPMD ∧ r = MDIO_PMA_10GBR_PMD_CTRL then 1 else 0) := by
  show mode_entries (s.trace ++ [_]) = _
  rw [mode_entries_append]
  simp [mode_entries, Action.mode_entry, List.countP_cons]

theorem mode_entries_read_other (bus : Hw σ) (s : Phy σ) (d r : Nat)
    (h : ¬ (d = MDIO_MMD_PMAPMD ∧ r = MDIO_PMA_10GBR_PMD_CTRL)) :
    mode_entries (phy_read_mmd bus s d r).2.trace = mode_entries s.trace := by
  rw [mode_entries_read, if_neg h, Nat.add_zero]

@[simp] theorem mode_entries_write (bus : Hw σ) (s : Phy σ) (d r v : Nat) :
    mode_entries (phy_write_mmd bus s d r v).trace = mode_entries s.trace := by
  show mode_entries (s.trace ++ [_]) = _
  rw [mode_entries_append]
  rfl

theorem mode_entries_log (s : Phy σ) (a : Action) (h : a.mode_entry = false) :
    mode_entries (s.log a).trace = mode_entries s.trace := by
  show mode_entries (s.trace ++ [_]) = _
  rw [mode_entries_append]
  simp [mode_entries, List.countP_cons, h]

@[simp] theorem mode_entries_cmu_read (bus : Hw σ) (s : Phy σ) (r : Nat) :
    mode_entries (XCMU_IOREAD bus s r).2.trace = mode_entries s.trace := by
  show mode_entries (s.trace ++ [_]) = _
  rw [mode_entries_append]
  rfl

@[simp] theorem mode_entries_cmu_write (bus : Hw σ) (s : Phy σ) (r v : Nat) :
    mode_entries (XCMU_IOWRITE bus s r v).trace = mode_entries s.trace := by
  show mode_entries (s.trace ++ [_]) = _
  rw [mode_entries_append]
  rfl

@[simp] theorem mode_entries_rxtx_write_bits (bus : Hw σ) (s : Phy σ) (r i w v : Nat) :
    mode_entries (XRXTX_IOWRITE_BITS bus s r i w v).trace = mode_entries s.trace := by
  show mode_entries ((s.trace ++ [_]) ++ [_]) = _
  rw [mode_entries_append, mode_entries_append]
  rfl

@[simp] theorem mode_entries_start_ratechange (bus : Hw σ) (s : Phy σ) :
    mode_entries (amd_xgbe_phy_serdes_start_ratechange bus s).trace = mode_entries s.trace := by
  show mode_entries ((s.trace ++ [_]) ++ [_]) = _
  rw [mode_entries_append, mode_entries_append]
  rfl

theorem mode_entries_ratechange_wait (bus : Hw σ) (mask n : Nat) :
    ∀ s : Phy σ, mode_entries (ratechange_wait bus mask n s).trace = mode_entries s.trace := by
  induction n with
  | zero => intro s; rfl
  | succ n ih =>
    intro s
    have h1 : mode_entries (XCMU_IOREAD bus (s.log (Action.udelay 50)) CMU_REG15).2.trace
        = mode_entries s.trace := by
      rw [mode_entries_cmu_read, mode_entries_log _ (Action.udelay 50) rfl]
    unfold ratechange_wait
    simp only []
    split_ifs
    · exact h1
    · rw [ih, h1]

@[simp] theorem mode_entries_complete_ratechange (bus : Hw σ) (s : Phy σ) :
    mode_entries (amd_xgbe_phy_serdes_complete_ratechange bus s).trace
      = mode_entries s.trace := by
  unfold amd_xgbe_phy_serdes_complete_ratechange
  simp only []
  rw [mode_entries_ratechange_wait, mode_entries_cmu_write, mode_entries_cmu_read]

theorem mode_entries_disable_kr_training (bus : Hw σ) (s : Phy σ) :
    mode_entries (amd_xgbe_an_disable_kr_training bus s).2.trace
      = mode_entries s.trace + 1 := by
  unfold amd_xgbe_an_disable_kr_training
  simp only []
  split_ifs
  · rw [mode_entries_read, if_pos ⟨rfl, rfl⟩]
  · rw [mode_entries_write, mode_entries_read, if_pos ⟨rfl, rfl⟩]

theorem mode_entries_pcs_power_cycle (bus : Hw σ) (s : Phy σ) :
    mode_entries (amd_xgbe_phy_pcs_power_cycle bus s).2.trace = mode_entries s.trace := by
  unfold amd_xgbe_phy_pcs_power_cycle
  simp only []
  split_ifs
  · rw [mode_entries_read_other _ _ _ _ (by decide)]
  · rw [mode_entries_write, mode_entries_log _ (Action.usleep_range 75 100) rfl,
      mode_entries_write,
      mode_entries_read_other _ _ _ _ (by decide)]

theorem mode_entries_xgmii_mode (bus : Hw σ) (s : Phy σ) :
    mode_entries (amd_xgbe_phy_xgmii_mode bus s).2.trace = mode_entries s.trace + 1 := by
  unfold amd_xgbe_phy_xgmii_mode
  simp only []
  split_ifs <;>
    simp only [mode_entries_log _ _ (show Action.spin_unlock_cmu.mode_entry = false from rfl),
      mode_entries_log _ _ (show Action.spin_lock_cmu.mode_entry = false from rfl),
      mode_entries_complete_ratechange, mode_entries_rxtx_write_bits,
      mode_entries_start_ratechange, mode_entries_pcs_power_cycle, mode_entries_write,
      mode_entries_read_other _ _ MDIO_MMD_PCS MDIO_CTRL2 (by decide),
      mode_entries_read_other _ _ MDIO_MMD_PCS MDIO_CTRL1 (by decide),
      mode_entries_disable_kr_training]

theorem mode_entries_gmii_2500_mode (bus : Hw σ) (s : Phy σ) :
    mode_entries (amd_xgbe_phy_gmii_2500_mode bus s).2.trace = mode_entries s.trace + 1 := by
  unfold amd_xgbe_phy_gmii_2500_mode
  simp only []
  split_ifs <;>
    simp only [mode_entries_log _ _ (show Action.spin_unlock_cmu.mode_entry = false from rfl),
      mode_entries_log _ _ (show Action.spin_lock_cmu.mode_entry = false from rfl),
      mode_entries_complete_ratechange, mode_entries_rxtx_write_bits,
      mode_entries_start_ratechange, mode_entries_pcs_power_cycle, mode_entries_write,
      mode_entries_read_other _ _ MDIO_MMD_PCS MDIO_CTRL2 (by decide),
      mode_entries_read_other _ _ MDIO_MMD_PCS MDIO_CTRL1 (by decide),
      mode_entries_disable_kr_training]

theorem mode_entries_gmii_mode (bus : Hw σ) (s : Phy σ) :
    mode_entries (amd_xgbe_phy_gmii_mode bus s).2.trace = mode_entries s.trace + 1 := by
  unfold amd_xgbe_phy_gmii_mode
  simp only []
  split_ifs <;>
    simp only [mode_entries_log _ _ (show Action.spin_unlock_cmu.mode_entry = false from rfl),
      mode_entries_log _ _ (show Action.spin_lock_cmu.mode_entry = false from rfl),
      mode_entries_complete_ratechange, mode_entries_rxtx_write_bits,
      mode_entries_start_ratechange, mode_entries_pcs_power_cycle, mode_entries_write,
      mode_entries_read_other _ _ MDIO_MMD_PCS MDIO_CTRL2 (by decide),
      mode_entries_read_other _ _ MDIO_MMD_PCS MDIO_CTRL1 (by decide),
      mode_entries_disable_kr_training]

theorem mode_entries_cur_mode (bus : Hw σ) (s : Phy σ) :
    mode_entries (amd_xgbe_phy_cur_mode bus s).2.trace = mode_entries s.trace := by
  rw [cur_mode_state, mode_entries_read_other _ _ _ _ (by decide)]

theorem mode_entries_in_kr_mode (bus : Hw σ) (s : Phy σ) :
    mode_entries (amd_xgbe_phy_in_kr_mode bus s).2.trace = mode_entries s.trace := by
  rw [in_kr_mode_state, mode_entries_read_other _ _ _ _ (by decide)]

/-- Each call of `amd_xgbe_phy_switch_mode` adds exactly one read of the KR training
control register to the trace, whatever the hardware does. -/
theorem mode_entries_switch_mode (bus : Hw σ) (s : Phy σ) :
    mode_entries (amd_xgbe_phy_switch_mode bus s).2.trace = mode_entries s.trace + 1 := by
  unfold amd_xgbe_phy_switch_mode
  simp only []
  split_ifs <;>
    simp only [mode_entries_gmii_mode, mode_entries_gmii_2500_mode, mode_entries_xgmii_mode,
      mode_entries_in_kr_mode]

/-- A call of `amd_xgbe_phy_set_mode` calls `amd_xgbe_phy_switch_mode` at most once:
once if the read of the mode succeeds and shows another mode than the target, and not at
all otherwise. -/
theorem mode_entries_set_mode (bus : Hw σ) (s : Phy σ) (mode : amd_xgbe_phy_mode) :
    mode_entries (amd_xgbe_phy_set_mode bus s mode).2.trace ≤ mode_entries s.trace + 1 ∧
    (∀ cur, (amd_xgbe_phy_cur_mode bus s).1 = Except.ok cur → mode ≠ cur →
      mode_entries (amd_xgbe_phy_set_mode bus s mode).2.trace = mode_entries s.trace + 1) ∧
    ((amd_xgbe_phy_cur_mode bus s).1 = Except.ok mode →
      mode_entries (amd_xgbe_phy_set_mode bus s mode).2.trace = mode_entries s.trace) ∧
    (∀ e, (amd_xgbe_phy_cur_mode bus s).1 = Except.error e →
      mode_entries (amd_xgbe_phy_set_mode bus s mode).2.trace = mode_entries s.trace) := by
  have hc := mode_entries_cur_mode bus s
  unfold amd_xgbe_phy_set_mode
  split
  · rename_i ret he
    refine ⟨by show mode_entries (amd_xgbe_phy_cur_mode bus s).2.trace ≤ _; omega,
      fun cur h _ => ?_, fun h => ?_, fun _ _ => hc⟩
    · rw [he] at h; cases h
    · rw [he] at h; cases h
  · rename_i cur he
    by_cases hm : mode ≠ cur
    · rw [if_pos hm, mode_entries_switch_mode, hc]
      refine ⟨le_refl _, fun _ _ _ => rfl, fun h => ?_, fun e h => ?_⟩
      · rw [he] at h; cases h; exact absurd rfl hm
      · rw [he] at h; cases h
    · rw [if_neg hm]
      refine ⟨by show mode_entries (amd_xgbe_phy_cur_mode bus s).2.trace ≤ _; omega,
        fun c h hn => ?_, fun _ => hc, fun _ _ => hc⟩
      rw [he] at h; cases h; exact absurd hn hm

theorem mode_entries_set_an (bus : Hw σ) (s : Phy σ) (e r : Bool) :
    mode_entries (amd_xgbe_phy_set_an bus s e r).2.trace = mode_entries s.trace := by
  unfold amd_xgbe_phy_set_an
  simp only []
  by_cases h : (phy_read_mmd bus s MDIO_MMD_AN MDIO_CTRL1).1 < 0
  · rw [if_pos h, mode_entries_read_other _ _ _ _ (by decide)]
  · rw [if_neg h, mode_entries_write, mode_entries_read_other _ _ _ _ (by decide)]

theorem mode_entries_disable_an (bus : Hw σ) (s : Phy σ) :
    mode_entries (amd_xgbe_phy_disable_an bus s).2.trace = mode_entries s.trace :=
  mode_entries_set_an bus s false false

theorem mode_entries_restart_an (bus : Hw σ) (s : Phy σ) :
    mode_entries (amd_xgbe_phy_restart_an bus s).2.trace = mode_entries s.trace :=
  mode_entries_set_an bus s true true

theorem mode_entries_an_init (bus : Hw σ) (s : Phy σ) :
    mode_entries (amd_xgbe_an_init bus s).2.trace = mode_entries s.trace := by
  unfold amd_xgbe_an_init
  simp only []
  by_cases h1 : (phy_read_mmd bus s MDIO_MMD_AN (MDIO_AN_ADVERTISE + 2)).1 < 0
  · rw [if_pos h1, mode_entries_read_other _ _ _ _ (by decide)]
  · rw [if_neg h1]
    generalize hs1 : phy_write_mmd bus (phy_read_mmd bus s MDIO_MMD_AN (MDIO_AN_ADVERTISE + 2)).2
      MDIO_MMD_AN (MDIO_AN_ADVERTISE + 2) _ = s1
    have e1 : mode_entries s1.trace = mode_entries s.trace := by
      rw [← hs1, mode_entries_write, mode_entries_read_other _ _ _ _ (by decide)]
    by_cases h2 : (phy_read_mmd bus s1 MDIO_MMD_AN (MDIO_AN_ADVERTISE + 1)).1 < 0
    · rw [if_pos h2, mode_entries_read_other _ _ _ _ (by decide), e1]
    · rw [if_neg h2]
      generalize hs2 : phy_write_mmd bus (phy_read_mmd bus s1 MDIO_MMD_AN (MDIO_AN_ADVERTISE + 1)).2
        MDIO_MMD_AN (MDIO_AN_ADVERTISE + 1) _ = s2
      have e2 : mode_entries s2.trace = mode_entries s.trace := by
        rw [← hs2, mode_entries_write, mode_entries_read_other _ _ _ _ (by decide), e1]
      by_cases h3 : (phy_read_mmd bus s2 MDIO_MMD_AN MDIO_AN_ADVERTISE).1 < 0
      · rw [if_pos h3, mode_entries_read_other _ _ _ _ (by decide), e2]
      · rw [if_neg h3, mode_entries_write, mode_entries_read_other _ _ _ _ (by decide), e2]

theorem mode_entries_setup_forced (bus : Hw σ) (s : Phy σ) :
    mode_entries (amd_xgbe_phy_setup_forced bus s).2.trace ≤ mode_entries s.trace + 1 := by
  have hd := mode_entries_disable_an bus s
  have hm : ∀ m, mode_entries (amd_xgbe_phy_set_mode bus (amd_xgbe_phy_disable_an bus s).2
      m).2.trace ≤ mode_entries s.trace + 1 := by
    intro m
    rw [← hd]
    exact (mode_entries_set_mode bus _ m).1
  have hk := hm AMD_XGBE_MODE_KR
  have hx := hm AMD_XGBE_MODE_KX
  unfold amd_xgbe_phy_setup_forced
  simp only []
  split_ifs <;> (try dsimp only) <;> omega

theorem mode_entries_config_aneg_inner (bus : Hw σ) (s : Phy σ) :
    mode_entries (__amd_xgbe_phy_config_aneg bus s).2.trace ≤ mode_entries s.trace + 1 := by
  have hf := mode_entries_setup_forced bus s
  unfold __amd_xgbe_phy_config_aneg
  lift_lets
  intro s1 r d s2 s3 s4 i r1 s5
  have h1 : mode_entries s1.trace = mode_entries s.trace :=
    mode_entries_log s Action.disable_irq rfl
  have hr : mode_entries r.2.trace ≤ mode_entries s.trace + 1 := by
    show mode_entries (Phy.trace (Prod.snd (ite _ _ _))) ≤ _
    split_ifs
    · rw [← h1]; exact (mode_entries_set_mode bus _ _).1
    · rw [← h1]; exact (mode_entries_set_mode bus _ _).1
    · show mode_entries s1.trace ≤ _
      omega
  have hre : mode_entries (r.2.log Action.enable_irq).trace = mode_entries r.2.trace :=
    mode_entries_log _ Action.enable_irq rfl
  have hd : mode_entries d.2.trace = mode_entries r.2.trace := mode_entries_disable_an bus _
  have h2 : mode_entries s2.trace = mode_entries d.2.trace := mode_entries_write bus _ _ _ _
  have h4 : mode_entries s4.trace = mode_entries s2.trace :=
    mode_entries_log s3 Action.enable_irq rfl
  have hi : mode_entries i.2.trace = mode_entries s4.trace := mode_entries_an_init bus _
  have hr1 : mode_entries r1.2.trace = mode_entries i.2.trace :=
    mode_entries_read_other bus _ _ _ (by decide)
  have h5 : mode_entries (amd_xgbe_phy_restart_an bus s5).2.trace = mode_entries r1.2.trace := by
    rw [mode_entries_restart_an]
    exact mode_entries_write bus _ _ _ _
  split_ifs
  · exact hf
  · show mode_entries s.trace ≤ _
    omega
  · show mode_entries (r.2.log Action.enable_irq).trace ≤ _
    omega
  · show mode_entries d.2.trace ≤ _
    omega
  · show mode_entries i.2.trace ≤ _
    omega
  · show mode_entries r1.2.trace ≤ _
    omega
  · omega

/-- A call of `amd_xgbe_phy_config_aneg` calls `amd_xgbe_phy_switch_mode` at most
once. -/
theorem mode_entries_config_aneg (bus : Hw σ) (s : Phy σ) :
    mode_entries (amd_xgbe_phy_config_aneg bus s).2.trace ≤ mode_entries s.trace + 1 := by
  have h := mode_entries_config_aneg_inner bus (s.log Action.mutex_lock_an)
  have h1 : mode_entries (s.log Action.mutex_lock_an).trace = mode_entries s.trace :=
    mode_entries_log s Action.mutex_lock_an rfl
  have h2 : mode_entries (amd_xgbe_phy_config_aneg bus s).2.trace
      = mode_entries (__amd_xgbe_phy_config_aneg bus (s.log Action.mutex_lock_an)).2.trace :=
    mode_entries_log _ Action.mutex_unlock_an rfl
  omega

theorem mode_entries_update_link_read (bus : Hw σ) (s : Phy σ) :
    mode_entries (update_link_read bus s).2.trace = mode_entries s.trace := by
  have h1 : mode_entries (phy_read_mmd bus s MDIO_MMD_PCS MDIO_STAT1).2.trace
      = mode_entries s.trace := mode_entries_read_other bus _ _ _ (by decide)
  have h2 : mode_entries (phy_read_mmd bus (phy_read_mmd bus s MDIO_MMD_PCS MDIO_STAT1).2
      MDIO_MMD_PCS MDIO_STAT1).2.trace = mode_entries s.trace := by
    rw [mode_entries_read_other bus _ _ _ (by decide), h1]
  unfold update_link_read
  simp only []
  by_cases a1 : (phy_read_mmd bus s MDIO_MMD_PCS MDIO_STAT1).1 < 0
  · rw [if_pos a1]; exact h1
  · rw [if_neg a1]
    by_cases a2 : (phy_read_mmd bus (phy_read_mmd bus s MDIO_MMD_PCS MDIO_STAT1).2
        MDIO_MMD_PCS MDIO_STAT1).1 < 0
    · rw [if_pos a2]; exact h2
    · rw [if_neg a2]; exact h2

theorem mode_entries_update_link_done (bus : Hw σ) (x : Phy σ) :
    mode_entries (update_link_done bus x).2.trace ≤ mode_entries x.trace + 1 ∧
    (¬ (x.link ≠ 0 ∧ x.priv_link = 0) →
      mode_entries (update_link_done bus x).2.trace = mode_entries x.trace) := by
  rw [update_link_done_eq]
  by_cases he : x.link ≠ 0 ∧ x.priv_link = 0
  · rw [if_pos he]
    exact ⟨mode_entries_config_aneg bus { x with priv_link := x.link }, fun hn => absurd he hn⟩
  · rw [if_neg he]
    exact ⟨Nat.le_succ _, fun _ => rfl⟩

/-- The part of `amd_xgbe_phy_update_link` that settles the link state calls
`amd_xgbe_phy_switch_mode` once if auto-negotiation is enabled and the first double read
succeeds and shows the link down, and not at all otherwise. -/
theorem mode_entries_update_link_settle (bus : Hw σ) (s : Phy σ) :
    mode_entries (update_link_settle bus s).2.trace = mode_entries s.trace +
      (if s.autoneg = AUTONEG_ENABLE ∧ ¬ (update_link_read bus s).1 < 0 ∧
        (update_link_read bus s).2.link = 0 then 1 else 0) := by
  have r1 := mode_entries_update_link_read bus s
  have w1 := mode_entries_switch_mode bus (update_link_read bus s).2
  have r2 := mode_entries_update_link_read bus
    (amd_xgbe_phy_switch_mode bus (update_link_read bus s).2).2
  by_cases hc : s.autoneg = AUTONEG_ENABLE ∧ ¬ (update_link_read bus s).1 < 0 ∧
      (update_link_read bus s).2.link = 0
  · rw [if_pos hc]
    unfold update_link_settle
    simp only []
    rw [if_neg hc.2.1, if_pos ⟨hc.2.2, hc.1⟩]
    by_cases a3 : (amd_xgbe_phy_switch_mode bus (update_link_read bus s).2).1 < 0
    · rw [if_pos a3]
      show mode_entries (amd_xgbe_phy_switch_mode bus (update_link_read bus s).2).2.trace = _
      omega
    · rw [if_neg a3]
      omega
  · rw [if_neg hc, Nat.add_zero]
    unfold update_link_settle
    simp only []
    by_cases a1 : (update_link_read bus s).1 < 0
    · rw [if_pos a1]
      exact r1
    · rw [if_neg a1, if_neg (fun a2 => hc ⟨a2.2, a1, a2.1⟩)]
      exact r1

/-- The reads of the link status made while the link state is settled: two for each
double read; four if the function gets through the retry. -/
theorem update_link_settle_reads (bus : Hw σ) (s : Phy σ) :
    (update_link_settle bus s).2.trace.countP Action.link_read
      ≤ s.trace.countP Action.link_read + 4 ∧
    (¬ (update_link_settle bus s).1 < 0 →
      (update_link_settle bus s).2.trace.countP Action.link_read
        = s.trace.countP Action.link_read +
          (if s.autoneg = AUTONEG_ENABLE ∧ (update_link_read bus s).2.link = 0 then 4 else 2)) ∧
    (s.autoneg = AUTONEG_ENABLE → ¬ (update_link_read bus s).1 < 0 →
      (update_link_read bus s).2.link = 0 →
      (amd_xgbe_phy_switch_mode bus (update_link_read bus s).2).1 < 0 →
      update_link_settle bus s = ((amd_xgbe_phy_switch_mode bus (update_link_read bus s).2).1,
        (amd_xgbe_phy_switch_mode bus (update_link_read bus s).2).2) ∧
      (update_link_settle bus s).2.trace.countP Action.link_read
        = s.trace.countP Action.link_read + 2) := by
  obtain ⟨c1, c1e, -⟩ := update_link_read_count bus s
  have cw := plain_countP_link
    (plain_switch_mode bus (plain_ext_refl (update_link_read bus s).2))
  obtain ⟨c2, c2e, -⟩ := update_link_read_count bus
    (amd_xgbe_phy_switch_mode bus (update_link_read bus s).2).2
  unfold update_link_settle
  simp only []
  by_cases a1 : (update_link_read bus s).1 < 0
  · rw [if_pos a1]
    exact ⟨by show List.countP _ (update_link_read bus s).2.trace ≤ _; omega,
      fun hn => absurd a1 hn, fun _ hn => absurd a1 hn⟩
  · rw [if_neg a1]
    have e1 := c1e a1
    by_cases a2 : (update_link_read bus s).2.link = 0 ∧ s.autoneg = AUTONEG_ENABLE
    · rw [if_pos a2]
      by_cases a3 : (amd_xgbe_phy_switch_mode bus (update_link_read bus s).2).1 < 0
      · rw [if_pos a3]
        refine ⟨?_, fun hn => absurd a3 hn, fun _ _ _ _ => ⟨rfl, ?_⟩⟩
        · show List.countP _ (amd_xgbe_phy_switch_mode bus (update_link_read bus s).2).2.trace ≤ _
          omega
        · show List.countP _ (amd_xgbe_phy_switch_mode bus (update_link_read bus s).2).2.trace = _
          omega
      · rw [if_neg a3]
        have hq : s.autoneg = AUTONEG_ENABLE ∧ (update_link_read bus s).2.link = 0 :=
          ⟨a2.2, a2.1⟩
        refine ⟨by omega, fun hn => ?_, fun _ _ _ hc => absurd hc a3⟩
        rw [if_pos hq, c2e hn]
        omega
    · rw [if_neg a2]
      have hq : ¬ (s.autoneg = AUTONEG_ENABLE ∧ (update_link_read bus s).2.link = 0) :=
        fun hc => a2 ⟨hc.2, hc.1⟩
      refine ⟨?_, fun _ => ?_, fun ha _ hl _ => absurd ⟨hl, ha⟩ a2⟩
      · show List.countP _ (update_link_read bus s).2.trace ≤ _
        omega
      · rw [if_neg hq]
        exact e1

/-- C22 (amended): with the negotiation at rest (`an_state` READY), one invocation of
`amd_xgbe_phy_update_link` first settles the link state and then, if that did not fail,
runs its end part.  Each call of `amd_xgbe_phy_switch_mode` shows in the trace as exactly
one read of the KR training control register.  While the link state is settled the
function calls `amd_xgbe_phy_switch_mode` at most once (the retry): once if
auto-negotiation is enabled and the first double read of the link status succeeds and
shows the link down, and not at all otherwise, so never with auto-negotiation disabled.
If that call fails, its error is returned at once and the link status has been read twice
in all; otherwise the link status is double-read once more, four reads in all when this
part does not fail, and no further retry is made.  The end part reads the link status no
more and calls `amd_xgbe_phy_switch_mode` at most once more, and only when the settled
link is up and the remembered link was down, the call being made by
`amd_xgbe_phy_config_aneg`; so one invocation calls it at most twice, and at most once
with auto-negotiation disabled. -/
theorem C22_one_retry (bus : Hw σ) (s : Phy σ) (h : s.an_state = AMD_XGBE_AN_READY) :
    (∀ x : Phy σ,
      mode_entries (amd_xgbe_phy_switch_mode bus x).2.trace = mode_entries x.trace + 1) ∧
    amd_xgbe_phy_update_link bus s =
      (if (update_link_settle bus s).1 < 0 then update_link_settle bus s
       else update_link_done bus (update_link_settle bus s).2) ∧
    mode_entries (update_link_settle bus s).2.trace = mode_entries s.trace +
      (if s.autoneg = AUTONEG_ENABLE ∧ ¬ (update_link_read bus s).1 < 0 ∧
        (update_link_read bus s).2.link = 0 then 1 else 0) ∧
    (update_link_settle bus s).2.trace.countP Action.link_read
      ≤ s.trace.countP Action.link_read + 4 ∧
    (¬ (update_link_settle bus s).1 < 0 →
      (update_link_settle bus s).2.trace.countP Action.link_read
        = s.trace.countP Action.link_read +
          (if s.autoneg = AUTONEG_ENABLE ∧ (update_link_read bus s).2.link = 0 then 4 else 2)) ∧
    (s.autoneg = AUTONEG_ENABLE → ¬ (update_link_read bus s).1 < 0 →
      (update_link_read bus s).2.link = 0 →
      (amd_xgbe_phy_switch_mode bus (update_link_read bus s).2).1 < 0 →
      amd_xgbe_phy_update_link bus s
        = ((amd_xgbe_phy_switch_mode bus (update_link_read bus s).2).1,
          (amd_xgbe_phy_switch_mode bus (update_link_read bus s).2).2) ∧
      (amd_xgbe_phy_update_link bus s).2.trace.countP Action.link_read
        = s.trace.countP Action.link_read + 2) ∧
    (amd_xgbe_phy_update_link bus s).2.trace.countP Action.link_read
      = (update_link_settle bus s).2.trace.countP Action.link_read ∧
    mode_entries (amd_xgbe_phy_update_link bus s).2.trace
      ≤ mode_entries (update_link_settle bus s).2.trace + 1 ∧
    (¬ (¬ (update_link_settle bus s).1 < 0 ∧ (update_link_settle bus s).2.link ≠ 0 ∧
        s.priv_link = 0) →
      mode_entries (amd_xgbe_phy_update_link bus s).2.trace
        = mode_entries (update_link_settle bus s).2.trace) ∧
    (¬ (update_link_settle bus s).1 < 0 → (update_link_settle bus s).2.link ≠ 0 →
      s.priv_link = 0 →
      (amd_xgbe_phy_update_link bus s).2 = (amd_xgbe_phy_config_aneg bus
        { (update_link_settle bus s).2 with
          priv_link := (update_link_settle bus s).2.link }).2) ∧
    mode_entries (amd_xgbe_phy_update_link bus s).2.trace ≤ mode_entries s.trace + 2 ∧
    (s.autoneg ≠ AUTONEG_ENABLE →
      mode_entries (update_link_settle bus s).2.trace = mode_entries s.trace ∧
      mode_entries (amd_xgbe_phy_update_link bus s).2.trace ≤ mode_entries s.trace + 1) := by
  have e := update_link_eq_settle bus s h
  have ms := mode_entries_update_link_settle bus s
  obtain ⟨rs1, rs2, rs3⟩ := update_link_settle_reads bus s
  obtain ⟨md1, md2⟩ := mode_entries_update_link_done bus (update_link_settle bus s).2
  have ld := (update_link_done_count bus (update_link_settle bus s).2).1
  have hp := (update_link_settle_facts bus s).1
  have de := update_link_done_eq bus (update_link_settle bus s).2
  have hU1 : (amd_xgbe_phy_update_link bus s).2.trace.countP Action.link_read
      = (update_link_settle bus s).2.trace.countP Action.link_read := by
    rw [e]
    split_ifs
    · rfl
    · exact ld
  have hU2 : mode_entries (amd_xgbe_phy_update_link bus s).2.trace
      ≤ mode_entries (update_link_settle bus s).2.trace + 1 := by
    rw [e]
    split_ifs
    · exact Nat.le_succ _
    · exact md1
  have hU3 : ¬ (¬ (update_link_settle bus s).1 < 0 ∧ (update_link_settle bus s).2.link ≠ 0 ∧
        s.priv_link = 0) →
      mode_entries (amd_xgbe_phy_update_link bus s).2.trace
        = mode_entries (update_link_settle bus s).2.trace := by
    intro hn
    rw [e]
    split_ifs with hf
    · rfl
    · exact md2 (fun hc => hn ⟨hf, hc.1, hp ▸ hc.2⟩)
  refine ⟨mode_entries_switch_mode bus, e, ms, rs1, rs2, ?_, hU1, hU2, hU3, ?_, ?_, ?_⟩
  · intro ha hr hl hw
    obtain ⟨q1, q2⟩ := rs3 ha hr hl hw
    have hneg : (update_link_settle bus s).1 < 0 := by rw [q1]; exact hw
    rw [e, if_pos hneg]
    exact ⟨q1, q2⟩
  · intro hf hl hpl
    rw [e, if_neg hf, de, if_pos ⟨hl, hp.trans hpl⟩]
  · split_ifs at ms <;> omega
  · intro ha
    rw [if_neg (fun hc => ha hc.1)] at ms
    exact ⟨ms, by omega⟩

/-- C22, witness: the register file in KR mode with the link down and auto-negotiation
enabled: the retry is made, the link status is read four times, and the mode is switched
at most twice. -/
theorem C22_one_retry_witness :
    (phy_init regs_kr_ready).an_state = AMD_XGBE_AN_READY ∧
    ¬ (update_link_settle regfile (phy_init regs_kr_ready)).1 < 0 ∧
    mode_entries (update_link_settle regfile (phy_init regs_kr_ready)).2.trace = 1 ∧
    (update_link_settle regfile (phy_init regs_kr_ready)).2.trace.countP Action.link_read = 4 ∧
    (amd_xgbe_phy_update_link regfile (phy_init regs_kr_ready)).2.trace.countP Action.link_read
      = (update_link_settle regfile (phy_init regs_kr_ready)).2.trace.countP Action.link_read ∧
    mode_entries (amd_xgbe_phy_update_link regfile (phy_init regs_kr_ready)).2.trace ≤ 2 :=
  have h := C22_one_retry regfile (phy_init regs_kr_ready) rfl
  ⟨rfl, by decide, h.2.2.1, h.2.2.2.2.1 (by decide), h.2.2.2.2.2.2.1,
    h.2.2.2.2.2.2.2.2.2.2.1⟩

set_option maxRecDepth 20000 in
/-- C22, counterexample.  First: auto-negotiation is enabled and the double read shows the
link down, so the mode is switched; the first read of the switch fails, and the function
returns that error without reading the link status again (two reads in all).  Second: on
a hardware whose link is up in KX mode only, from KR mode with the remembered link down,
the retry switches to KX, the second double read shows the link up, and the
re-configuration switches back to KR: `amd_xgbe_phy_switch_mode` is called twice in one
invocation.  Third: with auto-negotiation disabled, the speed forced to 10G, the device in
KX mode, the link up and the remembered link down, the re-configuration switches the
mode: `amd_xgbe_phy_switch_mode` is called although auto-negotiation is disabled. -/
theorem C22_counterexample :
    ((phy_init regs_kr_ready).an_state = AMD_XGBE_AN_READY ∧
      (phy_init regs_kr_ready).autoneg = AUTONEG_ENABLE ∧
      (update_link_read pmd_ctrl_fail_hw (phy_init regs_kr_ready)).1 = 0 ∧
      (update_link_read pmd_ctrl_fail_hw (phy_init regs_kr_ready)).2.link = 0 ∧
      (amd_xgbe_phy_update_link pmd_ctrl_fail_hw (phy_init regs_kr_ready)).1 = -5 ∧
      mode_entries (amd_xgbe_phy_update_link pmd_ctrl_fail_hw (phy_init regs_kr_ready)).2.trace
        = 1 ∧
      (amd_xgbe_phy_update_link pmd_ctrl_fail_hw (phy_init regs_kr_ready)).2.trace.countP
        Action.link_read = 2) ∧
    (phy_link_down.an_state = AMD_XGBE_AN_READY ∧
      phy_link_down.autoneg = AUTONEG_ENABLE ∧
      (amd_xgbe_phy_update_link link_in_kx_hw phy_link_down).1 = 0 ∧
      mode_entries (amd_xgbe_phy_update_link link_in_kx_hw phy_link_down).2.trace = 2 ∧
      (amd_xgbe_phy_in_kr_mode link_in_kx_hw
        (amd_xgbe_phy_update_link link_in_kx_hw phy_link_down).2).1 = true) ∧
    (phy_forced_10g.an_state = AMD_XGBE_AN_READY ∧
      phy_forced_10g.autoneg ≠ AUTONEG_ENABLE ∧
      (amd_xgbe_phy_update_link regfile phy_forced_10g).1 = 0 ∧
      mode_entries (amd_xgbe_phy_update_link regfile phy_forced_10g).2.trace = 1) := by
  refine ⟨⟨rfl, rfl, by decide, by decide, by decide, by decide, by decide⟩,
    ⟨rfl, rfl, by decide, by decide, by decide⟩, ⟨rfl, by decide, by decide, by decide⟩⟩

theorem an_again_records_succ (bus : Hw σ) (fuel : Nat) (s : Phy σ) (v : Int) :
    an_again_records bus (fuel + 1) s v =
      if s.an_state ≠ (an_pass bus s v).2.an_state then
        (an_again_records bus fuel (an_pass bus s v).2 (an_pass bus s v).1).map
          (fun l => an_pass_record bus s :: l)
      else if (an_pass bus s v).1 ≠ 0 then
        (an_again_records bus fuel (an_next_int bus (an_pass bus s v).2 (an_pass bus s v).1).2
          (an_next_int bus (an_pass bus s v).2 (an_pass bus s v).1).1).map
          (fun l => an_pass_record bus s :: l)
      else some [an_pass_record bus s] := by
  rw [an_again_records]

theorem an_pass_supported (bus : Hw σ) (s : Phy σ) (v : Int) :
    (an_pass bus s v).2.an_supported = (an_switch bus s).an_supported := by
  have h1 : (an_stop bus (an_switch bus s) v).2.an_supported = (an_switch bus s).an_supported := by
    rw [an_stop_frame bus (an_switch bus s) v]
  unfold an_pass an_latch
  dsimp only
  split_ifs
  · exact h1
  · exact h1

theorem mod_succ_wrap (a c : Nat) (h : a = c % 4294967296) :
    (a + 1) % 4294967296 = (c + 1) % 4294967296 := by
  omega

/-- One execution of the state switch and the count of successful page-received cycles:
if the count `c` is known (`k`) to be `an_supported` modulo 2 ^ 32, unless the phase is
one whose handling resets the count anyway, then a COMPLETE phase sets `parallel_detect`
from `c`, and after the pass the new count is known again, or the phase has changed to
one whose handling resets the count. -/
theorem an_pass_count (bus : Hw σ) (s : Phy σ) (v : Int) (k : Bool) (c : Nat)
    (hJ : k = true → s.an_state = AMD_XGBE_AN_READY ∨ s.an_state = AMD_XGBE_AN_INCOMPAT_LINK ∨
      s.an_supported = c % 4294967296) :
    ((an_pass_record bus s).handled = AMD_XGBE_AN_COMPLETE → k = true →
      (an_pass_record bus s).parallel_detect = if c % 4294967296 = 0 then 1 else 0) ∧
    ((k || !(an_pass_record bus s).page_cycle) = true →
      (an_pass bus s v).2.an_supported
          = page_cycles_from c [an_pass_record bus s] % 4294967296 ∨
        (s.an_state ≠ (an_pass bus s v).2.an_state ∧
          ((an_pass bus s v).2.an_state = AMD_XGBE_AN_READY ∨
            (an_pass bus s v).2.an_state = AMD_XGBE_AN_INCOMPAT_LINK))) := by
  rw [an_pass_supported, an_pass_state]
  cases hs : s.an_state
  · -- READY
    have e : an_switch bus s = { s with an_supported := 0 } := by
      unfold an_switch; simp [hs]
    refine ⟨fun h => ?_, fun _ => Or.inl ?_⟩
    · simp [an_pass_record, hs] at h
    · simp [e, page_cycles_from, an_pass_record, an_record.page_cycle, hs]
  · -- PAGE_RECEIVED
    have e1 : (an_switch bus s).an_state = (amd_xgbe_an_page_received bus s).1 := by
      unfold an_switch; simp [hs]
    have e2 : (an_switch bus s).an_supported = (s.an_supported + 1) % 4294967296 := by
      have hf := (frame_rx_fields (frame_rx_page_received bus s)).2.2.1
      unfold an_switch; simp [hs, hf]
    refine ⟨fun h => ?_, fun hk => ?_⟩
    · simp [an_pass_record, hs] at h
    · by_cases ho : (amd_xgbe_an_page_received bus s).1 = AMD_XGBE_AN_PAGE_RECEIVED
      · have hp : (an_pass_record bus s).page_cycle = true := by
          simp [an_pass_record, an_record.page_cycle, hs, e1, ho]
        rw [hp] at hk
        have hk' : k = true := by simpa using hk
        rcases hJ hk' with h | h | h
        · rw [hs] at h; cases h
        · rw [hs] at h; cases h
        · left
          rw [e2]
          simp only [page_cycles_from, List.foldl, hp, if_true]
          exact mod_succ_wrap _ _ h
      · right
        rw [e1]
        rcases page_received_range bus s with h | h | h
        · exact absurd h ho
        · rw [h]; simp [amd_xgbe_phy_an.val]
        · rw [h]; simp [amd_xgbe_phy_an.val]
  · -- INCOMPAT_LINK
    have e2 : (an_switch bus s).an_supported = 0 := by
      have hf := (frame_rx_fields (frame_rx_incompat_link bus
        { s with an_supported := 0, parallel_detect := 0 })).2.2.1
      simp [hs] at hf
      unfold an_switch; simp [hs, hf]
    refine ⟨fun h => ?_, fun _ => Or.inl ?_⟩
    · simp [an_pass_record, hs] at h
    · rw [e2]
      simp [page_cycles_from, an_pass_record, an_record.page_cycle, hs]
  · -- COMPLETE
    have e : an_switch bus s
        = { s with parallel_detect := if s.an_supported ≠ 0 then 0 else 1 } := by
      unfold an_switch; simp [hs]
    refine ⟨fun _ hk => ?_, fun _ => Or.inr ?_⟩
    · rcases hJ hk with h | h | h
      · rw [hs] at h; cases h
      · rw [hs] at h; cases h
      · simp only [an_pass_record, e, h]
        split_ifs <;> simp_all
    · simp [e, hs, amd_xgbe_phy_an.val]
  · -- NO_LINK
    have e : an_switch bus s = s := by
      unfold an_switch; simp [hs]
    refine ⟨fun h => ?_, fun _ => Or.inr ?_⟩
    · simp [an_pass_record, hs] at h
    · simp [e, hs, amd_xgbe_phy_an.val]
  · -- ERROR
    have e : (an_switch bus s).an_state = AMD_XGBE_AN_ERROR := by
      unfold an_switch; simp [hs]
    refine ⟨fun h => ?_, fun _ => Or.inr ?_⟩
    · simp [an_pass_record, hs] at h
    · simp [e, amd_xgbe_phy_an.val]

theorem page_cycles_from_append (c : Nat) (a b : List an_record) :
    page_cycles_from c (a ++ b) = page_cycles_from (page_cycles_from c a) b := by
  simp [page_cycles_from, List.foldl_append]

theorem page_cycles_from_cons (c : Nat) (x : an_record) (l : List an_record) :
    page_cycles_from c (x :: l) = page_cycles_from (page_cycles_from c [x]) l := rfl

/-- Once a record that is not a successful page-received cycle has been seen, the count
does not depend on the count at the start. -/
theorem page_cycles_from_reset (l : List an_record) :
    ∀ c, l.any (fun x => !x.page_cycle) = true → page_cycles_from c l = page_cycles l := by
  induction l with
  | nil => intro c h; simp at h
  | cons x xs ih =>
    intro c h
    unfold page_cycles
    rw [page_cycles_from_cons c, page_cycles_from_cons 0]
    by_cases hx : x.page_cycle = true
    · have hxs : xs.any (fun x => !x.page_cycle) = true := by
        simpa [List.any_cons, hx] using h
      rw [ih _ hxs, ih _ hxs]
    · have e : ∀ n, page_cycles_from n [x] = 0 := by
        intro n
        simp [page_cycles_from, hx]
      rw [e c, e 0]

theorem detect_follows_count_append (a : List an_record) :
    ∀ (k : Bool) (c : Nat) (b : List an_record),
      detect_follows_count k c (a ++ b) ↔
        detect_follows_count k c a ∧
        detect_follows_count (k || a.any (fun x => !x.page_cycle)) (page_cycles_from c a) b := by
  induction a with
  | nil =>
    intro k c b
    simp [detect_follows_count, page_cycles_from]
  | cons x xs ih =>
    intro k c b
    show (_ ∧ detect_follows_count _ _ (xs ++ b)) ↔ (_ ∧ detect_follows_count _ _ xs) ∧ _
    rw [ih, List.any_cons, ← Bool.or_assoc, and_assoc]
    rfl

/-- The record of a handled COMPLETE phase anywhere in a history. -/
theorem detect_follows_count_split (k : Bool) (c : Nat) (pre post : List an_record)
    (x : an_record) (h : detect_follows_count k c (pre ++ x :: post))
    (hx : x.handled = AMD_XGBE_AN_COMPLETE)
    (hk : (k || pre.any (fun y => !y.page_cycle)) = true) :
    x.parallel_detect = if page_cycles_from c pre % 4294967296 = 0 then 1 else 0 :=
  ((detect_follows_count_append pre k c (x :: post)).mp h).2.1 hx hk

theorem an_again_records_some (bus : Hw σ) (fuel : Nat) :
    ∀ (s : Phy σ) (v : Int) (r : Phy σ × Nat), an_again bus fuel s v = some r →
      ∃ ev, an_again_records bus fuel s v = some ev := by
  induction fuel with
  | zero => intro s v r h; simp [an_again] at h
  | succ n ih =>
    intro s v r h
    rw [an_again_succ] at h
    rw [an_again_records_succ]
    split_ifs at h ⊢
    · obtain ⟨r1, hr1, -⟩ := Option.map_eq_some.mp h
      obtain ⟨ev, hev⟩ := ih _ _ r1 hr1
      exact ⟨_, by rw [hev]; rfl⟩
    · obtain ⟨r1, hr1, -⟩ := Option.map_eq_some.mp h
      obtain ⟨ev, hev⟩ := ih _ _ r1 hr1
      exact ⟨_, by rw [hev]; rfl⟩
    · exact ⟨_, rfl⟩

/-- The count and `parallel_detect` along the passes of one invocation of the worker. -/
theorem an_again_count (bus : Hw σ) (fuel : Nat) :
    ∀ (s : Phy σ) (v : Int) (k : Bool) (c : Nat) (r : Phy σ × Nat) (ev : List an_record),
      an_again bus fuel s v = some r → an_again_records bus fuel s v = some ev →
      (k = true → s.an_state = AMD_XGBE_AN_READY ∨ s.an_state = AMD_XGBE_AN_INCOMPAT_LINK ∨
        s.an_supported = c % 4294967296) →
      detect_follows_count k c ev ∧
      ((k || ev.any (fun x => !x.page_cycle)) = true →
        r.1.an_supported = page_cycles_from c ev % 4294967296) := by
  induction fuel with
  | zero => intro s v k c r ev h; simp [an_again] at h
  | succ n ih =>
    intro s v k c r ev h hev hJ
    rw [an_again_succ] at h
    rw [an_again_records_succ] at hev
    obtain ⟨p1, p2⟩ := an_pass_count bus s v k c hJ
    split_ifs at h hev with h1 h2
    · obtain ⟨r1, hr1, er⟩ := Option.map_eq_some.mp h
      obtain ⟨ev1, hev1, ee⟩ := Option.map_eq_some.mp hev
      subst er ee
      obtain ⟨q1, q2⟩ := ih _ _ (k || !(an_pass_record bus s).page_cycle)
        (page_cycles_from c [an_pass_record bus s]) r1 ev1 hr1 hev1 (by
          intro hk
          rcases p2 hk with hq | ⟨-, hq | hq⟩
          · exact Or.inr (Or.inr hq)
          · exact Or.inl hq
          · exact Or.inr (Or.inl hq))
      refine ⟨⟨p1, q1⟩, fun hk => ?_⟩
      rw [page_cycles_from_cons]
      apply q2
      rw [List.any_cons, ← Bool.or_assoc] at hk
      exact hk
    · obtain ⟨r1, hr1, er⟩ := Option.map_eq_some.mp h
      obtain ⟨ev1, hev1, ee⟩ := Option.map_eq_some.mp hev
      subst er ee
      obtain ⟨q1, q2⟩ := ih _ _ (k || !(an_pass_record bus s).page_cycle)
        (page_cycles_from c [an_pass_record bus s]) r1 ev1 hr1 hev1 (by
          intro hk
          rcases p2 hk with hq | ⟨hq, -⟩
          · exact Or.inr (Or.inr hq)
          · exact absurd hq h1)
      refine ⟨⟨p1, q1⟩, fun hk => ?_⟩
      rw [page_cycles_from_cons]
      apply q2
      rw [List.any_cons, ← Bool.or_assoc] at hk
      exact hk
    · cases h
      cases hev
      refine ⟨⟨p1, trivial⟩, fun hk => ?_⟩
      rw [List.any_cons, List.any_nil, Bool.or_false] at hk
      rcases p2 hk with hq | ⟨hq, -⟩
      · exact hq
      · exact absurd hq h1

/-- The count and `parallel_detect` for one invocation of the worker. -/
theorem an_state_machine_count (bus : Hw σ) (s : Phy σ) (k : Bool) (c : Nat)
    (hs : k = true → s.an_supported = c % 4294967296) :
    ∃ t n ev, amd_xgbe_an_state_machine bus 16 s = some (t, n) ∧
      an_state_machine_records bus 16 s = some ev ∧
      detect_follows_count k c ev ∧
      ((k || ev.any (fun x => !x.page_cycle)) = true →
        t.an_supported = page_cycles_from c ev % 4294967296) := by
  obtain ⟨f, n, e, -, -⟩ := an_state_machine_terminates bus s
  have e0 := e
  unfold amd_xgbe_an_state_machine at e
  unfold an_state_machine_records
  simp only [] at e ⊢
  by_cases h0 : (phy_read_mmd bus (s.log Action.mutex_lock_an) MDIO_MMD_AN MDIO_AN_INT).1 = 0
  · rw [if_pos h0] at e ⊢
    cases e
    refine ⟨_, 0, [], e0, rfl, trivial, fun hk => ?_⟩
    rw [List.any_nil, Bool.or_false] at hk
    exact hs hk
  · rw [if_neg h0] at e ⊢
    obtain ⟨a, ha, ea⟩ := Option.map_eq_some.mp e
    obtain ⟨ev, hev⟩ := an_again_records_some bus 16 _ _ a ha
    obtain ⟨q1, q2⟩ := an_again_count bus 16 _ _ k c a ev ha hev
      (fun hk => Or.inr (Or.inr (hs hk)))
    cases ea
    exact ⟨_, _, ev, e0, hev, q1, q2⟩

theorem same_count_refl (x : Phy σ) : x.same_count x := rfl

theorem same_count_via {x y z : Phy σ} (h : y.frame z) : x.same_count z ↔ x.same_count y := by
  unfold Phy.same_count
  rw [h]

theorem same_count_congr {x y z : Phy σ} (h : y.same_count z) :
    x.same_count z ↔ x.same_count y := by
  unfold Phy.same_count at *
  rw [h]

@[simp] theorem same_count_read (bus : Hw σ) (x y : Phy σ) (d r : Nat) :
    x.same_count (phy_read_mmd bus y d r).2 ↔ x.same_count y := Iff.rfl
@[simp] theorem same_count_write (bus : Hw σ) (x y : Phy σ) (d r v : Nat) :
    x.same_count (phy_write_mmd bus y d r v) ↔ x.same_count y := Iff.rfl
@[simp] theorem same_count_log (x y : Phy σ) (a : Action) :
    x.same_count (y.log a) ↔ x.same_count y := Iff.rfl
@[simp] theorem same_count_disable_an (bus : Hw σ) (x y : Phy σ) :
    x.same_count (amd_xgbe_phy_disable_an bus y).2 ↔ x.same_count y :=
  same_count_via (frame_set_an bus y false false)
@[simp] theorem same_count_restart_an (bus : Hw σ) (x y : Phy σ) :
    x.same_count (amd_xgbe_phy_restart_an bus y).2 ↔ x.same_count y :=
  same_count_via (frame_set_an bus y true true)
@[simp] theorem same_count_set_mode (bus : Hw σ) (x y : Phy σ) (m : amd_xgbe_phy_mode) :
    x.same_count (amd_xgbe_phy_set_mode bus y m).2 ↔ x.same_count y :=
  same_count_via (frame_set_mode bus y m)
@[simp] theorem same_count_pause (x y : Phy σ) (v w : Nat) :
    x.same_count { y with pause := v, asym_pause := w } ↔ x.same_count y := Iff.rfl
@[simp] theorem same_count_an (x y : Phy σ) (a b : amd_xgbe_phy_an) (c d : amd_xgbe_phy_rx) :
    x.same_count { y with an_result := a, an_state := b, kr_state := c, kx_state := d }
      ↔ x.same_count y := Iff.rfl
@[simp] theorem same_count_an_init (bus : Hw σ) (x y : Phy σ) :
    x.same_count (amd_xgbe_an_init bus y).2 ↔ x.same_count y :=
  same_count_via (frame_an_init bus y)

theorem same_count_setup_forced (bus : Hw σ) (x : Phy σ) :
    x.same_count (amd_xgbe_phy_setup_forced bus x).2 := by
  unfold amd_xgbe_phy_setup_forced
  simp only []
  split_ifs <;> simp [same_count_refl]

@[simp] theorem same_count_setup_forced_iff (bus : Hw σ) (x y : Phy σ) :
    x.same_count (amd_xgbe_phy_setup_forced bus y).2 ↔ x.same_count y :=
  same_count_congr (same_count_setup_forced bus y)

/-- A call of `amd_xgbe_phy_config_aneg` does not touch `an_supported`, on any of its
return paths. -/
theorem same_count_config_aneg (bus : Hw σ) (x : Phy σ) :
    x.same_count (amd_xgbe_phy_config_aneg bus x).2 := by
  unfold amd_xgbe_phy_config_aneg __amd_xgbe_phy_config_aneg
  simp only []
  split_ifs <;> simp [same_count_refl]

/-- The count and `parallel_detect` along a history of steps. -/
theorem an_history_count (bus : Hw σ) (steps : List (an_step σ)) :
    ∀ (s : Phy σ) (k : Bool) (c : Nat), (k = true → s.an_supported = c % 4294967296) →
      detect_follows_count k c (an_history bus s steps).2 ∧
      ((k || (an_history bus s steps).2.any (fun x => !x.page_cycle)) = true →
        (an_history bus s steps).1.an_supported
          = page_cycles_from c (an_history bus s steps).2 % 4294967296) := by
  induction steps with
  | nil =>
    intro s k c hs
    refine ⟨trivial, fun hk => ?_⟩
    simp only [an_history, List.any_nil, Bool.or_false] at hk
    exact hs hk
  | cons st rest ih =>
    intro s k c hs
    have key : detect_follows_count k c (st.run bus s).2 ∧
        ((k || (st.run bus s).2.any (fun x => !x.page_cycle)) = true →
          (st.run bus s).1.an_supported
            = page_cycles_from c (st.run bus s).2 % 4294967296) := by
      cases st with
      | work =>
        obtain ⟨t, n, ev, e1, e2, q1, q2⟩ := an_state_machine_count bus s k c hs
        simp only [an_step.run, e1, e2, Option.map_some', Option.getD_some]
        exact ⟨q1, q2⟩
      | config_aneg =>
        refine ⟨trivial, fun hk => ?_⟩
        simp only [an_step.run, List.any_nil, Bool.or_false] at hk ⊢
        rw [same_count_config_aneg bus s]
        exact hs hk
      | outside f =>
        refine ⟨trivial, fun hk => ?_⟩
        simp only [an_step.run, List.any_nil, Bool.or_false] at hk ⊢
        exact hs hk
    obtain ⟨q1, q2⟩ := ih (st.run bus s).1 (k || (st.run bus s).2.any (fun x => !x.page_cycle))
      (page_cycles_from c (st.run bus s).2) key.2
    show detect_follows_count k c ((st.run bus s).2 ++ (an_history bus (st.run bus s).1 rest).2) ∧
      ((k || ((st.run bus s).2 ++ (an_history bus (st.run bus s).1 rest).2).any
          (fun x => !x.page_cycle)) = true →
        (an_history bus (st.run bus s).1 rest).1.an_supported
          = page_cycles_from c ((st.run bus s).2 ++ (an_history bus (st.run bus s).1 rest).2)
              % 4294967296)
    refine ⟨(detect_follows_count_append _ _ _ _).mpr ⟨key.1, q1⟩, fun hk => ?_⟩
    rw [page_cycles_from_append]
    apply q2
    rw [List.any_append, ← Bool.or_assoc] at hk
    exact hk

theorem any_reset_iff (l : List an_record) :
    l.any (fun x => !x.page_cycle) = true ↔ ∃ y ∈ l, y.page_cycle = false := by
  simp [List.any_eq_true]

/-- C2, counterexample.  First: with interrupt snapshot 5 (page received and complete)
and `an_supported = 4294967295`, the page-received pass succeeds, the counter wraps to 0,
and the complete event sets `parallel_detect` to 1.  Second: in a history from a probed
device in which a successful page-received cycle is followed by two complete events,
with no incompatible-link event anywhere, the first complete event sets
`parallel_detect` to 0, the count is reset when the phase is READY again, and the second
complete event sets `parallel_detect` to 1. -/
theorem C2_counterexample :
    (amd_xgbe_an_page_received regfile
      (an_next_int regfile (phy_read_mmd regfile (phy_wrap.log Action.mutex_lock_an)
        MDIO_MMD_AN MDIO_AN_INT).2 5).2).1 = AMD_XGBE_AN_PAGE_RECEIVED ∧
    (amd_xgbe_an_state_machine regfile 16 phy_wrap).map
      (fun r => (r.1.parallel_detect, r.1.an_result, r.2)) =
      some (1, AMD_XGBE_AN_COMPLETE, 3) ∧
    (phy_init (regs_kr 4 128)).an_supported = 0 ∧
    (an_history regfile (phy_init (regs_kr 4 128)) steps_page_complete_twice).2
      = [⟨AMD_XGBE_AN_PAGE_RECEIVED, AMD_XGBE_AN_PAGE_RECEIVED, 0⟩,
         ⟨AMD_XGBE_AN_COMPLETE, AMD_XGBE_AN_COMPLETE, 0⟩,
         ⟨AMD_XGBE_AN_READY, AMD_XGBE_AN_READY, 0⟩,
         ⟨AMD_XGBE_AN_COMPLETE, AMD_XGBE_AN_COMPLETE, 1⟩,
         ⟨AMD_XGBE_AN_READY, AMD_XGBE_AN_READY, 1⟩] ∧
    (an_history regfile (phy_init (regs_kr 4 128)) steps_page_complete_twice).1.parallel_detect
      = 1 := by
  refine ⟨by decide, by decide, rfl, by decide, by decide⟩

/-- A successful probe leaves the count of page-received cycles at 0, as in the
zero-filled private data. -/
theorem probe_count_zero (props : phy_properties) (s : Phy σ)
    (hok : (amd_xgbe_phy_probe props s).1 = 0) :
    (amd_xgbe_phy_probe props s).2.an_supported = 0 := by
  unfold amd_xgbe_phy_probe at hok ⊢
  cases hc : props.serdes_channel with
  | none =>
    simp only [hc, device_property_read_u32] at hok
    exact absurd hok (show (-EINVAL : Int) ≠ 0 from by decide)
  | some c =>
    cases hs : props.speed_set with
    | none =>
      simp only [hc, hs, device_property_read_u32] at hok
      exact absurd hok (show (-EINVAL : Int) ≠ 0 from by decide)
    | some sp =>
      simp only [hc, hs, device_property_read_u32] at hok ⊢
      split_ifs at hok ⊢ with hv
      · exact absurd hok (show (-EINVAL : Int) ≠ 0 from by decide)
      · rcases probe_table_cases props.serdes_blwc amd_xgbe_phy_serdes_blwc
          with ⟨b, hb⟩ | ⟨r, hr0, hb⟩
        swap
        · rw [hb] at hok
          exact absurd hok hr0
        rcases probe_table_cases props.serdes_cdr_rate amd_xgbe_phy_serdes_cdr_rate
          with ⟨c1, hc1⟩ | ⟨r, hr0, hc1⟩
        swap
        · rw [hb, hc1] at hok
          exact absurd hok hr0
        rcases probe_table_cases props.serdes_pq_skew amd_xgbe_phy_serdes_pq_skew
          with ⟨q, hq⟩ | ⟨r, hr0, hq⟩
        swap
        · rw [hb, hc1, hq] at hok
          exact absurd hok hr0
        rcases probe_table_cases props.serdes_tx_amp amd_xgbe_phy_serdes_tx_amp
          with ⟨a, ha⟩ | ⟨r, hr0, ha⟩
        swap
        · rw [hb, hc1, hq, ha] at hok
          exact absurd hok hr0
        rw [hb, hc1, hq, ha]

/-- C2 (amended): whenever the state switch handles the COMPLETE phase it sets
`parallel_detect` to 1 if `an_supported` is 0 and to 0 otherwise.  For every hardware,
every driver state and every history of worker invocations, calls of
`amd_xgbe_phy_config_aneg` and changes of the hardware from outside: `an_supported` is,
modulo 2 ^ 32, the number of successful page-received cycles in a row at the end of the
history (every other record, such as an incompatible-link event or the end of the
previous negotiation, starts the count again), provided the count was 0 at the start, as
in the zeroed private data of a probed device, or the history holds a record that is not
a successful page-received cycle.  So a complete event in the history sets
`parallel_detect` to 1 if the number of such cycles before it is 0 modulo 2 ^ 32 and to 0
otherwise: one that follows at least one such cycle, and fewer than 2 ^ 32 of them,
yields 0, and one that follows none yields 1.  A successful probe leaves the count at
0. -/
theorem C2_parallel_detect (bus : Hw σ) (s : Phy σ) (steps : List (an_step σ)) :
    (∀ x : Phy σ, x.an_state = AMD_XGBE_AN_COMPLETE →
      (an_switch bus x).parallel_detect = if x.an_supported = 0 then 1 else 0) ∧
    (∀ pre x post, (an_history bus s steps).2 = pre ++ x :: post →
      x.handled = AMD_XGBE_AN_COMPLETE →
      (s.an_supported = 0 ∨ ∃ y ∈ pre, y.page_cycle = false) →
      x.parallel_detect = (if page_cycles pre % 4294967296 = 0 then 1 else 0) ∧
      (page_cycles pre = 0 → x.parallel_detect = 1) ∧
      (0 < page_cycles pre → page_cycles pre < 4294967296 → x.parallel_detect = 0)) ∧
    ((s.an_supported = 0 ∨ ∃ y ∈ (an_history bus s steps).2, y.page_cycle = false) →
      (an_history bus s steps).1.an_supported
        = page_cycles (an_history bus s steps).2 % 4294967296) ∧
    (∀ (props : phy_properties) (x : Phy σ), (amd_xgbe_phy_probe props x).1 = 0 →
      (amd_xgbe_phy_probe props x).2.an_supported = 0) := by
  obtain ⟨H1, H2⟩ := an_history_count bus steps s (decide (s.an_supported = 0)) 0 (by
    intro hk
    simpa using hk)
  refine ⟨fun x hx => ?_, fun pre x post he hx hk => ?_, fun hk => ?_, probe_count_zero⟩
  · unfold an_switch
    simp only [hx]
    split_ifs <;> simp_all
  · rw [he] at H1
    have hk' : (decide (s.an_supported = 0) || pre.any (fun y => !y.page_cycle)) = true := by
      rcases hk with h | h
      · simp [h]
      · rw [(any_reset_iff pre).mpr h, Bool.or_true]
    have e := detect_follows_count_split _ 0 pre post x H1 hx hk'
    refine ⟨e, fun h0 => ?_, fun h1 h2 => ?_⟩
    · rw [e]
      show (if page_cycles pre % 4294967296 = 0 then 1 else 0) = 1
      rw [h0]
      rfl
    · rw [e]
      show (if page_cycles pre % 4294967296 = 0 then 1 else 0) = 0
      rw [Nat.mod_eq_of_lt h2, if_neg (by omega)]
  · apply H2
    rcases hk with h | h
    · simp [h]
    · rw [(any_reset_iff _).mpr h, Bool.or_true]

/-- C2, witness: two histories on the register-file hardware from a probed device in KR
mode.  In the first the page-received interrupt is handled with success and the complete
interrupt follows: the complete event follows one successful page-received cycle and
sets `parallel_detect` to 0.  In the second the device is configured and the complete
interrupt arrives with no page received: the complete event follows no cycle and sets
`parallel_detect` to 1. -/
theorem C2_parallel_detect_witness :
    (phy_init (regs_kr 4 128)).an_supported = 0 ∧
    (an_history regfile (phy_init (regs_kr 4 128)) steps_page_complete).2
      = [⟨AMD_XGBE_AN_PAGE_RECEIVED, AMD_XGBE_AN_PAGE_RECEIVED, 0⟩] ++
        (an_pass_record regfile (phy_complete 1)) ::
        [⟨AMD_XGBE_AN_READY, AMD_XGBE_AN_READY, 0⟩] ∧
    page_cycles [⟨AMD_XGBE_AN_PAGE_RECEIVED, AMD_XGBE_AN_PAGE_RECEIVED, 0⟩] = 1 ∧
    (an_pass_record regfile (phy_complete 1)).parallel_detect = 0 ∧
    (an_history regfile (phy_init (regs_kr 0 0)) steps_complete).2
      = [] ++ (an_pass_record regfile (phy_complete 0)) ::
        [⟨AMD_XGBE_AN_READY, AMD_XGBE_AN_READY, 1⟩] ∧
    (an_pass_record regfile (phy_complete 0)).parallel_detect = 1 :=
  have e1 : (an_history regfile (phy_init (regs_kr 4 128)) steps_page_complete).2
      = [⟨AMD_XGBE_AN_PAGE_RECEIVED, AMD_XGBE_AN_PAGE_RECEIVED, 0⟩] ++
        (an_pass_record regfile (phy_complete 1)) ::
        [⟨AMD_XGBE_AN_READY, AMD_XGBE_AN_READY, 0⟩] := by decide
  have e2 : (an_history regfile (phy_init (regs_kr 0 0)) steps_complete).2
      = [] ++ (an_pass_record regfile (phy_complete 0)) ::
        [⟨AMD_XGBE_AN_READY, AMD_XGBE_AN_READY, 1⟩] := by decide
  ⟨rfl, e1, rfl,
    ((C2_parallel_detect regfile (phy_init (regs_kr 4 128)) steps_page_complete).2.1
      _ _ _ e1 rfl (Or.inl rfl)).2.2 (by decide) (by decide),
    e2,
    ((C2_parallel_detect regfile (phy_init (regs_kr 0 0)) steps_complete).2.1
      _ _ _ e2 rfl (Or.inl rfl)).2.1 rfl⟩

end AmdXgbe
